import Mathlib

/-!
# Renderer frame state: resize, scene acquisition, sorting and the frame entry point

A shallow embedding of `Runtime/Rendering/Renderer.cpp` (class `Directus::Renderer`).

Conventions of the embedding

* `float` values are rationals: every finite float is a rational, and the code paths
  embedded here only store, compare and truncate them; rounding, infinities and NaN are
  outside the embedding. The cast `(float)width` is exact for every width below `2 ^ 24`.
* `unsigned int` arguments are natural numbers. The only arithmetic `SetResolution` performs
  on them is `width -= 1` for an odd (hence non-zero) `width`, so no wrap-around can occur.
  The 64-bit frame counter wraps explicitly.
* Heap objects that the code creates with `make_unique` carry an `id`; the renderer state
  holds the next unused id, so that two objects created by different calls are different.
* What a function does to the outside world (log lines, device commands, pass invocations)
  is appended to `m_trace`, in program order.
* `std::sort` is a parameter of the functions that call it. Theorems that depend on what it
  returns assume its contract, `StdSort`, which does not include stability.
* Members declared in `Renderer.h` and not assigned by the constructor body (the stored
  resolution, the maximum resolution, the matrices) are taken from a parameter.
-/

namespace Directus

/-! ## Math types -/

/-- Two floats (`Math::Vector2`). -/
structure Vector2 where
  x : ℚ
  y : ℚ
deriving DecidableEq

/-- Three floats (`Math::Vector3`). -/
structure Vector3 where
  x : ℚ
  y : ℚ
  z : ℚ
deriving DecidableEq

/-- Four floats (`Math::Vector4`); for a colour `w` is the alpha channel. -/
structure Vector4 where
  x : ℚ
  y : ℚ
  z : ℚ
  w : ℚ
deriving DecidableEq

/-- A 4x4 matrix (`Math::Matrix`), its sixteen entries in row-major order. -/
structure Matrix where
  entries : List ℚ
deriving DecidableEq

/-- Component-wise difference, `Vector3::operator-`. -/
def Vector3.sub (a b : Vector3) : Vector3 :=
  ⟨a.x - b.x, a.y - b.y, a.z - b.z⟩

/-- Squared length, `Vector3::LengthSquared`. -/
def Vector3.LengthSquared (a : Vector3) : ℚ :=
  a.x * a.x + a.y * a.y + a.z * a.z

/-- The constant `Vector2::Zero`. -/
def Vector2.Zero : Vector2 := ⟨0, 0⟩

/-! ## World: actors and their components -/

/-- A material resource: `Resource_GetID()` and `GetColorAlbedo()`. -/
structure Material where
  resourceID : Nat
  colorAlbedo : Vector4
deriving DecidableEq

/-- The renderable component. `material` is `none` when `Material_Exists()` is false
(`Material_Ptr()` is then null); `aabbCenter` is `Geometry_AABB().GetCenter()`. -/
structure Renderable where
  material : Option Material
  aabbCenter : Vector3
deriving DecidableEq

/-- Kinds of light (`LightType`). -/
inductive LightType where
  | LightType_Directional
  | LightType_Point
  | LightType_Spot
deriving DecidableEq

/-- The light component, as far as the renderer reads it. -/
structure Light where
  lightType : LightType
  castShadows : Bool
deriving DecidableEq

/-- The skybox component; `id` tells skyboxes apart. -/
structure Skybox where
  id : Nat
deriving DecidableEq

/-- The camera component: the position of its transform, its clear colour, planes and
matrices. -/
structure Camera where
  position : Vector3
  clearColor : Vector4
  nearPlane : ℚ
  farPlane : ℚ
  viewMatrix : Matrix
  baseViewMatrix : Matrix
  projectionMatrix : Matrix
deriving DecidableEq

/-- An actor: `id` stands for its address; each component is `none` when
`GetComponent<T>()` returns null. -/
structure Actor where
  id : Nat
  renderable : Option Renderable
  light : Option Light
  skybox : Option Skybox
  camera : Option Camera
deriving DecidableEq

/-- Keys of the bucket map `m_actors` (`RenderableType`). -/
inductive RenderableType where
  | Renderable_ObjectOpaque
  | Renderable_ObjectTransparent
  | Renderable_Light
  | Renderable_Camera
deriving DecidableEq

/-! ## Render targets -/

/-- Pixel formats used by the render textures. -/
inductive RHI_Format where
  | Format_R8_UNORM
  | Format_R16G16B16A16_FLOAT
  | Format_R32G32B32A32_FLOAT
deriving DecidableEq

/-- A render texture (`RHI_RenderTexture`): identity, size and format. -/
structure RHI_RenderTexture where
  id : Nat
  width : Nat
  height : Nat
  format : RHI_Format
deriving DecidableEq

/-- The G-buffer object (`GBuffer`): identity and size. -/
structure GBuffer where
  id : Nat
  width : Nat
  height : Nat
deriving DecidableEq

/-- The full-screen quad (`Rectangle` after `Create(x, y, width, height)`). -/
structure Rectangle where
  id : Nat
  x : ℚ
  y : ℚ
  width : ℚ
  height : ℚ
deriving DecidableEq

/-- Everything `CreateRenderTextures` assigns: the members `m_gbuffer`, `m_quad` and the nine
`m_renderTex...` textures. They are only ever assigned together, so the renderer holds them
as one optional bundle (`none`: all still null). -/
structure RenderTargetSet where
  m_gbuffer : GBuffer
  m_quad : Rectangle
  m_renderTexFull_HDR_Light : RHI_RenderTexture
  m_renderTexFull_HDR_Light2 : RHI_RenderTexture
  m_renderTexFull_TAA_Current : RHI_RenderTexture
  m_renderTexFull_TAA_History : RHI_RenderTexture
  m_renderTexHalf_Shadows : RHI_RenderTexture
  m_renderTexHalf_SSAO : RHI_RenderTexture
  m_renderTexHalf_Spare : RHI_RenderTexture
  m_renderTexQuarter_Blur1 : RHI_RenderTexture
  m_renderTexQuarter_Blur2 : RHI_RenderTexture
deriving DecidableEq

/-- Names of the render-texture members that `Render` hands to the passes by reference. -/
inductive RenderTexSlot where
  | Full_HDR_Light
  | Full_HDR_Light2
  | Half_Shadows
  | Half_SSAO
  | Half_Spare
deriving DecidableEq

/-! ## Effects and renderer state -/

/-- One invocation of a pass by `Render`, with the arguments it is given. -/
inductive PassCall where
  | Pass_DepthDirectionalLight (light : Option Light)
  | Pass_GBuffer
  | Pass_PreLight (texIn shadowsOut ssaoOut : RenderTexSlot)
  | Pass_Light (shadowsIn ssaoIn texOut : RenderTexSlot)
  | Pass_Transparent (texOut : RenderTexSlot)
  | Pass_PostLight (texIn texOut : RenderTexSlot)
  | Pass_Lines (texOut : RenderTexSlot)
  | Pass_Gizmos (texOut : RenderTexSlot)
  | Pass_DebugBuffer (texOut : RenderTexSlot)
  | Pass_PerformanceMetrics (texOut : RenderTexSlot)
deriving DecidableEq

/-- What the embedded functions do to the outside world. -/
inductive Effect where
  /-- The line `LOGF_WARNING("%dx%d is an invalid resolution", width, height)`. -/
  | warnInvalidResolution (width height : Nat)
  /-- The line `LOGF_INFO("Resolution set to %dx%d", width, height)`. -/
  | infoResolutionSet (width height : Nat)
  /-- The device command `m_rhiDevice->ClearBackBuffer(color)`. -/
  | clearBackBuffer (color : Vector4)
  /-- The device command `m_rhiDevice->Present()`. -/
  | present
  /-- The call `m_profiler->Reset()`. -/
  | profilerReset
  /-- A pass invoked by `Render`. -/
  | pass (call : PassCall)
deriving DecidableEq

/-- The feature bits of `m_flags` (`Render_...`). -/
inductive RenderFlag where
  | Render_Gizmo_Transform
  | Render_Gizmo_Grid
  | Render_Gizmo_Lights
  | Render_Gizmo_Physics
  | Render_PostProcess_Bloom
  | Render_PostProcess_SSAO
  | Render_PostProcess_MotionBlur
  | Render_PostProcess_TAA
  | Render_PostProcess_Sharpening
  | Render_PostProcess_Dithering
  | Render_PostProcess_SSR
  | Render_PostProcess_ChromaticAberration
  | Render_PostProcess_FXAA
deriving DecidableEq

/-- The device object behind `m_rhiDevice`, as far as `Render` asks it. -/
structure RHI_Device where
  isInitialized : Bool
deriving DecidableEq

/-- The bucket map `m_actors`: `none` for a key the map does not hold. -/
abbrev ActorMap := RenderableType → Option (List Actor)

/-- The members of `Renderer` that the embedded functions read or write. -/
structure Renderer where
  m_nearPlane : ℚ
  m_farPlane : ℚ
  m_camera : Option Camera
  m_skybox : Option Skybox
  m_rhiDevice : Option RHI_Device
  m_frameNum : Nat
  m_isOddFrame : Bool
  m_isRendering : Bool
  m_flags : List RenderFlag
  m_resolution : Vector2
  m_maxResolution : Nat
  m_actors : ActorMap
  m_view : Matrix
  m_viewBase : Matrix
  m_projection : Matrix
  m_viewProjection : Matrix
  m_projectionOrthographic : Matrix
  m_viewProjection_Orthographic : Matrix
  m_taa_jitter : Vector2
  m_taa_jitterPrevious : Vector2
  m_renderTargets : Option RenderTargetSet
  m_nextObjectId : Nat
  m_trace : List Effect

/-! ## Resize -/

/-- Create a render texture with a given identity (`make_unique<RHI_RenderTexture>`). -/
def makeRenderTexture (id width height : Nat) (format : RHI_Format) : RHI_RenderTexture :=
  { id := id, width := width, height := height, format := format }

/-- Embedding of `Renderer::CreateRenderTextures`: reads the stored resolution, truncated to
`unsigned int`; rejects it with a warning when a quarter of either side is zero; otherwise
replaces the G-buffer, the quad and the nine render textures by new objects. -/
def CreateRenderTextures (st : Renderer) : Renderer :=
  let width := ⌊st.m_resolution.x⌋₊
  let height := ⌊st.m_resolution.y⌋₊
  if width / 4 = 0 ∨ height / 4 = 0 then
    { st with m_trace := st.m_trace ++ [Effect.warnInvalidResolution width height] }
  else
    let n := st.m_nextObjectId
    { st with
      m_renderTargets := some
        { m_gbuffer := { id := n, width := width, height := height }
          m_quad := { id := n + 1, x := 0, y := 0, width := (width : ℚ), height := (height : ℚ) }
          m_renderTexFull_HDR_Light :=
            makeRenderTexture (n + 2) width height RHI_Format.Format_R32G32B32A32_FLOAT
          m_renderTexFull_HDR_Light2 :=
            makeRenderTexture (n + 3) width height RHI_Format.Format_R32G32B32A32_FLOAT
          m_renderTexFull_TAA_Current :=
            makeRenderTexture (n + 4) width height RHI_Format.Format_R16G16B16A16_FLOAT
          m_renderTexFull_TAA_History :=
            makeRenderTexture (n + 5) width height RHI_Format.Format_R16G16B16A16_FLOAT
          m_renderTexHalf_Shadows :=
            makeRenderTexture (n + 6) (width / 2) (height / 2) RHI_Format.Format_R8_UNORM
          m_renderTexHalf_SSAO :=
            makeRenderTexture (n + 7) (width / 2) (height / 2) RHI_Format.Format_R8_UNORM
          m_renderTexHalf_Spare :=
            makeRenderTexture (n + 8) (width / 2) (height / 2) RHI_Format.Format_R8_UNORM
          m_renderTexQuarter_Blur1 :=
            makeRenderTexture (n + 9) (width / 4) (height / 4) RHI_Format.Format_R16G16B16A16_FLOAT
          m_renderTexQuarter_Blur2 :=
            makeRenderTexture (n + 10) (width / 4) (height / 4)
              RHI_Format.Format_R16G16B16A16_FLOAT }
      m_nextObjectId := n + 11 }

/-- Embedding of `Renderer::SetResolution`. -/
def SetResolution (st : Renderer) (width height : Nat) : Renderer :=
  -- Return if resolution is invalid
  if width = 0 ∨ width > st.m_maxResolution ∨ height = 0 ∨ height > st.m_maxResolution then
    { st with m_trace := st.m_trace ++ [Effect.warnInvalidResolution width height] }
  -- Return if resolution already set
  else if st.m_resolution.x = (width : ℚ) ∧ st.m_resolution.y = (height : ℚ) then
    st
  else
    -- Make sure we are pixel perfect
    let width := width - (if width % 2 ≠ 0 then 1 else 0)
    let height := height - (if height % 2 ≠ 0 then 1 else 0)
    -- Set resolution
    let st := { st with m_resolution := { x := (width : ℚ), y := (height : ℚ) } }
    -- Re-create render textures
    let st := CreateRenderTextures st
    -- Log
    { st with m_trace := st.m_trace ++ [Effect.infoResolutionSet width height] }

/-! ## Scene acquisition -/

/-- The bucket stored under a key; a key the map does not hold has no entities. -/
def bucket (st : Renderer) (key : RenderableType) : List Actor :=
  (st.m_actors key).getD []

/-- The statement `m_actors[key].emplace_back(actor)`: `operator[]` creates the key with an
empty vector when it is absent, then the actor is appended. -/
def emplace_back (st : Renderer) (key : RenderableType) (actor : Actor) : Renderer :=
  { st with m_actors := Function.update st.m_actors key (some (bucket st key ++ [actor])) }

/-- The test `m_actors.empty()`: the map holds no key at all. -/
def ActorMap.empty (m : ActorMap) : Bool :=
  (m RenderableType.Renderable_ObjectOpaque).isNone
    && (m RenderableType.Renderable_ObjectTransparent).isNone
    && (m RenderableType.Renderable_Light).isNone
    && (m RenderableType.Renderable_Camera).isNone

/-- The transparency test of `Renderables_Acquire`:
`!Material_Exists() ? false : Material_Ptr()->GetColorAlbedo().w < 1.0f`. -/
def isTransparent (renderable : Renderable) : Bool :=
  match renderable.material with
  | none => false
  | some material => decide (material.colorAlbedo.w < 1)

/-- The body of the loop of `Renderables_Acquire` for one element of the snapshot. -/
def Renderables_Acquire.step (st : Renderer) (actorShared : Option Actor) : Renderer :=
  match actorShared with
  | none => st
  | some actor =>
    let st :=
      match actor.renderable with
      | some renderable =>
        match actor.skybox with
        | none =>
          emplace_back st
            (if isTransparent renderable then RenderableType.Renderable_ObjectTransparent
             else RenderableType.Renderable_ObjectOpaque) actor
        | some _ => st
      | none => st
    let st :=
      match actor.light with
      | some _ => emplace_back st RenderableType.Renderable_Light actor
      | none => st
    let st :=
      match actor.skybox with
      | some skybox => { st with m_skybox := some skybox }
      | none => st
    match actor.camera with
    | some camera =>
      { emplace_back st RenderableType.Renderable_Camera actor with m_camera := some camera }
    | none => st

/-- The type of `std::sort` on a vector of actors: a comparison callback, then the vector. -/
abbrev SortFn := (Actor → Actor → Bool) → List Actor → List Actor

/-- The first comparison callback of `Renderables_Sort` (front to back): false when either
actor lacks a renderable or a material, else whether `a` is strictly nearer to the camera, by
squared distance from the camera position to the centre of the bounding box. -/
def Renderables_Sort.byDepth (camera : Camera) (a b : Actor) : Bool :=
  match a.renderable, b.renderable with
  | some a_renderable, some b_renderable =>
    match a_renderable.material, b_renderable.material with
    | some _, some _ =>
      let a_depth := (a_renderable.aabbCenter.sub camera.position).LengthSquared
      let b_depth := (b_renderable.aabbCenter.sub camera.position).LengthSquared
      decide (a_depth < b_depth)
    | _, _ => false
  | _, _ => false

/-- The second comparison callback of `Renderables_Sort`: false when either actor lacks a
renderable or a material, else whether the material id of `a` is smaller. -/
def Renderables_Sort.byMaterial (a b : Actor) : Bool :=
  match a.renderable, b.renderable with
  | some a_renderable, some b_renderable =>
    match a_renderable.material, b_renderable.material with
    | some a_material, some b_material => decide (a_material.resourceID < b_material.resourceID)
    | _, _ => false
  | _, _ => false

/-- Embedding of `Renderer::Renderables_Sort`; `sort` is `std::sort` and `m_camera` the
member it reads. -/
def Renderables_Sort (sort : SortFn) (m_camera : Option Camera) (renderables : List Actor) :
    List Actor :=
  if renderables.length ≤ 2 then
    renderables
  else
    -- Sort by depth (front to back)
    let renderables :=
      match m_camera with
      | some camera => sort (Renderables_Sort.byDepth camera) renderables
      | none => renderables
    -- Sort by material
    sort Renderables_Sort.byMaterial renderables

/-- The call `Renderables_Sort(&m_actors[key])`: `operator[]` creates the key when absent and
the vector is sorted in place. -/
def sortBucket (sort : SortFn) (st : Renderer) (key : RenderableType) : Renderer :=
  { st with
    m_actors := Function.update st.m_actors key
      (some (Renderables_Sort sort st.m_camera (bucket st key))) }

/-- Embedding of `Renderer::Renderables_Acquire`; `actorsVec` is the vector of shared
pointers carried by the event (`none`: a null pointer). -/
def Renderables_Acquire (sort : SortFn) (st : Renderer) (actorsVec : List (Option Actor)) :
    Renderer :=
  -- Clear previous state
  let st := { st with m_actors := fun _ => none, m_camera := none }
  let st := actorsVec.foldl Renderables_Acquire.step st
  let st := sortBucket sort st RenderableType.Renderable_ObjectOpaque
  sortBucket sort st RenderableType.Renderable_ObjectTransparent

/-! ## What the code relies on from `std::sort` -/

/-- A strict weak ordering on the elements of `l`: irreflexive, transitive, and with a
transitive incomparability relation. -/
structure StrictWeakOn (comp : Actor → Actor → Bool) (l : List Actor) : Prop where
  irrefl : ∀ a ∈ l, comp a a = false
  trans : ∀ a ∈ l, ∀ b ∈ l, ∀ c ∈ l, comp a b = true → comp b c = true → comp a c = true
  equiv : ∀ a ∈ l, ∀ b ∈ l, ∀ c ∈ l, comp a b = false → comp b a = false →
    comp b c = false → comp c b = false → comp a c = false ∧ comp c a = false

/-- The contract of `std::sort`: the result is a rearrangement of the input, and when the
callback is a strict weak ordering on the elements, no later element compares less than an
earlier one. Nothing is assumed about the order of equivalent elements (the sort need not be
stable). -/
structure StdSort (sort : SortFn) : Prop where
  perm : ∀ comp l, List.Perm (sort comp l) l
  sorted : ∀ comp l, StrictWeakOn comp l →
    List.Pairwise (fun a b => comp b a = false) (sort comp l)

/-- Insertion sort driven by a strict comparison callback: one function that meets the
contract of `std::sort`. -/
def insertionSort : SortFn := fun comp l =>
  List.insertionSort (fun a b => comp b a = false) l

/-- The material id of an actor, when it has a renderable with a material. -/
def materialId (a : Actor) : Option Nat :=
  match a.renderable with
  | some renderable =>
    match renderable.material with
    | some material => some material.resourceID
    | none => none
  | none => none

/-- The squared distance that `Renderables_Sort` compares, for an actor with a renderable. -/
def depthFrom (camera : Camera) (a : Actor) : Option ℚ :=
  match a.renderable with
  | some renderable => some (renderable.aabbCenter.sub camera.position).LengthSquared
  | none => none

/-! ## The frame entry point -/

/-- The functions of the math and sampling libraries that `Render` calls. -/
structure MathLib where
  /-- The product `Matrix::operator*`. -/
  mul : Matrix → Matrix → Matrix
  /-- The function `Matrix::CreateTranslation`. -/
  CreateTranslation : Vector3 → Matrix
  /-- The function `Matrix::CreateOrthographicLH(width, height, near, far)`. -/
  CreateOrthographicLH : ℚ → ℚ → ℚ → ℚ → Matrix
  /-- The function `Utility::Sampling::Halton2D(index, baseA, baseB)`. -/
  Halton2D : Nat → Nat → Nat → Vector2

/-- The test `Flags_IsSet(flag)`. -/
def Flags_IsSet (st : Renderer) (flag : RenderFlag) : Bool :=
  decide (flag ∈ st.m_flags)

/-- The statement `m_flags |= flag`. -/
def setFlag (flags : List RenderFlag) (flag : RenderFlag) : List RenderFlag :=
  if flag ∈ flags then flags else flags ++ [flag]

/-- The first directional light of a vector of actors, as the loop of `GetLightDirectional`
finds it. Every actor of the light bucket has a light component. -/
def firstDirectional : List Actor → Option Light
  | [] => none
  | actor :: rest =>
    match actor.light with
    | some light =>
      if light.lightType = LightType.LightType_Directional then some light
      else firstDirectional rest
    | none => firstDirectional rest

/-- Embedding of `Renderer::GetLightDirectional`. The copy `auto actors =
m_actors[Renderable_Light]` creates the key when the map does not hold it. -/
def GetLightDirectional (st : Renderer) : Option Light × Renderer :=
  let actors := bucket st RenderableType.Renderable_Light
  let st :=
    { st with
      m_actors := Function.update st.m_actors RenderableType.Renderable_Light (some actors) }
  (firstDirectional actors, st)

/-- Append one effect to the trace. -/
def emit (st : Renderer) (e : Effect) : Renderer :=
  { st with m_trace := st.m_trace ++ [e] }

/-- The part of `Renderer::Render` that fills the camera matrices and the jitter. -/
def Render.cameraMatrices (lib : MathLib) (st : Renderer) (camera : Camera) : Renderer :=
  let st :=
    { st with
      m_nearPlane := camera.nearPlane
      m_farPlane := camera.farPlane
      m_view := camera.viewMatrix
      m_viewBase := camera.baseViewMatrix
      m_projection := camera.projectionMatrix }
  -- TAA - Generate jitter
  let st :=
    if Flags_IsSet st RenderFlag.Render_PostProcess_TAA then
      let samples := 16
      let index := st.m_frameNum % samples
      let h := lib.Halton2D index 2 3
      let jitter : Vector2 :=
        { x := (h.x * 2 - 1) / st.m_resolution.x, y := (h.y * 2 - 1) / st.m_resolution.y }
      { st with
        m_taa_jitterPrevious := st.m_taa_jitter
        m_taa_jitter := jitter
        m_projection :=
          lib.mul st.m_projection (lib.CreateTranslation ⟨jitter.x, jitter.y, 0⟩) }
    else
      { st with m_taa_jitter := Vector2.Zero, m_taa_jitterPrevious := Vector2.Zero }
  let ortho :=
    lib.CreateOrthographicLH st.m_resolution.x st.m_resolution.y st.m_nearPlane st.m_farPlane
  { st with
    m_viewProjection := lib.mul st.m_view st.m_projection
    m_projectionOrthographic := ortho
    m_viewProjection_Orthographic := lib.mul st.m_viewBase ortho }

/-- The passes `Render` invokes after the directional-light depth pass, in program order, with
the render textures it hands to each. -/
def Render.passes : List PassCall :=
  [ PassCall.Pass_GBuffer,
    PassCall.Pass_PreLight RenderTexSlot.Half_Spare RenderTexSlot.Half_Shadows
      RenderTexSlot.Half_SSAO,
    PassCall.Pass_Light RenderTexSlot.Half_Shadows RenderTexSlot.Half_SSAO
      RenderTexSlot.Full_HDR_Light,
    PassCall.Pass_Transparent RenderTexSlot.Full_HDR_Light,
    PassCall.Pass_PostLight RenderTexSlot.Full_HDR_Light RenderTexSlot.Full_HDR_Light2,
    PassCall.Pass_Lines RenderTexSlot.Full_HDR_Light2,
    PassCall.Pass_Gizmos RenderTexSlot.Full_HDR_Light2,
    PassCall.Pass_DebugBuffer RenderTexSlot.Full_HDR_Light2,
    PassCall.Pass_PerformanceMetrics RenderTexSlot.Full_HDR_Light2 ]

/-- Embedding of `Renderer::Render`. Each pass it invokes is recorded in the trace with its
arguments; `m_frameNum` is a 64-bit counter. -/
def Render (lib : MathLib) (st : Renderer) : Renderer :=
  match st.m_rhiDevice with
  | none => st
  | some device =>
    if !device.isInitialized then st
    else
      match st.m_camera with
      | none =>
        -- If there is no camera, do nothing
        emit st (Effect.clearBackBuffer ⟨0, 0, 0, 1⟩)
      | some camera =>
        if ActorMap.empty st.m_actors then
          -- If there is nothing to render clear to the camera color and present
          let st := emit st (Effect.clearBackBuffer camera.clearColor)
          let st := emit st Effect.present
          { st with m_isRendering := false }
        else
          let st := emit st Effect.profilerReset
          let st := { st with m_isRendering := true }
          let st := { st with m_frameNum := (st.m_frameNum + 1) % 2 ^ 64 }
          let st := { st with m_isOddFrame := decide (st.m_frameNum % 2 = 1) }
          let st := Render.cameraMatrices lib st camera
          let (light, st) := GetLightDirectional st
          let st := emit st (Effect.pass (PassCall.Pass_DepthDirectionalLight light))
          let st := Render.passes.foldl (fun s call => emit s (Effect.pass call)) st
          { st with m_isRendering := false }

/-- Embedding of the constructor `Renderer::Renderer`. The members the constructor body does
not assign keep the initial values of their declarations, which `decl` supplies; the bucket
map is default-constructed, hence empty; `device` is the device the constructor creates. -/
def Renderer.ctor (decl : Renderer) (device : RHI_Device) : Renderer :=
  { decl with
    m_nearPlane := 0
    m_farPlane := 0
    m_camera := none
    m_rhiDevice := some device
    m_frameNum := 0
    m_flags :=
      [ RenderFlag.Render_Gizmo_Transform, RenderFlag.Render_Gizmo_Grid,
        RenderFlag.Render_Gizmo_Lights, RenderFlag.Render_Gizmo_Physics,
        RenderFlag.Render_PostProcess_Bloom, RenderFlag.Render_PostProcess_SSAO,
        RenderFlag.Render_PostProcess_MotionBlur, RenderFlag.Render_PostProcess_TAA,
        RenderFlag.Render_PostProcess_Sharpening, RenderFlag.Render_PostProcess_Dithering,
        RenderFlag.Render_PostProcess_SSR ].foldl setFlag []
    m_actors := fun _ => none }

/-! ## Concrete data used to evaluate the embedding -/

/-- A renderer right after construction, with a 1920x1080 stored resolution, a maximum
resolution of 16384 and an initialized device. -/
def sampleRenderer : Renderer :=
  Renderer.ctor
    { m_nearPlane := 0, m_farPlane := 0, m_camera := none, m_skybox := none,
      m_rhiDevice := none, m_frameNum := 0, m_isOddFrame := false, m_isRendering := false,
      m_flags := [], m_resolution := ⟨1920, 1080⟩, m_maxResolution := 16384,
      m_actors := fun _ => none,
      m_view := ⟨[]⟩, m_viewBase := ⟨[]⟩, m_projection := ⟨[]⟩, m_viewProjection := ⟨[]⟩,
      m_projectionOrthographic := ⟨[]⟩, m_viewProjection_Orthographic := ⟨[]⟩,
      m_taa_jitter := ⟨0, 0⟩, m_taa_jitterPrevious := ⟨0, 0⟩,
      m_renderTargets := none, m_nextObjectId := 0, m_trace := [] }
    { isInitialized := true }

/-- An opaque white material with a given id. -/
def sampleMaterial (id : Nat) : Material :=
  { resourceID := id, colorAlbedo := ⟨1, 1, 1, 1⟩ }

/-- An actor with only a renderable: material id `mat`, bounding box centred at
`(x, 0, 0)`. -/
def sampleMesh (id mat : Nat) (x : ℚ) : Actor :=
  { id := id, renderable := some { material := some (sampleMaterial mat), aabbCenter := ⟨x, 0, 0⟩ },
    light := none, skybox := none, camera := none }

/-- A camera placed at the origin. -/
def sampleCamera : Camera :=
  { position := ⟨0, 0, 0⟩, clearColor := ⟨0, 0, 0, 1⟩, nearPlane := 1, farPlane := 100,
    viewMatrix := ⟨[]⟩, baseViewMatrix := ⟨[]⟩, projectionMatrix := ⟨[]⟩ }

/-- An actor with only a camera, the sample camera. -/
def sampleCameraActor : Actor :=
  { id := 0, renderable := none, light := none, skybox := none, camera := some sampleCamera }

/-! ## Specification vocabulary for scene acquisition -/

/-- Whether scene acquisition puts an actor into the bucket of a key: a renderable without
skybox goes to the transparent or the opaque bucket by its transparency test, a light to the
light bucket, a camera to the camera bucket. -/
def goesTo (a : Actor) : RenderableType → Bool
  | RenderableType.Renderable_ObjectOpaque =>
    match a.renderable with
    | some renderable => a.skybox.isNone && !isTransparent renderable
    | none => false
  | RenderableType.Renderable_ObjectTransparent =>
    match a.renderable with
    | some renderable => a.skybox.isNone && isTransparent renderable
    | none => false
  | RenderableType.Renderable_Light => a.light.isSome
  | RenderableType.Renderable_Camera => a.camera.isSome

/-- The non-null actors of a snapshot that go to the bucket of a key, in snapshot order. -/
def routed (key : RenderableType) (actorsVec : List (Option Actor)) : List Actor :=
  actorsVec.filterMap fun o =>
    match o with
    | some a => if goesTo a key then some a else none
    | none => none

/-- The skybox of the last actor of a snapshot that has one. -/
def lastSkybox (actorsVec : List (Option Actor)) : Option Skybox :=
  (actorsVec.filterMap fun o => o.bind Actor.skybox).getLast?

/-- The camera of the last actor of a snapshot that has one. -/
def lastCamera (actorsVec : List (Option Actor)) : Option Camera :=
  (actorsVec.filterMap fun o => o.bind Actor.camera).getLast?

/-- A snapshot with a camera at the origin and two opaque meshes of material 7, the first
at squared distance 100 from the camera, the second at squared distance 1. -/
def sampleSnapshot : List (Option Actor) :=
  [some sampleCameraActor, some (sampleMesh 1 7 10), some (sampleMesh 2 7 1)]

/-- An actor with a skybox `sky` that also has a renderable with an opaque material. -/
def sampleSkyActor (id sky : Nat) : Actor :=
  { id := id, renderable := some { material := some (sampleMaterial 3), aabbCenter := ⟨0, 0, 0⟩ },
    light := none, skybox := some { id := sky }, camera := none }

/-- A snapshot without camera: a sky, a mesh, a null pointer and a second sky. -/
def sampleSkySnapshot : List (Option Actor) :=
  [some (sampleSkyActor 5 1), some (sampleMesh 1 7 10), none, some (sampleSkyActor 6 2)]

/-- A bucket of three meshes whose materials alternate: 9, 7, 9. -/
def sampleBucket : List Actor :=
  [sampleMesh 1 9 5, sampleMesh 2 7 3, sampleMesh 3 9 1]

/-- A stand-in for the math library, enough to run `Render` on concrete data: the product
keeps its left factor and the constructors return empty matrices. -/
def sampleMathLib : MathLib :=
  { mul := fun a _ => a
    CreateTranslation := fun _ => ⟨[]⟩
    CreateOrthographicLH := fun _ _ _ _ => ⟨[]⟩
    Halton2D := fun _ _ _ => ⟨0, 0⟩ }

/-- Insertion sort run on the reversed vector: it also meets the contract of `std::sort`, but
leaves equivalent elements in the reverse of their input order. -/
def reversedInsertionSort : SortFn := fun comp l =>
  insertionSort comp l.reverse

/-- A snapshot with a camera at the origin and three opaque meshes of material 7, given
front to back: squared distances 1, 4 and 9. -/
def sampleTripleSnapshot : List (Option Actor) :=
  [some sampleCameraActor, some (sampleMesh 1 7 1), some (sampleMesh 2 7 2),
    some (sampleMesh 3 7 3)]

/-- The renderer of `sampleRenderer` once `Initialize` has created its render textures. -/
def sampleInitialized : Renderer :=
  CreateRenderTextures sampleRenderer

/-- The renderer states reachable from construction through `Renderables_Acquire` and
`Render`; `decl` supplies the initial values of the member declarations and `device` is the
device the constructor creates. -/
inductive Reachable (sort : SortFn) (lib : MathLib) (decl : Renderer) (device : RHI_Device) :
    Renderer → Prop where
  | ctor : Reachable sort lib decl device (Renderer.ctor decl device)
  | acquire (st : Renderer) (actorsVec : List (Option Actor)) :
    Reachable sort lib decl device st →
    Reachable sort lib decl device (Renderables_Acquire sort st actorsVec)
  | render (st : Renderer) :
    Reachable sort lib decl device st → Reachable sort lib decl device (Render lib st)

/-- Whether the bucket map holds a key. -/
def ActorMap.holds (m : ActorMap) (key : RenderableType) : Bool :=
  (m key).isSome

/-- An initialized device. -/
def sampleDevice : RHI_Device :=
  { isInitialized := true }

/-- A snapshot with a camera and no geometry. -/
def sampleCameraSnapshot : List (Option Actor) :=
  [some sampleCameraActor]

end Directus

namespace Spartan

/-! # The pass pipeline

A shallow embedding of `Runtime/Rendering/Renderer_Passes.cpp` (class `Spartan::Renderer`),
a later revision of the renderer than `Renderer.cpp`.

Conventions of the embedding, in addition to the ones above

* Every call `m_cmd_list->F(...)` appends the command `Cmd.F ...` to `m_cmd_list`; GPU
  objects appear in commands by identity (the `id` of a texture, the name of a shader,
  sampler or state member).
* A texture handle (`shared_ptr<RHI_Texture>&`) is the name of the renderer member it refers
  to, a `TexSlot`; the state maps each slot to the texture it holds, and `swap` exchanges the
  textures of two slots.
* A pointer that the code tests somewhere may be null (`Option`); a pass that dereferences a
  null pointer without test has no result (`none`). Pointers the code never tests (texture
  handles, the transform of an entity) are not null.
* The contents of the constant buffers of transforms and materials are not part of the state;
  the commands tell which buffer is bound.
-/

/-! ## Floats that may leave the finite range -/

/-- A float that may be infinite or NaN; used where the code divides by a count that can be
zero. -/
inductive XFloat where
  | finite (q : ℚ)
  | posInf
  | negInf
  | nan
deriving DecidableEq

/-- IEEE addition of a finite float to a float. -/
def XFloat.addFinite (x : XFloat) (q : ℚ) : XFloat :=
  match x with
  | XFloat.finite p => XFloat.finite (p + q)
  | XFloat.posInf => XFloat.posInf
  | XFloat.negInf => XFloat.negInf
  | XFloat.nan => XFloat.nan

/-- IEEE division of a float by `static_cast<float>(n)` for an unsigned `n`: a finite value
divided by zero is an infinity of its sign, and zero divided by zero is NaN. -/
def XFloat.divCount (x : XFloat) (n : Nat) : XFloat :=
  match x with
  | XFloat.finite q =>
    if n = 0 then
      if 0 < q then XFloat.posInf else if q < 0 then XFloat.negInf else XFloat.nan
    else XFloat.finite (q / (n : ℚ))
  | XFloat.posInf => XFloat.posInf
  | XFloat.negInf => XFloat.negInf
  | XFloat.nan => XFloat.nan

/-- A vector of three floats that may leave the finite range. -/
structure XVector3 where
  x : XFloat
  y : XFloat
  z : XFloat
deriving DecidableEq

/-- The zero vector. -/
def XVector3.Zero : XVector3 :=
  ⟨XFloat.finite 0, XFloat.finite 0, XFloat.finite 0⟩

/-- The statement `v += d` for a finite vector `d`. -/
def XVector3.addFinite (v : XVector3) (d : Directus.Vector3) : XVector3 :=
  ⟨v.x.addFinite d.x, v.y.addFinite d.y, v.z.addFinite d.z⟩

/-- The statement `v /= static_cast<float>(n)`. -/
def XVector3.divCount (v : XVector3) (n : Nat) : XVector3 :=
  ⟨v.x.divCount n, v.y.divCount n, v.z.divCount n⟩

/-! ## World: entities and their components -/

/-- A texture (`RHI_Texture`): identity, size, format and number of array slices. -/
structure RHI_Texture where
  id : Nat
  width : Nat
  height : Nat
  format : Directus.RHI_Format
  arraySize : Nat
deriving DecidableEq

/-- Kinds of light (`LightType` of `Light.h`). -/
inductive LightType where
  | LightType_Directional
  | LightType_Point
  | LightType_Spot
deriving DecidableEq

/-- The light component (`Light.h`), as far as the passes read it: `id` stands for its
address, `shadowMap` is `GetShadowMap()` (null until created). -/
structure Light where
  id : Nat
  lightType : LightType
  castShadows : Bool
  shadowMap : Option RHI_Texture
  direction : Directus.Vector3
deriving DecidableEq

/-- The geometry of a renderable (`GeometryModel()`): the vertex and index buffers are null
until created. -/
structure Model where
  resourceId : Nat
  vertexBuffer : Option Nat
  indexBuffer : Option Nat
deriving DecidableEq

/-- Compilation states of a shader. -/
inductive Shader_State where
  | Shader_Uninitialized
  | Shader_Compiling
  | Shader_Compiled
  | Shader_Failed
deriving DecidableEq

/-- The shader of a material (`ShaderVariation`). -/
structure ShaderVariation where
  rhiId : Nat
  compilationState : Shader_State
deriving DecidableEq

/-- Face culling modes. -/
inductive RHI_Cull_Mode where
  | Cull_None
  | Cull_Front
  | Cull_Back
deriving DecidableEq

/-- Fill modes. -/
inductive RHI_Fill_Mode where
  | Fill_Solid
  | Fill_Wireframe
deriving DecidableEq

/-- A material: `textures` lists `GetTextureShaderResourceByType` for albedo, roughness,
metallic, normal, height, occlusion, emission and mask, in this order. -/
structure Material where
  resourceId : Nat
  colorAlbedo : Directus.Vector4
  shader : Option ShaderVariation
  cullMode : RHI_Cull_Mode
  textures : List (Option Nat)
deriving DecidableEq

/-- An axis-aligned box. -/
structure BoundingBox where
  min : Directus.Vector3
  max : Directus.Vector3
deriving DecidableEq

/-- The renderable component. -/
structure Renderable where
  material : Option Material
  model : Option Model
  castShadows : Bool
  indexCount : Nat
  indexOffset : Nat
  vertexOffset : Nat
  aabb : BoundingBox
deriving DecidableEq

/-- An entity: `id` stands for its address (and names its transform); `renderable` is
`GetRenderable_PtrRaw()`, `light` is `GetComponent<Light>()`. -/
structure Entity where
  id : Nat
  renderable : Option Renderable
  light : Option Light
deriving DecidableEq

/-- Modelled from the spec: the skybox component (`Skybox.h` is not among the sources). `id`
stands for its address, `texture` is `GetTexture()`, the sky texture. -/
structure Skybox where
  id : Nat
  texture : RHI_Texture
deriving DecidableEq

/-- A ray: start and direction. -/
structure Ray where
  start : Directus.Vector3
  direction : Directus.Vector3
deriving DecidableEq

/-- The camera, as far as the passes ask it. For the gizmo of a light entity, `v_dot_l` is the
dot product of the forward vector of the camera with the normalized direction from the camera
to the entity, `distance` the distance between the two plus `M_EPSILON`, and
`WorldToScreenPoint` the screen position of the entity. -/
structure Camera where
  IsInViewFrustrum : Renderable → Bool
  pickingRay : Ray
  farPlane : ℚ
  v_dot_l : Entity → ℚ
  distance : Entity → ℚ
  WorldToScreenPoint : Entity → Directus.Vector2

/-- Keys of the bucket map `m_entities`. -/
inductive RenderableType where
  | Renderable_ObjectOpaque
  | Renderable_ObjectTransparent
  | Renderable_Light
  | Renderable_Camera
deriving DecidableEq

/-! ## GPU objects named by the passes -/

/-- The texture members of the renderer. -/
inductive TexSlot where
  | m_g_buffer_albedo
  | m_g_buffer_normal
  | m_g_buffer_material
  | m_g_buffer_velocity
  | m_g_buffer_depth
  | m_render_tex_full_hdr_light
  | m_render_tex_full_hdr_light2
  | m_render_tex_full_taa_current
  | m_render_tex_full_taa_history
  | m_render_tex_full_spare
  | m_render_tex_half_shadows
  | m_render_tex_half_ssao
  | m_render_tex_half_spare
  | m_render_tex_half_spare2
  | m_render_tex_quarter_blur1
  | m_render_tex_quarter_blur2
  | m_tex_noise_normal
  | m_tex_white
  | m_tex_black
  | m_tex_lut_ibl
deriving DecidableEq

/-- The shader members of the renderer, and the shader of a material by its id. -/
inductive ShaderRef where
  | m_v_depth
  | m_vs_gbuffer
  | m_vs_quad
  | m_vps_shadow_mapping_directional
  | m_ps_shadow_mapping_point
  | m_ps_shadow_mapping_spot
  | m_vps_ssao
  | m_vps_light
  | m_ps_blur_gaussian
  | m_ps_blur_gaussian_bilateral
  | m_ps_taa
  | m_ps_texture
  | m_ps_downsample_box
  | m_ps_bloom_bright
  | m_ps_upsample_box
  | m_ps_bloom_blend
  | m_ps_tone_mapping
  | m_ps_gamma_correction
  | m_ps_luma
  | m_ps_fxaa
  | m_ps_chromatic_aberration
  | m_ps_motion_blur
  | m_ps_dithering
  | m_ps_sharpening
  | m_vps_color
  | m_vps_transparent
  | m_vps_gizmo_transform
  | m_vps_font
  | m_ps_debug_normal_
  | m_ps_debug_velocity
  | m_ps_debug_depth
  | m_ps_debug_ssao
  | material (rhiId : Nat)
deriving DecidableEq

/-- The sampler members of the renderer. -/
inductive SamplerRef where
  | m_sampler_compare_depth
  | m_sampler_point_clamp
  | m_sampler_bilinear_clamp
  | m_sampler_bilinear_wrap
  | m_sampler_trilinear_clamp
  | m_sampler_anisotropic_wrap
deriving DecidableEq

/-- The blend state members of the renderer. -/
inductive BlendRef where
  | m_blend_enabled
  | m_blend_disabled
  | m_blend_shadow_maps
deriving DecidableEq

/-- The depth-stencil state members of the renderer. -/
inductive DepthStencilRef where
  | m_depth_stencil_enabled
  | m_depth_stencil_disabled
deriving DecidableEq

/-- The rasterizer state members of the renderer. -/
inductive RasterizerRef where
  | m_rasterizer_cull_back_solid
  | m_rasterizer_cull_front_solid
  | m_rasterizer_cull_none_solid
  | m_rasterizer_cull_back_wireframe
  | m_rasterizer_cull_front_wireframe
  | m_rasterizer_cull_none_wireframe
deriving DecidableEq

/-- Primitive topologies. -/
inductive Topology where
  | PrimitiveTopology_TriangleList
  | PrimitiveTopology_LineList
deriving DecidableEq

/-- The stage a constant buffer is bound to. -/
inductive BufferScope where
  | Buffer_VertexShader
  | Buffer_PixelShader
  | Buffer_Global
deriving DecidableEq

/-- Constant buffers by identity: the global buffer, buffer `index` of a shader, the buffer
of a material, the buffer of the transform of an entity, and its light buffer for a slice. -/
inductive BufferRef where
  | m_buffer_global
  | shader (s : ShaderRef) (index : Nat)
  | material (resourceId : Nat)
  | transform (entity : Nat)
  | transformLight (entity : Nat) (slice : Nat)
deriving DecidableEq

/-- Vertex and index buffers by identity. -/
inductive GeometryBuffer where
  | m_quad_vertex
  | m_quad_index
  | m_gizmo_grid_vertex
  | m_gizmo_grid_index
  | m_vertex_buffer_lines
  | m_gizmo_light_rect_vertex
  | m_gizmo_light_rect_index
  | m_gizmo_transform_vertex
  | m_gizmo_transform_index
  | m_font_vertex
  | m_font_index
  | buffer (id : Nat)
deriving DecidableEq

/-- A depth-stencil view: slice `slice` of the texture `tex`. -/
structure DepthView where
  tex : Nat
  slice : Nat
deriving DecidableEq

/-- The names of the command-list scopes (`Begin(name)`); `Array_ n` is `"Array_" +
to_string(n)`. -/
inductive ScopeName where
  | Pass_Main
  | Pass_LightDepth
  | Array_ (n : Nat)
  | Pass_GBuffer
  | Pass_PreLight
  | Pass_ShadowMapping
  | Pass_SSAO
  | Pass_Light
  | Pass_BlurBilateralGaussian
  | Pass_BlurBilateralGaussian_Horizontal
  | Pass_BlurBilateralGaussian_Vertical
  | Pass_PostLight
  | Pass_TAA
  | Pass_Bloom
  | Downsample
  | Luminance
  | Upscale
  | Additive_Blending
  | Pass_ToneMapping
  | Pass_GammaCorrection
  | Pass_FXAA
  | Pass_ChromaticAberration
  | Pass_MotionBlur
  | Pass_Dithering
  | Pass_Sharpening
  | Pass_Lines
  | Pass_Transparent
  | Pass_Gizmos
  | Pass_Gizmos_Lights
  | Pass_Gizmos_Transform
  | Pass_PerformanceMetrics
  | Pass_DebugBuffer
deriving DecidableEq

/-- The calls on `m_cmd_list`. A texture argument is the id of the texture, `none` the null
pointer. -/
inductive Cmd where
  | Begin (name : ScopeName)
  | End
  | Submit
  | SetShaderPixel (shader : Option ShaderRef)
  | SetShaderVertex (shader : ShaderRef)
  | SetInputLayout (shader : ShaderRef)
  | SetBlendState (state : BlendRef)
  | SetDepthStencilState (state : DepthStencilRef)
  | SetRasterizerState (state : RasterizerRef)
  | SetPrimitiveTopology (topology : Topology)
  | SetViewport (width height : Nat)
  | ClearDepthStencil (view : DepthView) (depth : ℚ)
  | ClearRenderTarget (tex : Nat) (color : Directus.Vector4)
  | ClearRenderTargets (texs : List Nat) (color : Directus.Vector4)
  | SetRenderTarget (tex : Option Nat) (depth : Option DepthView)
  | SetRenderTargets (texs : List Nat) (depth : Option DepthView)
  | SetBufferIndex (buffer : GeometryBuffer)
  | SetBufferVertex (buffer : GeometryBuffer)
  | SetConstantBuffer (slot : Nat) (scope : BufferScope) (buffer : BufferRef)
  | SetConstantBuffers (slot : Nat) (scope : BufferScope) (buffers : List BufferRef)
  | SetSampler (slot : Nat) (sampler : SamplerRef)
  | SetSamplers (slot : Nat) (samplers : List SamplerRef)
  | SetTexture (slot : Nat) (tex : Option Nat)
  | SetTextures (slot : Nat) (texs : List (Option Nat))
  | ClearTextures
  | DrawIndexed (indexCount indexOffset vertexOffset : Nat)
  | Draw (vertexCount : Nat)
deriving DecidableEq

/-! ## Renderer state -/

/-- The feature bits of `m_flags` that the passes test. -/
inductive RenderFlag where
  | Render_Gizmo_AABB
  | Render_Gizmo_PickingRay
  | Render_Gizmo_Grid
  | Render_Gizmo_Transform
  | Render_Gizmo_Lights
  | Render_Gizmo_PerformanceMetrics
  | Render_PostProcess_Bloom
  | Render_PostProcess_FXAA
  | Render_PostProcess_SSAO
  | Render_PostProcess_SSR
  | Render_PostProcess_TAA
  | Render_PostProcess_MotionBlur
  | Render_PostProcess_Sharpening
  | Render_PostProcess_ChromaticAberration
  | Render_PostProcess_Dithering
deriving DecidableEq

/-- The tone-mapping mode `m_tonemapping`: off, or one of the operators. -/
inductive ToneMapping where
  | ToneMapping_Off
  | ToneMapping_Operator (index : Nat)
deriving DecidableEq

/-- The matrix a caller passes to `SetDefaultBuffer`: none (the default argument), the
orthographic view-projection, the unjittered view-projection, or the grid world matrix times
the unjittered view-projection. -/
inductive MvpArg where
  | default
  | m_view_projection_orthographic
  | view_projection_unjittered
  | grid_world_view_projection_unjittered
deriving DecidableEq

/-- The part of the global constant buffer that depends on the arguments of
`SetDefaultBuffer`. -/
structure GlobalBuffer where
  width : Nat
  height : Nat
  mvp : MvpArg
deriving DecidableEq

/-- The axes of the transform gizmo: `Vector3::Right`, `Up`, `Forward` and `One`. -/
inductive GizmoAxis where
  | Right
  | Up
  | Forward
  | One
deriving DecidableEq

/-- What the passes write into the constant buffers of the buffered shaders; for the light
shader, the entities of the light bucket and the SSR flag it is given; for the transparent
shader, the entity (for its transform), the albedo of its material and the average light
direction; for the transform gizmo, the axis of the handle; for the font shader, the
orthographic matrix and the colour of the font. -/
inductive BufferData where
  | Struct_Blur (direction : Directus.Vector2) (sigma : ℚ)
  | Struct_ShadowMapping (light : Nat)
  | Struct_Light (lights : List Nat) (ssr : Bool)
  | Struct_Transparency (entity : Nat) (color : Directus.Vector4) (light_dir : XVector3)
  | Struct_Matrix_Vector3 (axis : GizmoAxis)
  | Struct_Matrix_Vector4
deriving DecidableEq

/-- A line vertex (`RHI_Vertex_PosCol`). -/
structure RHI_Vertex_PosCol where
  pos : Directus.Vector3
  col : Directus.Vector4
deriving DecidableEq

/-- The dynamic vertex buffer of the lines: `vertexCount` is `GetVertexCount()`, the number of
vertices it has room for; `data` is what the last `Map`/copy/`Unmap` wrote. -/
structure RHI_VertexBuffer where
  vertexCount : Nat
  data : List RHI_Vertex_PosCol
deriving DecidableEq

/-- Lines of the log. -/
inductive LogLine where
  /-- The line `LOG_ERROR("Invalid parameters, textures must match because they will get
  swapped")`. -/
  | errorTexturesMustMatch
deriving DecidableEq

/-- The device object behind `m_rhi_device`. -/
structure RHI_Device where
  isInitialized : Bool
deriving DecidableEq

/-- The values of `m_debug_buffer` that `Pass_DebugBuffer` names, and `RendererDebug_Other`
for any further value of the enumeration, which the pass does not test. -/
inductive RendererDebug_Buffer where
  | RendererDebug_None
  | RendererDebug_Albedo
  | RendererDebug_Normal
  | RendererDebug_Material
  | RendererDebug_Velocity
  | RendererDebug_Depth
  | RendererDebug_SSAO
  | RendererDebug_Other
deriving DecidableEq

/-- A screen rectangle (`Math::Rectangle`): position and size. -/
structure Rectangle where
  x : ℚ
  y : ℚ
  width : ℚ
  height : ℚ
deriving DecidableEq

/-- The transform gizmo, as far as `Pass_Gizmos` asks it: `update` is what
`Update(camera, size, speed)` returns in this frame, `drawXYZ` is `DrawXYZ()` and
`indexCount` is `GetIndexCount()`. -/
structure Transform_Gizmo where
  update : Bool
  drawXYZ : Bool
  indexCount : Nat
deriving DecidableEq

/-- The font, as far as `Pass_PerformanceMetrics` asks it once the text of the metrics is
set: `atlas` is `GetAtlas()` and `indexCount` is `GetIndexCount()`. -/
structure Font where
  atlas : RHI_Texture
  indexCount : Nat
deriving DecidableEq

/-- The members of `Renderer` that the embedded passes read or write. `tex` holds the texture
of each texture member, `clearDepth` is the value of `GetClearDepth()`, `shaderBuffers` the
contents of the constant buffers of the buffered shaders, `m_renderer_meshes_rendered` the
counter of the profiler, `default_pixel_stride` the default argument `pixel_stride` of
`Pass_BlurGaussian` in its declaration, `m_vps_light` the compilation state of the light
shader, `m_gizmo_light_rect_index_count` is `m_gizmo_light_rect.GetIndexCount()`. -/
structure Renderer where
  m_rhi_device : Option RHI_Device
  m_cmd_list : List Cmd
  m_entities : RenderableType → List Entity
  m_camera : Option Camera
  m_flags : List RenderFlag
  m_tonemapping : ToneMapping
  m_resolution : Directus.Vector2
  tex : TexSlot → RHI_Texture
  clearDepth : ℚ
  m_directional_light_avg_dir : XVector3
  m_buffer_global : GlobalBuffer
  shaderBuffers : ShaderRef → Nat → Option BufferData
  m_vertex_buffer_lines : RHI_VertexBuffer
  m_lines_list_depth_enabled : List RHI_Vertex_PosCol
  m_lines_list_depth_disabled : List RHI_Vertex_PosCol
  m_gizmo_grid_index_count : Nat
  m_quad_index_count : Nat
  m_renderer_meshes_rendered : Nat
  m_log : List LogLine
  default_pixel_stride : ℚ
  m_skybox : Option Skybox
  m_vps_light : Shader_State
  m_debug_buffer : RendererDebug_Buffer
  m_gizmo_tex_light_directional : RHI_Texture
  m_gizmo_tex_light_point : RHI_Texture
  m_gizmo_tex_light_spot : RHI_Texture
  m_gizmo_light_rect : Rectangle
  m_gizmo_light_rect_index_count : Nat
  m_gizmo_transform : Transform_Gizmo
  m_font : Font

/-- One call on `m_cmd_list`. -/
def cmd (st : Renderer) (c : Cmd) : Renderer :=
  { st with m_cmd_list := st.m_cmd_list ++ [c] }

/-- Several calls on `m_cmd_list`, in order. -/
def cmds (st : Renderer) (cs : List Cmd) : Renderer :=
  { st with m_cmd_list := st.m_cmd_list ++ cs }

/-- The test `Flags_IsSet(flag)`, also written `m_flags & flag`. -/
def Flags_IsSet (st : Renderer) (flag : RenderFlag) : Bool :=
  decide (flag ∈ st.m_flags)

/-- Modelled from the spec: `SetDefaultBuffer(width, height, mvp)` is not in the sources of
this revision. It rewrites the global constant buffer (the frame uniform block of the spec);
of what it writes, the embedding keeps the resolution and the matrix it is given. -/
def SetDefaultBuffer (st : Renderer) (width height : Nat) (mvp : MvpArg) : Renderer :=
  { st with m_buffer_global := { width := width, height := height, mvp := mvp } }

/-- Modelled from the spec: `ShaderBuffered` is not among the sources. The call
`shader->UpdateBuffer(&buffer, index)` writes `buffer` to constant buffer `index` of the
shader, the one `shader->GetConstantBuffer(index)` returns (index 0 when none is given). -/
def UpdateBuffer (st : Renderer) (shader : ShaderRef) (index : Nat) (data : BufferData) :
    Renderer :=
  { st with
    shaderBuffers := fun s i =>
      if s = shader ∧ i = index then some data else st.shaderBuffers s i }

/-- The statement `a.swap(b)` on two texture handles. -/
def swapTex (st : Renderer) (a b : TexSlot) : Renderer :=
  { st with
    tex := fun s => if s = a then st.tex b else if s = b then st.tex a else st.tex s }

/-- Embedding of `Renderer::GetRasterizerState`. -/
def GetRasterizerState (cullMode : RHI_Cull_Mode) (fillMode : RHI_Fill_Mode) : RasterizerRef :=
  match cullMode with
  | RHI_Cull_Mode.Cull_Back =>
    if fillMode = RHI_Fill_Mode.Fill_Solid then RasterizerRef.m_rasterizer_cull_back_solid
    else RasterizerRef.m_rasterizer_cull_back_wireframe
  | RHI_Cull_Mode.Cull_Front =>
    if fillMode = RHI_Fill_Mode.Fill_Solid then RasterizerRef.m_rasterizer_cull_front_solid
    else RasterizerRef.m_rasterizer_cull_front_wireframe
  | RHI_Cull_Mode.Cull_None =>
    if fillMode = RHI_Fill_Mode.Fill_Solid then RasterizerRef.m_rasterizer_cull_none_solid
    else RasterizerRef.m_rasterizer_cull_none_wireframe

/-- The depth-stencil view `tex->GetResource_DepthStencil(slice)`. -/
def depthView (tex : RHI_Texture) (slice : Nat) : DepthView :=
  { tex := tex.id, slice := slice }

/-! ## Shadow depth pass -/

/-- The variables of the loops of `Pass_LightDepth`. -/
structure LightDepthLoop where
  st : Renderer
  currently_bound_geometry : Nat
  light_directional_count : Nat

/-- The body of the entity loop of `Pass_LightDepth`, for slice `i` of the shadow map of
`light`. -/
def Pass_LightDepth.entity (light : Light) (i : Nat) (acc : LightDepthLoop) (entity : Entity) :
    LightDepthLoop :=
  -- Acquire renderable component
  match entity.renderable with
  | none => acc
  | some renderable =>
    -- Acquire material
    match renderable.material with
    | none => acc
    | some material =>
      -- Acquire geometry
      match renderable.model with
      | none => acc
      | some model =>
        match model.vertexBuffer, model.indexBuffer with
        | some vertexBuffer, some indexBuffer =>
          -- Skip meshes that don't cast shadows
          if !renderable.castShadows then acc
          -- Skip transparent meshes (for now)
          else if material.colorAlbedo.w < 1 then acc
          else
            -- Bind geometry
            let acc :=
              if acc.currently_bound_geometry ≠ model.resourceId then
                { acc with
                  st := cmds acc.st
                    [ Cmd.SetBufferIndex (GeometryBuffer.buffer indexBuffer),
                      Cmd.SetBufferVertex (GeometryBuffer.buffer vertexBuffer) ]
                  currently_bound_geometry := model.resourceId }
              else acc
            -- Accumulate directional light direction
            let acc :=
              if light.lightType = LightType.LightType_Directional then
                { acc with
                  st := { acc.st with
                    m_directional_light_avg_dir :=
                      acc.st.m_directional_light_avg_dir.addFinite light.direction }
                  light_directional_count := (acc.light_directional_count + 1) % 2 ^ 32 }
              else acc
            -- Update constant buffer
            { acc with
              st := cmds acc.st
                [ Cmd.SetConstantBuffer 1 BufferScope.Buffer_VertexShader
                    (BufferRef.transformLight entity.id i),
                  Cmd.DrawIndexed renderable.indexCount renderable.indexOffset
                    renderable.vertexOffset ] }
        | _, _ => acc

/-- The body of the slice loop of `Pass_LightDepth`. -/
def Pass_LightDepth.slice (light : Light) (shadow_map : RHI_Texture) (entities : List Entity)
    (acc : LightDepthLoop) (i : Nat) : LightDepthLoop :=
  let st := cmds acc.st
    [ Cmd.Begin (ScopeName.Array_ (i + 1)),
      Cmd.ClearDepthStencil (depthView shadow_map i) acc.st.clearDepth,
      Cmd.SetRenderTarget none (some (depthView shadow_map i)) ]
  let acc := entities.foldl (Pass_LightDepth.entity light i) { acc with st := st }
  -- end of cascade
  { acc with st := cmd acc.st Cmd.End }

/-- The body of the light loop of `Pass_LightDepth`; the second component is
`light_directional_count`. An entity of the light bucket without light component is a null
dereference. -/
def Pass_LightDepth.light (acc : Renderer × Nat) (light_entity : Entity) :
    Option (Renderer × Nat) :=
  match light_entity.light with
  | none => none
  | some light =>
    -- Skip if it doesn't need to cast shadows
    if !light.castShadows then some acc
    else
      -- Acquire light's shadow map
      match light.shadowMap with
      | none => some acc
      | some shadow_map =>
        -- Get opaque renderable entities
        let entities := acc.1.m_entities RenderableType.Renderable_ObjectOpaque
        if entities.isEmpty then some acc
        else
          -- Begin command list
          let st := cmds acc.1
            [ Cmd.Begin ScopeName.Pass_LightDepth,
              Cmd.SetShaderPixel none,
              Cmd.SetBlendState BlendRef.m_blend_disabled,
              Cmd.SetDepthStencilState DepthStencilRef.m_depth_stencil_enabled,
              Cmd.SetRasterizerState RasterizerRef.m_rasterizer_cull_back_solid,
              Cmd.SetPrimitiveTopology Topology.PrimitiveTopology_TriangleList,
              Cmd.SetShaderVertex ShaderRef.m_v_depth,
              Cmd.SetInputLayout ShaderRef.m_v_depth,
              Cmd.SetViewport shadow_map.width shadow_map.height ]
          -- Tracking
          let loop : LightDepthLoop :=
            { st := st, currently_bound_geometry := 0, light_directional_count := acc.2 }
          let loop := (List.range shadow_map.arraySize).foldl
            (Pass_LightDepth.slice light shadow_map entities) loop
          some (cmds loop.st [Cmd.End, Cmd.Submit], loop.light_directional_count)

/-- Embedding of `Renderer::Pass_LightDepth`. -/
def Pass_LightDepth (st : Renderer) : Option Renderer :=
  match (st.m_entities RenderableType.Renderable_Light).foldlM Pass_LightDepth.light (st, 0) with
  | none => none
  | some (st, light_directional_count) =>
    -- Compute average directional light direction
    some { st with
      m_directional_light_avg_dir :=
        st.m_directional_light_avg_dir.divCount light_directional_count }

/-! ## G-buffer pass -/

/-- The variables of the entity loop of `Pass_GBuffer`. -/
structure GBufferLoop where
  st : Renderer
  currently_bound_geometry : Nat
  currently_bound_shader : Nat
  currently_bound_material : Nat

/-- The part of the body of the entity loop of `Pass_GBuffer` that follows the tests: the
bindings that changed since the last draw, the object buffer and the draw. -/
def Pass_GBuffer.draw (acc : GBufferLoop) (entity : Entity) (renderable : Renderable)
    (material : Material) (shader : ShaderVariation) (model : Model)
    (vertexBuffer indexBuffer : Nat) : GBufferLoop :=
  -- Set face culling (changes only if required)
  let acc := { acc with
    st := cmd acc.st (Cmd.SetRasterizerState
      (GetRasterizerState material.cullMode RHI_Fill_Mode.Fill_Solid)) }
  -- Bind geometry
  let acc :=
    if acc.currently_bound_geometry ≠ model.resourceId then
      { acc with
        st := cmds acc.st
          [ Cmd.SetBufferIndex (GeometryBuffer.buffer indexBuffer),
            Cmd.SetBufferVertex (GeometryBuffer.buffer vertexBuffer) ]
        currently_bound_geometry := model.resourceId }
    else acc
  -- Bind shader
  let acc :=
    if acc.currently_bound_shader ≠ shader.rhiId then
      { acc with
        st := cmd acc.st (Cmd.SetShaderPixel (some (ShaderRef.material shader.rhiId)))
        currently_bound_shader := shader.rhiId }
    else acc
  -- Bind material
  let acc :=
    if acc.currently_bound_material ≠ material.resourceId then
      { acc with
        st := cmds acc.st
          [ Cmd.SetTextures 0 material.textures,
            Cmd.SetConstantBuffer 1 BufferScope.Buffer_PixelShader
              (BufferRef.material material.resourceId) ]
        currently_bound_material := material.resourceId }
    else acc
  -- Bind object buffer, render
  let st := cmds acc.st
    [ Cmd.SetConstantBuffer 2 BufferScope.Buffer_VertexShader (BufferRef.transform entity.id),
      Cmd.DrawIndexed renderable.indexCount renderable.indexOffset renderable.vertexOffset ]
  { acc with
    st := { st with m_renderer_meshes_rendered := st.m_renderer_meshes_rendered + 1 } }

/-- The body of the entity loop of `Pass_GBuffer`: the tests, then `Pass_GBuffer.draw`. The
frustum test dereferences `m_camera`. -/
def Pass_GBuffer.entity (acc : GBufferLoop) (entity : Entity) : Option GBufferLoop :=
  -- Get renderable and material
  match entity.renderable with
  | none => some acc
  | some renderable =>
    match renderable.material with
    | none => some acc
    | some material =>
      -- Validate shader
      match material.shader with
      | none => some acc
      | some shader =>
        if shader.compilationState ≠ Shader_State.Shader_Compiled then some acc
        else
          -- Validate geometry
          match renderable.model with
          | none => some acc
          | some model =>
            match model.vertexBuffer, model.indexBuffer with
            | some vertexBuffer, some indexBuffer =>
              match acc.st.m_camera with
              | none => none
              | some camera =>
                -- Skip objects outside of the view frustum
                if !camera.IsInViewFrustrum renderable then some acc
                else
                  some (Pass_GBuffer.draw acc entity renderable material shader model
                    vertexBuffer indexBuffer)
            | _, _ => some acc

/-- Embedding of `Renderer::Pass_GBuffer`. -/
def Pass_GBuffer (st : Renderer) : Option Renderer :=
  match st.m_rhi_device with
  | none => some st
  | some _ =>
    let st := cmd st (Cmd.Begin ScopeName.Pass_GBuffer)
    let albedo := (st.tex TexSlot.m_g_buffer_albedo).id
    let normal := (st.tex TexSlot.m_g_buffer_normal).id
    let material := (st.tex TexSlot.m_g_buffer_material).id
    let velocity := (st.tex TexSlot.m_g_buffer_velocity).id
    let depth := depthView (st.tex TexSlot.m_g_buffer_depth) 0
    -- If there is nothing to render, just clear
    if (st.m_entities RenderableType.Renderable_ObjectOpaque).isEmpty then
      some (cmds st
        [ Cmd.ClearRenderTarget albedo ⟨0, 0, 0, 0⟩,
          Cmd.ClearRenderTarget normal ⟨0, 0, 0, 0⟩,
          Cmd.ClearRenderTarget material ⟨0, 0, 0, 0⟩,
          Cmd.ClearRenderTarget velocity ⟨0, 0, 0, 0⟩,
          Cmd.ClearDepthStencil depth st.clearDepth,
          Cmd.End,
          Cmd.Submit ])
    else
      -- Prepare resources
      let st := SetDefaultBuffer st ⌊st.m_resolution.x⌋₊ ⌊st.m_resolution.y⌋₊ MvpArg.default
      let render_targets := [albedo, normal, material, velocity]
      -- Start command list
      let st := cmds st
        [ Cmd.SetRasterizerState RasterizerRef.m_rasterizer_cull_back_solid,
          Cmd.SetBlendState BlendRef.m_blend_disabled,
          Cmd.SetPrimitiveTopology Topology.PrimitiveTopology_TriangleList,
          Cmd.SetDepthStencilState DepthStencilRef.m_depth_stencil_enabled,
          Cmd.SetViewport (st.tex TexSlot.m_g_buffer_albedo).width
            (st.tex TexSlot.m_g_buffer_albedo).height,
          Cmd.SetRenderTargets render_targets (some depth),
          Cmd.ClearRenderTargets render_targets ⟨0, 0, 0, 0⟩,
          Cmd.ClearDepthStencil depth st.clearDepth,
          Cmd.SetShaderVertex ShaderRef.m_vs_gbuffer,
          Cmd.SetInputLayout ShaderRef.m_vs_gbuffer,
          Cmd.SetConstantBuffer 0 BufferScope.Buffer_Global BufferRef.m_buffer_global,
          Cmd.SetSampler 0 SamplerRef.m_sampler_anisotropic_wrap ]
      -- Variables that help reduce state changes
      let loop : GBufferLoop :=
        { st := st, currently_bound_geometry := 0, currently_bound_shader := 0,
          currently_bound_material := 0 }
      match (st.m_entities RenderableType.Renderable_ObjectOpaque).foldlM
          Pass_GBuffer.entity loop with
      | none => none
      | some loop => some (cmds loop.st [Cmd.End, Cmd.Submit])

/-! ## Pre-light pass: shadow mapping, SSAO, bilateral blur -/

/-- The pixel shader `Pass_ShadowMapping` chooses for a light type. -/
def shadowMappingShader : LightType → ShaderRef
  | LightType.LightType_Directional => ShaderRef.m_vps_shadow_mapping_directional
  | LightType.LightType_Point => ShaderRef.m_ps_shadow_mapping_point
  | LightType.LightType_Spot => ShaderRef.m_ps_shadow_mapping_spot

/-- Embedding of `Renderer::Pass_ShadowMapping`. The texture list dereferences the shadow map
of the light without test. -/
def Pass_ShadowMapping (st : Renderer) (tex_out : TexSlot) (light : Option Light) :
    Option Renderer :=
  match light with
  | none => some st
  | some light =>
    if !light.castShadows then some st
    else
      let st := cmd st (Cmd.Begin ScopeName.Pass_ShadowMapping)
      -- Get appropriate pixel shader
      let pixel_shader := shadowMappingShader light.lightType
      -- Prepare resources
      let st := SetDefaultBuffer st (st.tex tex_out).width (st.tex tex_out).height
        MvpArg.m_view_projection_orthographic
      let st := UpdateBuffer st pixel_shader 0 (BufferData.Struct_ShadowMapping light.id)
      match light.shadowMap with
      | none => none
      | some shadow_map =>
        let textures : List (Option Nat) :=
          [ some (st.tex TexSlot.m_g_buffer_normal).id,
            some (st.tex TexSlot.m_g_buffer_depth).id,
            if light.lightType = LightType.LightType_Directional then some shadow_map.id
            else none,
            if light.lightType = LightType.LightType_Point then some shadow_map.id else none,
            if light.lightType = LightType.LightType_Spot then some shadow_map.id else none ]
        some (cmds st
          [ Cmd.SetRenderTarget (some (st.tex tex_out).id) none,
            Cmd.SetBlendState BlendRef.m_blend_shadow_maps,
            Cmd.SetViewport (st.tex tex_out).width (st.tex tex_out).height,
            Cmd.SetShaderVertex ShaderRef.m_vps_shadow_mapping_directional,
            Cmd.SetInputLayout ShaderRef.m_vps_shadow_mapping_directional,
            Cmd.SetShaderPixel (some pixel_shader),
            Cmd.SetTextures 0 textures,
            Cmd.SetSamplers 0
              [SamplerRef.m_sampler_compare_depth, SamplerRef.m_sampler_bilinear_clamp],
            Cmd.SetConstantBuffers 0 BufferScope.Buffer_Global
              [BufferRef.m_buffer_global, BufferRef.shader pixel_shader 0],
            Cmd.DrawIndexed st.m_quad_index_count 0 0,
            Cmd.End,
            Cmd.Submit ])

/-- Embedding of `Renderer::Pass_SSAO`. -/
def Pass_SSAO (st : Renderer) (tex_out : TexSlot) : Renderer :=
  let st := cmd st (Cmd.Begin ScopeName.Pass_SSAO)
  -- Prepare resources
  let st := SetDefaultBuffer st (st.tex tex_out).width (st.tex tex_out).height MvpArg.default
  cmds st
    [ Cmd.ClearTextures,
      Cmd.SetBlendState BlendRef.m_blend_disabled,
      Cmd.SetRenderTarget (some (st.tex tex_out).id) none,
      Cmd.SetViewport (st.tex tex_out).width (st.tex tex_out).height,
      Cmd.SetShaderVertex ShaderRef.m_vs_quad,
      Cmd.SetInputLayout ShaderRef.m_vs_quad,
      Cmd.SetShaderPixel (some ShaderRef.m_vps_ssao),
      Cmd.SetTextures 0
        [ some (st.tex TexSlot.m_g_buffer_normal).id, some (st.tex TexSlot.m_g_buffer_depth).id,
          some (st.tex TexSlot.m_tex_noise_normal).id ],
      Cmd.SetSamplers 0 [SamplerRef.m_sampler_bilinear_clamp, SamplerRef.m_sampler_bilinear_wrap],
      Cmd.SetConstantBuffer 0 BufferScope.Buffer_Global BufferRef.m_buffer_global,
      Cmd.DrawIndexed st.m_quad_index_count 0 0,
      Cmd.End,
      Cmd.Submit ]

/-- The test both Gaussian blur passes start with: the two textures differ in width, height
or format. -/
def texturesMismatch (a b : RHI_Texture) : Bool :=
  decide (a.width ≠ b.width ∨ a.height ≠ b.height ∨ a.format ≠ b.format)

/-- Embedding of `Renderer::Pass_BlurGaussian`. -/
def Pass_BlurGaussian (st : Renderer) (tex_in tex_out : TexSlot) (sigma pixel_stride : ℚ) :
    Renderer :=
  if texturesMismatch (st.tex tex_in) (st.tex tex_out) then
    { st with m_log := st.m_log ++ [LogLine.errorTexturesMustMatch] }
  else
    let st := SetDefaultBuffer st (st.tex tex_in).width (st.tex tex_in).height MvpArg.default
    -- Start command list
    let st := cmds st
      [ Cmd.Begin ScopeName.Pass_BlurBilateralGaussian,
        Cmd.SetViewport (st.tex tex_out).width (st.tex tex_out).height,
        Cmd.SetShaderPixel (some ShaderRef.m_ps_blur_gaussian),
        Cmd.SetSampler 0 SamplerRef.m_sampler_bilinear_clamp,
        Cmd.SetConstantBuffer 0 BufferScope.Buffer_Global BufferRef.m_buffer_global ]
    -- Horizontal Gaussian blur
    let st := cmd st (Cmd.Begin ScopeName.Pass_BlurBilateralGaussian_Horizontal)
    let st := UpdateBuffer st ShaderRef.m_ps_blur_gaussian 0
      (BufferData.Struct_Blur ⟨pixel_stride, 0⟩ sigma)
    let st := cmds st
      [ Cmd.ClearTextures,
        Cmd.SetRenderTarget (some (st.tex tex_out).id) none,
        Cmd.SetTexture 0 (some (st.tex tex_in).id),
        Cmd.SetConstantBuffer 1 BufferScope.Buffer_PixelShader
          (BufferRef.shader ShaderRef.m_ps_blur_gaussian_bilateral 0),
        Cmd.DrawIndexed st.m_quad_index_count 0 0,
        Cmd.End ]
    -- Vertical Gaussian blur
    let st := cmd st (Cmd.Begin ScopeName.Pass_BlurBilateralGaussian_Horizontal)
    let st := UpdateBuffer st ShaderRef.m_ps_blur_gaussian 1
      (BufferData.Struct_Blur ⟨0, pixel_stride⟩ sigma)
    let st := cmds st
      [ Cmd.ClearTextures,
        Cmd.SetRenderTarget (some (st.tex tex_in).id) none,
        Cmd.SetTexture 0 (some (st.tex tex_out).id),
        Cmd.SetConstantBuffer 1 BufferScope.Buffer_PixelShader
          (BufferRef.shader ShaderRef.m_ps_blur_gaussian_bilateral 1),
        Cmd.DrawIndexed st.m_quad_index_count 0 0,
        Cmd.End,
        Cmd.End,
        Cmd.Submit ]
    -- Swap textures
    swapTex st tex_in tex_out

/-- Embedding of `Renderer::Pass_BlurBilateralGaussian`. -/
def Pass_BlurBilateralGaussian (st : Renderer) (tex_in tex_out : TexSlot)
    (sigma pixel_stride : ℚ) : Renderer :=
  if texturesMismatch (st.tex tex_in) (st.tex tex_out) then
    { st with m_log := st.m_log ++ [LogLine.errorTexturesMustMatch] }
  else
    let st := SetDefaultBuffer st (st.tex tex_in).width (st.tex tex_in).height MvpArg.default
    -- Start command list
    let st := cmds st
      [ Cmd.Begin ScopeName.Pass_BlurBilateralGaussian,
        Cmd.SetViewport (st.tex tex_out).width (st.tex tex_out).height,
        Cmd.SetShaderVertex ShaderRef.m_vs_quad,
        Cmd.SetInputLayout ShaderRef.m_vs_quad,
        Cmd.SetShaderPixel (some ShaderRef.m_ps_blur_gaussian_bilateral),
        Cmd.SetSampler 0 SamplerRef.m_sampler_bilinear_clamp,
        Cmd.SetConstantBuffer 0 BufferScope.Buffer_Global BufferRef.m_buffer_global ]
    -- Horizontal Gaussian blur
    let st := cmd st (Cmd.Begin ScopeName.Pass_BlurBilateralGaussian_Horizontal)
    let st := UpdateBuffer st ShaderRef.m_ps_blur_gaussian_bilateral 0
      (BufferData.Struct_Blur ⟨pixel_stride, 0⟩ sigma)
    let st := cmds st
      [ Cmd.ClearTextures,
        Cmd.SetRenderTarget (some (st.tex tex_out).id) none,
        Cmd.SetTextures 0
          [ some (st.tex tex_in).id, some (st.tex TexSlot.m_g_buffer_depth).id,
            some (st.tex TexSlot.m_g_buffer_normal).id ],
        Cmd.SetConstantBuffer 1 BufferScope.Buffer_PixelShader
          (BufferRef.shader ShaderRef.m_ps_blur_gaussian_bilateral 0),
        Cmd.DrawIndexed st.m_quad_index_count 0 0,
        Cmd.End ]
    -- Vertical Gaussian blur
    let st := cmd st (Cmd.Begin ScopeName.Pass_BlurBilateralGaussian_Vertical)
    let st := UpdateBuffer st ShaderRef.m_ps_blur_gaussian_bilateral 1
      (BufferData.Struct_Blur ⟨0, pixel_stride⟩ sigma)
    let st := cmds st
      [ Cmd.ClearTextures,
        Cmd.SetRenderTarget (some (st.tex tex_in).id) none,
        Cmd.SetTextures 0
          [ some (st.tex tex_out).id, some (st.tex TexSlot.m_g_buffer_depth).id,
            some (st.tex TexSlot.m_g_buffer_normal).id ],
        Cmd.SetConstantBuffer 1 BufferScope.Buffer_PixelShader
          (BufferRef.shader ShaderRef.m_ps_blur_gaussian_bilateral 1),
        Cmd.DrawIndexed st.m_quad_index_count 0 0,
        Cmd.End,
        Cmd.End,
        Cmd.Submit ]
    swapTex st tex_in tex_out

/-- The body of the light loop of `Pass_PreLight`; the second component is `shadow_mapped`.
An entity of the light bucket without light component is a null dereference. -/
def Pass_PreLight.light (tex_shadows_out : TexSlot) (acc : Renderer × Bool) (entity : Entity) :
    Option (Renderer × Bool) :=
  match entity.light with
  | none => none
  | some light =>
    -- Skip lights that don't cast shadows
    if !light.castShadows then some acc
    else
      match Pass_ShadowMapping acc.1 tex_shadows_out (some light) with
      | none => none
      | some st => some (st, true)

/-- Embedding of `Renderer::Pass_PreLight`. -/
def Pass_PreLight (st : Renderer) (tex_in tex_shadows_out tex_ssao_out : TexSlot) :
    Option Renderer :=
  let st := cmds st
    [ Cmd.Begin ScopeName.Pass_PreLight,
      Cmd.SetDepthStencilState DepthStencilRef.m_depth_stencil_disabled,
      Cmd.SetRasterizerState RasterizerRef.m_rasterizer_cull_back_solid,
      Cmd.SetBlendState BlendRef.m_blend_disabled,
      Cmd.SetPrimitiveTopology Topology.PrimitiveTopology_TriangleList,
      Cmd.SetBufferVertex GeometryBuffer.m_quad_vertex,
      Cmd.SetBufferIndex GeometryBuffer.m_quad_index,
      Cmd.ClearRenderTarget (st.tex tex_shadows_out).id ⟨1, 1, 1, 1⟩ ]
  -- SHADOW MAPPING + BLUR
  match (st.m_entities RenderableType.Renderable_Light).foldlM
      (Pass_PreLight.light tex_shadows_out) (st, false) with
  | none => none
  | some (st, shadow_mapped) =>
    let st :=
      if !shadow_mapped then
        cmd st (Cmd.ClearRenderTarget (st.tex tex_shadows_out).id ⟨1, 1, 1, 1⟩)
      else st
    -- SSAO MAPPING + BLUR
    let st :=
      if Flags_IsSet st RenderFlag.Render_PostProcess_SSAO then
        let st := Pass_SSAO st tex_in
        let sigma := 1
        let pixel_stride := 1
        Pass_BlurBilateralGaussian st tex_in tex_ssao_out sigma pixel_stride
      else st
    some (cmd st Cmd.End)

/-! ## Light pass -/

/-- Modelled from the spec: `ShaderLight::UpdateConstantBuffer` is not among the sources. It
fills the constant buffer of the light shader from the matrices, the entities of the light
bucket and the SSR flag; the embedding keeps the last two. -/
def UpdateConstantBuffer (st : Renderer) (lights : List Entity) (ssr : Bool) : Renderer :=
  UpdateBuffer st ShaderRef.m_vps_light 0
    (BufferData.Struct_Light (lights.map fun e => e.id) ssr)

/-- Embedding of `Renderer::Pass_Light`. -/
def Pass_Light (st : Renderer) (tex_shadows tex_ssao tex_out : TexSlot) : Renderer :=
  if st.m_vps_light ≠ Shader_State.Shader_Compiled then st
  else
    let st := cmd st (Cmd.Begin ScopeName.Pass_Light)
    -- Update constant buffers
    let st := SetDefaultBuffer st ⌊st.m_resolution.x⌋₊ ⌊st.m_resolution.y⌋₊ MvpArg.default
    let st := UpdateConstantBuffer st (st.m_entities RenderableType.Renderable_Light)
      (Flags_IsSet st RenderFlag.Render_PostProcess_SSR)
    -- Prepare resources
    let textures : List (Option Nat) :=
      [ some (st.tex TexSlot.m_g_buffer_albedo).id,                         -- Albedo
        some (st.tex TexSlot.m_g_buffer_normal).id,                         -- Normal
        some (st.tex TexSlot.m_g_buffer_depth).id,                          -- Depth
        some (st.tex TexSlot.m_g_buffer_material).id,                       -- Material
        some (st.tex tex_shadows).id,                                       -- Shadows
        if Flags_IsSet st RenderFlag.Render_PostProcess_SSAO then some (st.tex tex_ssao).id
        else some (st.tex TexSlot.m_tex_white).id,                          -- SSAO
        some (st.tex TexSlot.m_render_tex_full_hdr_light2).id,              -- Previous frame
        match st.m_skybox with
        | some skybox => some skybox.texture.id
        | none => some (st.tex TexSlot.m_tex_white).id,                     -- Environment
        some (st.tex TexSlot.m_tex_lut_ibl).id ]                            -- LutIBL
    -- Setup command list
    cmds st
      [ Cmd.SetDepthStencilState DepthStencilRef.m_depth_stencil_disabled,
        Cmd.SetRasterizerState RasterizerRef.m_rasterizer_cull_back_solid,
        Cmd.SetBlendState BlendRef.m_blend_disabled,
        Cmd.SetPrimitiveTopology Topology.PrimitiveTopology_TriangleList,
        Cmd.SetViewport (st.tex tex_out).width (st.tex tex_out).height,
        Cmd.SetRenderTarget (some (st.tex tex_out).id) none,
        Cmd.SetShaderVertex ShaderRef.m_vps_light,
        Cmd.SetShaderPixel (some ShaderRef.m_vps_light),
        Cmd.SetInputLayout ShaderRef.m_vps_light,
        Cmd.SetSamplers 0
          [SamplerRef.m_sampler_trilinear_clamp, SamplerRef.m_sampler_point_clamp],
        Cmd.SetTextures 0 textures,
        Cmd.SetConstantBuffers 0 BufferScope.Buffer_Global
          [BufferRef.m_buffer_global, BufferRef.shader ShaderRef.m_vps_light 0],
        Cmd.SetBufferIndex GeometryBuffer.m_quad_index,
        Cmd.SetBufferVertex GeometryBuffer.m_quad_vertex,
        Cmd.DrawIndexed st.m_quad_index_count 0 0,
        Cmd.End,
        Cmd.Submit ]

/-! ## Post-processing chain -/

/-- The commands shared by the single-draw post-process passes (tone mapping, gamma
correction, chromatic aberration, sharpening), which differ in scope name, pixel shader and
sampler: clear the bound textures, render into `tex_out`, read `tex_in`. -/
def Pass_SingleDraw (st : Renderer) (name : ScopeName) (shader : ShaderRef)
    (sampler : SamplerRef) (tex_in tex_out : TexSlot) : Renderer :=
  let st := cmd st (Cmd.Begin name)
  -- Prepare resources
  let st := SetDefaultBuffer st (st.tex tex_out).width (st.tex tex_out).height MvpArg.default
  cmds st
    [ Cmd.ClearTextures,
      Cmd.SetRenderTarget (some (st.tex tex_out).id) none,
      Cmd.SetViewport (st.tex tex_out).width (st.tex tex_out).height,
      Cmd.SetShaderPixel (some shader),
      Cmd.SetTexture 0 (some (st.tex tex_in).id),
      Cmd.SetSampler 0 sampler,
      Cmd.SetConstantBuffer 0 BufferScope.Buffer_Global BufferRef.m_buffer_global,
      Cmd.DrawIndexed st.m_quad_index_count 0 0,
      Cmd.End,
      Cmd.Submit ]

/-- Embedding of `Renderer::Pass_ToneMapping`. -/
def Pass_ToneMapping (st : Renderer) (tex_in tex_out : TexSlot) : Renderer :=
  Pass_SingleDraw st ScopeName.Pass_ToneMapping ShaderRef.m_ps_tone_mapping
    SamplerRef.m_sampler_point_clamp tex_in tex_out

/-- Embedding of `Renderer::Pass_GammaCorrection`. -/
def Pass_GammaCorrection (st : Renderer) (tex_in tex_out : TexSlot) : Renderer :=
  Pass_SingleDraw st ScopeName.Pass_GammaCorrection ShaderRef.m_ps_gamma_correction
    SamplerRef.m_sampler_point_clamp tex_in tex_out

/-- Embedding of `Renderer::Pass_ChromaticAberration`. -/
def Pass_ChromaticAberration (st : Renderer) (tex_in tex_out : TexSlot) : Renderer :=
  Pass_SingleDraw st ScopeName.Pass_ChromaticAberration ShaderRef.m_ps_chromatic_aberration
    SamplerRef.m_sampler_bilinear_clamp tex_in tex_out

/-- Embedding of `Renderer::Pass_Sharpening`. -/
def Pass_Sharpening (st : Renderer) (tex_in tex_out : TexSlot) : Renderer :=
  Pass_SingleDraw st ScopeName.Pass_Sharpening ShaderRef.m_ps_sharpening
    SamplerRef.m_sampler_bilinear_clamp tex_in tex_out

/-- Embedding of `Renderer::Pass_Dithering`. -/
def Pass_Dithering (st : Renderer) (tex_in tex_out : TexSlot) : Renderer :=
  let st := cmd st (Cmd.Begin ScopeName.Pass_Dithering)
  -- Prepare resources
  let st := SetDefaultBuffer st (st.tex tex_out).width (st.tex tex_out).height MvpArg.default
  cmds st
    [ Cmd.ClearTextures,
      Cmd.SetRenderTarget (some (st.tex tex_out).id) none,
      Cmd.SetViewport (st.tex tex_out).width (st.tex tex_out).height,
      Cmd.SetShaderPixel (some ShaderRef.m_ps_dithering),
      Cmd.SetSampler 0 SamplerRef.m_sampler_point_clamp,
      Cmd.SetTexture 0 (some (st.tex tex_in).id),
      Cmd.SetConstantBuffer 0 BufferScope.Buffer_Global BufferRef.m_buffer_global,
      Cmd.DrawIndexed st.m_quad_index_count 0 0,
      Cmd.End,
      Cmd.Submit ]

/-- Embedding of `Renderer::Pass_MotionBlur`. -/
def Pass_MotionBlur (st : Renderer) (tex_in tex_out : TexSlot) : Renderer :=
  let st := cmd st (Cmd.Begin ScopeName.Pass_MotionBlur)
  -- Prepare resources
  let textures : List (Option Nat) :=
    [some (st.tex tex_in).id, some (st.tex TexSlot.m_g_buffer_velocity).id]
  let st := SetDefaultBuffer st (st.tex tex_out).width (st.tex tex_out).height MvpArg.default
  cmds st
    [ Cmd.ClearTextures,
      Cmd.SetRenderTarget (some (st.tex tex_out).id) none,
      Cmd.SetViewport (st.tex tex_out).width (st.tex tex_out).height,
      Cmd.SetShaderPixel (some ShaderRef.m_ps_motion_blur),
      Cmd.SetSampler 0 SamplerRef.m_sampler_bilinear_clamp,
      Cmd.SetTextures 0 textures,
      Cmd.SetConstantBuffer 0 BufferScope.Buffer_Global BufferRef.m_buffer_global,
      Cmd.DrawIndexed st.m_quad_index_count 0 0,
      Cmd.End,
      Cmd.Submit ]

/-- Embedding of `Renderer::Pass_FXAA`. -/
def Pass_FXAA (st : Renderer) (tex_in tex_out : TexSlot) : Renderer :=
  let st := cmd st (Cmd.Begin ScopeName.Pass_FXAA)
  -- Prepare resources
  let st := SetDefaultBuffer st (st.tex tex_out).width (st.tex tex_out).height MvpArg.default
  let st := cmds st
    [ Cmd.ClearTextures,
      Cmd.SetRenderTarget (some (st.tex tex_out).id) none,
      Cmd.SetViewport (st.tex tex_out).width (st.tex tex_out).height,
      Cmd.SetSampler 0 SamplerRef.m_sampler_bilinear_clamp,
      Cmd.SetConstantBuffer 0 BufferScope.Buffer_Global BufferRef.m_buffer_global,
      -- Luma
      Cmd.SetRenderTarget (some (st.tex tex_out).id) none,
      Cmd.SetShaderPixel (some ShaderRef.m_ps_luma),
      Cmd.SetTexture 0 (some (st.tex tex_in).id),
      Cmd.DrawIndexed st.m_quad_index_count 0 0,
      -- FXAA
      Cmd.SetRenderTarget (some (st.tex tex_in).id) none,
      Cmd.SetShaderPixel (some ShaderRef.m_ps_fxaa),
      Cmd.SetTexture 0 (some (st.tex tex_out).id),
      Cmd.DrawIndexed st.m_quad_index_count 0 0,
      Cmd.End,
      Cmd.Submit ]
  -- Swap the textures
  swapTex st tex_in tex_out

/-- Embedding of `Renderer::Pass_TAA`. -/
def Pass_TAA (st : Renderer) (tex_in tex_out : TexSlot) : Renderer :=
  let st := cmd st (Cmd.Begin ScopeName.Pass_TAA)
  -- Resolve
  let current := st.tex TexSlot.m_render_tex_full_taa_current
  let st := SetDefaultBuffer st current.width current.height MvpArg.default
  let textures : List (Option Nat) :=
    [ some (st.tex TexSlot.m_render_tex_full_taa_history).id, some (st.tex tex_in).id,
      some (st.tex TexSlot.m_g_buffer_velocity).id, some (st.tex TexSlot.m_g_buffer_depth).id ]
  let st := cmds st
    [ Cmd.ClearTextures,
      Cmd.SetRenderTarget (some current.id) none,
      Cmd.SetViewport current.width current.height,
      Cmd.SetShaderPixel (some ShaderRef.m_ps_taa),
      Cmd.SetSampler 0 SamplerRef.m_sampler_bilinear_clamp,
      Cmd.SetTextures 0 textures,
      Cmd.SetConstantBuffer 0 BufferScope.Buffer_Global BufferRef.m_buffer_global,
      Cmd.DrawIndexed st.m_quad_index_count 0 0 ]
  -- Output to texOut
  let st := SetDefaultBuffer st (st.tex tex_out).width (st.tex tex_out).height MvpArg.default
  let st := cmds st
    [ Cmd.SetRenderTarget (some (st.tex tex_out).id) none,
      Cmd.SetViewport (st.tex tex_out).width (st.tex tex_out).height,
      Cmd.SetShaderPixel (some ShaderRef.m_ps_texture),
      Cmd.SetSampler 0 SamplerRef.m_sampler_point_clamp,
      Cmd.SetTexture 0 (some (st.tex TexSlot.m_render_tex_full_taa_current).id),
      Cmd.SetConstantBuffer 0 BufferScope.Buffer_Global BufferRef.m_buffer_global,
      Cmd.DrawIndexed st.m_quad_index_count 0 0,
      Cmd.End,
      Cmd.Submit ]
  -- Swap textures so current becomes history
  swapTex st TexSlot.m_render_tex_full_taa_current TexSlot.m_render_tex_full_taa_history

/-- One block of `Pass_Bloom`: a named scope that renders into `target` with a pixel shader,
reading the given textures. -/
def Pass_Bloom.block (st : Renderer) (name : ScopeName) (target : TexSlot) (shader : ShaderRef)
    (input : Cmd) : Renderer :=
  let st := cmd st (Cmd.Begin name)
  -- Prepare resources
  let st := SetDefaultBuffer st (st.tex target).width (st.tex target).height MvpArg.default
  cmds st
    [ Cmd.SetRenderTarget (some (st.tex target).id) none,
      Cmd.SetViewport (st.tex target).width (st.tex target).height,
      Cmd.SetShaderPixel (some shader),
      input,
      Cmd.SetConstantBuffer 0 BufferScope.Buffer_Global BufferRef.m_buffer_global,
      Cmd.DrawIndexed st.m_quad_index_count 0 0,
      Cmd.End ]

/-- Embedding of `Renderer::Pass_Bloom`. -/
def Pass_Bloom (st : Renderer) (tex_in tex_out : TexSlot) : Renderer :=
  let st := cmds st
    [Cmd.Begin ScopeName.Pass_Bloom, Cmd.SetSampler 0 SamplerRef.m_sampler_bilinear_clamp]
  let st := Pass_Bloom.block st ScopeName.Downsample TexSlot.m_render_tex_quarter_blur1
    ShaderRef.m_ps_downsample_box (Cmd.SetTexture 0 (some (st.tex tex_in).id))
  let st := Pass_Bloom.block st ScopeName.Luminance TexSlot.m_render_tex_quarter_blur2
    ShaderRef.m_ps_bloom_bright
    (Cmd.SetTexture 0 (some (st.tex TexSlot.m_render_tex_quarter_blur1).id))
  -- Gaussian blur
  let sigma := 2
  let st := Pass_BlurGaussian st TexSlot.m_render_tex_quarter_blur2
    TexSlot.m_render_tex_quarter_blur1 sigma st.default_pixel_stride
  -- Upsampling progressively yields the best results [Kraus2007]
  let st := Pass_Bloom.block st ScopeName.Upscale TexSlot.m_render_tex_half_spare2
    ShaderRef.m_ps_upsample_box
    (Cmd.SetTexture 0 (some (st.tex TexSlot.m_render_tex_quarter_blur2).id))
  let st := Pass_Bloom.block st ScopeName.Upscale TexSlot.m_render_tex_full_spare
    ShaderRef.m_ps_upsample_box
    (Cmd.SetTexture 0 (some (st.tex TexSlot.m_render_tex_half_spare2).id))
  let st := Pass_Bloom.block st ScopeName.Additive_Blending tex_out ShaderRef.m_ps_bloom_blend
    (Cmd.SetTextures 0
      [some (st.tex tex_in).id, some (st.tex TexSlot.m_render_tex_full_spare).id])
  cmds st [Cmd.End, Cmd.Submit]

/-- The lambda `swap_targets` of `Pass_PostLight`. -/
def swap_targets (st : Renderer) (tex_in tex_out : TexSlot) : Renderer :=
  swapTex (cmd st Cmd.Submit) tex_out tex_in

/-- One optional stage of `Pass_PostLight`: when enabled, run the pass and swap the
targets. -/
def Pass_PostLight.stage (enabled : Bool) (pass : Renderer → TexSlot → TexSlot → Renderer)
    (tex_in tex_out : TexSlot) (st : Renderer) : Renderer :=
  if enabled then swap_targets (pass st tex_in tex_out) tex_in tex_out else st

/-- The eight optional stages of `Pass_PostLight`, from TAA to chromatic aberration. -/
def Pass_PostLight.optional (st : Renderer) (tex_in tex_out : TexSlot) : Renderer :=
  -- TAA
  let st := Pass_PostLight.stage (Flags_IsSet st RenderFlag.Render_PostProcess_TAA)
    Pass_TAA tex_in tex_out st
  -- Bloom
  let st := Pass_PostLight.stage (Flags_IsSet st RenderFlag.Render_PostProcess_Bloom)
    Pass_Bloom tex_in tex_out st
  -- Motion Blur
  let st := Pass_PostLight.stage (Flags_IsSet st RenderFlag.Render_PostProcess_MotionBlur)
    Pass_MotionBlur tex_in tex_out st
  -- Dithering
  let st := Pass_PostLight.stage (Flags_IsSet st RenderFlag.Render_PostProcess_Dithering)
    Pass_Dithering tex_in tex_out st
  -- Tone-Mapping
  let st := Pass_PostLight.stage (decide (st.m_tonemapping ≠ ToneMapping.ToneMapping_Off))
    Pass_ToneMapping tex_in tex_out st
  -- FXAA
  let st := Pass_PostLight.stage (Flags_IsSet st RenderFlag.Render_PostProcess_FXAA)
    Pass_FXAA tex_in tex_out st
  -- Sharpening
  let st := Pass_PostLight.stage (Flags_IsSet st RenderFlag.Render_PostProcess_Sharpening)
    Pass_Sharpening tex_in tex_out st
  -- Chromatic aberration
  Pass_PostLight.stage (Flags_IsSet st RenderFlag.Render_PostProcess_ChromaticAberration)
    Pass_ChromaticAberration tex_in tex_out st

/-- Embedding of `Renderer::Pass_PostLight`. -/
def Pass_PostLight (st : Renderer) (tex_in tex_out : TexSlot) : Renderer :=
  -- All post-process passes share the following, so set them once here
  let st := cmds st
    [ Cmd.Begin ScopeName.Pass_PostLight,
      Cmd.SetDepthStencilState DepthStencilRef.m_depth_stencil_disabled,
      Cmd.SetRasterizerState RasterizerRef.m_rasterizer_cull_back_solid,
      Cmd.SetBlendState BlendRef.m_blend_disabled,
      Cmd.SetPrimitiveTopology Topology.PrimitiveTopology_TriangleList,
      Cmd.SetBufferVertex GeometryBuffer.m_quad_vertex,
      Cmd.SetBufferIndex GeometryBuffer.m_quad_index,
      Cmd.SetShaderVertex ShaderRef.m_vs_quad,
      Cmd.SetInputLayout ShaderRef.m_vs_quad ]
  let st := Pass_PostLight.optional st tex_in tex_out
  -- Gamma correction
  let st := Pass_GammaCorrection st tex_in tex_out
  cmds st [Cmd.End, Cmd.Submit]

/-! ## Line pass -/

/-- Embedding of `Renderer::DrawLine` (`Renderer.cpp`, with the member names of this
revision): two vertices are appended to the list chosen by `depth`. -/
def DrawLine (st : Renderer) (from_ to_ : Directus.Vector3) (color_from color_to : Directus.Vector4)
    (depth : Bool) : Renderer :=
  if depth then
    { st with
      m_lines_list_depth_enabled :=
        st.m_lines_list_depth_enabled ++ [⟨from_, color_from⟩, ⟨to_, color_to⟩] }
  else
    { st with
      m_lines_list_depth_disabled :=
        st.m_lines_list_depth_disabled ++ [⟨from_, color_from⟩, ⟨to_, color_to⟩] }

/-- The twelve edges of a box, in the order `Renderer::DrawBox` draws them. -/
def boxEdges (box : BoundingBox) : List (Directus.Vector3 × Directus.Vector3) :=
  let min := box.min
  let max := box.max
  [ (⟨min.x, min.y, min.z⟩, ⟨max.x, min.y, min.z⟩),
    (⟨max.x, min.y, min.z⟩, ⟨max.x, max.y, min.z⟩),
    (⟨max.x, max.y, min.z⟩, ⟨min.x, max.y, min.z⟩),
    (⟨min.x, max.y, min.z⟩, ⟨min.x, min.y, min.z⟩),
    (⟨min.x, min.y, min.z⟩, ⟨min.x, min.y, max.z⟩),
    (⟨max.x, min.y, min.z⟩, ⟨max.x, min.y, max.z⟩),
    (⟨max.x, max.y, min.z⟩, ⟨max.x, max.y, max.z⟩),
    (⟨min.x, max.y, min.z⟩, ⟨min.x, max.y, max.z⟩),
    (⟨min.x, min.y, max.z⟩, ⟨max.x, min.y, max.z⟩),
    (⟨max.x, min.y, max.z⟩, ⟨max.x, max.y, max.z⟩),
    (⟨max.x, max.y, max.z⟩, ⟨min.x, max.y, max.z⟩),
    (⟨min.x, max.y, max.z⟩, ⟨min.x, min.y, max.z⟩) ]

/-- Embedding of `Renderer::DrawBox` (`Renderer.cpp`): one `DrawLine` per edge. -/
def DrawBox (st : Renderer) (box : BoundingBox) (color : Directus.Vector4) (depth : Bool) :
    Renderer :=
  (boxEdges box).foldl (fun s e => DrawLine s e.1 e.2 color color depth) st

/-- The loop `for (entity : entities) if (renderable) DrawBox(aabb, color)` of
`Pass_Lines`. -/
def Pass_Lines.boxes (st : Renderer) (entities : List Entity) : Renderer :=
  entities.foldl
    (fun s entity =>
      match entity.renderable with
      | some renderable => DrawBox s renderable.aabb ⟨41 / 100, 86 / 100, 1, 1⟩ true
      | none => s)
    st

/-- The part of `Pass_Lines` that generates the lines of the debug primitives: the picking
ray of the camera and the bounding boxes of the opaque and the transparent entities. -/
def Pass_Lines.generate (st : Renderer) (camera : Camera) (draw_picking_ray draw_aabb : Bool) :
    Renderer :=
  -- Picking ray
  let st :=
    if draw_picking_ray then
      let ray := camera.pickingRay
      let stop : Directus.Vector3 :=
        ⟨ray.start.x + ray.direction.x * camera.farPlane,
          ray.start.y + ray.direction.y * camera.farPlane,
          ray.start.z + ray.direction.z * camera.farPlane⟩
      DrawLine st ray.start stop ⟨0, 1, 0, 1⟩ ⟨0, 1, 0, 1⟩ true
    else st
  -- AABBs
  if draw_aabb then
    let st := Pass_Lines.boxes st (st.m_entities RenderableType.Renderable_ObjectOpaque)
    Pass_Lines.boxes st (st.m_entities RenderableType.Renderable_ObjectTransparent)
  else st

/-- Modelled from the spec: `RHI_VertexBuffer::CreateDynamic<T>(n)` is not among the sources.
It recreates the buffer with room for `n` vertices (the line vertex buffer is grown on
demand). -/
def CreateDynamic (_buffer : RHI_VertexBuffer) (vertexCount : Nat) : RHI_VertexBuffer :=
  { vertexCount := vertexCount, data := [] }

/-- The statements `Map`, `copy(list.begin(), list.end(), buffer)`, `Unmap` on the line vertex
buffer. Copying more vertices than the buffer has room for writes past its end: no result. -/
def copyToBuffer (buffer : RHI_VertexBuffer) (vertices : List RHI_Vertex_PosCol) :
    Option RHI_VertexBuffer :=
  if vertices.length ≤ buffer.vertexCount then some { buffer with data := vertices } else none

/-- The block of `Pass_Lines` that draws the lines that require depth. The size of the list is
cast to `uint32_t`. -/
def Pass_Lines.lines_depth_enabled (st : Renderer) : Option Renderer :=
  let line_vertex_buffer_size := st.m_lines_list_depth_enabled.length % 2 ^ 32
  if line_vertex_buffer_size ≠ 0 then
    -- Grow vertex buffer (if needed)
    let buffer :=
      if line_vertex_buffer_size > st.m_vertex_buffer_lines.vertexCount then
        CreateDynamic st.m_vertex_buffer_lines line_vertex_buffer_size
      else st.m_vertex_buffer_lines
    -- Update vertex buffer
    match copyToBuffer buffer st.m_lines_list_depth_enabled with
    | none => none
    | some buffer =>
      let st := { st with m_vertex_buffer_lines := buffer }
      let st := SetDefaultBuffer st ⌊st.m_resolution.x⌋₊ ⌊st.m_resolution.y⌋₊
        MvpArg.view_projection_unjittered
      let st := cmds st
        [ Cmd.SetBufferVertex GeometryBuffer.m_vertex_buffer_lines,
          Cmd.SetConstantBuffer 0 BufferScope.Buffer_Global BufferRef.m_buffer_global,
          Cmd.Draw line_vertex_buffer_size ]
      some { st with m_lines_list_depth_enabled := [] }
  else some st

/-- The block of `Pass_Lines` that draws the lines that don't require depth. -/
def Pass_Lines.lines_depth_disabled (st : Renderer) : Option Renderer :=
  let line_vertex_buffer_size := st.m_lines_list_depth_disabled.length % 2 ^ 32
  if line_vertex_buffer_size ≠ 0 then
    -- Grow vertex buffer (if needed)
    let buffer :=
      if line_vertex_buffer_size > st.m_vertex_buffer_lines.vertexCount then
        CreateDynamic st.m_vertex_buffer_lines line_vertex_buffer_size
      else st.m_vertex_buffer_lines
    -- Update vertex buffer
    match copyToBuffer buffer st.m_lines_list_depth_disabled with
    | none => none
    | some buffer =>
      let st := { st with m_vertex_buffer_lines := buffer }
      -- Set pipeline state
      let st := cmd st (Cmd.SetBufferVertex GeometryBuffer.m_vertex_buffer_lines)
      let st := SetDefaultBuffer st ⌊st.m_resolution.x⌋₊ ⌊st.m_resolution.y⌋₊
        MvpArg.view_projection_unjittered
      let st := cmd st (Cmd.Draw line_vertex_buffer_size)
      some { st with m_lines_list_depth_disabled := [] }
  else some st

/-- The part of `Pass_Lines` between the generation of the lines and the first line block:
the pipeline state, and the grid. -/
def Pass_Lines.begin (st : Renderer) (tex_out : TexSlot) (draw_grid : Bool) : Renderer :=
  -- Begin command list
  let st := cmds st
    [ Cmd.SetViewport (st.tex tex_out).width (st.tex tex_out).height,
      Cmd.SetRasterizerState RasterizerRef.m_rasterizer_cull_back_wireframe,
      Cmd.SetBlendState BlendRef.m_blend_disabled,
      Cmd.SetPrimitiveTopology Topology.PrimitiveTopology_LineList,
      Cmd.SetShaderVertex ShaderRef.m_vps_color,
      Cmd.SetShaderPixel (some ShaderRef.m_vps_color),
      Cmd.SetInputLayout ShaderRef.m_vps_color,
      Cmd.SetSampler 0 SamplerRef.m_sampler_point_clamp,
      -- Draw lines that require depth
      Cmd.SetDepthStencilState DepthStencilRef.m_depth_stencil_enabled,
      Cmd.SetRenderTarget (some (st.tex tex_out).id)
        (some (depthView (st.tex TexSlot.m_g_buffer_depth) 0)) ]
  -- Grid
  if draw_grid then
    let st := SetDefaultBuffer st ⌊st.m_resolution.x⌋₊ ⌊st.m_resolution.y⌋₊
      MvpArg.grid_world_view_projection_unjittered
    cmds st
      [ Cmd.SetBufferIndex GeometryBuffer.m_gizmo_grid_index,
        Cmd.SetBufferVertex GeometryBuffer.m_gizmo_grid_vertex,
        Cmd.SetBlendState BlendRef.m_blend_enabled,
        Cmd.SetConstantBuffer 0 BufferScope.Buffer_Global BufferRef.m_buffer_global,
        Cmd.DrawIndexed st.m_gizmo_grid_index_count 0 0 ]
  else st

/-- Embedding of `Renderer::Pass_Lines`. The pass dereferences `m_camera` without test. -/
def Pass_Lines (st : Renderer) (tex_out : TexSlot) : Option Renderer :=
  let draw_picking_ray := Flags_IsSet st RenderFlag.Render_Gizmo_PickingRay
  let draw_aabb := Flags_IsSet st RenderFlag.Render_Gizmo_AABB
  let draw_grid := Flags_IsSet st RenderFlag.Render_Gizmo_Grid
  let draw_lines :=
    !st.m_lines_list_depth_enabled.isEmpty || !st.m_lines_list_depth_disabled.isEmpty
  let draw := draw_picking_ray || draw_aabb || draw_grid || draw_lines
  if !draw then some st
  else
    let st := cmd st (Cmd.Begin ScopeName.Pass_Lines)
    match st.m_camera with
    | none => none
    | some camera =>
      -- Generate lines for debug primitives offered by the renderer
      let st := Pass_Lines.generate st camera draw_picking_ray draw_aabb
      let st := Pass_Lines.begin st tex_out draw_grid
      match Pass_Lines.lines_depth_enabled st with
      | none => none
      | some st =>
        -- Draw lines that don't require depth
        let st := cmds st
          [ Cmd.SetDepthStencilState DepthStencilRef.m_depth_stencil_disabled,
            Cmd.SetRenderTarget (some (st.tex tex_out).id) none ]
        match Pass_Lines.lines_depth_disabled st with
        | none => none
        | some st => some (cmds st [Cmd.End, Cmd.Submit])

/-! ## Transparent pass -/

/-- The body of the entity loop of `Pass_Transparent`. The frustum test dereferences `m_camera`
without test. Of the object buffer `Struct_Transparency`, the embedding keeps the entity (for
its transform), the albedo of the material and the average light direction. -/
def Pass_Transparent.entity (st : Renderer) (entity : Entity) : Option Renderer :=
  -- Get renderable and material
  match entity.renderable with
  | none => some st
  | some renderable =>
    match renderable.material with
    | none => some st
    | some material =>
      -- Get geometry
      match renderable.model with
      | none => some st
      | some model =>
        match model.vertexBuffer, model.indexBuffer with
        | some vertexBuffer, some indexBuffer =>
          match st.m_camera with
          | none => none
          | some camera =>
            -- Skip objects outside of the view frustum
            if !camera.IsInViewFrustrum renderable then some st
            else
              -- Set the following per object
              let st := cmds st
                [ Cmd.SetRasterizerState
                    (GetRasterizerState material.cullMode RHI_Fill_Mode.Fill_Solid),
                  Cmd.SetBufferIndex (GeometryBuffer.buffer indexBuffer),
                  Cmd.SetBufferVertex (GeometryBuffer.buffer vertexBuffer) ]
              -- Constant buffer
              let st := UpdateBuffer st ShaderRef.m_vps_transparent 0
                (BufferData.Struct_Transparency entity.id material.colorAlbedo
                  st.m_directional_light_avg_dir)
              let st := cmds st
                [ Cmd.SetConstantBuffer 1 BufferScope.Buffer_Global
                    (BufferRef.shader ShaderRef.m_vps_transparent 0),
                  Cmd.DrawIndexed renderable.indexCount renderable.indexOffset
                    renderable.vertexOffset ]
              some { st with m_renderer_meshes_rendered := st.m_renderer_meshes_rendered + 1 }
        | _, _ => some st

/-- Embedding of `Renderer::Pass_Transparent`. -/
def Pass_Transparent (st : Renderer) (tex_out : TexSlot) : Option Renderer :=
  let entities_transparent := st.m_entities RenderableType.Renderable_ObjectTransparent
  if entities_transparent.isEmpty then some st
  else
    -- Prepare resources
    let textures : List (Option Nat) :=
      [ some (st.tex TexSlot.m_g_buffer_depth).id,
        match st.m_skybox with
        | some skybox => some skybox.texture.id
        | none => none ]
    -- Begin command list
    let st := cmds st
      [ Cmd.Begin ScopeName.Pass_Transparent,
        Cmd.SetPrimitiveTopology Topology.PrimitiveTopology_TriangleList,
        Cmd.SetBlendState BlendRef.m_blend_enabled,
        Cmd.SetDepthStencilState DepthStencilRef.m_depth_stencil_enabled,
        Cmd.SetRenderTarget (some (st.tex tex_out).id)
          (some (depthView (st.tex TexSlot.m_g_buffer_depth) 0)),
        Cmd.SetViewport (st.tex tex_out).width (st.tex tex_out).height,
        Cmd.SetTextures 0 textures,
        Cmd.SetSampler 0 SamplerRef.m_sampler_bilinear_clamp,
        Cmd.SetShaderVertex ShaderRef.m_vps_transparent,
        Cmd.SetInputLayout ShaderRef.m_vps_transparent,
        Cmd.SetShaderPixel (some ShaderRef.m_vps_transparent) ]
    match entities_transparent.foldlM Pass_Transparent.entity st with
    | none => none
    | some st => some (cmds st [Cmd.End, Cmd.Submit])

/-! ## Gizmo pass -/

/-- The constant `GIZMO_MAX_SIZE`. -/
def GIZMO_MAX_SIZE : ℚ := 5

/-- The constant `GIZMO_MIN_SIZE`. -/
def GIZMO_MIN_SIZE : ℚ := 1 / 10

/-- Modelled from the spec: `Helper::Clamp` is not among the sources. It limits a value to the
range from `lower` to `upper` (the gizmo icons are clamped to a min/max size range). -/
def Clamp (x lower upper : ℚ) : ℚ :=
  if x < lower then lower else if x > upper then upper else x

/-- The gizmo texture `Pass_Gizmos` chooses for a light type. -/
def gizmoLightTexture (st : Renderer) : LightType → RHI_Texture
  | LightType.LightType_Directional => st.m_gizmo_tex_light_directional
  | LightType.LightType_Point => st.m_gizmo_tex_light_point
  | LightType.LightType_Spot => st.m_gizmo_tex_light_spot

/-- The body of the light loop of `Pass_Gizmos`. It dereferences `m_camera` and the light
component of the entity without test. `CreateBuffers` recreates the buffers of the rectangle;
the default buffer is given the width of the icon twice. -/
def Pass_Gizmos.light (st : Renderer) (entity : Entity) : Option Renderer :=
  match st.m_camera with
  | none => none
  | some camera =>
    let v_dot_l := camera.v_dot_l entity
    -- Don't bother drawing if out of view
    if v_dot_l ≤ 1 / 2 then some st
    else
      -- Compute light screen space position and scale (based on distance from the camera)
      let position_light_screen := camera.WorldToScreenPoint entity
      let distance := camera.distance entity
      let scale := GIZMO_MAX_SIZE / distance
      let scale := Clamp scale GIZMO_MIN_SIZE GIZMO_MAX_SIZE
      -- Choose texture based on light type
      match entity.light with
      | none => none
      | some light =>
        let light_tex := gizmoLightTexture st light.lightType
        -- Construct appropriate rectangle
        let tex_width := (light_tex.width : ℚ) * scale
        let tex_height := (light_tex.height : ℚ) * scale
        let rectangle : Rectangle :=
          { x := position_light_screen.x - tex_width * (1 / 2),
            y := position_light_screen.y - tex_height * (1 / 2),
            width := tex_width, height := tex_height }
        let st :=
          if rectangle ≠ st.m_gizmo_light_rect then { st with m_gizmo_light_rect := rectangle }
          else st
        let st := SetDefaultBuffer st ⌊tex_width⌋₊ ⌊tex_width⌋₊
          MvpArg.m_view_projection_orthographic
        some (cmds st
          [ Cmd.SetShaderVertex ShaderRef.m_vs_quad,
            Cmd.SetShaderPixel (some ShaderRef.m_ps_texture),
            Cmd.SetInputLayout ShaderRef.m_vs_quad,
            Cmd.SetSampler 0 SamplerRef.m_sampler_bilinear_clamp,
            Cmd.SetConstantBuffer 0 BufferScope.Buffer_Global BufferRef.m_buffer_global,
            Cmd.SetTexture 0 (some light_tex.id),
            Cmd.SetBufferIndex GeometryBuffer.m_gizmo_light_rect_index,
            Cmd.SetBufferVertex GeometryBuffer.m_gizmo_light_rect_vertex,
            Cmd.DrawIndexed st.m_gizmo_light_rect_index_count 0 0,
            Cmd.Submit ])

/-- The statements of `Pass_Gizmos` for one handle of the transform gizmo: the object buffer
`index` of the gizmo shader is written, bound and drawn with. -/
def Pass_Gizmos.axis (st : Renderer) (axis : GizmoAxis) (index : Nat) : Renderer :=
  let st := UpdateBuffer st ShaderRef.m_vps_gizmo_transform index
    (BufferData.Struct_Matrix_Vector3 axis)
  cmds st
    [ Cmd.SetConstantBuffer 1 BufferScope.Buffer_Global
        (BufferRef.shader ShaderRef.m_vps_gizmo_transform index),
      Cmd.DrawIndexed st.m_gizmo_transform.indexCount 0 0 ]

/-- The block of `Pass_Gizmos` that draws the transform gizmo. -/
def Pass_Gizmos.transform (st : Renderer) : Renderer :=
  let st := cmd st (Cmd.Begin ScopeName.Pass_Gizmos_Transform)
  let st := SetDefaultBuffer st ⌊st.m_resolution.x⌋₊ ⌊st.m_resolution.y⌋₊
    MvpArg.m_view_projection_orthographic
  let st := cmds st
    [ Cmd.SetShaderVertex ShaderRef.m_vps_gizmo_transform,
      Cmd.SetShaderPixel (some ShaderRef.m_vps_gizmo_transform),
      Cmd.SetInputLayout ShaderRef.m_vps_gizmo_transform,
      Cmd.SetBufferIndex GeometryBuffer.m_gizmo_transform_index,
      Cmd.SetBufferVertex GeometryBuffer.m_gizmo_transform_vertex,
      Cmd.SetConstantBuffer 0 BufferScope.Buffer_Global BufferRef.m_buffer_global ]
  -- Axis - X
  let st := Pass_Gizmos.axis st GizmoAxis.Right 0
  -- Axis - Y
  let st := Pass_Gizmos.axis st GizmoAxis.Up 1
  -- Axis - Z
  let st := Pass_Gizmos.axis st GizmoAxis.Forward 2
  -- Axes - XYZ
  let st := if st.m_gizmo_transform.drawXYZ then Pass_Gizmos.axis st GizmoAxis.One 3 else st
  cmd st Cmd.End

/-- Embedding of `Renderer::Pass_Gizmos`. -/
def Pass_Gizmos (st : Renderer) (tex_out : TexSlot) : Option Renderer :=
  let render_lights := Flags_IsSet st RenderFlag.Render_Gizmo_Lights
  let render_transform := Flags_IsSet st RenderFlag.Render_Gizmo_Transform
  let render := render_lights || render_transform
  if !render then some st
  else
    let st := cmds st
      [ Cmd.Begin ScopeName.Pass_Gizmos,
        Cmd.SetDepthStencilState DepthStencilRef.m_depth_stencil_disabled,
        Cmd.SetRasterizerState RasterizerRef.m_rasterizer_cull_back_solid,
        Cmd.SetBlendState BlendRef.m_blend_enabled,
        Cmd.SetPrimitiveTopology Topology.PrimitiveTopology_TriangleList,
        Cmd.SetViewport (st.tex tex_out).width (st.tex tex_out).height,
        Cmd.SetRenderTarget (some (st.tex tex_out).id) none ]
    let lights := st.m_entities RenderableType.Renderable_Light
    let st_lights :=
      if render_lights && !lights.isEmpty then
        let st := cmd st (Cmd.Begin ScopeName.Pass_Gizmos_Lights)
        match lights.foldlM Pass_Gizmos.light st with
        | none => none
        | some st => some (cmd st Cmd.End)
      else some st
    match st_lights with
    | none => none
    | some st =>
      -- Transform
      let st :=
        if render_transform && st.m_gizmo_transform.update then Pass_Gizmos.transform st
        else st
      some (cmds st [Cmd.End, Cmd.Submit])

/-! ## Performance metrics and debug buffer -/

/-- Embedding of `Renderer::Pass_PerformanceMetrics`. The font holds the text of the metrics
once `SetText` has run. -/
def Pass_PerformanceMetrics (st : Renderer) (tex_out : TexSlot) : Renderer :=
  let draw := Flags_IsSet st RenderFlag.Render_Gizmo_PerformanceMetrics
  if !draw then st
  else
    let st := cmd st (Cmd.Begin ScopeName.Pass_PerformanceMetrics)
    -- Updated text
    let st := UpdateBuffer st ShaderRef.m_vps_font 0 BufferData.Struct_Matrix_Vector4
    cmds st
      [ Cmd.SetDepthStencilState DepthStencilRef.m_depth_stencil_disabled,
        Cmd.SetRasterizerState RasterizerRef.m_rasterizer_cull_back_solid,
        Cmd.SetPrimitiveTopology Topology.PrimitiveTopology_TriangleList,
        Cmd.SetRenderTarget (some (st.tex tex_out).id) none,
        Cmd.SetViewport (st.tex tex_out).width (st.tex tex_out).height,
        Cmd.SetBlendState BlendRef.m_blend_enabled,
        Cmd.SetTexture 0 (some st.m_font.atlas.id),
        Cmd.SetSampler 0 SamplerRef.m_sampler_bilinear_clamp,
        Cmd.SetConstantBuffer 0 BufferScope.Buffer_Global
          (BufferRef.shader ShaderRef.m_vps_font 0),
        Cmd.SetShaderVertex ShaderRef.m_vps_font,
        Cmd.SetShaderPixel (some ShaderRef.m_vps_font),
        Cmd.SetInputLayout ShaderRef.m_vps_font,
        Cmd.SetBufferIndex GeometryBuffer.m_font_index,
        Cmd.SetBufferVertex GeometryBuffer.m_font_vertex,
        Cmd.DrawIndexed st.m_font.indexCount 0 0,
        Cmd.End,
        Cmd.Submit ]

/-- The commands by which `Pass_DebugBuffer` binds the texture and the pixel shader of the
buffer to visualise: one `if` per value of `m_debug_buffer`, in program order. -/
def Pass_DebugBuffer.bind (st : Renderer) : List Cmd :=
  (if st.m_debug_buffer = RendererDebug_Buffer.RendererDebug_Albedo then
      [ Cmd.SetTexture 0 (some (st.tex TexSlot.m_g_buffer_albedo).id),
        Cmd.SetShaderPixel (some ShaderRef.m_ps_texture) ]
    else [])
  ++ (if st.m_debug_buffer = RendererDebug_Buffer.RendererDebug_Normal then
      [ Cmd.SetTexture 0 (some (st.tex TexSlot.m_g_buffer_normal).id),
        Cmd.SetShaderPixel (some ShaderRef.m_ps_debug_normal_) ]
    else [])
  ++ (if st.m_debug_buffer = RendererDebug_Buffer.RendererDebug_Material then
      [ Cmd.SetTexture 0 (some (st.tex TexSlot.m_g_buffer_material).id),
        Cmd.SetShaderPixel (some ShaderRef.m_ps_texture) ]
    else [])
  ++ (if st.m_debug_buffer = RendererDebug_Buffer.RendererDebug_Velocity then
      [ Cmd.SetTexture 0 (some (st.tex TexSlot.m_g_buffer_velocity).id),
        Cmd.SetShaderPixel (some ShaderRef.m_ps_debug_velocity) ]
    else [])
  ++ (if st.m_debug_buffer = RendererDebug_Buffer.RendererDebug_Depth then
      [ Cmd.SetTexture 0 (some (st.tex TexSlot.m_g_buffer_depth).id),
        Cmd.SetShaderPixel (some ShaderRef.m_ps_debug_depth) ]
    else [])
  ++ (if st.m_debug_buffer = RendererDebug_Buffer.RendererDebug_SSAO then
      [ if Flags_IsSet st RenderFlag.Render_PostProcess_SSAO then
          Cmd.SetTexture 0 (some (st.tex TexSlot.m_render_tex_half_ssao).id)
        else Cmd.SetTexture 0 (some (st.tex TexSlot.m_tex_white).id),
        Cmd.SetShaderPixel (some ShaderRef.m_ps_debug_ssao) ]
    else [])

/-- Embedding of `Renderer::Pass_DebugBuffer`; the value it returns, always `true`, is not
used by `Pass_Main`. -/
def Pass_DebugBuffer (st : Renderer) (tex_out : TexSlot) : Renderer :=
  if st.m_debug_buffer = RendererDebug_Buffer.RendererDebug_None then st
  else
    let st := cmd st (Cmd.Begin ScopeName.Pass_DebugBuffer)
    let st := SetDefaultBuffer st (st.tex tex_out).width (st.tex tex_out).height
      MvpArg.m_view_projection_orthographic
    -- Bind correct texture & shader pass
    let st := cmds st (Pass_DebugBuffer.bind st)
    cmds st
      [ Cmd.SetDepthStencilState DepthStencilRef.m_depth_stencil_disabled,
        Cmd.SetRasterizerState RasterizerRef.m_rasterizer_cull_back_solid,
        Cmd.SetBlendState BlendRef.m_blend_disabled,
        Cmd.SetPrimitiveTopology Topology.PrimitiveTopology_TriangleList,
        Cmd.SetRenderTarget (some (st.tex tex_out).id) none,
        Cmd.SetViewport (st.tex tex_out).width (st.tex tex_out).height,
        Cmd.SetShaderVertex ShaderRef.m_vs_quad,
        Cmd.SetInputLayout ShaderRef.m_vs_quad,
        Cmd.SetSampler 0 SamplerRef.m_sampler_bilinear_clamp,
        Cmd.SetConstantBuffer 0 BufferScope.Buffer_Global BufferRef.m_buffer_global,
        Cmd.SetBufferVertex GeometryBuffer.m_quad_vertex,
        Cmd.SetBufferIndex GeometryBuffer.m_quad_index,
        Cmd.DrawIndexed st.m_quad_index_count 0 0,
        Cmd.End,
        Cmd.Submit ]

/-! ## The frame -/

/-- Embedding of `Renderer::Pass_Main`, in a build without `API_GRAPHICS_VULKAN`. -/
def Pass_Main (st : Renderer) : Option Renderer := do
  let st := cmd st (Cmd.Begin ScopeName.Pass_Main)
  let st ← Pass_LightDepth st
  let st ← Pass_GBuffer st
  let st ← Pass_PreLight st
    TexSlot.m_render_tex_half_spare     -- IN:
    TexSlot.m_render_tex_half_shadows   -- OUT: Shadows
    TexSlot.m_render_tex_half_ssao      -- OUT: DO
  let st := Pass_Light st
    TexSlot.m_render_tex_half_shadows   -- IN:  Shadows
    TexSlot.m_render_tex_half_ssao      -- IN:  SSAO
    TexSlot.m_render_tex_full_hdr_light -- Out: Result
  let st ← Pass_Transparent st TexSlot.m_render_tex_full_hdr_light
  let st := Pass_PostLight st
    TexSlot.m_render_tex_full_hdr_light   -- IN:  Light pass result
    TexSlot.m_render_tex_full_hdr_light2  -- OUT: Result
  let st ← Pass_Lines st TexSlot.m_render_tex_full_hdr_light2
  let st ← Pass_Gizmos st TexSlot.m_render_tex_full_hdr_light2
  let st := Pass_DebugBuffer st TexSlot.m_render_tex_full_hdr_light2
  let st := Pass_PerformanceMetrics st TexSlot.m_render_tex_full_hdr_light2
  some (cmds st [Cmd.End, Cmd.Submit])

/-! ## What a command list does -/

/-- The bindings of the pipeline that the draws of the passes depend on. -/
structure Pipeline where
  renderTargets : List Nat
  depthStencil : Option DepthView
  textures : Nat → Option Nat
  pixelShader : Option ShaderRef
  vertexShader : Option ShaderRef
  constantBuffersVS : Nat → Option BufferRef
  constantBuffersPS : Nat → Option BufferRef
  vertexBuffer : Option GeometryBuffer
  indexBuffer : Option GeometryBuffer

/-- The pipeline with nothing bound. -/
def Pipeline.unbound : Pipeline :=
  { renderTargets := [], depthStencil := none, textures := fun _ => none, pixelShader := none,
    vertexShader := none, constantBuffersVS := fun _ => none, constantBuffersPS := fun _ => none,
    vertexBuffer := none, indexBuffer := none }

/-- Binding the elements of a list to consecutive slots, from `slot` on. -/
def bindSlots {α : Type} (bound : Nat → Option α) (slot : Nat) (xs : List (Option α)) :
    Nat → Option α :=
  fun s => if slot ≤ s ∧ s < slot + xs.length then xs.getD (s - slot) none else bound s

/-- The effect of one command on the bindings: a `Set...` command replaces the binding it
names, `ClearTextures` unbinds every texture, and the other commands bind nothing. A constant
buffer of scope `Buffer_Global` is bound to both shader stages. -/
def Pipeline.exec (p : Pipeline) : Cmd → Pipeline
  | Cmd.SetRenderTarget tex depth => { p with renderTargets := tex.toList, depthStencil := depth }
  | Cmd.SetRenderTargets texs depth => { p with renderTargets := texs, depthStencil := depth }
  | Cmd.SetTexture slot tex => { p with textures := bindSlots p.textures slot [tex] }
  | Cmd.SetTextures slot texs => { p with textures := bindSlots p.textures slot texs }
  | Cmd.ClearTextures => { p with textures := fun _ => none }
  | Cmd.SetShaderPixel shader => { p with pixelShader := shader }
  | Cmd.SetShaderVertex shader => { p with vertexShader := some shader }
  | Cmd.SetConstantBuffer slot scope buffer =>
    { p with
      constantBuffersVS :=
        if scope = BufferScope.Buffer_PixelShader then p.constantBuffersVS
        else bindSlots p.constantBuffersVS slot [some buffer]
      constantBuffersPS :=
        if scope = BufferScope.Buffer_VertexShader then p.constantBuffersPS
        else bindSlots p.constantBuffersPS slot [some buffer] }
  | Cmd.SetConstantBuffers slot scope buffers =>
    { p with
      constantBuffersVS :=
        if scope = BufferScope.Buffer_PixelShader then p.constantBuffersVS
        else bindSlots p.constantBuffersVS slot (buffers.map some)
      constantBuffersPS :=
        if scope = BufferScope.Buffer_VertexShader then p.constantBuffersPS
        else bindSlots p.constantBuffersPS slot (buffers.map some) }
  | Cmd.SetBufferVertex buffer => { p with vertexBuffer := some buffer }
  | Cmd.SetBufferIndex buffer => { p with indexBuffer := some buffer }
  | _ => p

/-- Whether a command is a draw call. -/
def Cmd.isDraw : Cmd → Bool
  | Cmd.DrawIndexed _ _ _ => true
  | Cmd.Draw _ => true
  | _ => false

/-- Whether a command clears a render target or a depth attachment. -/
def Cmd.isClear : Cmd → Bool
  | Cmd.ClearDepthStencil _ _ => true
  | Cmd.ClearRenderTarget _ _ => true
  | Cmd.ClearRenderTargets _ _ => true
  | _ => false

/-- Whether a command only delimits a scope or flushes the list. -/
def Cmd.isScope : Cmd → Bool
  | Cmd.Begin _ => true
  | Cmd.End => true
  | Cmd.Submit => true
  | _ => false

/-- Whether a command binds state: every command that is no draw, no clear and no scope
delimiter. -/
def Cmd.isBinding (c : Cmd) : Bool :=
  !c.isDraw && !c.isClear && !c.isScope

/-- A draw call together with the bindings in force when it is issued. -/
structure DrawCall where
  pipeline : Pipeline
  call : Cmd

/-- The draw calls of a command list run from given bindings. -/
def draws (p : Pipeline) : List Cmd → List DrawCall
  | [] => []
  | c :: cs => if c.isDraw then ⟨p, c⟩ :: draws p cs else draws (p.exec c) cs

/-- The bindings after a command list run from the unbound pipeline. -/
def pipelineAfter (cs : List Cmd) : Pipeline :=
  cs.foldl Pipeline.exec Pipeline.unbound

/-- The draw calls of a command list run from the unbound pipeline. -/
def drawsOf (cs : List Cmd) : List DrawCall :=
  draws Pipeline.unbound cs

/-- The depth views a command list clears, in order. -/
def depthClears (cs : List Cmd) : List DepthView :=
  cs.filterMap fun c =>
    match c with
    | Cmd.ClearDepthStencil view _ => some view
    | _ => none

/-- The stages of the post-processing chain. -/
inductive PostStage where
  | TAA
  | Bloom
  | MotionBlur
  | Dithering
  | ToneMapping
  | FXAA
  | Sharpening
  | ChromaticAberration
  | GammaCorrection
deriving DecidableEq

/-- The stage a scope name announces, if any. -/
def PostStage.ofScope : ScopeName → Option PostStage
  | ScopeName.Pass_TAA => some PostStage.TAA
  | ScopeName.Pass_Bloom => some PostStage.Bloom
  | ScopeName.Pass_MotionBlur => some PostStage.MotionBlur
  | ScopeName.Pass_Dithering => some PostStage.Dithering
  | ScopeName.Pass_ToneMapping => some PostStage.ToneMapping
  | ScopeName.Pass_FXAA => some PostStage.FXAA
  | ScopeName.Pass_Sharpening => some PostStage.Sharpening
  | ScopeName.Pass_ChromaticAberration => some PostStage.ChromaticAberration
  | ScopeName.Pass_GammaCorrection => some PostStage.GammaCorrection
  | _ => none

/-- The stages a command list executes, in order: one per scope opened under the name of a
stage. -/
def stagesOf (cs : List Cmd) : List PostStage :=
  cs.filterMap fun c =>
    match c with
    | Cmd.Begin name => PostStage.ofScope name
    | _ => none

/-- The optional stages in the order of the chain. -/
def optionalStages : List PostStage :=
  [ PostStage.TAA, PostStage.Bloom, PostStage.MotionBlur, PostStage.Dithering,
    PostStage.ToneMapping, PostStage.FXAA, PostStage.Sharpening,
    PostStage.ChromaticAberration ]

/-- Whether the configuration of the renderer enables a stage: by its flag, for tone mapping
by the mode, and always for gamma correction. -/
def PostStage.enabled (st : Renderer) : PostStage → Bool
  | PostStage.TAA => Flags_IsSet st RenderFlag.Render_PostProcess_TAA
  | PostStage.Bloom => Flags_IsSet st RenderFlag.Render_PostProcess_Bloom
  | PostStage.MotionBlur => Flags_IsSet st RenderFlag.Render_PostProcess_MotionBlur
  | PostStage.Dithering => Flags_IsSet st RenderFlag.Render_PostProcess_Dithering
  | PostStage.ToneMapping => decide (st.m_tonemapping ≠ ToneMapping.ToneMapping_Off)
  | PostStage.FXAA => Flags_IsSet st RenderFlag.Render_PostProcess_FXAA
  | PostStage.Sharpening => Flags_IsSet st RenderFlag.Render_PostProcess_Sharpening
  | PostStage.ChromaticAberration =>
    Flags_IsSet st RenderFlag.Render_PostProcess_ChromaticAberration
  | PostStage.GammaCorrection => true

/-! ## Concrete data used to evaluate the embedding -/

/-- A full-resolution texture, 1920x1080. -/
def sampleFull (id : Nat) : RHI_Texture :=
  { id := id, width := 1920, height := 1080,
    format := Directus.RHI_Format.Format_R32G32B32A32_FLOAT, arraySize := 1 }

/-- A half-resolution texture, 960x540. -/
def sampleHalf (id : Nat) : RHI_Texture :=
  { id := id, width := 960, height := 540, format := Directus.RHI_Format.Format_R8_UNORM,
    arraySize := 1 }

/-- A quarter-resolution texture, 480x270. -/
def sampleQuarter (id : Nat) : RHI_Texture :=
  { id := id, width := 480, height := 270,
    format := Directus.RHI_Format.Format_R16G16B16A16_FLOAT, arraySize := 1 }

/-- Twenty textures with the ids 1 to 20, one per texture member. -/
def sampleTextures : TexSlot → RHI_Texture
  | TexSlot.m_g_buffer_albedo => sampleFull 1
  | TexSlot.m_g_buffer_normal => sampleFull 2
  | TexSlot.m_g_buffer_material => sampleFull 3
  | TexSlot.m_g_buffer_velocity => sampleFull 4
  | TexSlot.m_g_buffer_depth => sampleFull 5
  | TexSlot.m_render_tex_full_hdr_light => sampleFull 6
  | TexSlot.m_render_tex_full_hdr_light2 => sampleFull 7
  | TexSlot.m_render_tex_full_taa_current => sampleFull 8
  | TexSlot.m_render_tex_full_taa_history => sampleFull 9
  | TexSlot.m_render_tex_full_spare => sampleFull 10
  | TexSlot.m_render_tex_half_shadows => sampleHalf 11
  | TexSlot.m_render_tex_half_ssao => sampleHalf 12
  | TexSlot.m_render_tex_half_spare => sampleHalf 13
  | TexSlot.m_render_tex_half_spare2 => sampleHalf 14
  | TexSlot.m_render_tex_quarter_blur1 => sampleQuarter 15
  | TexSlot.m_render_tex_quarter_blur2 => sampleQuarter 16
  | TexSlot.m_tex_noise_normal => sampleQuarter 17
  | TexSlot.m_tex_white => sampleQuarter 18
  | TexSlot.m_tex_black => sampleQuarter 19
  | TexSlot.m_tex_lut_ibl => sampleQuarter 20

/-- A renderer with a device, the sample textures, empty buckets, no camera, no sky, no flag
set, tone mapping off, a compiled light shader, an empty command list and a zero average light
direction. -/
def sampleState : Renderer :=
  { m_rhi_device := some { isInitialized := true }
    m_cmd_list := []
    m_entities := fun _ => []
    m_camera := none
    m_flags := []
    m_tonemapping := ToneMapping.ToneMapping_Off
    m_resolution := ⟨1920, 1080⟩
    tex := sampleTextures
    clearDepth := 1
    m_directional_light_avg_dir := XVector3.Zero
    m_buffer_global := { width := 0, height := 0, mvp := MvpArg.default }
    shaderBuffers := fun _ _ => none
    m_vertex_buffer_lines := { vertexCount := 0, data := [] }
    m_lines_list_depth_enabled := []
    m_lines_list_depth_disabled := []
    m_gizmo_grid_index_count := 0
    m_quad_index_count := 6
    m_renderer_meshes_rendered := 0
    m_log := []
    default_pixel_stride := 1
    m_skybox := none
    m_vps_light := Shader_State.Shader_Compiled
    m_debug_buffer := RendererDebug_Buffer.RendererDebug_None
    m_gizmo_tex_light_directional := sampleQuarter 21
    m_gizmo_tex_light_point := sampleQuarter 22
    m_gizmo_tex_light_spot := sampleQuarter 23
    m_gizmo_light_rect := { x := 0, y := 0, width := 0, height := 0 }
    m_gizmo_light_rect_index_count := 6
    m_gizmo_transform := { update := false, drawXYZ := false, indexCount := 0 }
    m_font := { atlas := sampleQuarter 24, indexCount := 0 } }

/-- A shadow map with two array slices. -/
def sampleShadowMap : RHI_Texture :=
  { id := 30, width := 2048, height := 2048, format := Directus.RHI_Format.Format_R8_UNORM,
    arraySize := 2 }

/-- A directional light that casts shadows into the sample shadow map. -/
def sampleSun : Light :=
  { id := 40, lightType := LightType.LightType_Directional, castShadows := true,
    shadowMap := some sampleShadowMap, direction := ⟨0, -1, 0⟩ }

/-- The entity that carries the sample sun. -/
def sampleSunEntity : Entity :=
  { id := 41, renderable := none, light := some sampleSun }

/-- An opaque mesh with a white material of alpha one and complete geometry. -/
def sampleOpaque (id : Nat) (castShadows : Bool) : Entity :=
  { id := id
    renderable := some
      { material := some
          { resourceId := 50, colorAlbedo := ⟨1, 1, 1, 1⟩,
            shader := some { rhiId := 60, compilationState := Shader_State.Shader_Compiled },
            cullMode := RHI_Cull_Mode.Cull_Back, textures := [] }
        model := some { resourceId := 70, vertexBuffer := some 71, indexBuffer := some 72 }
        castShadows := castShadows
        indexCount := 36, indexOffset := 0, vertexOffset := 0
        aabb := { min := ⟨0, 0, 0⟩, max := ⟨1, 1, 1⟩ } }
    light := none }

/-- The scene of the shadow scenario: one directional light with a two-slice shadow map and
three opaque entities, of which the first and the third have cast-shadows disabled. -/
def sampleShadowScene : Renderer :=
  { sampleState with
    m_entities := fun key =>
      match key with
      | RenderableType.Renderable_Light => [sampleSunEntity]
      | RenderableType.Renderable_ObjectOpaque =>
        [sampleOpaque 101 false, sampleOpaque 102 true, sampleOpaque 103 false]
      | _ => [] }

/-- A line vertex at the origin. -/
def sampleVertex : RHI_Vertex_PosCol :=
  { pos := ⟨0, 0, 0⟩, col := ⟨1, 1, 1, 1⟩ }

/-- A camera that sees everything. -/
def sampleCamera : Camera :=
  { IsInViewFrustrum := fun _ => true
    pickingRay := { start := ⟨0, 0, 0⟩, direction := ⟨0, 0, 1⟩ }
    farPlane := 100
    v_dot_l := fun _ => 1
    distance := fun _ => 1
    WorldToScreenPoint := fun _ => ⟨0, 0⟩ }

/-- The sample renderer without device (`m_rhi_device` null). -/
def sampleNoDevice : Renderer :=
  { sampleState with m_rhi_device := none }

/-- The sample renderer with a tone-mapping operator selected and every flag cleared. -/
def sampleToneMapped : Renderer :=
  { sampleState with m_tonemapping := ToneMapping.ToneMapping_Operator 0 }

/-! ## Specification vocabulary for the post-processing chain -/

/-- What the chain relies on from the pass of an optional stage: it opens exactly one stage
scope, its own; it leaves the flags and the tone-mapping mode alone; and, run on the two
full-resolution HDR handles, it either leaves their textures in place or, when `swaps`,
exchanges them. -/
structure StageSpec (pass : Renderer → TexSlot → TexSlot → Renderer) (stage : PostStage)
    (swaps : Bool) : Prop where
  stages : ∀ st tex_in tex_out,
    stagesOf (pass st tex_in tex_out).m_cmd_list = stagesOf st.m_cmd_list ++ [stage]
  flags : ∀ st tex_in tex_out, (pass st tex_in tex_out).m_flags = st.m_flags
  tonemapping : ∀ st tex_in tex_out, (pass st tex_in tex_out).m_tonemapping = st.m_tonemapping
  tex_in : ∀ st,
    (pass st TexSlot.m_render_tex_full_hdr_light TexSlot.m_render_tex_full_hdr_light2).tex
        TexSlot.m_render_tex_full_hdr_light
      = if swaps then st.tex TexSlot.m_render_tex_full_hdr_light2
        else st.tex TexSlot.m_render_tex_full_hdr_light
  tex_out : ∀ st,
    (pass st TexSlot.m_render_tex_full_hdr_light TexSlot.m_render_tex_full_hdr_light2).tex
        TexSlot.m_render_tex_full_hdr_light2
      = if swaps then st.tex TexSlot.m_render_tex_full_hdr_light
        else st.tex TexSlot.m_render_tex_full_hdr_light2

/-- The optional stages whose pass leaves the two HDR handles in place, so that the swap of
the chain exchanges them: all but FXAA, which swaps them itself. -/
def swappingStages : List PostStage :=
  [ PostStage.TAA, PostStage.Bloom, PostStage.MotionBlur, PostStage.Dithering,
    PostStage.ToneMapping, PostStage.Sharpening, PostStage.ChromaticAberration ]

/-- The number of enabled stages that exchange the two HDR handles. -/
def swapCount (st : Renderer) : Nat :=
  (swappingStages.filter (PostStage.enabled st)).length

/-- The flags of the optional post-processing stages. -/
def postProcessFlags : List RenderFlag :=
  [ RenderFlag.Render_PostProcess_TAA, RenderFlag.Render_PostProcess_Bloom,
    RenderFlag.Render_PostProcess_MotionBlur, RenderFlag.Render_PostProcess_Dithering,
    RenderFlag.Render_PostProcess_FXAA, RenderFlag.Render_PostProcess_Sharpening,
    RenderFlag.Render_PostProcess_ChromaticAberration ]

/-- The commands `Pass_PostLight` starts with. -/
def Pass_PostLight.prelude : List Cmd :=
  [ Cmd.Begin ScopeName.Pass_PostLight,
    Cmd.SetDepthStencilState DepthStencilRef.m_depth_stencil_disabled,
    Cmd.SetRasterizerState RasterizerRef.m_rasterizer_cull_back_solid,
    Cmd.SetBlendState BlendRef.m_blend_disabled,
    Cmd.SetPrimitiveTopology Topology.PrimitiveTopology_TriangleList,
    Cmd.SetBufferVertex GeometryBuffer.m_quad_vertex,
    Cmd.SetBufferIndex GeometryBuffer.m_quad_index,
    Cmd.SetShaderVertex ShaderRef.m_vs_quad,
    Cmd.SetInputLayout ShaderRef.m_vs_quad ]

/-! ## Specification vocabulary for the shadow depth pass -/

/-- Whether the shadow depth pass draws an opaque entity that has a material and complete
geometry: cast-shadows enabled and albedo alpha not below one. -/
def castsShadow (e : Entity) : Bool :=
  match e.renderable with
  | some renderable =>
    match renderable.material with
    | some material => renderable.castShadows && decide (¬ material.colorAlbedo.w < 1)
    | none => false
  | none => false

/-- An entity with a renderable that has a material and a model with vertex and index
buffer. -/
def hasMaterialAndGeometry (e : Entity) : Prop :=
  ∃ renderable material model vertexBuffer indexBuffer,
    e.renderable = some renderable ∧ renderable.material = some material
      ∧ renderable.model = some model ∧ model.vertexBuffer = some vertexBuffer
      ∧ model.indexBuffer = some indexBuffer

/-- The draw call the passes issue for the geometry of an entity. -/
def entityDraw (e : Entity) : Cmd :=
  match e.renderable with
  | some renderable =>
    Cmd.DrawIndexed renderable.indexCount renderable.indexOffset renderable.vertexOffset
  | none => Cmd.DrawIndexed 0 0 0

/-- What a draw of the shadow depth pass is told apart by: the depth view and the colour
targets it renders into, the constant buffer of the vertex shader at slot 1 (the light buffer
of the transform of the entity, for the slice), and the call. -/
def shadowObservation (d : DrawCall) : Option DepthView × List Nat × Option BufferRef × Cmd :=
  (d.pipeline.depthStencil, d.pipeline.renderTargets, d.pipeline.constantBuffersVS 1, d.call)

/-- The draws expected in slice `i` of a shadow map: one per entity that casts a shadow, in
bucket order. -/
def expectedShadowDraws (entities : List Entity) (shadow_map : RHI_Texture) (i : Nat) :
    List (Option DepthView × List Nat × Option BufferRef × Cmd) :=
  (entities.filter castsShadow).map fun e =>
    (some (depthView shadow_map i), [], some (BufferRef.transformLight e.id i), entityDraw e)

/-- The shadow maps of the lights of a bucket that cast shadows and have a shadow map, in
bucket order. -/
def shadowMaps (lights : List Entity) : List RHI_Texture :=
  lights.filterMap fun e =>
    match e.light with
    | some light => if light.castShadows then light.shadowMap else none
    | none => none

/-- The depth target of the shadow depth pass is bound: a depth view and no colour target. -/
def DepthBound (view : DepthView) (cs : List Cmd) : Prop :=
  (pipelineAfter cs).depthStencil = some view ∧ (pipelineAfter cs).renderTargets = []

/-! ## Specification vocabulary for the pre-light pass -/

/-- The commands `Pass_PreLight` starts with; the last one clears the shadow-resolve target
to one. -/
def Pass_PreLight.prelude (st : Renderer) (tex_shadows_out : TexSlot) : List Cmd :=
  [ Cmd.Begin ScopeName.Pass_PreLight,
    Cmd.SetDepthStencilState DepthStencilRef.m_depth_stencil_disabled,
    Cmd.SetRasterizerState RasterizerRef.m_rasterizer_cull_back_solid,
    Cmd.SetBlendState BlendRef.m_blend_disabled,
    Cmd.SetPrimitiveTopology Topology.PrimitiveTopology_TriangleList,
    Cmd.SetBufferVertex GeometryBuffer.m_quad_vertex,
    Cmd.SetBufferIndex GeometryBuffer.m_quad_index,
    Cmd.ClearRenderTarget (st.tex tex_shadows_out).id ⟨1, 1, 1, 1⟩ ]

/-- The lights of a bucket that have cast-shadows enabled, in bucket order. -/
def castShadowLights (lights : List Entity) : List Light :=
  lights.filterMap fun e =>
    match e.light with
    | some light => if light.castShadows then some light else none
    | none => none

/-- The names of the scopes a command list opens, in order. -/
def scopesOf (cs : List Cmd) : List ScopeName :=
  cs.filterMap fun c =>
    match c with
    | Cmd.Begin name => some name
    | _ => none

/-- An operation of a command list on a render target: a clear, with the colour, or a draw
that renders into the target, with the bindings in force. -/
inductive TargetOp where
  | clear (color : Directus.Vector4)
  | draw (d : DrawCall)

/-- The operations of one command on a render target, under given bindings. -/
def Cmd.targetOp (target : Nat) (p : Pipeline) (c : Cmd) : List TargetOp :=
  match c with
  | Cmd.ClearRenderTarget tex color => if tex = target then [TargetOp.clear color] else []
  | Cmd.ClearRenderTargets texs color => if target ∈ texs then [TargetOp.clear color] else []
  | Cmd.DrawIndexed _ _ _ => if target ∈ p.renderTargets then [TargetOp.draw ⟨p, c⟩] else []
  | Cmd.Draw _ => if target ∈ p.renderTargets then [TargetOp.draw ⟨p, c⟩] else []
  | _ => []

/-- The operations of a command list on a render target, in order, run from given
bindings. -/
def targetOps (target : Nat) (p : Pipeline) : List Cmd → List TargetOp
  | [] => []
  | c :: cs => c.targetOp target p ++ targetOps target (p.exec c) cs

/-- What is observed of an operation on the shadow-resolve target: of a clear the colour, of
a draw the pixel shader and the textures bound at slots 2, 3 and 4, where a shadow-mapping
draw reads the shadow map of its light. -/
inductive ShadowOp where
  | clear (color : Directus.Vector4)
  | resolve (pixelShader : Option ShaderRef) (shadowMaps : List Nat)
deriving DecidableEq

/-- The observation of an operation on the shadow-resolve target. -/
def TargetOp.shadowOp : TargetOp → ShadowOp
  | TargetOp.clear color => ShadowOp.clear color
  | TargetOp.draw d =>
    ShadowOp.resolve d.pipeline.pixelShader ([2, 3, 4].filterMap d.pipeline.textures)

/-- The shadow-mapping draw expected for a light: the pixel shader of its type, reading its
shadow map. -/
def shadowResolve (light : Light) : ShadowOp :=
  ShadowOp.resolve (some (shadowMappingShader light.lightType))
    (light.shadowMap.toList.map fun shadow_map => shadow_map.id)

/-! ## Specification vocabulary for the line pass -/

/-- What a line block of `Pass_Lines` that ran from `st` to `st2` on the list `vertices` must
satisfy: the capacity of the line vertex buffer has not shrunk; the block issues no draw, or
one draw of `n` vertices with the list copied into the buffer and a capacity of at least the
number of vertices copied and of at least the number drawn; and a non-empty list whose size
fits 32 bits is drawn in full. -/
def LineBlock (vertices : List RHI_Vertex_PosCol) (st st2 : Renderer) : Prop :=
  st.m_vertex_buffer_lines.vertexCount ≤ st2.m_vertex_buffer_lines.vertexCount
    ∧ ∃ new, st2.m_cmd_list = st.m_cmd_list ++ new
      ∧ (new.filter Cmd.isDraw = []
        ∨ ∃ n, new.filter Cmd.isDraw = [Cmd.Draw n]
          ∧ st2.m_vertex_buffer_lines.data = vertices
          ∧ vertices.length ≤ st2.m_vertex_buffer_lines.vertexCount
          ∧ n ≤ st2.m_vertex_buffer_lines.vertexCount)
      ∧ (0 < vertices.length → vertices.length < 2 ^ 32 →
        new.filter Cmd.isDraw = [Cmd.Draw vertices.length])

/-- The sample renderer with a camera, two line vertices that require depth and four that do
not, and an empty line vertex buffer. -/
def sampleLines : Renderer :=
  { sampleState with
    m_camera := some sampleCamera
    m_lines_list_depth_enabled := [sampleVertex, sampleVertex]
    m_lines_list_depth_disabled := [sampleVertex, sampleVertex, sampleVertex, sampleVertex] }

/-- The sample shadow scene with an average light direction left by an earlier frame. -/
def sampleShadowSceneAfter (dir : XVector3) : Renderer :=
  { sampleShadowScene with m_directional_light_avg_dir := dir }

/-- A call of a top-level pass with the texture handles handed to it. -/
inductive MainPass where
  | Pass_LightDepth
  | Pass_GBuffer
  | Pass_PreLight (tex_in tex_shadows_out tex_ssao_out : TexSlot)
  | Pass_Light (tex_shadows tex_ssao tex_out : TexSlot)
  | Pass_Transparent (tex_out : TexSlot)
  | Pass_PostLight (tex_in tex_out : TexSlot)
  | Pass_Lines (tex_out : TexSlot)
  | Pass_Gizmos (tex_out : TexSlot)
  | Pass_DebugBuffer (tex_out : TexSlot)
  | Pass_PerformanceMetrics (tex_out : TexSlot)
  deriving DecidableEq

/-- Running one pass call on a renderer state; `none` when the pass does not return. -/
def invoke (st : Renderer) : MainPass → Option Renderer
  | MainPass.Pass_LightDepth => Pass_LightDepth st
  | MainPass.Pass_GBuffer => Pass_GBuffer st
  | MainPass.Pass_PreLight tex_in tex_shadows_out tex_ssao_out =>
    Pass_PreLight st tex_in tex_shadows_out tex_ssao_out
  | MainPass.Pass_Light tex_shadows tex_ssao tex_out =>
    some (Pass_Light st tex_shadows tex_ssao tex_out)
  | MainPass.Pass_Transparent tex_out => Pass_Transparent st tex_out
  | MainPass.Pass_PostLight tex_in tex_out => some (Pass_PostLight st tex_in tex_out)
  | MainPass.Pass_Lines tex_out => Pass_Lines st tex_out
  | MainPass.Pass_Gizmos tex_out => Pass_Gizmos st tex_out
  | MainPass.Pass_DebugBuffer tex_out => some (Pass_DebugBuffer st tex_out)
  | MainPass.Pass_PerformanceMetrics tex_out => some (Pass_PerformanceMetrics st tex_out)

/-- The renderer the passes run on once scene acquisition has recorded a skybox or none:
`m_skybox` is the member `Renderables_Acquire` leaves, and `texture` gives the sky texture of
a skybox (`GetTexture()`). -/
def withAcquiredSkybox (acquired : Directus.Renderer) (texture : Directus.Skybox → RHI_Texture)
    (st : Renderer) : Renderer :=
  { st with m_skybox := acquired.m_skybox.map fun k => { id := k.id, texture := texture k } }

/-- A sky texture per skybox: full resolution, id 100 plus the id of the skybox. -/
def sampleSkyTexture (k : Directus.Skybox) : RHI_Texture :=
  sampleFull (100 + k.id)

/-- The components of an entity that the G-buffer pass draws. -/
structure DrawParts where
  renderable : Renderable
  material : Material
  shader : ShaderVariation
  model : Model
  vertexBuffer : Nat
  indexBuffer : Nat

/-- The components of an entity that passes the tests of the G-buffer pass, seen from
`camera`: a renderable, its material, the shader of the material in the compiled state, its
model with a vertex and an index buffer, and a bounding volume inside the frustum; `none` for
an entity that fails a test. -/
def drawParts (camera : Camera) (e : Entity) : Option DrawParts :=
  match e.renderable with
  | none => none
  | some renderable =>
    match renderable.material, renderable.model with
    | some material, some model =>
      match material.shader, model.vertexBuffer, model.indexBuffer with
      | some shader, some vertexBuffer, some indexBuffer =>
        if shader.compilationState = Shader_State.Shader_Compiled
            ∧ camera.IsInViewFrustrum renderable = true then
          some
            { renderable := renderable, material := material, shader := shader, model := model,
              vertexBuffer := vertexBuffer, indexBuffer := indexBuffer }
        else none
      | _, _, _ => none
    | _, _ => none

/-- Whether an entity has a renderable, a material, a shader in the compiled state, a model
with both vertex and index buffers, and a bounding volume inside the frustum of `camera`. -/
def gbufferDrawn (camera : Camera) (e : Entity) : Bool :=
  match e.renderable with
  | none => false
  | some renderable =>
    (match renderable.material with
      | none => false
      | some material =>
        match material.shader with
        | none => false
        | some shader => decide (shader.compilationState = Shader_State.Shader_Compiled))
    && (match renderable.model with
      | none => false
      | some model => model.vertexBuffer.isSome && model.indexBuffer.isSome)
    && camera.IsInViewFrustrum renderable

/-- The entities of a list that pass the tests of the G-buffer pass, each with its components,
in list order. -/
def drawnParts (camera : Camera) (entities : List Entity) : List (Entity × DrawParts) :=
  entities.filterMap fun e => (drawParts camera e).map fun p => (e, p)

/-- The commands of the G-buffer pass for one drawn entity, when `geometry`, `shader` and
`material` are the identifiers bound last (0: none): the rasterizer state, the bindings that
change, the object buffer and the draw. -/
def drawCmds (geometry shader material : Nat) (e : Entity) (p : DrawParts) : List Cmd :=
  [Cmd.SetRasterizerState (GetRasterizerState p.material.cullMode RHI_Fill_Mode.Fill_Solid)]
    ++ (if geometry ≠ p.model.resourceId then
          [ Cmd.SetBufferIndex (GeometryBuffer.buffer p.indexBuffer),
            Cmd.SetBufferVertex (GeometryBuffer.buffer p.vertexBuffer) ]
        else [])
    ++ (if shader ≠ p.shader.rhiId then
          [Cmd.SetShaderPixel (some (ShaderRef.material p.shader.rhiId))]
        else [])
    ++ (if material ≠ p.material.resourceId then
          [ Cmd.SetTextures 0 p.material.textures,
            Cmd.SetConstantBuffer 1 BufferScope.Buffer_PixelShader
              (BufferRef.material p.material.resourceId) ]
        else [])
    ++ [ Cmd.SetConstantBuffer 2 BufferScope.Buffer_VertexShader (BufferRef.transform e.id),
         Cmd.DrawIndexed p.renderable.indexCount p.renderable.indexOffset
           p.renderable.vertexOffset ]

/-- The commands of the G-buffer pass for a list of drawn entities. -/
def loopCmds (geometry shader material : Nat) : List (Entity × DrawParts) → List Cmd
  | [] => []
  | (e, p) :: rest =>
    drawCmds geometry shader material e p
      ++ loopCmds p.model.resourceId p.shader.rhiId p.material.resourceId rest

/-- The commands of the G-buffer pass before the entity loop, for a bucket that is not
empty. -/
def Pass_GBuffer.prelude (st : Renderer) : List Cmd :=
  [ Cmd.Begin ScopeName.Pass_GBuffer,
    Cmd.SetRasterizerState RasterizerRef.m_rasterizer_cull_back_solid,
    Cmd.SetBlendState BlendRef.m_blend_disabled,
    Cmd.SetPrimitiveTopology Topology.PrimitiveTopology_TriangleList,
    Cmd.SetDepthStencilState DepthStencilRef.m_depth_stencil_enabled,
    Cmd.SetViewport (st.tex TexSlot.m_g_buffer_albedo).width
      (st.tex TexSlot.m_g_buffer_albedo).height,
    Cmd.SetRenderTargets
      [ (st.tex TexSlot.m_g_buffer_albedo).id, (st.tex TexSlot.m_g_buffer_normal).id,
        (st.tex TexSlot.m_g_buffer_material).id, (st.tex TexSlot.m_g_buffer_velocity).id ]
      (some (depthView (st.tex TexSlot.m_g_buffer_depth) 0)),
    Cmd.ClearRenderTargets
      [ (st.tex TexSlot.m_g_buffer_albedo).id, (st.tex TexSlot.m_g_buffer_normal).id,
        (st.tex TexSlot.m_g_buffer_material).id, (st.tex TexSlot.m_g_buffer_velocity).id ]
      ⟨0, 0, 0, 0⟩,
    Cmd.ClearDepthStencil (depthView (st.tex TexSlot.m_g_buffer_depth) 0) st.clearDepth,
    Cmd.SetShaderVertex ShaderRef.m_vs_gbuffer,
    Cmd.SetInputLayout ShaderRef.m_vs_gbuffer,
    Cmd.SetConstantBuffer 0 BufferScope.Buffer_Global BufferRef.m_buffer_global,
    Cmd.SetSampler 0 SamplerRef.m_sampler_anisotropic_wrap ]

/-- What a draw of the G-buffer pass is told apart by: the constant buffer of the vertex
shader at slot 2 (the buffer of the transform of the entity) and the call. -/
def gbufferObservation (d : DrawCall) : Option BufferRef × Cmd :=
  (d.pipeline.constantBuffersVS 2, d.call)

/-- A mesh for the G-buffer pass: material `material` with one texture and a shader in state
`state`, model `model` with both buffers. -/
def sampleGBufferEntity (id material model : Nat) (state : Shader_State) : Entity :=
  { id := id
    renderable := some
      { material := some
          { resourceId := material, colorAlbedo := ⟨1, 1, 1, 1⟩,
            shader := some { rhiId := 60, compilationState := state },
            cullMode := RHI_Cull_Mode.Cull_Back, textures := [some (10 * material)] }
        model := some
          { resourceId := model, vertexBuffer := some (model + 1),
            indexBuffer := some (model + 2) }
        castShadows := true
        indexCount := 36, indexOffset := 0, vertexOffset := 0
        aabb := { min := ⟨0, 0, 0⟩, max := ⟨1, 1, 1⟩ } }
    light := none }

/-- A scene for the G-buffer pass: a camera that sees everything and an opaque bucket of five
entities: two meshes of material 50 and model 70, a mesh of material 51 whose shader is not
compiled, a mesh of material 52 and model 71, and an entity without renderable. -/
def sampleGBufferScene : Renderer :=
  { sampleState with
    m_camera := some sampleCamera
    m_entities := fun key =>
      match key with
      | RenderableType.Renderable_ObjectOpaque =>
        [ sampleGBufferEntity 201 50 70 Shader_State.Shader_Compiled,
          sampleGBufferEntity 202 50 70 Shader_State.Shader_Compiled,
          sampleGBufferEntity 203 51 70 Shader_State.Shader_Uninitialized,
          sampleGBufferEntity 204 52 71 Shader_State.Shader_Compiled,
          { id := 205, renderable := none, light := none } ]
      | _ => [] }

/-- The material of an entity, when it has a renderable with a material. -/
def Entity.material (e : Entity) : Option Material :=
  e.renderable.bind fun renderable => renderable.material

/-- The model of an entity, when it has a renderable with a model. -/
def Entity.model (e : Entity) : Option Model :=
  e.renderable.bind fun renderable => renderable.model

/-- The shader of the material of an entity. -/
def Entity.shader (e : Entity) : Option ShaderVariation :=
  e.material.bind fun material => material.shader

/-- Equal identifiers are contiguous in a list: no identifier occurs, then another one, then
the first again. -/
def contiguous (l : List Nat) : Prop :=
  ∀ a b, a ≠ b → ¬ List.Sublist [a, b, a] l

/-- Same-material entities are contiguous in a bucket. -/
def materialsContiguous (entities : List Entity) : Prop :=
  contiguous (entities.filterMap fun e => e.material.map fun material => material.resourceId)

/-- All geometry, shader and material identifiers of a bucket are non-zero. -/
def idsNonZero (entities : List Entity) : Prop :=
  ∀ e ∈ entities,
    (∀ material, e.material = some material → material.resourceId ≠ 0)
      ∧ (∀ shader, e.shader = some shader → shader.rhiId ≠ 0)
      ∧ (∀ model, e.model = some model → model.resourceId ≠ 0)

/-- An identifier names one resource: two materials of a bucket with the same identifier are
the same material, and two models with the same identifier the same model. -/
def idsIdentify (entities : List Entity) : Prop :=
  (∀ a ∈ entities, ∀ b ∈ entities, ∀ ma mb, a.material = some ma → b.material = some mb →
      ma.resourceId = mb.resourceId → ma = mb)
    ∧ (∀ a ∈ entities, ∀ b ∈ entities, ∀ ma mb, a.model = some ma → b.model = some mb →
      ma.resourceId = mb.resourceId → ma = mb)

/-- What is bound along a list when a binding is renewed only when its identifier differs
from the one bound last (`cur`). -/
def rebinds {α : Type} (key : α → Nat) (cur : Nat) : List α → List α
  | [] => []
  | x :: xs => if cur ≠ key x then x :: rebinds key (key x) xs else rebinds key (key x) xs

/-- The texture bindings of a command list: slot and textures, in order. -/
def textureBinds (cs : List Cmd) : List (Nat × List (Option Nat)) :=
  cs.filterMap fun c =>
    match c with
    | Cmd.SetTextures slot texs => some (slot, texs)
    | Cmd.SetTexture slot tex => some (slot, [tex])
    | _ => none

/-- The bindings of material constant buffers of a command list: slot, scope and material
identifier, in order. -/
def materialBufferBinds (cs : List Cmd) : List (Nat × BufferScope × Nat) :=
  cs.flatMap fun c =>
    match c with
    | Cmd.SetConstantBuffer slot scope (BufferRef.material id) => [(slot, scope, id)]
    | Cmd.SetConstantBuffers slot scope buffers =>
      buffers.filterMap fun b =>
        match b with
        | BufferRef.material id => some (slot, scope, id)
        | _ => none
    | _ => []

/-- The bindings in force at a draw are those of the entity drawn: the vertex and index buffer
of its model, the shader of its material as pixel shader, the constant buffer of its material
at slot 1 of the pixel shader, and the textures of its material from slot 0 on; the call is
the draw of its renderable. -/
def drawnWith (e : Entity) (d : DrawCall) : Prop :=
  ∃ renderable material shader model vertexBuffer indexBuffer,
    e.renderable = some renderable ∧ renderable.material = some material
      ∧ material.shader = some shader ∧ renderable.model = some model
      ∧ model.vertexBuffer = some vertexBuffer ∧ model.indexBuffer = some indexBuffer
      ∧ d.pipeline.vertexBuffer = some (GeometryBuffer.buffer vertexBuffer)
      ∧ d.pipeline.indexBuffer = some (GeometryBuffer.buffer indexBuffer)
      ∧ d.pipeline.pixelShader = some (ShaderRef.material shader.rhiId)
      ∧ d.pipeline.constantBuffersPS 1 = some (BufferRef.material material.resourceId)
      ∧ (∀ i, i < material.textures.length →
          d.pipeline.textures i = material.textures.getD i none)
      ∧ d.call = Cmd.DrawIndexed renderable.indexCount renderable.indexOffset
          renderable.vertexOffset

/-- The bindings of the components `p` are in force in the pipeline `P`. -/
def BoundFor (P : Pipeline) (p : DrawParts) : Prop :=
  P.vertexBuffer = some (GeometryBuffer.buffer p.vertexBuffer)
    ∧ P.indexBuffer = some (GeometryBuffer.buffer p.indexBuffer)
    ∧ P.pixelShader = some (ShaderRef.material p.shader.rhiId)
    ∧ P.constantBuffersPS 1 = some (BufferRef.material p.material.resourceId)
    ∧ ∀ i, i < p.material.textures.length → P.textures i = p.material.textures.getD i none

/-- The invariant of the entity loop of the G-buffer pass: when the identifier recorded as
bound last (`g` for the geometry, `s` for the shader, `m` for the material) is the one of a
drawn entity, the pipeline `P` holds the bindings of that entity. -/
def Tracks (all : List (Entity × DrawParts)) (P : Pipeline) (g s m : Nat) : Prop :=
  ∀ ep ∈ all,
    (g = ep.2.model.resourceId →
        P.vertexBuffer = some (GeometryBuffer.buffer ep.2.vertexBuffer)
          ∧ P.indexBuffer = some (GeometryBuffer.buffer ep.2.indexBuffer))
      ∧ (s = ep.2.shader.rhiId → P.pixelShader = some (ShaderRef.material ep.2.shader.rhiId))
      ∧ (m = ep.2.material.resourceId →
          P.constantBuffersPS 1 = some (BufferRef.material ep.2.material.resourceId)
            ∧ ∀ i, i < ep.2.material.textures.length →
                P.textures i = ep.2.material.textures.getD i none)

/-- An identifier names one resource, among drawn entities: equal model identifiers come with
equal buffers and equal material identifiers with equal materials. -/
def Identified (all : List (Entity × DrawParts)) : Prop :=
  ∀ a ∈ all, ∀ b ∈ all,
    (a.2.model.resourceId = b.2.model.resourceId →
        a.2.vertexBuffer = b.2.vertexBuffer ∧ a.2.indexBuffer = b.2.indexBuffer)
      ∧ (a.2.material.resourceId = b.2.material.resourceId → a.2.material = b.2.material)

/-- A draw of the post-processing chain as the chain sees it: the stage whose scope was opened
last, the texture read as colour input, and the render targets. -/
structure StageDraw where
  stage : Option PostStage
  input : Option Nat
  targets : List Nat
deriving DecidableEq

/-- The colour input of a draw: the texture at slot 0, and for the resolve draw of TAA, which
has the history at slot 0, the texture at slot 1. -/
def colourInput (p : Pipeline) : Option Nat :=
  if p.pixelShader = some ShaderRef.m_ps_taa then p.textures 1 else p.textures 0

/-- The stage in force after a command: opening the scope of a stage enters the stage. -/
def stageScope (cur : Option PostStage) (c : Cmd) : Option PostStage :=
  match c with
  | Cmd.Begin name =>
    match PostStage.ofScope name with
    | some stage => some stage
    | none => cur
  | _ => cur

/-- The draws of a command list as the chain sees them, run from a given stage and given
bindings. -/
def stageDraws (cur : Option PostStage) (p : Pipeline) : List Cmd → List StageDraw
  | [] => []
  | c :: cs =>
    if c.isDraw then ⟨cur, colourInput p, p.renderTargets⟩ :: stageDraws cur p cs
    else stageDraws (stageScope cur c) (p.exec c) cs

/-- The stage in force after a command list. -/
def stageAfter (cs : List Cmd) : Option PostStage :=
  cs.foldl stageScope none

/-- The draws of a command list as the chain sees them, run from no stage and the unbound
pipeline. -/
def stageDrawsOf (cs : List Cmd) : List StageDraw :=
  stageDraws none Pipeline.unbound cs

/-- Two consecutive draws: when they belong to different stages, the second reads as colour
input the texture the first rendered into. -/
def Link (a b : StageDraw) : Prop :=
  a.stage ≠ b.stage → ∃ t, a.targets = [t] ∧ b.input = some t

/-- A draw does not read as colour input a texture it renders into. -/
def NoFeedback (d : StageDraw) : Prop :=
  ∀ t, d.input = some t → t ∉ d.targets

/-- Distinct handles hold textures of distinct identity. -/
def distinctTextures (st : Renderer) : Prop :=
  ∀ x y : TexSlot, (st.tex x).id = (st.tex y).id → x = y

/-- The draws of one stage: they carry the tag of the stage, none reads what it renders into,
the first reads the texture `input` and the last renders into the texture `output`. -/
def StageFlow (stage : PostStage) (input output : Nat) (sd : List StageDraw) : Prop :=
  (∃ d, sd.head? = some d ∧ d.input = some input)
    ∧ (∃ d, sd.getLast? = some d ∧ d.targets = [output])
    ∧ ∀ d ∈ sd, d.stage = some stage ∧ NoFeedback d

/-- What the colour flow of the chain relies on from the pass of a stage, run on the two
full-resolution HDR handles with distinct textures behind the handles: its draws are a stage
flow from the texture of the input handle to the texture the output handle holds when the pass
returns, and the textures behind the handles are still distinct. -/
def FlowSpec (pass : Renderer → TexSlot → TexSlot → Renderer) (stage : PostStage) : Prop :=
  ∀ st : Renderer, distinctTextures st →
    distinctTextures
        (pass st TexSlot.m_render_tex_full_hdr_light TexSlot.m_render_tex_full_hdr_light2)
      ∧ ∃ sd : List StageDraw,
        stageDrawsOf (pass st TexSlot.m_render_tex_full_hdr_light
            TexSlot.m_render_tex_full_hdr_light2).m_cmd_list
          = stageDrawsOf st.m_cmd_list ++ sd
        ∧ StageFlow stage (st.tex TexSlot.m_render_tex_full_hdr_light).id
            ((pass st TexSlot.m_render_tex_full_hdr_light
              TexSlot.m_render_tex_full_hdr_light2).tex
                TexSlot.m_render_tex_full_hdr_light2).id sd

/-- The sample renderer with FXAA and sharpening enabled. -/
def sampleFXAA : Renderer :=
  { sampleState with
    m_flags := [RenderFlag.Render_PostProcess_FXAA, RenderFlag.Render_PostProcess_Sharpening] }

/-- The invariant of the colour flow along the chain, started with the texture `t` as input
and with the stage draws `base` and the stages `baseStages` already on the command list: the
textures behind the handles are distinct; the draws added since form, after a virtual draw
into `t`, a sequence in which every change of stage is a link; they belong to the stages added
since, each of which has a draw; none reads what it renders into; and the last of them (or the
virtual draw) renders into the texture the handle `last` holds. -/
def FlowInv (last : TexSlot) (t : Nat) (base : List StageDraw) (baseStages : List PostStage)
    (s : Renderer) : Prop :=
  distinctTextures s
    ∧ ∃ (N : List StageDraw) (L : List PostStage),
      stageDrawsOf s.m_cmd_list = base ++ N
        ∧ stagesOf s.m_cmd_list = baseStages ++ L
        ∧ (∀ x, x ∈ L ↔ ∃ d ∈ N, d.stage = some x)
        ∧ List.Chain' Link (⟨none, none, [t]⟩ :: N)
        ∧ (∀ d ∈ N, NoFeedback d ∧ d.stage ≠ none)
        ∧ ∃ d, (⟨none, none, [t]⟩ :: N).getLast? = some d ∧ d.targets = [(s.tex last).id]

/-- A light as `Light.h` constructs it, before its shadow map is created: cast-shadows enabled
and no shadow map. -/
def sampleNewLight : Light :=
  { id := 42, lightType := LightType.LightType_Point, castShadows := true,
    shadowMap := none, direction := ⟨0, -1, 0⟩ }

/-- The sample renderer with a light bucket that holds one entity, a newly constructed light,
and with one opaque mesh. -/
def sampleNewLightScene : Renderer :=
  { sampleState with
    m_camera := some sampleCamera
    m_entities := fun key =>
      match key with
      | RenderableType.Renderable_Light =>
        [{ id := 43, renderable := none, light := some sampleNewLight }]
      | RenderableType.Renderable_ObjectOpaque => [sampleOpaque 101 true]
      | _ => [] }

/-- The sample G-buffer scene without device (`m_rhi_device` null). -/
def sampleGBufferSceneNoDevice : Renderer :=
  { sampleGBufferScene with m_rhi_device := none }

/-! ## The frame: passes, their draws and what they render into -/

/-- Whether a scope name is the one under which one of the ten passes `Pass_Main` invokes
opens its scope. -/
def ScopeName.isTopLevel : ScopeName → Bool
  | ScopeName.Pass_LightDepth => true
  | ScopeName.Pass_GBuffer => true
  | ScopeName.Pass_PreLight => true
  | ScopeName.Pass_Light => true
  | ScopeName.Pass_Transparent => true
  | ScopeName.Pass_PostLight => true
  | ScopeName.Pass_Lines => true
  | ScopeName.Pass_Gizmos => true
  | ScopeName.Pass_DebugBuffer => true
  | ScopeName.Pass_PerformanceMetrics => true
  | _ => false

/-- The top-level pass a command opens the scope of, if any. -/
def Cmd.opensPass : Cmd → Option ScopeName
  | Cmd.Begin name => if name.isTopLevel then some name else none
  | _ => none

/-- The top-level passes whose scope a command list opens, in order. -/
def passesOf (cs : List Cmd) : List ScopeName :=
  cs.filterMap Cmd.opensPass

/-- The top-level pass in force after a command: opening the scope of a top-level pass enters
the pass. -/
def passScope (cur : Option ScopeName) (c : Cmd) : Option ScopeName :=
  match c.opensPass with
  | some name => some name
  | none => cur

/-- A draw as the frame sees it: the top-level pass whose scope was opened last, the texture
read as colour input, and the render targets. -/
structure PassDraw where
  pass : Option ScopeName
  input : Option Nat
  targets : List Nat
deriving DecidableEq

/-- The draws of a command list as the frame sees them, run from a given pass and given
bindings. -/
def passDraws (cur : Option ScopeName) (p : Pipeline) : List Cmd → List PassDraw
  | [] => []
  | c :: cs =>
    if c.isDraw then ⟨cur, colourInput p, p.renderTargets⟩ :: passDraws cur p cs
    else passDraws (passScope cur c) (p.exec c) cs

/-- The top-level pass in force after a command list. -/
def passAfter (cs : List Cmd) : Option ScopeName :=
  cs.foldl passScope none

/-- The draws of a command list as the frame sees them, run from no pass and the unbound
pipeline. -/
def passDrawsOf (cs : List Cmd) : List PassDraw :=
  passDraws none Pipeline.unbound cs

/-- A command that stays inside the pass in force: it opens the scope of no top-level
pass. -/
def Cmd.inPass (c : Cmd) : Bool :=
  c.opensPass.isNone

/-- A command that leaves the colour target `t` bound, if it was: it binds no render target,
or binds `t` alone. -/
def Cmd.keepsTarget (t : Nat) : Cmd → Bool
  | Cmd.SetRenderTarget tex _ => decide (tex = some t)
  | Cmd.SetRenderTargets texs _ => decide (texs = [t])
  | _ => true

/-- A command of a pass that renders into the texture `t`: it stays inside the pass and leaves
`t` bound. -/
def Cmd.rendersInto (t : Nat) (c : Cmd) : Bool :=
  c.inPass && c.keepsTarget t

/-- A command before the first draw of a pass: it stays inside the pass and is no draw. -/
def Cmd.prepares (c : Cmd) : Bool :=
  c.inPass && !c.isDraw

/-- The commands of a pass after the opening of its scope, when the pass renders into the
texture `t`: commands that are no draw, then the binding of `t` as the colour target, then
commands that leave `t` bound; all inside the pass. -/
def TargetBound (t : Nat) : List Cmd → Prop
  | [] => False
  | c :: cs =>
    ((∃ depth, c = Cmd.SetRenderTarget (some t) depth) ∧ ∀ x ∈ cs, x.rendersInto t = true)
      ∨ (c.prepares = true ∧ TargetBound t cs)

/-- The commands of one top-level pass: the opening of its scope, followed by commands inside
the pass. -/
def PassBlock (name : ScopeName) (body : List Cmd) : Prop :=
  ∃ rest, body = Cmd.Begin name :: rest ∧ ∀ c ∈ rest, c.inPass = true

/-- The commands of `k` top-level passes in sequence, all under the scope `name`. -/
def PassBlocks (name : ScopeName) : Nat → List Cmd → Prop
  | 0, body => body = []
  | k + 1, body => ∃ b rest, body = b ++ rest ∧ PassBlock name b ∧ PassBlocks name k rest

/-- The commands of a top-level pass that renders into the texture `t`: the opening of its
scope, followed by commands that bind `t` as colour target before the first draw and leave it
bound. -/
def RendersInto (name : ScopeName) (t : Nat) (body : List Cmd) : Prop :=
  ∃ rest, body = Cmd.Begin name :: rest ∧ TargetBound t rest

/-- The members of the renderer that decide which passes issue commands, the line lists
apart: the flags, the buckets, the device, the state of the light shader and the debug
buffer. -/
structure FrameConfig where
  m_flags : List RenderFlag
  m_entities : RenderableType → List Entity
  m_rhi_device : Option RHI_Device
  m_vps_light : Shader_State
  m_debug_buffer : RendererDebug_Buffer

/-- The configuration of the frame in a renderer state. -/
def Renderer.config (st : Renderer) : FrameConfig :=
  { m_flags := st.m_flags, m_entities := st.m_entities, m_rhi_device := st.m_rhi_device,
    m_vps_light := st.m_vps_light, m_debug_buffer := st.m_debug_buffer }

/-- The state `b` arises from the state `a` by appending the commands `body`: the
configuration is the same, the line lists are the same when `L` is set, and the handles in `K`
hold the same textures. -/
structure Step (L : Bool) (K : TexSlot → Prop) (a b : Renderer) (body : List Cmd) : Prop where
  config : b.config = a.config
  lines : L = true →
    b.m_lines_list_depth_enabled = a.m_lines_list_depth_enabled
      ∧ b.m_lines_list_depth_disabled = a.m_lines_list_depth_disabled
  tex : ∀ s, K s → b.tex s = a.tex s
  appended : b.m_cmd_list = a.m_cmd_list ++ body

/-- The number of times the shadow depth pass opens its scope for a light entity: once when
the opaque bucket is not empty and the light casts shadows and has a shadow map. -/
def lightDepthScopes (st : Renderer) (e : Entity) : Nat :=
  if (st.m_entities RenderableType.Renderable_ObjectOpaque).isEmpty then 0
  else (shadowMaps [e]).length

/-- Whether a pass that `Pass_Main` invokes opens its scope in a frame: the test each pass
starts with. The pre-light pass and the post-light chain have none. -/
def Pass_Main.emits (st : Renderer) : ScopeName → Bool
  | ScopeName.Pass_GBuffer => st.m_rhi_device.isSome
  | ScopeName.Pass_PreLight => true
  | ScopeName.Pass_Light => decide (st.m_vps_light = Shader_State.Shader_Compiled)
  | ScopeName.Pass_Transparent =>
    !(st.m_entities RenderableType.Renderable_ObjectTransparent).isEmpty
  | ScopeName.Pass_PostLight => true
  | ScopeName.Pass_Lines =>
    Flags_IsSet st RenderFlag.Render_Gizmo_PickingRay
      || Flags_IsSet st RenderFlag.Render_Gizmo_AABB
      || Flags_IsSet st RenderFlag.Render_Gizmo_Grid
      || (!st.m_lines_list_depth_enabled.isEmpty || !st.m_lines_list_depth_disabled.isEmpty)
  | ScopeName.Pass_Gizmos =>
    Flags_IsSet st RenderFlag.Render_Gizmo_Lights
      || Flags_IsSet st RenderFlag.Render_Gizmo_Transform
  | ScopeName.Pass_DebugBuffer =>
    decide (st.m_debug_buffer ≠ RendererDebug_Buffer.RendererDebug_None)
  | ScopeName.Pass_PerformanceMetrics =>
    Flags_IsSet st RenderFlag.Render_Gizmo_PerformanceMetrics
  | _ => false

/-- What a pass appends: commands described by `B` when its test `g` passes, nothing
otherwise. -/
def Emits (g : Bool) (B : List Cmd → Prop) (body : List Cmd) : Prop :=
  if g then B body else body = []

/-- The state `b` extends the state `a` by commands that satisfy `Q`. -/
def Ext (L : Bool) (K : TexSlot → Prop) (Q : Cmd → Bool) (a b : Renderer) : Prop :=
  ∃ body, Step L K a b body ∧ ∀ c ∈ body, Q c = true

/-- The number of times the shadow depth pass opens its scope in a frame. -/
def lightDepthCount (st : Renderer) : Nat :=
  ((st.m_entities RenderableType.Renderable_Light).map (lightDepthScopes st)).sum

/-- What the frame relies on from the pass of a stage of the post-light chain, run on the two
full-resolution HDR handles: it keeps the configuration, stays inside the pass in force, and
its first draw reads as colour input the texture of the input handle. -/
def ChainStage (pass : Renderer → TexSlot → TexSlot → Renderer) : Prop :=
  ∀ st : Renderer, ∃ body,
    Step true (fun _ => False) st
        (pass st TexSlot.m_render_tex_full_hdr_light TexSlot.m_render_tex_full_hdr_light2) body
      ∧ (∀ c ∈ body, c.inPass = true)
      ∧ ∀ cur p, ∃ d, (passDraws cur p body).head? = some d
          ∧ d.input = some (st.tex TexSlot.m_render_tex_full_hdr_light).id

/-- The invariant of the post-light chain, started with the texture `t` behind the input
handle: the state `b` arises from `a` by commands inside the pass in force, the first draw
among them reads `t` as colour input, and as long as there is no draw the input handle holds
`t`. -/
def ChainInv (t : Nat) (a b : Renderer) : Prop :=
  ∃ body, Step true (fun _ => False) a b body
    ∧ (∀ c ∈ body, c.inPass = true)
    ∧ ∀ cur p, (∀ d, (passDraws cur p body).head? = some d → d.input = some t)
        ∧ (passDraws cur p body = [] → (b.tex TexSlot.m_render_tex_full_hdr_light).id = t)

/-- Every draw of a command list, run from any pass and any bindings, satisfies `P`. -/
def AllDraws (P : PassDraw → Prop) (cs : List Cmd) : Prop :=
  ∀ cur p, ∀ d ∈ passDraws cur p cs, P d

/-- What holds of every draw of a frame whose light pass renders into the texture `light` and
whose overlay passes render into the texture `out`: the draw belongs to one of the ten
passes; in the light and the transparent pass it renders into `light`; in the line, gizmo,
debug-buffer and performance-metrics pass it renders into `out`. -/
def FrameDraw (light out : Nat) (d : PassDraw) : Prop :=
  (d.pass = some ScopeName.Pass_LightDepth ∨ d.pass = some ScopeName.Pass_GBuffer
      ∨ d.pass = some ScopeName.Pass_PreLight ∨ d.pass = some ScopeName.Pass_PostLight)
    ∨ ((d.pass = some ScopeName.Pass_Light ∨ d.pass = some ScopeName.Pass_Transparent)
      ∧ d.targets = [light])
    ∨ ((d.pass = some ScopeName.Pass_Lines ∨ d.pass = some ScopeName.Pass_Gizmos
        ∨ d.pass = some ScopeName.Pass_DebugBuffer
        ∨ d.pass = some ScopeName.Pass_PerformanceMetrics)
      ∧ d.targets = [out])

/-- A frame in which every pass has something to do: a camera that sees everything, the
sample sun with its shadow map, one opaque and one transparent mesh, FXAA, the grid, the
transform gizmo and the performance metrics enabled, the albedo buffer selected for debugging,
and the transform gizmo active. -/
def sampleFrame : Renderer :=
  { sampleState with
    m_camera := some sampleCamera
    m_entities := fun key =>
      match key with
      | RenderableType.Renderable_Light => [sampleSunEntity]
      | RenderableType.Renderable_ObjectOpaque => [sampleOpaque 101 true]
      | RenderableType.Renderable_ObjectTransparent => [sampleOpaque 102 false]
      | _ => []
    m_flags :=
      [ RenderFlag.Render_PostProcess_FXAA, RenderFlag.Render_Gizmo_Grid,
        RenderFlag.Render_Gizmo_Transform, RenderFlag.Render_Gizmo_PerformanceMetrics ]
    m_debug_buffer := RendererDebug_Buffer.RendererDebug_Albedo
    m_gizmo_transform := { update := true, drawXYZ := false, indexCount := 12 } }

end Spartan

namespace Directus

/-! ## Resize: theorems -/

/-- Creating the render textures never touches the stored resolution. -/
theorem CreateRenderTextures_resolution (st : Renderer) :
    (CreateRenderTextures st).m_resolution = st.m_resolution := by
  unfold CreateRenderTextures
  dsimp only
  split <;> rfl

/-- An odd number minus one, or an even number unchanged, is the number minus its remainder
modulo two. -/
theorem sub_odd_bit (n : Nat) : n - (if n % 2 ≠ 0 then 1 else 0) = n - n % 2 := by
  rcases Nat.mod_two_eq_zero_or_one n with h | h <;> simp [h]

/-- C1: for every width and height between 1 and the maximum resolution that differ from the
stored resolution, `SetResolution` stores `(width - width % 2, height - height % 2)`; in
particular a renderer at 1920x1080 asked for 1921x1081 stores 1920x1080. -/
theorem SetResolution_stores_even (st : Renderer) (width height : Nat)
    (hw : 1 ≤ width ∧ width ≤ st.m_maxResolution)
    (hh : 1 ≤ height ∧ height ≤ st.m_maxResolution)
    (hne : ¬ (st.m_resolution.x = (width : ℚ) ∧ st.m_resolution.y = (height : ℚ))) :
    (SetResolution st width height).m_resolution
        = { x := ((width - width % 2 : ℕ) : ℚ), y := ((height - height % 2 : ℕ) : ℚ) }
      ∧ (st.m_resolution = { x := 1920, y := 1080 } → 1921 ≤ st.m_maxResolution →
          (SetResolution st 1921 1081).m_resolution = { x := 1920, y := 1080 }) := by
  have key : ∀ w h : Nat, 1 ≤ w → w ≤ st.m_maxResolution → 1 ≤ h → h ≤ st.m_maxResolution →
      ¬ (st.m_resolution.x = (w : ℚ) ∧ st.m_resolution.y = (h : ℚ)) →
      (SetResolution st w h).m_resolution
        = { x := ((w - w % 2 : ℕ) : ℚ), y := ((h - h % 2 : ℕ) : ℚ) } := by
    intro w h hw1 hw2 hh1 hh2 hne
    have hvalid : ¬ (w = 0 ∨ w > st.m_maxResolution ∨ h = 0 ∨ h > st.m_maxResolution) := by
      omega
    unfold SetResolution
    rw [if_neg hvalid, if_neg hne]
    simp only [CreateRenderTextures_resolution, sub_odd_bit]
  refine ⟨key width height hw.1 hw.2 hh.1 hh.2 hne, ?_⟩
  intro hres hmax
  have h := key 1921 1081 (by norm_num) hmax (by norm_num) (by omega) (by
    rw [hres]
    norm_num)
  rw [h]
  norm_num

/-- C1 at a concrete input: the sample renderer stores 1920x1080, and asked for 1921x1081 it
stores 1920x1080 again. -/
theorem SetResolution_stores_even_witness :
    (SetResolution sampleRenderer 1921 1081).m_resolution = { x := 1920, y := 1080 } := by
  have h := (SetResolution_stores_even sampleRenderer 1921 1081
    (by simp [sampleRenderer, Renderer.ctor]) (by simp [sampleRenderer, Renderer.ctor])
    (by simp [sampleRenderer, Renderer.ctor])).1
  rw [h]
  norm_num

/-- C2: when the width or the height is zero or above the maximum resolution, or the request
equals the stored resolution, `SetResolution` leaves every member of the renderer as it was:
at most the warning line is logged, the stored resolution and the render targets are the
same objects, and no object is created (so `CreateRenderTextures` has not run). -/
theorem SetResolution_rejects (st : Renderer) (width height : Nat)
    (h : width = 0 ∨ height = 0 ∨ width > st.m_maxResolution ∨ height > st.m_maxResolution
      ∨ (st.m_resolution.x = (width : ℚ) ∧ st.m_resolution.y = (height : ℚ))) :
    ∃ log, (log = [] ∨ log = [Effect.warnInvalidResolution width height])
      ∧ SetResolution st width height = { st with m_trace := st.m_trace ++ log } := by
  by_cases hinv : width = 0 ∨ width > st.m_maxResolution ∨ height = 0
      ∨ height > st.m_maxResolution
  · exact ⟨[Effect.warnInvalidResolution width height], Or.inr rfl, by
      unfold SetResolution
      rw [if_pos hinv]⟩
  · have heq : st.m_resolution.x = (width : ℚ) ∧ st.m_resolution.y = (height : ℚ) := by
      rcases h with h | h | h | h | h
      · exact absurd (Or.inl h) hinv
      · exact absurd (Or.inr (Or.inr (Or.inl h))) hinv
      · exact absurd (Or.inr (Or.inl h)) hinv
      · exact absurd (Or.inr (Or.inr (Or.inr h))) hinv
      · exact h
    refine ⟨[], Or.inl rfl, ?_⟩
    unfold SetResolution
    rw [if_neg hinv, if_pos heq]
    simp

/-- C2 at a concrete input: the sample renderer, asked for a zero width, only logs the
warning. -/
theorem SetResolution_rejects_witness :
    ∃ log, (log = [] ∨ log = [Effect.warnInvalidResolution 0 600])
      ∧ SetResolution sampleRenderer 0 600
        = { sampleRenderer with m_trace := sampleRenderer.m_trace ++ log } :=
  SetResolution_rejects sampleRenderer 0 600 (Or.inl rfl)

/-- The sample renderer after `Initialize`: 1920x1080 stored, render targets with the object
ids 0 to 10, eleven objects created so far. -/
theorem sampleInitialized_eval :
    sampleInitialized.m_resolution = { x := 1920, y := 1080 }
      ∧ sampleInitialized.m_maxResolution = 16384
      ∧ sampleInitialized.m_nextObjectId = 11
      ∧ sampleInitialized.m_trace = []
      ∧ sampleInitialized.m_renderTargets.map (fun t => (t.m_gbuffer.id, t.m_gbuffer.width,
          t.m_gbuffer.height)) = some (0, 1920, 1080) := by
  simp [sampleInitialized, sampleRenderer, Renderer.ctor, CreateRenderTextures]

/-- C3: evaluation at the failing input. From the sample renderer at 1920x1080, two calls
`SetResolution(1921, 1081)` in a row both store 1920x1080, and the second call replaces the
render targets of the first (G-buffer object 11) by new objects (G-buffer object 22) and
logs the resolution change again: the second call is no no-op. -/
theorem SetResolution_twice_odd_recreates :
    (SetResolution sampleInitialized 1921 1081).m_resolution = { x := 1920, y := 1080 }
      ∧ (SetResolution (SetResolution sampleInitialized 1921 1081) 1921 1081).m_resolution
          = { x := 1920, y := 1080 }
      ∧ (SetResolution sampleInitialized 1921 1081).m_renderTargets.map
          (fun t => t.m_gbuffer.id) = some 11
      ∧ (SetResolution (SetResolution sampleInitialized 1921 1081) 1921 1081).m_renderTargets.map
          (fun t => t.m_gbuffer.id) = some 22
      ∧ (SetResolution (SetResolution sampleInitialized 1921 1081) 1921 1081).m_trace
          = (SetResolution sampleInitialized 1921 1081).m_trace
            ++ [Effect.infoResolutionSet 1920 1080]
      ∧ SetResolution (SetResolution sampleInitialized 1921 1081) 1921 1081
          ≠ SetResolution sampleInitialized 1921 1081 := by
  have h1 : (SetResolution sampleInitialized 1921 1081).m_nextObjectId = 22 := by
    simp [sampleInitialized, sampleRenderer, Renderer.ctor, CreateRenderTextures, SetResolution]
  have h2 : (SetResolution (SetResolution sampleInitialized 1921 1081) 1921 1081).m_nextObjectId
      = 33 := by
    simp [sampleInitialized, sampleRenderer, Renderer.ctor, CreateRenderTextures, SetResolution]
  refine ⟨?_, ?_, ?_, ?_, ?_, ?_⟩
  · simp [sampleInitialized, sampleRenderer, Renderer.ctor, CreateRenderTextures, SetResolution]
  · simp [sampleInitialized, sampleRenderer, Renderer.ctor, CreateRenderTextures, SetResolution]
  · simp [sampleInitialized, sampleRenderer, Renderer.ctor, CreateRenderTextures, SetResolution]
  · simp [sampleInitialized, sampleRenderer, Renderer.ctor, CreateRenderTextures, SetResolution]
  · simp [sampleInitialized, sampleRenderer, Renderer.ctor, CreateRenderTextures, SetResolution]
  · intro h
    rw [h, h1] at h2
    exact absurd h2 (by decide)

/-- C4: evaluation at the failing input. From the sample renderer at 1920x1080,
`SetResolution(2, 2)` passes the guards of `SetResolution`, stores 2x2, and is then rejected
by `CreateRenderTextures` (a quarter of 2 is 0): the render targets are still the 1920x1080
objects and no object was created, yet the stored resolution has changed. -/
theorem SetResolution_rejected_keeps_new_resolution :
    (SetResolution sampleInitialized 2 2).m_renderTargets = sampleInitialized.m_renderTargets
      ∧ (SetResolution sampleInitialized 2 2).m_nextObjectId = sampleInitialized.m_nextObjectId
      ∧ (SetResolution sampleInitialized 2 2).m_trace
          = [Effect.warnInvalidResolution 2 2, Effect.infoResolutionSet 2 2]
      ∧ sampleInitialized.m_resolution = { x := 1920, y := 1080 }
      ∧ (SetResolution sampleInitialized 2 2).m_resolution = { x := 2, y := 2 }
      ∧ (SetResolution sampleInitialized 2 2).m_resolution ≠ sampleInitialized.m_resolution := by
  have hres : (SetResolution sampleInitialized 2 2).m_resolution = { x := 2, y := 2 } := by
    simp [sampleInitialized, sampleRenderer, Renderer.ctor, CreateRenderTextures, SetResolution]
  have hini : sampleInitialized.m_resolution = { x := 1920, y := 1080 } := by
    simp [sampleInitialized, sampleRenderer, Renderer.ctor, CreateRenderTextures]
  refine ⟨?_, ?_, ?_, hini, hres, ?_⟩
  · simp [sampleInitialized, sampleRenderer, Renderer.ctor, CreateRenderTextures, SetResolution]
  · simp [sampleInitialized, sampleRenderer, Renderer.ctor, CreateRenderTextures, SetResolution]
  · simp [sampleInitialized, sampleRenderer, Renderer.ctor, CreateRenderTextures, SetResolution]
  · rw [hres, hini]
    simp

/-! ## Scene acquisition: theorems -/

/-- The bucket of a key after `emplace_back`. -/
theorem bucket_emplace_back (st : Renderer) (key key2 : RenderableType) (a : Actor) :
    bucket (emplace_back st key a) key2
      = if key2 = key then bucket st key ++ [a] else bucket st key2 := by
  by_cases h : key2 = key
  · subst h
    simp [bucket, emplace_back]
  · simp [bucket, emplace_back, Function.update, h]

/-- One loop iteration appends the actor to exactly the buckets it goes to. -/
theorem bucket_step (st : Renderer) (o : Option Actor) (key : RenderableType) :
    bucket (Renderables_Acquire.step st o) key = bucket st key ++ routed key [o] := by
  cases o with
  | none => simp [Renderables_Acquire.step, routed]
  | some a =>
    rcases a with ⟨id, r, l, s, c⟩
    cases r <;> cases l <;> cases s <;> cases c <;> cases key <;>
      simp [Renderables_Acquire.step, routed, goesTo, bucket, emplace_back, Function.update] <;>
      (split <;> simp_all)

/-- Routing a snapshot element by element. -/
theorem routed_cons (key : RenderableType) (o : Option Actor) (l : List (Option Actor)) :
    routed key (o :: l) = routed key [o] ++ routed key l := by
  have h : o :: l = [o] ++ l := rfl
  rw [h]
  unfold routed
  rw [List.filterMap_append]

/-- The loop of `Renderables_Acquire` appends to each bucket the actors routed to it, in
snapshot order. -/
theorem bucket_foldl (l : List (Option Actor)) (st : Renderer) (key : RenderableType) :
    bucket (l.foldl Renderables_Acquire.step st) key = bucket st key ++ routed key l := by
  induction l generalizing st with
  | nil => simp [routed]
  | cons o l ih => rw [List.foldl_cons, ih, bucket_step, routed_cons key o l, List.append_assoc]

/-- The last skybox of a snapshot, element by element. -/
theorem lastSkybox_cons (o : Option Actor) (l : List (Option Actor)) :
    lastSkybox (o :: l) = (lastSkybox l).or (lastSkybox [o]) := by
  have h : o :: l = [o] ++ l := rfl
  rw [h]
  unfold lastSkybox
  rw [List.filterMap_append, List.getLast?_append]

/-- The last camera of a snapshot, element by element. -/
theorem lastCamera_cons (o : Option Actor) (l : List (Option Actor)) :
    lastCamera (o :: l) = (lastCamera l).or (lastCamera [o]) := by
  have h : o :: l = [o] ++ l := rfl
  rw [h]
  unfold lastCamera
  rw [List.filterMap_append, List.getLast?_append]

/-- One loop iteration records the skybox of the actor, if it has one. -/
theorem skybox_step (st : Renderer) (o : Option Actor) :
    (Renderables_Acquire.step st o).m_skybox = (lastSkybox [o]).or st.m_skybox := by
  cases o with
  | none => simp [Renderables_Acquire.step, lastSkybox]
  | some a =>
    rcases a with ⟨id, r, l, s, c⟩
    cases r <;> cases l <;> cases s <;> cases c <;>
      simp [Renderables_Acquire.step, lastSkybox, emplace_back]

/-- One loop iteration records the camera of the actor, if it has one. -/
theorem camera_step (st : Renderer) (o : Option Actor) :
    (Renderables_Acquire.step st o).m_camera = (lastCamera [o]).or st.m_camera := by
  cases o with
  | none => simp [Renderables_Acquire.step, lastCamera]
  | some a =>
    rcases a with ⟨id, r, l, s, c⟩
    cases r <;> cases l <;> cases s <;> cases c <;>
      simp [Renderables_Acquire.step, lastCamera, emplace_back]

/-- The loop of `Renderables_Acquire` leaves the skybox of the last actor that has one, or
the skybox recorded before when there is none. -/
theorem skybox_foldl (l : List (Option Actor)) (st : Renderer) :
    (l.foldl Renderables_Acquire.step st).m_skybox = (lastSkybox l).or st.m_skybox := by
  induction l generalizing st with
  | nil => simp [lastSkybox]
  | cons o l ih => rw [List.foldl_cons, ih, skybox_step, lastSkybox_cons o l, Option.or_assoc]

/-- The loop of `Renderables_Acquire` leaves the camera of the last actor that has one, or
the camera recorded before when there is none. -/
theorem camera_foldl (l : List (Option Actor)) (st : Renderer) :
    (l.foldl Renderables_Acquire.step st).m_camera = (lastCamera l).or st.m_camera := by
  induction l generalizing st with
  | nil => simp [lastCamera]
  | cons o l ih => rw [List.foldl_cons, ih, camera_step, lastCamera_cons o l, Option.or_assoc]

/-- The bucket of a key after sorting the bucket of a key in place. -/
theorem bucket_sortBucket (sort : SortFn) (st : Renderer) (key key2 : RenderableType) :
    bucket (sortBucket sort st key) key2
      = if key2 = key then Renderables_Sort sort st.m_camera (bucket st key)
        else bucket st key2 := by
  by_cases h : key2 = key
  · subst h
    simp [bucket, sortBucket]
  · simp [bucket, sortBucket, Function.update, h]

/-- Sorting a bucket leaves the active camera alone. -/
theorem sortBucket_camera (sort : SortFn) (st : Renderer) (key : RenderableType) :
    (sortBucket sort st key).m_camera = st.m_camera := rfl

/-- Sorting a bucket leaves the recorded skybox alone. -/
theorem sortBucket_skybox (sort : SortFn) (st : Renderer) (key : RenderableType) :
    (sortBucket sort st key).m_skybox = st.m_skybox := rfl

/-- The active camera after `Renderables_Acquire`. -/
theorem Renderables_Acquire_camera (sort : SortFn) (st : Renderer)
    (actorsVec : List (Option Actor)) :
    (Renderables_Acquire sort st actorsVec).m_camera = lastCamera actorsVec := by
  unfold Renderables_Acquire
  simp only [sortBucket_camera, camera_foldl, Option.or_none]

/-- The recorded skybox after `Renderables_Acquire`. -/
theorem Renderables_Acquire_skybox_eq (sort : SortFn) (st : Renderer)
    (actorsVec : List (Option Actor)) :
    (Renderables_Acquire sort st actorsVec).m_skybox = (lastSkybox actorsVec).or st.m_skybox := by
  unfold Renderables_Acquire
  simp only [sortBucket_skybox, skybox_foldl]

/-- The buckets after `Renderables_Acquire`: the opaque and the transparent bucket hold the
sorted routed actors, the light and the camera bucket the routed actors in snapshot order. -/
theorem Renderables_Acquire_bucket (sort : SortFn) (st : Renderer)
    (actorsVec : List (Option Actor)) (key : RenderableType) :
    bucket (Renderables_Acquire sort st actorsVec) key
      = if key = RenderableType.Renderable_ObjectOpaque
            ∨ key = RenderableType.Renderable_ObjectTransparent then
          Renderables_Sort sort (lastCamera actorsVec) (routed key actorsVec)
        else routed key actorsVec := by
  have hb : ∀ k, bucket
      (actorsVec.foldl Renderables_Acquire.step
        { st with m_actors := fun _ => none, m_camera := none }) k = routed k actorsVec := by
    intro k
    rw [bucket_foldl]
    simp [bucket]
  unfold Renderables_Acquire
  simp only [bucket_sortBucket, sortBucket_camera, camera_foldl, Option.or_none, hb]
  cases key <;> simp

/-! ## The contract of `std::sort` -/

/-- A strict weak ordering never holds in both directions. -/
theorem StrictWeakOn.asymm {comp : Actor → Actor → Bool} {s : List Actor}
    (h : StrictWeakOn comp s) {a b : Actor} (ha : a ∈ s) (hb : b ∈ s)
    (hab : comp a b = true) : comp b a = false := by
  cases hba : comp b a with
  | false => rfl
  | true =>
    have haa := h.trans a ha b hb a ha hab hba
    rw [h.irrefl a ha] at haa
    cases haa

/-- For a strict weak ordering, "not greater" is transitive. -/
theorem StrictWeakOn.not_gt_trans {comp : Actor → Actor → Bool} {s : List Actor}
    (h : StrictWeakOn comp s) {a b c : Actor} (ha : a ∈ s) (hb : b ∈ s) (hc : c ∈ s)
    (hab : comp b a = false) (hbc : comp c b = false) : comp c a = false := by
  cases hca : comp c a with
  | false => rfl
  | true =>
    have h1 : comp a b = false := by
      cases h1 : comp a b with
      | false => rfl
      | true =>
        have := h.trans c hc a ha b hb hca h1
        rw [hbc] at this
        cases this
    have h2 : comp b c = false := by
      cases h2 : comp b c with
      | false => rfl
      | true =>
        have := h.trans b hb c hc a ha h2 hca
        rw [hab] at this
        cases this
    have h3 := (h.equiv a ha b hb c hc h1 hab h2 hbc).2
    rw [hca] at h3
    cases h3

/-- Inserting into a sorted list keeps it sorted, for a strict weak ordering on the elements
involved. -/
theorem pairwise_orderedInsert {comp : Actor → Actor → Bool} {s : List Actor}
    (h : StrictWeakOn comp s) (a : Actor) (ha : a ∈ s) (l : List Actor)
    (hl : ∀ x ∈ l, x ∈ s) (hp : l.Pairwise (fun x y => comp y x = false)) :
    (l.orderedInsert (fun x y => comp y x = false) a).Pairwise
      (fun x y => comp y x = false) := by
  induction l with
  | nil => simp
  | cons b l ih =>
    have hb : b ∈ s := hl b (List.mem_cons_self b l)
    have hl2 : ∀ x ∈ l, x ∈ s := fun x hx => hl x (List.mem_cons_of_mem b hx)
    rw [List.pairwise_cons] at hp
    by_cases hab : comp b a = false
    · rw [List.orderedInsert, if_pos hab]
      refine List.Pairwise.cons ?_ (List.Pairwise.cons hp.1 hp.2)
      intro c hc
      rcases List.mem_cons.1 hc with rfl | hc
      · exact hab
      · exact h.not_gt_trans ha hb (hl2 c hc) hab (hp.1 c hc)
    · rw [List.orderedInsert, if_neg hab]
      refine List.Pairwise.cons ?_ (ih hl2 hp.2)
      intro c hc
      rcases (List.mem_orderedInsert _).1 hc with rfl | hc
      · exact h.asymm hb ha (by simpa using hab)
      · exact hp.1 c hc

/-- Insertion sort sorts every list whose elements the callback orders strictly weakly. -/
theorem pairwise_insertionSort {comp : Actor → Actor → Bool} {s : List Actor}
    (h : StrictWeakOn comp s) (l : List Actor) (hl : ∀ x ∈ l, x ∈ s) :
    (l.insertionSort (fun x y => comp y x = false)).Pairwise
      (fun x y => comp y x = false) := by
  induction l with
  | nil => simp
  | cons b l ih =>
    have hl2 : ∀ x ∈ l, x ∈ s := fun x hx => hl x (List.mem_cons_of_mem b hx)
    rw [List.insertionSort]
    refine pairwise_orderedInsert h b (hl b (List.mem_cons_self b l)) _ ?_ (ih hl2)
    intro x hx
    exact hl2 x ((List.mem_insertionSort _).1 hx)

/-- Insertion sort meets the contract of `std::sort`. -/
theorem stdSort_insertionSort : StdSort insertionSort where
  perm := fun comp l => List.perm_insertionSort (fun a b => comp b a = false) l
  sorted := fun _ l h => pairwise_insertionSort h l (fun _ hx => hx)

/-- The result of `Renderables_Sort` is a rearrangement of its input. -/
theorem Renderables_Sort_perm (sort : SortFn) (hs : StdSort sort) (m_camera : Option Camera)
    (renderables : List Actor) :
    (Renderables_Sort sort m_camera renderables).Perm renderables := by
  unfold Renderables_Sort
  split
  · exact List.Perm.refl _
  · cases m_camera with
    | none => exact hs.perm _ _
    | some camera => exact (hs.perm _ _).trans (hs.perm _ _)

/-- Membership in the routed actors of a snapshot. -/
theorem mem_routed (key : RenderableType) (actorsVec : List (Option Actor)) (a : Actor) :
    a ∈ routed key actorsVec ↔ some a ∈ actorsVec ∧ goesTo a key = true := by
  unfold routed
  rw [List.mem_filterMap]
  constructor
  · rintro ⟨o, ho, h⟩
    cases o with
    | none => simp at h
    | some b =>
      by_cases hg : goesTo b key = true
      · simp [hg] at h
        subst h
        exact ⟨ho, hg⟩
      · simp [hg] at h
  · rintro ⟨ho, hg⟩
    exact ⟨some a, ho, by simp [hg]⟩

/-- Membership in the opaque and the transparent bucket after `Renderables_Acquire`. -/
theorem mem_bucket_Renderables_Acquire (sort : SortFn) (hs : StdSort sort) (st : Renderer)
    (actorsVec : List (Option Actor)) (key : RenderableType) (a : Actor) :
    a ∈ bucket (Renderables_Acquire sort st actorsVec) key
      ↔ some a ∈ actorsVec ∧ goesTo a key = true := by
  rw [Renderables_Acquire_bucket, ← mem_routed]
  split
  · exact (Renderables_Sort_perm sort hs _ _).mem_iff
  · exact Iff.rfl

/-- The transparency test holds exactly for a material with albedo alpha below one. -/
theorem isTransparent_iff (renderable : Renderable) :
    isTransparent renderable = true
      ↔ ∃ material, renderable.material = some material ∧ material.colorAlbedo.w < 1 := by
  unfold isTransparent
  cases renderable.material with
  | none => simp
  | some m => simp

/-- C5: after `Renderables_Acquire`, a non-null snapshot actor with a renderable and without
skybox is in the transparent bucket exactly when it has a material with albedo alpha below
one, and in the opaque bucket exactly when it has not (so also when it has no material);
hence it is in exactly one of the two. -/
theorem Renderables_Acquire_routes_renderables (sort : SortFn) (hs : StdSort sort)
    (st : Renderer) (actorsVec : List (Option Actor)) (actor : Actor) (renderable : Renderable)
    (hin : some actor ∈ actorsVec) (hr : actor.renderable = some renderable)
    (hsky : actor.skybox = none) :
    (actor ∈ bucket (Renderables_Acquire sort st actorsVec)
          RenderableType.Renderable_ObjectTransparent
        ↔ ∃ material, renderable.material = some material ∧ material.colorAlbedo.w < 1)
      ∧ (actor ∈ bucket (Renderables_Acquire sort st actorsVec)
            RenderableType.Renderable_ObjectOpaque
          ↔ ¬ ∃ material, renderable.material = some material ∧ material.colorAlbedo.w < 1) := by
  rw [mem_bucket_Renderables_Acquire sort hs, mem_bucket_Renderables_Acquire sort hs,
    ← isTransparent_iff]
  simp [goesTo, hr, hsky, hin]

/-- C5 at a concrete input: the first mesh of the sample snapshot has an opaque material, and
lands in the opaque bucket. -/
theorem Renderables_Acquire_routes_renderables_witness :
    sampleMesh 1 7 10 ∈ bucket (Renderables_Acquire insertionSort sampleRenderer sampleSnapshot)
      RenderableType.Renderable_ObjectOpaque :=
  (Renderables_Acquire_routes_renderables insertionSort stdSort_insertionSort sampleRenderer
    sampleSnapshot (sampleMesh 1 7 10)
    { material := some (sampleMaterial 7), aabbCenter := ⟨10, 0, 0⟩ }
    (List.mem_cons_of_mem _ (List.mem_cons_self _ _)) rfl rfl).2.2
    (by simp [sampleMaterial])

/-- C6: after `Renderables_Acquire`, no actor with a skybox is in the opaque or the
transparent bucket, whatever else it carries, and when the snapshot has an actor with a
skybox, the recorded sky is the skybox of the last such actor. -/
theorem Renderables_Acquire_skybox (sort : SortFn) (hs : StdSort sort) (st : Renderer)
    (actorsVec : List (Option Actor)) :
    (∀ a : Actor, a.skybox ≠ none →
        a ∉ bucket (Renderables_Acquire sort st actorsVec)
            RenderableType.Renderable_ObjectOpaque
          ∧ a ∉ bucket (Renderables_Acquire sort st actorsVec)
            RenderableType.Renderable_ObjectTransparent)
      ∧ (∀ sky, lastSkybox actorsVec = some sky →
          (Renderables_Acquire sort st actorsVec).m_skybox = some sky) := by
  constructor
  · intro a ha
    rw [mem_bucket_Renderables_Acquire sort hs, mem_bucket_Renderables_Acquire sort hs]
    cases hsk : a.skybox with
    | none => exact absurd hsk ha
    | some sky => cases hr : a.renderable <;> simp [goesTo, hsk, hr]
  · intro sky hsky
    rw [Renderables_Acquire_skybox_eq, hsky]
    rfl

/-- C6 at a concrete input: in the sample sky snapshot both skies also have a renderable; the
recorded sky is the second one, and the first sky actor is not in the opaque bucket. -/
theorem Renderables_Acquire_skybox_witness :
    (Renderables_Acquire insertionSort sampleRenderer sampleSkySnapshot).m_skybox
        = some { id := 2 }
      ∧ sampleSkyActor 5 1 ∉ bucket
          (Renderables_Acquire insertionSort sampleRenderer sampleSkySnapshot)
          RenderableType.Renderable_ObjectOpaque :=
  ⟨(Renderables_Acquire_skybox insertionSort stdSort_insertionSort sampleRenderer
      sampleSkySnapshot).2 { id := 2 } rfl,
    ((Renderables_Acquire_skybox insertionSort stdSort_insertionSort sampleRenderer
      sampleSkySnapshot).1 (sampleSkyActor 5 1) (by simp [sampleSkyActor])).1⟩

/-- One loop iteration changes the bucket map as a function of the bucket map alone. -/
theorem step_actors_congr (st st2 : Renderer) (o : Option Actor)
    (h : st.m_actors = st2.m_actors) :
    (Renderables_Acquire.step st o).m_actors = (Renderables_Acquire.step st2 o).m_actors := by
  cases o with
  | none => simpa [Renderables_Acquire.step] using h
  | some a =>
    rcases a with ⟨id, r, l, s, c⟩
    cases r <;> cases l <;> cases s <;> cases c <;>
      simp [Renderables_Acquire.step, emplace_back, bucket, h]

/-- The loop changes the bucket map as a function of the bucket map alone. -/
theorem foldl_actors_congr (l : List (Option Actor)) (st st2 : Renderer)
    (h : st.m_actors = st2.m_actors) :
    (l.foldl Renderables_Acquire.step st).m_actors
      = (l.foldl Renderables_Acquire.step st2).m_actors := by
  induction l generalizing st st2 with
  | nil => exact h
  | cons o l ih => exact ih _ _ (step_actors_congr st st2 o h)

/-- The bucket map after `Renderables_Acquire` does not depend on the state before it. -/
theorem Renderables_Acquire_actors_congr (sort : SortFn) (st st2 : Renderer)
    (actorsVec : List (Option Actor)) :
    (Renderables_Acquire sort st actorsVec).m_actors
      = (Renderables_Acquire sort st2 actorsVec).m_actors := by
  have hm := foldl_actors_congr actorsVec
    { st with m_actors := fun _ => none, m_camera := none }
    { st2 with m_actors := fun _ => none, m_camera := none } rfl
  have hc : (actorsVec.foldl Renderables_Acquire.step
        { st with m_actors := fun _ => none, m_camera := none }).m_camera
      = (actorsVec.foldl Renderables_Acquire.step
        { st2 with m_actors := fun _ => none, m_camera := none }).m_camera := by
    rw [camera_foldl, camera_foldl]
  unfold Renderables_Acquire
  simp only [sortBucket, bucket, hm, hc]

/-- A snapshot without camera actor has no last camera. -/
theorem lastCamera_eq_none (actorsVec : List (Option Actor))
    (h : ∀ a : Actor, some a ∈ actorsVec → a.camera = none) : lastCamera actorsVec = none := by
  unfold lastCamera
  rw [List.getLast?_eq_none_iff, List.filterMap_eq_nil_iff]
  intro o ho
  cases o with
  | none => rfl
  | some a => simpa using h a ho

/-- C7: `Renderables_Acquire` replaces the buckets. Acquiring `s1` and then `s2`, from any
state, leaves the same bucket map (so the same four buckets) and the same active camera as
acquiring `s2` alone in a freshly constructed renderer; and the camera is null when `s2` has
no actor with a camera. -/
theorem Renderables_Acquire_replaces (sort : SortFn) (st decl : Renderer) (device : RHI_Device)
    (s1 s2 : List (Option Actor)) :
    (Renderables_Acquire sort (Renderables_Acquire sort st s1) s2).m_actors
        = (Renderables_Acquire sort (Renderer.ctor decl device) s2).m_actors
      ∧ (∀ key, bucket (Renderables_Acquire sort (Renderables_Acquire sort st s1) s2) key
          = bucket (Renderables_Acquire sort (Renderer.ctor decl device) s2) key)
      ∧ (Renderables_Acquire sort (Renderables_Acquire sort st s1) s2).m_camera
          = (Renderables_Acquire sort (Renderer.ctor decl device) s2).m_camera
      ∧ ((∀ a : Actor, some a ∈ s2 → a.camera = none) →
          (Renderables_Acquire sort (Renderables_Acquire sort st s1) s2).m_camera = none) := by
  refine ⟨Renderables_Acquire_actors_congr sort _ _ s2, ?_, ?_, ?_⟩
  · intro key
    unfold bucket
    rw [Renderables_Acquire_actors_congr sort _ (Renderer.ctor decl device) s2]
  · rw [Renderables_Acquire_camera, Renderables_Acquire_camera]
  · intro h
    rw [Renderables_Acquire_camera, lastCamera_eq_none s2 h]

/-- C7 at a concrete input: after the sample snapshot (which has a camera), acquiring the
sample sky snapshot (which has none) leaves no active camera. -/
theorem Renderables_Acquire_replaces_witness :
    (Renderables_Acquire insertionSort
      (Renderables_Acquire insertionSort sampleRenderer sampleSnapshot)
      sampleSkySnapshot).m_camera = none :=
  (Renderables_Acquire_replaces insertionSort sampleRenderer sampleRenderer
    { isInitialized := true } sampleSnapshot sampleSkySnapshot).2.2.2
    (by
      intro a ha
      simp [sampleSkySnapshot] at ha
      rcases ha with rfl | rfl | rfl <;> rfl)

/-! ## Sorting: theorems -/

/-- C8: evaluation at the failing input. The sample snapshot has a camera at the origin and
two opaque meshes of the same material, the first at squared distance 100, the second at
squared distance 1. Whatever `std::sort` does, `Renderables_Acquire` leaves the opaque bucket
in snapshot order, the farther mesh first: `Renderables_Sort` returns a bucket of at most two
entities untouched. -/
theorem Renderables_Acquire_pair_unsorted (sort : SortFn) (st : Renderer) :
    (Renderables_Acquire sort st sampleSnapshot).m_camera = some sampleCamera
      ∧ bucket (Renderables_Acquire sort st sampleSnapshot)
          RenderableType.Renderable_ObjectOpaque = [sampleMesh 1 7 10, sampleMesh 2 7 1]
      ∧ materialId (sampleMesh 1 7 10) = materialId (sampleMesh 2 7 1)
      ∧ depthFrom sampleCamera (sampleMesh 1 7 10) = some 100
      ∧ depthFrom sampleCamera (sampleMesh 2 7 1) = some 1 := by
  have hrouted : routed RenderableType.Renderable_ObjectOpaque sampleSnapshot
      = [sampleMesh 1 7 10, sampleMesh 2 7 1] := by
    simp [routed, sampleSnapshot, goesTo, sampleCameraActor, sampleMesh, isTransparent,
      sampleMaterial]
  refine ⟨?_, ?_, rfl, ?_, ?_⟩
  · rw [Renderables_Acquire_camera]
    simp [lastCamera, sampleSnapshot, sampleCameraActor, sampleMesh]
  · rw [Renderables_Acquire_bucket, hrouted]
    simp [Renderables_Sort]
  · simp [depthFrom, sampleMesh, sampleCamera, Vector3.sub, Vector3.LengthSquared]
    norm_num
  · simp [depthFrom, sampleMesh, sampleCamera, Vector3.sub, Vector3.LengthSquared]

/-- Insertion sort on the reversed vector meets the contract of `std::sort`. -/
theorem stdSort_reversedInsertionSort : StdSort reversedInsertionSort where
  perm := fun comp l =>
    (List.perm_insertionSort (fun a b => comp b a = false) l.reverse).trans
      (List.reverse_perm l)
  sorted := fun _ l h => pairwise_insertionSort h l.reverse (fun _ hx => List.mem_reverse.1 hx)

/-- The dependence of the depth order on the second sort. With a `std::sort` that meets its
contract but is not stable, three meshes of one material given front to back (squared
distances 1, 4, 9) leave `Renderables_Acquire` back to front: the sort by material, for which
the three are equivalent, undoes the sort by depth. -/
theorem Renderables_Acquire_triple_unstable (st : Renderer) :
    bucket (Renderables_Acquire reversedInsertionSort st sampleTripleSnapshot)
        RenderableType.Renderable_ObjectOpaque
      = [sampleMesh 3 7 3, sampleMesh 2 7 2, sampleMesh 1 7 1] := by
  have hrouted : routed RenderableType.Renderable_ObjectOpaque sampleTripleSnapshot
      = [sampleMesh 1 7 1, sampleMesh 2 7 2, sampleMesh 3 7 3] := by
    simp [routed, sampleTripleSnapshot, goesTo, sampleCameraActor, sampleMesh, isTransparent,
      sampleMaterial]
  have hcam : lastCamera sampleTripleSnapshot = some sampleCamera := by
    simp [lastCamera, sampleTripleSnapshot, sampleCameraActor, sampleMesh]
  rw [Renderables_Acquire_bucket, hrouted, hcam]
  simp [Renderables_Sort, reversedInsertionSort, insertionSort, Renderables_Sort.byDepth,
    Renderables_Sort.byMaterial, sampleMesh, sampleMaterial, sampleCamera, Vector3.sub,
    Vector3.LengthSquared]
  norm_num

/-- The material callback on two actors that have a material compares the material ids. -/
theorem byMaterial_eq {a b : Actor} {n m : Nat} (ha : materialId a = some n)
    (hb : materialId b = some m) : Renderables_Sort.byMaterial a b = decide (n < m) := by
  rcases a with ⟨ida, ra, la, sa, ca⟩
  rcases b with ⟨idb, rb, lb, sb, cb⟩
  cases ra with
  | none => simp [materialId] at ha
  | some ra =>
    cases rb with
    | none => simp [materialId] at hb
    | some rb =>
      rcases ra with ⟨ma, ca⟩
      rcases rb with ⟨mb, cb⟩
      cases ma with
      | none => simp [materialId] at ha
      | some ma =>
        cases mb with
        | none => simp [materialId] at hb
        | some mb =>
          simp [materialId] at ha hb
          simp [Renderables_Sort.byMaterial, ha, hb]

/-- On a vector whose actors all have a material, the material callback is a strict weak
ordering. -/
theorem strictWeakOn_byMaterial (l : List Actor)
    (h : ∀ a ∈ l, ∃ n, materialId a = some n) :
    StrictWeakOn Renderables_Sort.byMaterial l where
  irrefl := by
    intro a ha
    obtain ⟨n, hn⟩ := h a ha
    simp [byMaterial_eq hn hn]
  trans := by
    intro a ha b hb c hc
    obtain ⟨n, hn⟩ := h a ha
    obtain ⟨m, hm⟩ := h b hb
    obtain ⟨k, hk⟩ := h c hc
    simp only [byMaterial_eq hn hm, byMaterial_eq hm hk, byMaterial_eq hn hk, decide_eq_true_eq]
    omega
  equiv := by
    intro a ha b hb c hc
    obtain ⟨n, hn⟩ := h a ha
    obtain ⟨m, hm⟩ := h b hb
    obtain ⟨k, hk⟩ := h c hc
    simp only [byMaterial_eq hn hm, byMaterial_eq hm hn, byMaterial_eq hm hk, byMaterial_eq hk hm,
      byMaterial_eq hn hk, byMaterial_eq hk hn, decide_eq_false_iff_not]
    omega

/-- C9: for a bucket whose entities all have a renderable and a material, with or without a
camera, the result of `Renderables_Sort` is a rearrangement of the input in which no entity
of another material lies between two entities of the same material. -/
theorem Renderables_Sort_groups_materials (sort : SortFn) (hs : StdSort sort)
    (m_camera : Option Camera) (renderables : List Actor)
    (hall : ∀ a ∈ renderables, ∃ renderable material,
      a.renderable = some renderable ∧ renderable.material = some material) :
    (Renderables_Sort sort m_camera renderables).Perm renderables
      ∧ ∀ (p q r : List Actor) (x y : Actor),
          Renderables_Sort sort m_camera renderables = p ++ x :: q ++ y :: r →
          materialId x = materialId y → ∀ z ∈ q, materialId z = materialId x := by
  have hperm := Renderables_Sort_perm sort hs m_camera renderables
  have hid : ∀ a ∈ renderables, ∃ n, materialId a = some n := by
    intro a ha
    obtain ⟨renderable, material, h1, h2⟩ := hall a ha
    exact ⟨material.resourceID, by simp [materialId, h1, h2]⟩
  refine ⟨hperm, ?_⟩
  intro p q r x y hdec hxy z hz
  have hmem : ∀ a, a ∈ p ++ x :: q ++ y :: r → a ∈ renderables := by
    intro a ha
    rw [← hdec] at ha
    exact hperm.mem_iff.1 ha
  obtain ⟨nx, hnx⟩ := hid x (hmem x (by simp))
  obtain ⟨ny, hny⟩ := hid y (hmem y (by simp))
  obtain ⟨nz, hnz⟩ := hid z (hmem z (by simp [hz]))
  by_cases hlen : renderables.length ≤ 2
  · have hl := hperm.length_eq
    rw [hdec] at hl
    obtain ⟨z2, q2, rfl⟩ := List.exists_cons_of_ne_nil (List.ne_nil_of_mem hz)
    simp at hl
    omega
  · have hsorted : (p ++ x :: q ++ y :: r).Pairwise
        (fun a b => Renderables_Sort.byMaterial b a = false) := by
      rw [← hdec]
      unfold Renderables_Sort
      rw [if_neg hlen]
      apply hs.sorted
      apply strictWeakOn_byMaterial
      intro a ha
      cases m_camera with
      | none => exact hid a ha
      | some camera => exact hid a ((hs.perm _ _).mem_iff.1 ha)
    have hsplit : p ++ x :: q ++ y :: r = p ++ (x :: (q ++ y :: r)) := by simp
    rw [hsplit, List.pairwise_append, List.pairwise_cons, List.pairwise_append] at hsorted
    have hxz := hsorted.2.1.1 z (by simp [hz])
    have hzy := hsorted.2.1.2.2.2 z hz y (by simp)
    rw [byMaterial_eq hnz hnx] at hxz
    rw [byMaterial_eq hny hnz] at hzy
    rw [hnx, hny] at hxy
    simp only [Option.some.injEq] at hxy
    simp only [decide_eq_false_iff_not] at hxz hzy
    rw [hnz, hnx]
    congr 1
    omega

/-- C9 at a concrete input: the sample bucket (materials 9, 7, 9) with the sample camera. -/
theorem Renderables_Sort_groups_materials_witness :
    (Renderables_Sort insertionSort (some sampleCamera) sampleBucket).Perm sampleBucket
      ∧ ∀ (p q r : List Actor) (x y : Actor),
          Renderables_Sort insertionSort (some sampleCamera) sampleBucket
            = p ++ x :: q ++ y :: r →
          materialId x = materialId y → ∀ z ∈ q, materialId z = materialId x :=
  Renderables_Sort_groups_materials insertionSort stdSort_insertionSort (some sampleCamera)
    sampleBucket (by
      intro a ha
      simp only [sampleBucket, List.mem_cons, List.mem_singleton, List.not_mem_nil,
        or_false] at ha
      rcases ha with rfl | rfl | rfl <;> exact ⟨_, _, rfl, rfl⟩)

/-! ## The frame entry point: theorems -/

/-- C10: with an initialized device and no active camera, `Render` only clears the back
buffer (to opaque black): no pass is invoked and every member of the renderer, among them
the frame number, the jitter and the camera matrices, keeps its value. -/
theorem Render_without_camera (lib : MathLib) (st : Renderer) (device : RHI_Device)
    (hdev : st.m_rhiDevice = some device) (hinit : device.isInitialized = true)
    (hcam : st.m_camera = none) :
    Render lib st
      = { st with m_trace := st.m_trace ++ [Effect.clearBackBuffer ⟨0, 0, 0, 1⟩] } := by
  simp [Render, emit, hdev, hinit, hcam]

/-- C10 at a concrete input: the sample renderer after acquiring the sample sky snapshot,
which has no camera. -/
theorem Render_without_camera_witness :
    Render sampleMathLib (Renderables_Acquire insertionSort sampleRenderer sampleSkySnapshot)
      = { Renderables_Acquire insertionSort sampleRenderer sampleSkySnapshot with
          m_trace := (Renderables_Acquire insertionSort sampleRenderer sampleSkySnapshot).m_trace
            ++ [Effect.clearBackBuffer ⟨0, 0, 0, 1⟩] } :=
  Render_without_camera sampleMathLib
    (Renderables_Acquire insertionSort sampleRenderer sampleSkySnapshot)
    { isInitialized := true } rfl rfl rfl

/-! ## The frame entry point: the passes of a frame -/

/-- Recording passes in the trace changes neither the camera nor the bucket map. -/
theorem foldl_emit_keeps (calls : List PassCall) (st : Renderer) :
    (calls.foldl (fun s call => emit s (Effect.pass call)) st).m_camera = st.m_camera
      ∧ (calls.foldl (fun s call => emit s (Effect.pass call)) st).m_actors = st.m_actors
      ∧ (calls.foldl (fun s call => emit s (Effect.pass call)) st).m_trace
          = st.m_trace ++ calls.map Effect.pass := by
  induction calls generalizing st with
  | nil => simp
  | cons c calls ih =>
    obtain ⟨h1, h2, h3⟩ := ih (emit st (Effect.pass c))
    rw [List.foldl_cons]
    refine ⟨h1, h2, ?_⟩
    rw [h3]
    simp [emit]

/-- Filling the camera matrices changes neither the camera, nor the bucket map, nor the
trace. -/
theorem cameraMatrices_keeps (lib : MathLib) (st : Renderer) (camera : Camera) :
    (Render.cameraMatrices lib st camera).m_camera = st.m_camera
      ∧ (Render.cameraMatrices lib st camera).m_actors = st.m_actors
      ∧ (Render.cameraMatrices lib st camera).m_trace = st.m_trace := by
  simp only [Render.cameraMatrices]
  split <;> exact ⟨rfl, rfl, rfl⟩

/-- The trace of a frame that renders: with an initialized device, a camera and a bucket map
that is not empty, `Render` resets the profiler and invokes the directional-light depth pass
and then the passes of `Render.passes`, in order. -/
theorem Render_trace (lib : MathLib) (st : Renderer) (device : RHI_Device) (camera : Camera)
    (hdev : st.m_rhiDevice = some device) (hinit : device.isInitialized = true)
    (hcam : st.m_camera = some camera) (hne : ActorMap.empty st.m_actors = false) :
    (Render lib st).m_trace
      = st.m_trace
        ++ (Effect.profilerReset
          :: Effect.pass (PassCall.Pass_DepthDirectionalLight
              (firstDirectional (bucket st RenderableType.Renderable_Light)))
          :: Render.passes.map Effect.pass) := by
  simp only [Render, hdev, hinit, hcam, hne, Bool.not_true, Bool.false_eq_true, if_false,
    GetLightDirectional]
  rw [(foldl_emit_keeps _ _).2.2]
  simp only [emit, bucket, (cameraMatrices_keeps _ _ _).2.1, (cameraMatrices_keeps _ _ _).2.2,
    List.append_assoc, List.singleton_append, List.cons_append, List.nil_append]

/-- `Render` keeps the camera, and every key the bucket map holds. -/
theorem Render_keeps (lib : MathLib) (st : Renderer) :
    (Render lib st).m_camera = st.m_camera
      ∧ ∀ key, ActorMap.holds st.m_actors key = true →
          ActorMap.holds (Render lib st).m_actors key = true := by
  cases hdev : st.m_rhiDevice with
  | none =>
    have h : Render lib st = st := by simp only [Render, hdev]
    rw [h]
    exact ⟨rfl, fun _ h => h⟩
  | some device =>
    cases hinit : device.isInitialized with
    | false =>
      have h : Render lib st = st := by
        simp only [Render, hdev, hinit, Bool.not_false, if_true]
      rw [h]
      exact ⟨rfl, fun _ h => h⟩
    | true =>
      cases hcam : st.m_camera with
      | none =>
        have h : Render lib st = emit st (Effect.clearBackBuffer ⟨0, 0, 0, 1⟩) := by
          simp only [Render, hdev, hinit, hcam, Bool.not_true, Bool.false_eq_true, if_false]
        rw [h]
        exact ⟨hcam, fun _ h => h⟩
      | some camera =>
        cases hne : ActorMap.empty st.m_actors with
        | true =>
          simp only [Render, hdev, hinit, hcam, hne, Bool.not_true, Bool.false_eq_true,
            if_false, if_true]
          exact ⟨hcam, fun _ h => h⟩
        | false =>
          simp only [Render, hdev, hinit, hcam, hne, Bool.not_true, Bool.false_eq_true,
            if_false, GetLightDirectional]
          refine ⟨?_, ?_⟩
          · rw [(foldl_emit_keeps _ _).1]
            simp only [emit, (cameraMatrices_keeps _ _ _).1]
            exact hcam
          · intro key hk
            rw [(foldl_emit_keeps _ _).2.1]
            simp only [emit, bucket, (cameraMatrices_keeps _ _ _).2.1]
            by_cases hkey : key = RenderableType.Renderable_Light
            · subst hkey
              simp [ActorMap.holds]
            · simpa [ActorMap.holds, Function.update, hkey] using hk

/-- One iteration of the loop of `Renderables_Acquire` keeps the keys of the bucket map and
the device, and leaves a camera only together with the camera key. -/
theorem step_keeps (st : Renderer) (o : Option Actor) :
    (∀ key, ActorMap.holds st.m_actors key = true →
        ActorMap.holds (Renderables_Acquire.step st o).m_actors key = true)
      ∧ (Renderables_Acquire.step st o).m_rhiDevice = st.m_rhiDevice
      ∧ ((st.m_camera ≠ none →
            ActorMap.holds st.m_actors RenderableType.Renderable_Camera = true) →
          (Renderables_Acquire.step st o).m_camera ≠ none →
          ActorMap.holds (Renderables_Acquire.step st o).m_actors
            RenderableType.Renderable_Camera = true) := by
  cases o with
  | none => exact ⟨fun _ h => h, rfl, fun h => h⟩
  | some a =>
    rcases a with ⟨id, r, l, s, c⟩
    refine ⟨?_, ?_, ?_⟩
    · intro key
      cases r <;> cases l <;> cases s <;> cases c <;> cases key <;>
        simp [Renderables_Acquire.step, emplace_back, Function.update, ActorMap.holds] <;>
        (split <;> simp_all)
    · cases r <;> cases l <;> cases s <;> cases c <;>
        simp [Renderables_Acquire.step, emplace_back]
    · cases r <;> cases l <;> cases s <;> cases c <;>
        simp [Renderables_Acquire.step, emplace_back, Function.update, ActorMap.holds] <;>
        (split <;> simp_all)

/-- The loop of `Renderables_Acquire` keeps the device, and leaves a camera only together
with the camera key. -/
theorem foldl_step_keeps (l : List (Option Actor)) (st : Renderer)
    (h : st.m_camera ≠ none →
      ActorMap.holds st.m_actors RenderableType.Renderable_Camera = true) :
    (l.foldl Renderables_Acquire.step st).m_rhiDevice = st.m_rhiDevice
      ∧ ((l.foldl Renderables_Acquire.step st).m_camera ≠ none →
          ActorMap.holds (l.foldl Renderables_Acquire.step st).m_actors
            RenderableType.Renderable_Camera = true) := by
  induction l generalizing st with
  | nil => exact ⟨rfl, h⟩
  | cons o l ih =>
    obtain ⟨h1, h2⟩ := ih (Renderables_Acquire.step st o) ((step_keeps st o).2.2 h)
    rw [List.foldl_cons]
    exact ⟨h1.trans (step_keeps st o).2.1, h2⟩

/-- Sorting a bucket in place creates its key and keeps the other keys. -/
theorem sortBucket_holds (sort : SortFn) (st : Renderer) (key key2 : RenderableType) :
    ActorMap.holds (sortBucket sort st key).m_actors key2
      = (decide (key2 = key) || ActorMap.holds st.m_actors key2) := by
  by_cases h : key2 = key
  · subst h
    simp [ActorMap.holds, sortBucket]
  · simp [ActorMap.holds, sortBucket, Function.update, h]

/-- After `Renderables_Acquire` the bucket map holds the opaque and the transparent key, and
the camera key when there is a camera; the device is the one before. -/
theorem Renderables_Acquire_holds (sort : SortFn) (st : Renderer)
    (actorsVec : List (Option Actor)) :
    (Renderables_Acquire sort st actorsVec).m_rhiDevice = st.m_rhiDevice
      ∧ ActorMap.holds (Renderables_Acquire sort st actorsVec).m_actors
          RenderableType.Renderable_ObjectOpaque = true
      ∧ ActorMap.holds (Renderables_Acquire sort st actorsVec).m_actors
          RenderableType.Renderable_ObjectTransparent = true
      ∧ ((Renderables_Acquire sort st actorsVec).m_camera ≠ none →
          ActorMap.holds (Renderables_Acquire sort st actorsVec).m_actors
            RenderableType.Renderable_Camera = true) := by
  obtain ⟨h1, h2⟩ := foldl_step_keeps actorsVec
    { st with m_actors := fun _ => none, m_camera := none } (fun h => absurd rfl h)
  refine ⟨h1, ?_, ?_, ?_⟩
  · simp [Renderables_Acquire, sortBucket_holds]
  · simp [Renderables_Acquire, sortBucket_holds]
  · intro hc
    simp only [Renderables_Acquire, sortBucket_camera] at hc
    simp only [Renderables_Acquire, sortBucket_holds, h2 hc, Bool.or_true]

/-- Recording passes in the trace keeps the device. -/
theorem foldl_emit_device (calls : List PassCall) (st : Renderer) :
    (calls.foldl (fun s call => emit s (Effect.pass call)) st).m_rhiDevice = st.m_rhiDevice := by
  induction calls generalizing st with
  | nil => rfl
  | cons c calls ih => rw [List.foldl_cons, ih]; rfl

/-- Filling the camera matrices keeps the device. -/
theorem cameraMatrices_device (lib : MathLib) (st : Renderer) (camera : Camera) :
    (Render.cameraMatrices lib st camera).m_rhiDevice = st.m_rhiDevice := by
  simp only [Render.cameraMatrices]
  split <;> rfl

/-- `Render` keeps the device. -/
theorem Render_device (lib : MathLib) (st : Renderer) :
    (Render lib st).m_rhiDevice = st.m_rhiDevice := by
  cases hdev : st.m_rhiDevice with
  | none => simp only [Render, hdev]
  | some device =>
    cases hinit : device.isInitialized with
    | false => simp only [Render, hdev, hinit, Bool.not_false, if_true]
    | true =>
      cases hcam : st.m_camera with
      | none =>
        simp only [Render, hdev, hinit, hcam, Bool.not_true, Bool.false_eq_true, if_false, emit]
      | some camera =>
        cases hne : ActorMap.empty st.m_actors with
        | true =>
          simp only [Render, hdev, hinit, hcam, hne, Bool.not_true, Bool.false_eq_true,
            if_false, if_true, emit]
        | false =>
          simp only [Render, hdev, hinit, hcam, hne, Bool.not_true, Bool.false_eq_true,
            if_false, GetLightDirectional]
          rw [foldl_emit_device]
          simp only [emit, cameraMatrices_device]
          exact hdev

/-- In every reachable state the device is the one the constructor created, and a camera
comes with the camera, the opaque and the transparent key of the bucket map. -/
theorem Reachable_inv (sort : SortFn) (lib : MathLib) (decl : Renderer) (device : RHI_Device)
    (st : Renderer) (h : Reachable sort lib decl device st) :
    st.m_rhiDevice = some device
      ∧ (st.m_camera ≠ none →
          ActorMap.holds st.m_actors RenderableType.Renderable_Camera = true
            ∧ ActorMap.holds st.m_actors RenderableType.Renderable_ObjectOpaque = true
            ∧ ActorMap.holds st.m_actors RenderableType.Renderable_ObjectTransparent = true) := by
  induction h with
  | ctor => exact ⟨rfl, fun h => absurd rfl h⟩
  | acquire st actorsVec _ ih =>
    obtain ⟨h1, h2, h3, h4⟩ := Renderables_Acquire_holds sort st actorsVec
    exact ⟨h1.trans ih.1, fun hc => ⟨h4 hc, h2, h3⟩⟩
  | render st _ ih =>
    obtain ⟨h1, h2⟩ := Render_keeps lib st
    refine ⟨(Render_device lib st).trans ih.1, fun hc => ?_⟩
    rw [h1] at hc
    obtain ⟨k1, k2, k3⟩ := ih.2 hc
    exact ⟨h2 _ k1, h2 _ k2, h2 _ k3⟩

/-- A bucket map that holds the camera key is not empty. -/
theorem empty_of_holds (m : ActorMap)
    (h : ActorMap.holds m RenderableType.Renderable_Camera = true) :
    ActorMap.empty m = false := by
  simp only [ActorMap.holds, Option.isSome_iff_exists] at h
  obtain ⟨a, ha⟩ := h
  simp [ActorMap.empty, ha]

/-- C29: in every renderer state reachable from construction through `Renderables_Acquire`
and `Render`, an active camera comes with a bucket map that holds the camera key and the
opaque and transparent keys created by sorting, so the map is not empty and the test of the
"nothing to render" branch fails; with an initialized device `Render` then records the full
pass sequence, whatever the buckets hold. -/
theorem Render_reachable_full_sequence (sort : SortFn) (lib : MathLib) (decl : Renderer)
    (device : RHI_Device) (st : Renderer) (camera : Camera)
    (hreach : Reachable sort lib decl device st) (hcam : st.m_camera = some camera) :
    ActorMap.holds st.m_actors RenderableType.Renderable_Camera = true
      ∧ ActorMap.holds st.m_actors RenderableType.Renderable_ObjectOpaque = true
      ∧ ActorMap.holds st.m_actors RenderableType.Renderable_ObjectTransparent = true
      ∧ ActorMap.empty st.m_actors = false
      ∧ (device.isInitialized = true →
          (Render lib st).m_trace
            = st.m_trace
              ++ (Effect.profilerReset
                :: Effect.pass (PassCall.Pass_DepthDirectionalLight
                    (firstDirectional (bucket st RenderableType.Renderable_Light)))
                :: Render.passes.map Effect.pass)) := by
  obtain ⟨hdev, hinv⟩ := Reachable_inv sort lib decl device st hreach
  obtain ⟨k1, k2, k3⟩ := hinv (by rw [hcam]; exact Option.some_ne_none camera)
  exact ⟨k1, k2, k3, empty_of_holds _ k1,
    fun hinit => Render_trace lib st device camera hdev hinit hcam (empty_of_holds _ k1)⟩

/-- C29 at a snapshot with a camera and no geometry, acquired right after construction: the
opaque and the transparent bucket are empty vectors, the bucket map is not empty, and
`Render` records the profiler reset and the ten passes. -/
theorem Render_reachable_full_sequence_witness :
    bucket (Renderables_Acquire insertionSort (Renderer.ctor sampleRenderer sampleDevice)
        sampleCameraSnapshot) RenderableType.Renderable_ObjectOpaque = []
      ∧ bucket (Renderables_Acquire insertionSort (Renderer.ctor sampleRenderer sampleDevice)
        sampleCameraSnapshot) RenderableType.Renderable_ObjectTransparent = []
      ∧ ActorMap.empty (Renderables_Acquire insertionSort
          (Renderer.ctor sampleRenderer sampleDevice) sampleCameraSnapshot).m_actors = false
      ∧ (Render sampleMathLib (Renderables_Acquire insertionSort
          (Renderer.ctor sampleRenderer sampleDevice) sampleCameraSnapshot)).m_trace
        = [ Effect.profilerReset,
            Effect.pass (PassCall.Pass_DepthDirectionalLight none),
            Effect.pass PassCall.Pass_GBuffer,
            Effect.pass (PassCall.Pass_PreLight RenderTexSlot.Half_Spare
              RenderTexSlot.Half_Shadows RenderTexSlot.Half_SSAO),
            Effect.pass (PassCall.Pass_Light RenderTexSlot.Half_Shadows RenderTexSlot.Half_SSAO
              RenderTexSlot.Full_HDR_Light),
            Effect.pass (PassCall.Pass_Transparent RenderTexSlot.Full_HDR_Light),
            Effect.pass (PassCall.Pass_PostLight RenderTexSlot.Full_HDR_Light
              RenderTexSlot.Full_HDR_Light2),
            Effect.pass (PassCall.Pass_Lines RenderTexSlot.Full_HDR_Light2),
            Effect.pass (PassCall.Pass_Gizmos RenderTexSlot.Full_HDR_Light2),
            Effect.pass (PassCall.Pass_DebugBuffer RenderTexSlot.Full_HDR_Light2),
            Effect.pass (PassCall.Pass_PerformanceMetrics RenderTexSlot.Full_HDR_Light2) ] := by
  have h := Render_reachable_full_sequence insertionSort sampleMathLib sampleRenderer
    sampleDevice _ sampleCamera (Reachable.acquire _ sampleCameraSnapshot Reachable.ctor) rfl
  exact ⟨rfl, rfl, h.2.2.2.1, (h.2.2.2.2 rfl).trans rfl⟩

end Directus

namespace Spartan

/-! # The pass pipeline: theorems -/

/-! ## Command lists -/

/-- A draw call binds nothing. -/
theorem exec_of_isDraw (p : Pipeline) (c : Cmd) (h : c.isDraw = true) : p.exec c = p := by
  cases c <;> simp [Cmd.isDraw] at h <;> rfl

/-- The draws of two command lists in sequence. -/
theorem draws_append (p : Pipeline) (a b : List Cmd) :
    draws p (a ++ b) = draws p a ++ draws (a.foldl Pipeline.exec p) b := by
  induction a generalizing p with
  | nil => rfl
  | cons c cs ih =>
    by_cases h : c.isDraw = true
    · simp [draws, h, ih, exec_of_isDraw p c h]
    · simp [draws, h, ih]

/-- The draws of a command list extended by further commands. -/
theorem drawsOf_append (a b : List Cmd) :
    drawsOf (a ++ b) = drawsOf a ++ draws (pipelineAfter a) b :=
  draws_append Pipeline.unbound a b

/-- The bindings after a command list extended by further commands. -/
theorem pipelineAfter_append (a b : List Cmd) :
    pipelineAfter (a ++ b) = b.foldl Pipeline.exec (pipelineAfter a) := by
  simp [pipelineAfter]

/-- The stages of two command lists in sequence. -/
theorem stagesOf_append (a b : List Cmd) : stagesOf (a ++ b) = stagesOf a ++ stagesOf b := by
  simp [stagesOf]

/-- The depth clears of two command lists in sequence. -/
theorem depthClears_append (a b : List Cmd) :
    depthClears (a ++ b) = depthClears a ++ depthClears b := by
  simp [depthClears]

/-! ## G-buffer pass -/

/-- C11, as stated, fails without device: the sample renderer without device has an empty
opaque bucket, and `Pass_GBuffer` returns at its first test without issuing any command, so
none of the five clears. -/
theorem Pass_GBuffer_no_device_no_clear :
    sampleNoDevice.m_entities RenderableType.Renderable_ObjectOpaque = []
      ∧ (Pass_GBuffer sampleNoDevice).map (fun st => st.m_cmd_list) = some [] := by
  constructor <;> rfl

/-- C11, amended: for every renderer state with a device whose opaque bucket is empty,
`Pass_GBuffer` changes nothing but the command list, to which it appends, between the scope
delimiters, exactly the clears of the albedo, normal, material and velocity targets to zero
and of the depth attachment; no appended command is a draw call or binds state. -/
theorem Pass_GBuffer_empty_bucket (st : Renderer) (device : RHI_Device)
    (hdev : st.m_rhi_device = some device)
    (hempty : st.m_entities RenderableType.Renderable_ObjectOpaque = []) :
    ∃ new : List Cmd,
      Pass_GBuffer st = some { st with m_cmd_list := st.m_cmd_list ++ new }
        ∧ new.filter (fun c => !c.isScope)
          = [ Cmd.ClearRenderTarget (st.tex TexSlot.m_g_buffer_albedo).id ⟨0, 0, 0, 0⟩,
              Cmd.ClearRenderTarget (st.tex TexSlot.m_g_buffer_normal).id ⟨0, 0, 0, 0⟩,
              Cmd.ClearRenderTarget (st.tex TexSlot.m_g_buffer_material).id ⟨0, 0, 0, 0⟩,
              Cmd.ClearRenderTarget (st.tex TexSlot.m_g_buffer_velocity).id ⟨0, 0, 0, 0⟩,
              Cmd.ClearDepthStencil (depthView (st.tex TexSlot.m_g_buffer_depth) 0)
                st.clearDepth ]
        ∧ (∀ c ∈ new, c.isDraw = false ∧ c.isBinding = false) := by
  refine ⟨[ Cmd.Begin ScopeName.Pass_GBuffer,
      Cmd.ClearRenderTarget (st.tex TexSlot.m_g_buffer_albedo).id ⟨0, 0, 0, 0⟩,
      Cmd.ClearRenderTarget (st.tex TexSlot.m_g_buffer_normal).id ⟨0, 0, 0, 0⟩,
      Cmd.ClearRenderTarget (st.tex TexSlot.m_g_buffer_material).id ⟨0, 0, 0, 0⟩,
      Cmd.ClearRenderTarget (st.tex TexSlot.m_g_buffer_velocity).id ⟨0, 0, 0, 0⟩,
      Cmd.ClearDepthStencil (depthView (st.tex TexSlot.m_g_buffer_depth) 0) st.clearDepth,
      Cmd.End, Cmd.Submit ], ?_, ?_, ?_⟩
  · simp [Pass_GBuffer, hdev, hempty, cmd, cmds]
  · simp [Cmd.isScope]
  · intro c hc
    simp only [List.mem_cons, List.mem_singleton, List.not_mem_nil, or_false] at hc
    rcases hc with rfl | rfl | rfl | rfl | rfl | rfl | rfl | rfl <;>
      simp [Cmd.isDraw, Cmd.isBinding, Cmd.isClear, Cmd.isScope]

/-- C11, amended, at a concrete input: the sample renderer has a device and an empty opaque
bucket. -/
theorem Pass_GBuffer_empty_bucket_witness :
    ∃ new : List Cmd,
      Pass_GBuffer sampleState
          = some { sampleState with m_cmd_list := sampleState.m_cmd_list ++ new }
        ∧ new.filter (fun c => !c.isScope)
          = [ Cmd.ClearRenderTarget (sampleState.tex TexSlot.m_g_buffer_albedo).id ⟨0, 0, 0, 0⟩,
              Cmd.ClearRenderTarget (sampleState.tex TexSlot.m_g_buffer_normal).id ⟨0, 0, 0, 0⟩,
              Cmd.ClearRenderTarget (sampleState.tex TexSlot.m_g_buffer_material).id
                ⟨0, 0, 0, 0⟩,
              Cmd.ClearRenderTarget (sampleState.tex TexSlot.m_g_buffer_velocity).id
                ⟨0, 0, 0, 0⟩,
              Cmd.ClearDepthStencil (depthView (sampleState.tex TexSlot.m_g_buffer_depth) 0)
                sampleState.clearDepth ]
        ∧ (∀ c ∈ new, c.isDraw = false ∧ c.isBinding = false) :=
  Pass_GBuffer_empty_bucket sampleState { isInitialized := true } rfl rfl

/-! ## Shadow depth pass: the average light direction -/

/-- C13: evaluation at the failing input. In the sample renderer the light bucket is empty,
so no directional light casts shadows and the count stays zero; `Pass_LightDepth` still
divides the average direction, the zero vector, by the count, which leaves NaN in every
component and not the zero vector. -/
theorem Pass_LightDepth_no_light_nan :
    sampleState.m_entities RenderableType.Renderable_Light = []
      ∧ sampleState.m_directional_light_avg_dir = XVector3.Zero
      ∧ (Pass_LightDepth sampleState).map (fun st => st.m_directional_light_avg_dir)
          = some ⟨XFloat.nan, XFloat.nan, XFloat.nan⟩
      ∧ (Pass_LightDepth sampleState).map (fun st => st.m_directional_light_avg_dir)
          ≠ some XVector3.Zero := by
  have h : (Pass_LightDepth sampleState).map (fun st => st.m_directional_light_avg_dir)
      = some ⟨XFloat.nan, XFloat.nan, XFloat.nan⟩ := by
    simp [Pass_LightDepth, sampleState, XVector3.divCount, XVector3.Zero, XFloat.divCount]
  refine ⟨rfl, rfl, h, ?_⟩
  rw [h]
  simp [XVector3.Zero]

/-! ## Gaussian blur passes: mismatching textures -/

/-- C19: when the two textures differ in width, height or format, `Pass_BlurGaussian` and
`Pass_BlurBilateralGaussian` only log the error: the command list, the textures of all
handles and the global constant buffer, like every other member, are as before. -/
theorem Pass_Blur_mismatch (st : Renderer) (tex_in tex_out : TexSlot) (sigma pixel_stride : ℚ)
    (h : (st.tex tex_in).width ≠ (st.tex tex_out).width
      ∨ (st.tex tex_in).height ≠ (st.tex tex_out).height
      ∨ (st.tex tex_in).format ≠ (st.tex tex_out).format) :
    Pass_BlurGaussian st tex_in tex_out sigma pixel_stride
        = { st with m_log := st.m_log ++ [LogLine.errorTexturesMustMatch] }
      ∧ Pass_BlurBilateralGaussian st tex_in tex_out sigma pixel_stride
        = { st with m_log := st.m_log ++ [LogLine.errorTexturesMustMatch] } := by
  have hm : texturesMismatch (st.tex tex_in) (st.tex tex_out) = true := by
    simpa [texturesMismatch] using h
  constructor
  · simp [Pass_BlurGaussian, hm]
  · simp [Pass_BlurBilateralGaussian, hm]

/-- C19 at a concrete input: in the sample renderer the half-resolution spare texture and the
first quarter-resolution blur texture differ in width. -/
theorem Pass_Blur_mismatch_witness :
    Pass_BlurGaussian sampleState TexSlot.m_render_tex_half_spare
          TexSlot.m_render_tex_quarter_blur1 2 1
        = { sampleState with m_log := sampleState.m_log ++ [LogLine.errorTexturesMustMatch] }
      ∧ Pass_BlurBilateralGaussian sampleState TexSlot.m_render_tex_half_spare
          TexSlot.m_render_tex_quarter_blur1 2 1
        = { sampleState with m_log := sampleState.m_log ++ [LogLine.errorTexturesMustMatch] } :=
  Pass_Blur_mismatch sampleState TexSlot.m_render_tex_half_spare
    TexSlot.m_render_tex_quarter_blur1 2 1 (Or.inl (by decide))

/-! ## Temporal anti-aliasing -/

/-- The commands, the handles and the draws of one `Pass_TAA`: two draws are added; the
first renders into the texture of the current handle and reads the texture of the history
handle at slot 0, the second renders into the texture of `tex_out` and reads the texture just
resolved into; on return the two handles have exchanged their textures. -/
theorem Pass_TAA_draws (st : Renderer) (tex_in tex_out : TexSlot) :
    (∃ resolve output : DrawCall,
        drawsOf (Pass_TAA st tex_in tex_out).m_cmd_list
            = drawsOf st.m_cmd_list ++ [resolve, output]
          ∧ resolve.pipeline.pixelShader = some ShaderRef.m_ps_taa
          ∧ resolve.pipeline.renderTargets = [(st.tex TexSlot.m_render_tex_full_taa_current).id]
          ∧ resolve.pipeline.textures 0
              = some (st.tex TexSlot.m_render_tex_full_taa_history).id
          ∧ output.pipeline.renderTargets = [(st.tex tex_out).id]
          ∧ output.pipeline.textures 0
              = some (st.tex TexSlot.m_render_tex_full_taa_current).id)
      ∧ (Pass_TAA st tex_in tex_out).tex TexSlot.m_render_tex_full_taa_history
          = st.tex TexSlot.m_render_tex_full_taa_current
      ∧ (Pass_TAA st tex_in tex_out).tex TexSlot.m_render_tex_full_taa_current
          = st.tex TexSlot.m_render_tex_full_taa_history := by
  refine ⟨?_, ?_, ?_⟩
  · simp [Pass_TAA, cmds, cmd, SetDefaultBuffer, swapTex, drawsOf_append, draws, Cmd.isDraw,
      Pipeline.exec]
    refine ⟨_, _, ⟨rfl, rfl⟩, ?_⟩
    simp [bindSlots]
  · simp [Pass_TAA, cmds, cmd, SetDefaultBuffer, swapTex]
  · simp [Pass_TAA, cmds, cmd, SetDefaultBuffer, swapTex]

/-- C18: `Pass_TAA` resolves into the texture held by the current handle while reading the
one held by the history handle; on return the two handles have exchanged their textures; hence
a second `Pass_TAA`, in the next frame, reads as history the texture that was current in the
first and resolves into the one that was history. -/
theorem Pass_TAA_ping_pong (st : Renderer) (tex_in tex_out : TexSlot) :
    (∃ resolve output : DrawCall,
        drawsOf (Pass_TAA st tex_in tex_out).m_cmd_list
            = drawsOf st.m_cmd_list ++ [resolve, output]
          ∧ resolve.pipeline.renderTargets = [(st.tex TexSlot.m_render_tex_full_taa_current).id]
          ∧ resolve.pipeline.textures 0
              = some (st.tex TexSlot.m_render_tex_full_taa_history).id)
      ∧ (Pass_TAA st tex_in tex_out).tex TexSlot.m_render_tex_full_taa_history
          = st.tex TexSlot.m_render_tex_full_taa_current
      ∧ (Pass_TAA st tex_in tex_out).tex TexSlot.m_render_tex_full_taa_current
          = st.tex TexSlot.m_render_tex_full_taa_history
      ∧ (∀ frame2 : Renderer,
          frame2.tex TexSlot.m_render_tex_full_taa_history
              = (Pass_TAA st tex_in tex_out).tex TexSlot.m_render_tex_full_taa_history →
          frame2.tex TexSlot.m_render_tex_full_taa_current
              = (Pass_TAA st tex_in tex_out).tex TexSlot.m_render_tex_full_taa_current →
          ∃ resolve output : DrawCall,
            drawsOf (Pass_TAA frame2 tex_in tex_out).m_cmd_list
                = drawsOf frame2.m_cmd_list ++ [resolve, output]
              ∧ resolve.pipeline.renderTargets
                  = [(st.tex TexSlot.m_render_tex_full_taa_history).id]
              ∧ resolve.pipeline.textures 0
                  = some (st.tex TexSlot.m_render_tex_full_taa_current).id) := by
  obtain ⟨⟨resolve, output, hd, -, hrt, htex, -, -⟩, hh, hc⟩ := Pass_TAA_draws st tex_in tex_out
  refine ⟨⟨resolve, output, hd, hrt, htex⟩, hh, hc, ?_⟩
  intro frame2 h2h h2c
  obtain ⟨⟨r2, o2, hd2, -, hrt2, htex2, -, -⟩, -, -⟩ := Pass_TAA_draws frame2 tex_in tex_out
  refine ⟨r2, o2, hd2, ?_, ?_⟩
  · rw [hrt2, h2c, hc]
  · rw [htex2, h2h, hh]

/-- C18 on two consecutive frames from the sample renderer, where the current handle holds
texture 8 and the history handle texture 9: the second `Pass_TAA` resolves into texture 9 and
reads texture 8 as history. -/
theorem Pass_TAA_ping_pong_witness :
    ∃ resolve output : DrawCall,
      drawsOf (Pass_TAA
          (Pass_TAA sampleState TexSlot.m_render_tex_full_hdr_light
            TexSlot.m_render_tex_full_hdr_light2)
          TexSlot.m_render_tex_full_hdr_light TexSlot.m_render_tex_full_hdr_light2).m_cmd_list
        = drawsOf (Pass_TAA sampleState TexSlot.m_render_tex_full_hdr_light
            TexSlot.m_render_tex_full_hdr_light2).m_cmd_list ++ [resolve, output]
        ∧ resolve.pipeline.renderTargets = [9]
        ∧ resolve.pipeline.textures 0 = some 8 :=
  (Pass_TAA_ping_pong sampleState TexSlot.m_render_tex_full_hdr_light
    TexSlot.m_render_tex_full_hdr_light2).2.2.2
    (Pass_TAA sampleState TexSlot.m_render_tex_full_hdr_light
      TexSlot.m_render_tex_full_hdr_light2) rfl rfl

/-! ## Post-processing chain -/

/-- The single-draw passes meet the stage contract for the stage their scope announces. -/
theorem stageSpec_SingleDraw (name : ScopeName) (shader : ShaderRef) (sampler : SamplerRef)
    (stage : PostStage) (h : PostStage.ofScope name = some stage) :
    StageSpec (fun st tex_in tex_out => Pass_SingleDraw st name shader sampler tex_in tex_out)
      stage false where
  stages := by
    intro st tex_in tex_out
    simp [Pass_SingleDraw, cmds, cmd, SetDefaultBuffer, stagesOf, h]
  flags := by
    intro st tex_in tex_out
    simp [Pass_SingleDraw, cmds, cmd, SetDefaultBuffer]
  tonemapping := by
    intro st tex_in tex_out
    simp [Pass_SingleDraw, cmds, cmd, SetDefaultBuffer]
  tex_in := by
    intro st
    simp [Pass_SingleDraw, cmds, cmd, SetDefaultBuffer]
  tex_out := by
    intro st
    simp [Pass_SingleDraw, cmds, cmd, SetDefaultBuffer]

/-- The tone-mapping pass meets the stage contract. -/
theorem stageSpec_ToneMapping : StageSpec Pass_ToneMapping PostStage.ToneMapping false :=
  stageSpec_SingleDraw _ _ _ _ rfl

/-- The sharpening pass meets the stage contract. -/
theorem stageSpec_Sharpening : StageSpec Pass_Sharpening PostStage.Sharpening false :=
  stageSpec_SingleDraw _ _ _ _ rfl

/-- The chromatic aberration pass meets the stage contract. -/
theorem stageSpec_ChromaticAberration :
    StageSpec Pass_ChromaticAberration PostStage.ChromaticAberration false :=
  stageSpec_SingleDraw _ _ _ _ rfl

/-- The dithering pass meets the stage contract. -/
theorem stageSpec_Dithering : StageSpec Pass_Dithering PostStage.Dithering false where
  stages := by
    intro st tex_in tex_out
    simp [Pass_Dithering, cmds, cmd, SetDefaultBuffer, stagesOf, PostStage.ofScope]
  flags := by
    intro st tex_in tex_out
    simp [Pass_Dithering, cmds, cmd, SetDefaultBuffer]
  tonemapping := by
    intro st tex_in tex_out
    simp [Pass_Dithering, cmds, cmd, SetDefaultBuffer]
  tex_in := by
    intro st
    simp [Pass_Dithering, cmds, cmd, SetDefaultBuffer]
  tex_out := by
    intro st
    simp [Pass_Dithering, cmds, cmd, SetDefaultBuffer]

/-- The motion blur pass meets the stage contract. -/
theorem stageSpec_MotionBlur : StageSpec Pass_MotionBlur PostStage.MotionBlur false where
  stages := by
    intro st tex_in tex_out
    simp [Pass_MotionBlur, cmds, cmd, SetDefaultBuffer, stagesOf, PostStage.ofScope]
  flags := by
    intro st tex_in tex_out
    simp [Pass_MotionBlur, cmds, cmd, SetDefaultBuffer]
  tonemapping := by
    intro st tex_in tex_out
    simp [Pass_MotionBlur, cmds, cmd, SetDefaultBuffer]
  tex_in := by
    intro st
    simp [Pass_MotionBlur, cmds, cmd, SetDefaultBuffer]
  tex_out := by
    intro st
    simp [Pass_MotionBlur, cmds, cmd, SetDefaultBuffer]

/-- The TAA pass meets the stage contract: it swaps its own two handles, not the HDR ones. -/
theorem stageSpec_TAA : StageSpec Pass_TAA PostStage.TAA false where
  stages := by
    intro st tex_in tex_out
    simp [Pass_TAA, cmds, cmd, SetDefaultBuffer, swapTex, stagesOf, PostStage.ofScope]
  flags := by
    intro st tex_in tex_out
    simp [Pass_TAA, cmds, cmd, SetDefaultBuffer, swapTex]
  tonemapping := by
    intro st tex_in tex_out
    simp [Pass_TAA, cmds, cmd, SetDefaultBuffer, swapTex]
  tex_in := by
    intro st
    simp [Pass_TAA, cmds, cmd, SetDefaultBuffer, swapTex]
  tex_out := by
    intro st
    simp [Pass_TAA, cmds, cmd, SetDefaultBuffer, swapTex]

/-- The FXAA pass meets the stage contract, and exchanges the two HDR handles itself. -/
theorem stageSpec_FXAA : StageSpec Pass_FXAA PostStage.FXAA true where
  stages := by
    intro st tex_in tex_out
    simp [Pass_FXAA, cmds, cmd, SetDefaultBuffer, swapTex, stagesOf, PostStage.ofScope]
  flags := by
    intro st tex_in tex_out
    simp [Pass_FXAA, cmds, cmd, SetDefaultBuffer, swapTex]
  tonemapping := by
    intro st tex_in tex_out
    simp [Pass_FXAA, cmds, cmd, SetDefaultBuffer, swapTex]
  tex_in := by
    intro st
    simp [Pass_FXAA, cmds, cmd, SetDefaultBuffer, swapTex]
  tex_out := by
    intro st
    simp [Pass_FXAA, cmds, cmd, SetDefaultBuffer, swapTex]

/-- The bloom pass meets the stage contract, whether or not its Gaussian blur finds matching
textures: the blur swaps the two quarter-resolution handles, not the HDR ones. -/
theorem stageSpec_Bloom : StageSpec Pass_Bloom PostStage.Bloom false where
  stages := by
    intro st tex_in tex_out
    simp only [Pass_Bloom, Pass_BlurGaussian, Pass_Bloom.block]
    split <;>
      simp [cmds, cmd, SetDefaultBuffer, swapTex, UpdateBuffer, stagesOf, PostStage.ofScope]
  flags := by
    intro st tex_in tex_out
    simp only [Pass_Bloom, Pass_BlurGaussian, Pass_Bloom.block]
    split <;> simp [cmds, cmd, SetDefaultBuffer, swapTex, UpdateBuffer]
  tonemapping := by
    intro st tex_in tex_out
    simp only [Pass_Bloom, Pass_BlurGaussian, Pass_Bloom.block]
    split <;> simp [cmds, cmd, SetDefaultBuffer, swapTex, UpdateBuffer]
  tex_in := by
    intro st
    simp only [Pass_Bloom, Pass_BlurGaussian, Pass_Bloom.block]
    split <;> simp [cmds, cmd, SetDefaultBuffer, swapTex, UpdateBuffer]
  tex_out := by
    intro st
    simp only [Pass_Bloom, Pass_BlurGaussian, Pass_Bloom.block]
    split <;> simp [cmds, cmd, SetDefaultBuffer, swapTex, UpdateBuffer]

/-- The stages an optional stage of the chain adds. -/
theorem stage_stages {pass : Renderer → TexSlot → TexSlot → Renderer} {stage : PostStage}
    {swaps : Bool} (h : StageSpec pass stage swaps) (enabled : Bool) (tex_in tex_out : TexSlot)
    (st : Renderer) :
    stagesOf (Pass_PostLight.stage enabled pass tex_in tex_out st).m_cmd_list
      = stagesOf st.m_cmd_list ++ (if enabled then [stage] else []) := by
  cases enabled
  · simp [Pass_PostLight.stage]
  · simp [Pass_PostLight.stage, swap_targets, swapTex, cmd, stagesOf_append, h.stages]
    simp [stagesOf]

/-- An optional stage of the chain leaves the flags alone. -/
theorem stage_flags {pass : Renderer → TexSlot → TexSlot → Renderer} {stage : PostStage}
    {swaps : Bool} (h : StageSpec pass stage swaps) (enabled : Bool) (tex_in tex_out : TexSlot)
    (st : Renderer) :
    (Pass_PostLight.stage enabled pass tex_in tex_out st).m_flags = st.m_flags := by
  cases enabled
  · simp [Pass_PostLight.stage]
  · simp [Pass_PostLight.stage, swap_targets, swapTex, cmd, h.flags]

/-- An optional stage of the chain leaves the tone-mapping mode alone. -/
theorem stage_tonemapping {pass : Renderer → TexSlot → TexSlot → Renderer} {stage : PostStage}
    {swaps : Bool} (h : StageSpec pass stage swaps) (enabled : Bool) (tex_in tex_out : TexSlot)
    (st : Renderer) :
    (Pass_PostLight.stage enabled pass tex_in tex_out st).m_tonemapping = st.m_tonemapping := by
  cases enabled
  · simp [Pass_PostLight.stage]
  · simp [Pass_PostLight.stage, swap_targets, swapTex, cmd, h.tonemapping]

/-- The texture of the input handle after an optional stage run on the two HDR handles: the
two textures are exchanged exactly when the stage is enabled and its pass does not swap them
itself. -/
theorem stage_tex_in {pass : Renderer → TexSlot → TexSlot → Renderer} {stage : PostStage}
    {swaps : Bool} (h : StageSpec pass stage swaps) (enabled : Bool) (st : Renderer) :
    (Pass_PostLight.stage enabled pass TexSlot.m_render_tex_full_hdr_light
        TexSlot.m_render_tex_full_hdr_light2 st).tex TexSlot.m_render_tex_full_hdr_light
      = if (enabled && !swaps) = true then st.tex TexSlot.m_render_tex_full_hdr_light2
        else st.tex TexSlot.m_render_tex_full_hdr_light := by
  cases enabled <;> cases swaps <;>
    simp [Pass_PostLight.stage, swap_targets, swapTex, cmd, h.tex_in, h.tex_out]

/-- The texture of the output handle after an optional stage run on the two HDR handles. -/
theorem stage_tex_out {pass : Renderer → TexSlot → TexSlot → Renderer} {stage : PostStage}
    {swaps : Bool} (h : StageSpec pass stage swaps) (enabled : Bool) (st : Renderer) :
    (Pass_PostLight.stage enabled pass TexSlot.m_render_tex_full_hdr_light
        TexSlot.m_render_tex_full_hdr_light2 st).tex TexSlot.m_render_tex_full_hdr_light2
      = if (enabled && !swaps) = true then st.tex TexSlot.m_render_tex_full_hdr_light
        else st.tex TexSlot.m_render_tex_full_hdr_light2 := by
  cases enabled <;> cases swaps <;>
    simp [Pass_PostLight.stage, swap_targets, swapTex, cmd, h.tex_in, h.tex_out]

/-- The stages the optional part of the chain executes: the enabled optional stages, in the
order of the chain. The flags and the tone-mapping mode are as before. -/
theorem optional_stages (st : Renderer) (tex_in tex_out : TexSlot) :
    stagesOf (Pass_PostLight.optional st tex_in tex_out).m_cmd_list
        = stagesOf st.m_cmd_list ++ optionalStages.filter (PostStage.enabled st)
      ∧ (Pass_PostLight.optional st tex_in tex_out).m_flags = st.m_flags
      ∧ (Pass_PostLight.optional st tex_in tex_out).m_tonemapping = st.m_tonemapping := by
  simp only [Pass_PostLight.optional, Flags_IsSet,
    stage_stages stageSpec_TAA, stage_flags stageSpec_TAA, stage_tonemapping stageSpec_TAA,
    stage_stages stageSpec_Bloom, stage_flags stageSpec_Bloom, stage_tonemapping stageSpec_Bloom,
    stage_stages stageSpec_MotionBlur, stage_flags stageSpec_MotionBlur,
    stage_tonemapping stageSpec_MotionBlur,
    stage_stages stageSpec_Dithering, stage_flags stageSpec_Dithering,
    stage_tonemapping stageSpec_Dithering,
    stage_stages stageSpec_ToneMapping, stage_flags stageSpec_ToneMapping,
    stage_tonemapping stageSpec_ToneMapping,
    stage_stages stageSpec_FXAA, stage_flags stageSpec_FXAA, stage_tonemapping stageSpec_FXAA,
    stage_stages stageSpec_Sharpening, stage_flags stageSpec_Sharpening,
    stage_tonemapping stageSpec_Sharpening,
    stage_stages stageSpec_ChromaticAberration, stage_flags stageSpec_ChromaticAberration,
    stage_tonemapping stageSpec_ChromaticAberration]
  refine ⟨?_, trivial, trivial⟩
  simp only [optionalStages, List.filter, PostStage.enabled, Flags_IsSet, List.append_assoc]
  generalize decide (RenderFlag.Render_PostProcess_TAA ∈ st.m_flags) = b1
  generalize decide (RenderFlag.Render_PostProcess_Bloom ∈ st.m_flags) = b2
  generalize decide (RenderFlag.Render_PostProcess_MotionBlur ∈ st.m_flags) = b3
  generalize decide (RenderFlag.Render_PostProcess_Dithering ∈ st.m_flags) = b4
  generalize decide (st.m_tonemapping ≠ ToneMapping.ToneMapping_Off) = b5
  generalize decide (RenderFlag.Render_PostProcess_FXAA ∈ st.m_flags) = b6
  generalize decide (RenderFlag.Render_PostProcess_Sharpening ∈ st.m_flags) = b7
  generalize decide (RenderFlag.Render_PostProcess_ChromaticAberration ∈ st.m_flags) = b8
  cases b1 <;> cases b2 <;> cases b3 <;> cases b4 <;> cases b5 <;> cases b6 <;> cases b7 <;>
    cases b8 <;> rfl

/-- The stages `Pass_PostLight` executes: the enabled optional stages in the order of the
chain, then gamma correction, each once. -/
theorem PostLight_stages_spec (st : Renderer) (tex_in tex_out : TexSlot) :
    stagesOf (Pass_PostLight st tex_in tex_out).m_cmd_list
        = stagesOf st.m_cmd_list
          ++ (optionalStages.filter (PostStage.enabled st) ++ [PostStage.GammaCorrection])
      ∧ (optionalStages.filter (PostStage.enabled st) ++ [PostStage.GammaCorrection]).Nodup := by
  constructor
  · have hopt := optional_stages
      (cmds st
        [ Cmd.Begin ScopeName.Pass_PostLight,
          Cmd.SetDepthStencilState DepthStencilRef.m_depth_stencil_disabled,
          Cmd.SetRasterizerState RasterizerRef.m_rasterizer_cull_back_solid,
          Cmd.SetBlendState BlendRef.m_blend_disabled,
          Cmd.SetPrimitiveTopology Topology.PrimitiveTopology_TriangleList,
          Cmd.SetBufferVertex GeometryBuffer.m_quad_vertex,
          Cmd.SetBufferIndex GeometryBuffer.m_quad_index,
          Cmd.SetShaderVertex ShaderRef.m_vs_quad,
          Cmd.SetInputLayout ShaderRef.m_vs_quad ]) tex_in tex_out
    have hen : PostStage.enabled
        (cmds st
          [ Cmd.Begin ScopeName.Pass_PostLight,
            Cmd.SetDepthStencilState DepthStencilRef.m_depth_stencil_disabled,
            Cmd.SetRasterizerState RasterizerRef.m_rasterizer_cull_back_solid,
            Cmd.SetBlendState BlendRef.m_blend_disabled,
            Cmd.SetPrimitiveTopology Topology.PrimitiveTopology_TriangleList,
            Cmd.SetBufferVertex GeometryBuffer.m_quad_vertex,
            Cmd.SetBufferIndex GeometryBuffer.m_quad_index,
            Cmd.SetShaderVertex ShaderRef.m_vs_quad,
            Cmd.SetInputLayout ShaderRef.m_vs_quad ]) = PostStage.enabled st := by
      funext s
      cases s <;> rfl
    rw [hen] at hopt
    have hg := (stageSpec_SingleDraw ScopeName.Pass_GammaCorrection
      ShaderRef.m_ps_gamma_correction SamplerRef.m_sampler_point_clamp
      PostStage.GammaCorrection rfl).stages
    simp only [Pass_PostLight, Pass_GammaCorrection]
    rw [cmds, stagesOf_append, hg, hopt.1]
    simp [cmds, stagesOf, PostStage.ofScope]
  · rw [List.nodup_append]
    refine ⟨List.Nodup.filter _ (by decide), by simp, ?_⟩
    intro a ha hb
    simp only [List.mem_singleton] at hb
    subst hb
    have := (List.mem_filter.1 ha).1
    revert this
    decide

/-- C15: for every combination of flags and tone-mapping mode, the stages `Pass_PostLight`
executes are the enabled members of the list TAA, bloom, motion blur, dithering, tone mapping,
FXAA, sharpening, chromatic aberration, in this order, followed by gamma correction; no stage
occurs twice. -/
theorem Pass_PostLight_stages (st : Renderer) (tex_in tex_out : TexSlot) :
    stagesOf (Pass_PostLight st tex_in tex_out).m_cmd_list
        = stagesOf st.m_cmd_list
          ++ (optionalStages.filter (PostStage.enabled st) ++ [PostStage.GammaCorrection])
      ∧ (optionalStages.filter (PostStage.enabled st) ++ [PostStage.GammaCorrection]).Nodup :=
  PostLight_stages_spec st tex_in tex_out

/-- When no optional stage is enabled, the optional part of the chain does nothing. -/
theorem optional_disabled (st : Renderer) (tex_in tex_out : TexSlot)
    (h : ∀ stage ∈ optionalStages, PostStage.enabled st stage = false) :
    Pass_PostLight.optional st tex_in tex_out = st := by
  have h1 := h PostStage.TAA (by decide)
  have h2 := h PostStage.Bloom (by decide)
  have h3 := h PostStage.MotionBlur (by decide)
  have h4 := h PostStage.Dithering (by decide)
  have h5 := h PostStage.ToneMapping (by decide)
  have h6 := h PostStage.FXAA (by decide)
  have h7 := h PostStage.Sharpening (by decide)
  have h8 := h PostStage.ChromaticAberration (by decide)
  simp only [PostStage.enabled] at h1 h2 h3 h4 h5 h6 h7 h8
  simp [Pass_PostLight.optional, Pass_PostLight.stage, h1, h2, h3, h4, h5, h6, h7, h8]

/-- C16, as stated, fails when a tone-mapping operator is selected: the sample renderer with
tone mapping has every flag cleared, yet `Pass_PostLight` executes tone mapping and gamma
correction and issues two draws; the gamma-correction draw reads texture 7, what the output
handle held on entry, and writes texture 6, what the input handle held. -/
theorem Pass_PostLight_flags_cleared_two_stages :
    sampleToneMapped.m_flags = []
      ∧ stagesOf (Pass_PostLight sampleToneMapped TexSlot.m_render_tex_full_hdr_light
          TexSlot.m_render_tex_full_hdr_light2).m_cmd_list
        = [PostStage.ToneMapping, PostStage.GammaCorrection]
      ∧ (drawsOf (Pass_PostLight sampleToneMapped TexSlot.m_render_tex_full_hdr_light
          TexSlot.m_render_tex_full_hdr_light2).m_cmd_list).map
            (fun d => (d.pipeline.pixelShader, d.pipeline.textures 0, d.pipeline.renderTargets))
        = [ (some ShaderRef.m_ps_tone_mapping, some 6, [7]),
            (some ShaderRef.m_ps_gamma_correction, some 7, [6]) ] := by
  refine ⟨rfl, ?_, ?_⟩
  · rfl
  · rfl

/-- The decomposition of `Pass_PostLight`: its first commands, the optional stages, gamma
correction, and the end of the scope. -/
theorem Pass_PostLight_eq (st : Renderer) (tex_in tex_out : TexSlot) :
    Pass_PostLight st tex_in tex_out
      = cmds (Pass_GammaCorrection
          (Pass_PostLight.optional (cmds st Pass_PostLight.prelude) tex_in tex_out)
          tex_in tex_out) [Cmd.End, Cmd.Submit] := rfl

/-- The first commands of `Pass_PostLight` change no configuration and no handle. -/
theorem enabled_prelude (st : Renderer) :
    PostStage.enabled (cmds st Pass_PostLight.prelude) = PostStage.enabled st := by
  funext s
  cases s <;> rfl

/-- The draw of a single-draw pass: it is the one draw the pass adds, it uses the pixel shader
of the pass, reads the texture of `tex_in` at slot 0 and renders into the texture of
`tex_out`. -/
theorem Pass_SingleDraw_draw (st : Renderer) (name : ScopeName) (shader : ShaderRef)
    (sampler : SamplerRef) (tex_in tex_out : TexSlot) :
    ∃ d : DrawCall,
      drawsOf (Pass_SingleDraw st name shader sampler tex_in tex_out).m_cmd_list
          = drawsOf st.m_cmd_list ++ [d]
        ∧ d.pipeline.pixelShader = some shader
        ∧ d.pipeline.textures 0 = some (st.tex tex_in).id
        ∧ d.pipeline.renderTargets = [(st.tex tex_out).id] := by
  simp [Pass_SingleDraw, cmds, cmd, SetDefaultBuffer, drawsOf_append, draws, Cmd.isDraw,
    Pipeline.exec, bindSlots]

/-- C16, amended: when the flags of TAA, bloom, motion blur, dithering, FXAA, sharpening and
chromatic aberration are cleared and the tone-mapping mode is off, gamma correction is the
only stage `Pass_PostLight` executes, and the chain adds exactly one draw, which reads the
texture of the input handle and renders into the texture of the output handle. -/
theorem Pass_PostLight_only_gamma (st : Renderer) (tex_in tex_out : TexSlot)
    (hflags : ∀ flag ∈ postProcessFlags, flag ∉ st.m_flags)
    (htone : st.m_tonemapping = ToneMapping.ToneMapping_Off) :
    stagesOf (Pass_PostLight st tex_in tex_out).m_cmd_list
        = stagesOf st.m_cmd_list ++ [PostStage.GammaCorrection]
      ∧ ∃ d : DrawCall,
        drawsOf (Pass_PostLight st tex_in tex_out).m_cmd_list = drawsOf st.m_cmd_list ++ [d]
          ∧ d.pipeline.pixelShader = some ShaderRef.m_ps_gamma_correction
          ∧ d.pipeline.textures 0 = some (st.tex tex_in).id
          ∧ d.pipeline.renderTargets = [(st.tex tex_out).id] := by
  have hoff : ∀ stage ∈ optionalStages, PostStage.enabled st stage = false := by
    intro stage hstage
    simp only [optionalStages, List.mem_cons, List.mem_singleton, List.not_mem_nil,
      or_false] at hstage
    rcases hstage with rfl | rfl | rfl | rfl | rfl | rfl | rfl | rfl <;>
      simp [PostStage.enabled, Flags_IsSet, htone] <;>
      exact hflags _ (by decide)
  constructor
  · have h := (PostLight_stages_spec st tex_in tex_out).1
    rw [h]
    have hnil : optionalStages.filter (PostStage.enabled st) = [] := by
      rw [List.filter_eq_nil_iff]
      intro a ha
      simp [hoff a ha]
    rw [hnil]
    rfl
  · rw [Pass_PostLight_eq, optional_disabled _ _ _ (by rw [enabled_prelude]; exact hoff)]
    obtain ⟨d, hd, h1, h2, h3⟩ := Pass_SingleDraw_draw (cmds st Pass_PostLight.prelude)
      ScopeName.Pass_GammaCorrection ShaderRef.m_ps_gamma_correction
      SamplerRef.m_sampler_point_clamp tex_in tex_out
    refine ⟨d, ?_, h1, h2, h3⟩
    rw [cmds, drawsOf_append]
    simp only [Pass_GammaCorrection]
    rw [hd]
    simp [cmds, drawsOf_append, draws, Cmd.isDraw, Pass_PostLight.prelude]

/-- C16, amended, at a concrete input: the sample renderer has no flag set and tone mapping
off. -/
theorem Pass_PostLight_only_gamma_witness :
    stagesOf (Pass_PostLight sampleState TexSlot.m_render_tex_full_hdr_light
          TexSlot.m_render_tex_full_hdr_light2).m_cmd_list
        = stagesOf sampleState.m_cmd_list ++ [PostStage.GammaCorrection]
      ∧ ∃ d : DrawCall,
        drawsOf (Pass_PostLight sampleState TexSlot.m_render_tex_full_hdr_light
            TexSlot.m_render_tex_full_hdr_light2).m_cmd_list
            = drawsOf sampleState.m_cmd_list ++ [d]
          ∧ d.pipeline.pixelShader = some ShaderRef.m_ps_gamma_correction
          ∧ d.pipeline.textures 0
              = some (sampleState.tex TexSlot.m_render_tex_full_hdr_light).id
          ∧ d.pipeline.renderTargets
              = [(sampleState.tex TexSlot.m_render_tex_full_hdr_light2).id] :=
  Pass_PostLight_only_gamma sampleState TexSlot.m_render_tex_full_hdr_light
    TexSlot.m_render_tex_full_hdr_light2 (by intro flag _; exact List.not_mem_nil flag) rfl

/-- The length of a filtered list, element by element. -/
theorem length_filter_cons {α : Type} (p : α → Bool) (a : α) (l : List α) :
    ((a :: l).filter p).length = (p a).toNat + (l.filter p).length := by
  cases h : p a <;> simp [List.filter, h, Nat.add_comm]

/-- The number of enabled exchanging stages, flag by flag. -/
theorem swapCount_eq (st : Renderer) :
    swapCount st
      = (decide (RenderFlag.Render_PostProcess_TAA ∈ st.m_flags)).toNat
        + ((decide (RenderFlag.Render_PostProcess_Bloom ∈ st.m_flags)).toNat
        + ((decide (RenderFlag.Render_PostProcess_MotionBlur ∈ st.m_flags)).toNat
        + ((decide (RenderFlag.Render_PostProcess_Dithering ∈ st.m_flags)).toNat
        + ((decide (st.m_tonemapping ≠ ToneMapping.ToneMapping_Off)).toNat
        + ((decide (RenderFlag.Render_PostProcess_Sharpening ∈ st.m_flags)).toNat
        + (decide (RenderFlag.Render_PostProcess_ChromaticAberration ∈ st.m_flags)).toNat))))) := by
  simp only [swapCount, swappingStages, length_filter_cons, List.filter_nil, List.length_nil,
    PostStage.enabled, Flags_IsSet, Nat.add_zero]

/-- The textures of the two HDR handles after the optional stages: exchanged when the number
of enabled stages that exchange them is odd, in place when it is even. -/
theorem optional_tex (st : Renderer) :
    (Pass_PostLight.optional st TexSlot.m_render_tex_full_hdr_light
        TexSlot.m_render_tex_full_hdr_light2).tex TexSlot.m_render_tex_full_hdr_light
        = (if swapCount st % 2 = 0 then st.tex TexSlot.m_render_tex_full_hdr_light
          else st.tex TexSlot.m_render_tex_full_hdr_light2)
      ∧ (Pass_PostLight.optional st TexSlot.m_render_tex_full_hdr_light
        TexSlot.m_render_tex_full_hdr_light2).tex TexSlot.m_render_tex_full_hdr_light2
        = (if swapCount st % 2 = 0 then st.tex TexSlot.m_render_tex_full_hdr_light2
          else st.tex TexSlot.m_render_tex_full_hdr_light) := by
  simp only [Pass_PostLight.optional, Flags_IsSet,
    stage_tex_in stageSpec_TAA, stage_tex_out stageSpec_TAA,
    stage_flags stageSpec_TAA, stage_tonemapping stageSpec_TAA,
    stage_tex_in stageSpec_Bloom, stage_tex_out stageSpec_Bloom,
    stage_flags stageSpec_Bloom, stage_tonemapping stageSpec_Bloom,
    stage_tex_in stageSpec_MotionBlur, stage_tex_out stageSpec_MotionBlur,
    stage_flags stageSpec_MotionBlur, stage_tonemapping stageSpec_MotionBlur,
    stage_tex_in stageSpec_Dithering, stage_tex_out stageSpec_Dithering,
    stage_flags stageSpec_Dithering, stage_tonemapping stageSpec_Dithering,
    stage_tex_in stageSpec_ToneMapping, stage_tex_out stageSpec_ToneMapping,
    stage_flags stageSpec_ToneMapping, stage_tonemapping stageSpec_ToneMapping,
    stage_tex_in stageSpec_FXAA, stage_tex_out stageSpec_FXAA,
    stage_flags stageSpec_FXAA, stage_tonemapping stageSpec_FXAA,
    stage_tex_in stageSpec_Sharpening, stage_tex_out stageSpec_Sharpening,
    stage_flags stageSpec_Sharpening, stage_tonemapping stageSpec_Sharpening,
    stage_tex_in stageSpec_ChromaticAberration, stage_tex_out stageSpec_ChromaticAberration,
    stage_flags stageSpec_ChromaticAberration, stage_tonemapping stageSpec_ChromaticAberration]
  rw [swapCount_eq]
  generalize decide (RenderFlag.Render_PostProcess_TAA ∈ st.m_flags) = b1
  generalize decide (RenderFlag.Render_PostProcess_Bloom ∈ st.m_flags) = b2
  generalize decide (RenderFlag.Render_PostProcess_MotionBlur ∈ st.m_flags) = b3
  generalize decide (RenderFlag.Render_PostProcess_Dithering ∈ st.m_flags) = b4
  generalize decide (st.m_tonemapping ≠ ToneMapping.ToneMapping_Off) = b5
  generalize decide (RenderFlag.Render_PostProcess_FXAA ∈ st.m_flags) = b6
  generalize decide (RenderFlag.Render_PostProcess_Sharpening ∈ st.m_flags) = b7
  generalize decide (RenderFlag.Render_PostProcess_ChromaticAberration ∈ st.m_flags) = b8
  cases b1 <;> cases b2 <;> cases b3 <;> cases b4 <;> cases b5 <;> cases b6 <;> cases b7 <;>
    cases b8 <;> exact ⟨rfl, rfl⟩

/-- C17, as stated, fails: the sample renderer and the sample renderer with tone mapping
start from the same textures in all handles, yet the final gamma-correction draw renders into
texture 7 in the first configuration and into texture 6 in the second. -/
theorem Pass_PostLight_final_target_differs :
    sampleToneMapped.tex = sampleState.tex
      ∧ (drawsOf (Pass_PostLight sampleState TexSlot.m_render_tex_full_hdr_light
          TexSlot.m_render_tex_full_hdr_light2).m_cmd_list).getLast?.map
            (fun d => (d.pipeline.pixelShader, d.pipeline.renderTargets))
        = some (some ShaderRef.m_ps_gamma_correction, [7])
      ∧ (drawsOf (Pass_PostLight sampleToneMapped TexSlot.m_render_tex_full_hdr_light
          TexSlot.m_render_tex_full_hdr_light2).m_cmd_list).getLast?.map
            (fun d => (d.pipeline.pixelShader, d.pipeline.renderTargets))
        = some (some ShaderRef.m_ps_gamma_correction, [6]) := by
  refine ⟨rfl, ?_, ?_⟩
  · rfl
  · rfl

/-- C17, amended: run on the two full-resolution HDR handles, `Pass_PostLight` ends with the
gamma-correction draw, and this draw renders into the texture the output handle held on entry
when the number of enabled stages among TAA, bloom, motion blur, dithering, tone mapping,
sharpening and chromatic aberration is even, and into the texture the input handle held on
entry when that number is odd. -/
theorem Pass_PostLight_final_target (st : Renderer) :
    ∃ gamma : DrawCall,
      (drawsOf (Pass_PostLight st TexSlot.m_render_tex_full_hdr_light
          TexSlot.m_render_tex_full_hdr_light2).m_cmd_list).getLast? = some gamma
        ∧ gamma.pipeline.pixelShader = some ShaderRef.m_ps_gamma_correction
        ∧ gamma.pipeline.renderTargets
          = [ (if swapCount st % 2 = 0 then st.tex TexSlot.m_render_tex_full_hdr_light2
              else st.tex TexSlot.m_render_tex_full_hdr_light).id ] := by
  obtain ⟨d, hd, h1, -, h3⟩ := Pass_SingleDraw_draw
    (Pass_PostLight.optional (cmds st Pass_PostLight.prelude)
      TexSlot.m_render_tex_full_hdr_light TexSlot.m_render_tex_full_hdr_light2)
    ScopeName.Pass_GammaCorrection ShaderRef.m_ps_gamma_correction
    SamplerRef.m_sampler_point_clamp TexSlot.m_render_tex_full_hdr_light
    TexSlot.m_render_tex_full_hdr_light2
  refine ⟨d, ?_, h1, ?_⟩
  · rw [Pass_PostLight_eq, cmds, drawsOf_append]
    simp only [Pass_GammaCorrection]
    rw [hd]
    simp [draws, Cmd.isDraw]
  · rw [h3, (optional_tex (cmds st Pass_PostLight.prelude)).2]
    have hsc : swapCount (cmds st Pass_PostLight.prelude) = swapCount st := by
      unfold swapCount
      rw [enabled_prelude]
    rw [hsc]
    rfl

/-! ## Shadow depth pass: clears and draws -/

/-- One iteration of the entity loop of `Pass_LightDepth`, for an entity with material and
complete geometry, while the depth view of the slice is bound: the buckets and the clear depth
are untouched, nothing is cleared, the entity is drawn exactly when it casts a shadow, and the
depth view stays bound. -/
theorem LightDepth_entity_spec (light : Light) (i : Nat) (view : DepthView)
    (acc : LightDepthLoop) (e : Entity) (hc : hasMaterialAndGeometry e)
    (hb : DepthBound view acc.st.m_cmd_list) :
    (Pass_LightDepth.entity light i acc e).st.m_entities = acc.st.m_entities
      ∧ (Pass_LightDepth.entity light i acc e).st.clearDepth = acc.st.clearDepth
      ∧ depthClears (Pass_LightDepth.entity light i acc e).st.m_cmd_list
          = depthClears acc.st.m_cmd_list
      ∧ (drawsOf (Pass_LightDepth.entity light i acc e).st.m_cmd_list).map shadowObservation
          = (drawsOf acc.st.m_cmd_list).map shadowObservation
            ++ (if castsShadow e then
                [(some view, [], some (BufferRef.transformLight e.id i), entityDraw e)]
              else [])
      ∧ DepthBound view (Pass_LightDepth.entity light i acc e).st.m_cmd_list := by
  obtain ⟨renderable, material, model, vb, ib, hr, hm, hmod, hvb, hib⟩ := hc
  obtain ⟨hd, ht⟩ := hb
  by_cases hcast : renderable.castShadows = true
  · by_cases halpha : material.colorAlbedo.w < 1
    · simp [Pass_LightDepth.entity, hr, hm, hmod, hvb, hib, hcast, halpha, castsShadow,
        DepthBound, hd, ht]
    · by_cases hgeo : acc.currently_bound_geometry = model.resourceId <;>
        by_cases hdir : light.lightType = LightType.LightType_Directional <;>
        simp [Pass_LightDepth.entity, hr, hm, hmod, hvb, hib, hcast, halpha, castsShadow,
          DepthBound, hd, ht, hgeo, hdir, cmds, depthClears, drawsOf_append,
          pipelineAfter_append, draws, Cmd.isDraw, Pipeline.exec, shadowObservation,
          entityDraw, bindSlots]
  · simp [Pass_LightDepth.entity, hr, hm, hmod, hvb, hib, hcast, castsShadow, DepthBound, hd,
      ht]

/-- The entity loop of one slice of `Pass_LightDepth`, over entities with material and
complete geometry: the entities that cast a shadow are drawn, in order, into the bound depth
view. -/
theorem LightDepth_entities_spec (light : Light) (i : Nat) (view : DepthView)
    (es : List Entity) (hall : ∀ e ∈ es, hasMaterialAndGeometry e) (acc : LightDepthLoop)
    (hb : DepthBound view acc.st.m_cmd_list) :
    (es.foldl (Pass_LightDepth.entity light i) acc).st.m_entities = acc.st.m_entities
      ∧ (es.foldl (Pass_LightDepth.entity light i) acc).st.clearDepth = acc.st.clearDepth
      ∧ depthClears (es.foldl (Pass_LightDepth.entity light i) acc).st.m_cmd_list
          = depthClears acc.st.m_cmd_list
      ∧ (drawsOf (es.foldl (Pass_LightDepth.entity light i) acc).st.m_cmd_list).map
            shadowObservation
          = (drawsOf acc.st.m_cmd_list).map shadowObservation
            ++ (es.filter castsShadow).map (fun e =>
                (some view, [], some (BufferRef.transformLight e.id i), entityDraw e))
      ∧ DepthBound view (es.foldl (Pass_LightDepth.entity light i) acc).st.m_cmd_list := by
  induction es generalizing acc with
  | nil => simp [hb]
  | cons e es ih =>
    obtain ⟨h1, h2, h3, h4, h5⟩ :=
      LightDepth_entity_spec light i view acc e (hall e (List.mem_cons_self e es)) hb
    obtain ⟨k1, k2, k3, k4, k5⟩ :=
      ih (fun x hx => hall x (List.mem_cons_of_mem e hx)) (Pass_LightDepth.entity light i acc e) h5
    rw [List.foldl_cons]
    refine ⟨k1.trans h1, k2.trans h2, k3.trans h3, ?_, k5⟩
    rw [k4, h4, List.append_assoc]
    congr 1
    by_cases hc : castsShadow e = true <;> simp [List.filter, hc]

/-- One slice of `Pass_LightDepth`: its depth view is cleared once, and the entities that cast
a shadow are drawn into it, in bucket order. -/
theorem LightDepth_slice_spec (light : Light) (shadow_map : RHI_Texture) (es : List Entity)
    (hall : ∀ e ∈ es, hasMaterialAndGeometry e) (acc : LightDepthLoop) (i : Nat) :
    (Pass_LightDepth.slice light shadow_map es acc i).st.m_entities = acc.st.m_entities
      ∧ (Pass_LightDepth.slice light shadow_map es acc i).st.clearDepth = acc.st.clearDepth
      ∧ depthClears (Pass_LightDepth.slice light shadow_map es acc i).st.m_cmd_list
          = depthClears acc.st.m_cmd_list ++ [depthView shadow_map i]
      ∧ (drawsOf (Pass_LightDepth.slice light shadow_map es acc i).st.m_cmd_list).map
            shadowObservation
          = (drawsOf acc.st.m_cmd_list).map shadowObservation
            ++ expectedShadowDraws es shadow_map i := by
  have hb : DepthBound (depthView shadow_map i)
      ({ acc with
          st := (cmds acc.st
            [ Cmd.Begin (ScopeName.Array_ (i + 1)),
              Cmd.ClearDepthStencil (depthView shadow_map i) acc.st.clearDepth,
              Cmd.SetRenderTarget none (some (depthView shadow_map i)) ]) } :
        LightDepthLoop).st.m_cmd_list := by
    simp [DepthBound, cmds, pipelineAfter_append, Pipeline.exec]
  obtain ⟨h1, h2, h3, h4, -⟩ := LightDepth_entities_spec light i (depthView shadow_map i) es
    hall _ hb
  simp only [Pass_LightDepth.slice]
  refine ⟨?_, ?_, ?_, ?_⟩
  · simp only [cmd]
    rw [h1]
    rfl
  · simp only [cmd]
    rw [h2]
    rfl
  · simp only [cmd, depthClears_append]
    rw [h3]
    simp [cmds, depthClears]
  · simp only [cmd, drawsOf_append, List.map_append]
    rw [h4]
    simp [cmds, drawsOf_append, draws, Cmd.isDraw, expectedShadowDraws]

/-- The slice loop of `Pass_LightDepth`: every slice of the list is cleared once, in order,
and receives the entities that cast a shadow. -/
theorem LightDepth_slices_spec (light : Light) (shadow_map : RHI_Texture) (es : List Entity)
    (hall : ∀ e ∈ es, hasMaterialAndGeometry e) (slices : List Nat) (acc : LightDepthLoop) :
    (slices.foldl (Pass_LightDepth.slice light shadow_map es) acc).st.m_entities
        = acc.st.m_entities
      ∧ (slices.foldl (Pass_LightDepth.slice light shadow_map es) acc).st.clearDepth
        = acc.st.clearDepth
      ∧ depthClears (slices.foldl (Pass_LightDepth.slice light shadow_map es) acc).st.m_cmd_list
          = depthClears acc.st.m_cmd_list ++ slices.map (depthView shadow_map)
      ∧ (drawsOf (slices.foldl (Pass_LightDepth.slice light shadow_map es) acc).st.m_cmd_list).map
            shadowObservation
          = (drawsOf acc.st.m_cmd_list).map shadowObservation
            ++ slices.flatMap (expectedShadowDraws es shadow_map) := by
  induction slices generalizing acc with
  | nil => simp
  | cons i slices ih =>
    obtain ⟨h1, h2, h3, h4⟩ := LightDepth_slice_spec light shadow_map es hall acc i
    obtain ⟨k1, k2, k3, k4⟩ := ih (Pass_LightDepth.slice light shadow_map es acc i)
    rw [List.foldl_cons]
    refine ⟨k1.trans h1, k2.trans h2, ?_, ?_⟩
    · rw [k3, h3]
      simp
    · rw [k4, h4]
      simp

/-- The command list after several calls. -/
theorem cmds_m_cmd_list (st : Renderer) (cs : List Cmd) :
    (cmds st cs).m_cmd_list = st.m_cmd_list ++ cs := rfl

/-- The shadow maps of a bucket, entity by entity. -/
theorem shadowMaps_cons (e : Entity) (lights : List Entity) :
    shadowMaps (e :: lights) = shadowMaps [e] ++ shadowMaps lights := by
  have h : e :: lights = [e] ++ lights := rfl
  rw [h]
  unfold shadowMaps
  rw [List.filterMap_append]

/-- One iteration of the light loop of `Pass_LightDepth` on an entity with a light, with a
non-empty opaque bucket of entities with material and complete geometry: the iteration has a
result; when the light casts shadows and has a shadow map, every slice of the map is cleared
once and receives the entities that cast a shadow; otherwise nothing is cleared or drawn. -/
theorem LightDepth_light_spec (acc : Renderer × Nat) (light_entity : Entity)
    (hlight : light_entity.light ≠ none)
    (hne : acc.1.m_entities RenderableType.Renderable_ObjectOpaque ≠ [])
    (hall : ∀ e ∈ acc.1.m_entities RenderableType.Renderable_ObjectOpaque,
      hasMaterialAndGeometry e) :
    ∃ acc2 : Renderer × Nat,
      Pass_LightDepth.light acc light_entity = some acc2
        ∧ acc2.1.m_entities = acc.1.m_entities
        ∧ depthClears acc2.1.m_cmd_list
          = depthClears acc.1.m_cmd_list
            ++ (shadowMaps [light_entity]).flatMap (fun shadow_map =>
                (List.range shadow_map.arraySize).map (depthView shadow_map))
        ∧ (drawsOf acc2.1.m_cmd_list).map shadowObservation
          = (drawsOf acc.1.m_cmd_list).map shadowObservation
            ++ (shadowMaps [light_entity]).flatMap (fun shadow_map =>
                (List.range shadow_map.arraySize).flatMap
                  (expectedShadowDraws (acc.1.m_entities RenderableType.Renderable_ObjectOpaque)
                    shadow_map)) := by
  cases hl : light_entity.light with
  | none => exact absurd hl hlight
  | some light =>
    by_cases hcast : light.castShadows = true
    · cases hsm : light.shadowMap with
      | none =>
        exact ⟨acc, by simp [Pass_LightDepth.light, hl, hcast, hsm],
          rfl, by simp [shadowMaps, hl, hcast, hsm], by simp [shadowMaps, hl, hcast, hsm]⟩
      | some shadow_map =>
        have hne2 : (acc.1.m_entities RenderableType.Renderable_ObjectOpaque).isEmpty = false := by
          cases h : acc.1.m_entities RenderableType.Renderable_ObjectOpaque with
          | nil => exact absurd h hne
          | cons a l => rfl
        obtain ⟨h1, -, h3, h4⟩ := LightDepth_slices_spec light shadow_map
          (acc.1.m_entities RenderableType.Renderable_ObjectOpaque) hall
          (List.range shadow_map.arraySize)
          { st := (cmds acc.1
              [ Cmd.Begin ScopeName.Pass_LightDepth,
                Cmd.SetShaderPixel none,
                Cmd.SetBlendState BlendRef.m_blend_disabled,
                Cmd.SetDepthStencilState DepthStencilRef.m_depth_stencil_enabled,
                Cmd.SetRasterizerState RasterizerRef.m_rasterizer_cull_back_solid,
                Cmd.SetPrimitiveTopology Topology.PrimitiveTopology_TriangleList,
                Cmd.SetShaderVertex ShaderRef.m_v_depth,
                Cmd.SetInputLayout ShaderRef.m_v_depth,
                Cmd.SetViewport shadow_map.width shadow_map.height ]),
            currently_bound_geometry := 0, light_directional_count := acc.2 }
        refine ⟨_, by simp only [Pass_LightDepth.light, hl, hcast, hsm, hne2]; rfl, ?_, ?_, ?_⟩
        · exact h1
        · simp only [cmds_m_cmd_list, depthClears_append]
          rw [h3]
          simp [cmds, depthClears, shadowMaps, hl, hcast, hsm]
        · simp only [cmds_m_cmd_list, drawsOf_append, List.map_append]
          rw [h4]
          simp [cmds, drawsOf_append, draws, Cmd.isDraw, shadowMaps, hl, hcast, hsm]
    · exact ⟨acc, by simp [Pass_LightDepth.light, hl, hcast],
        rfl, by simp [shadowMaps, hl, hcast], by simp [shadowMaps, hl, hcast]⟩

/-- The light loop of `Pass_LightDepth` over a bucket whose entities all carry a light, with a
non-empty opaque bucket of entities with material and complete geometry: the loop has a
result, and every slice of every shadow map is cleared once and receives the entities that
cast a shadow. -/
theorem LightDepth_lights_spec (lights : List Entity) (acc : Renderer × Nat)
    (hlights : ∀ e ∈ lights, e.light ≠ none)
    (hne : acc.1.m_entities RenderableType.Renderable_ObjectOpaque ≠ [])
    (hall : ∀ e ∈ acc.1.m_entities RenderableType.Renderable_ObjectOpaque,
      hasMaterialAndGeometry e) :
    ∃ acc2 : Renderer × Nat,
      lights.foldlM Pass_LightDepth.light acc = some acc2
        ∧ acc2.1.m_entities = acc.1.m_entities
        ∧ depthClears acc2.1.m_cmd_list
          = depthClears acc.1.m_cmd_list
            ++ (shadowMaps lights).flatMap (fun shadow_map =>
                (List.range shadow_map.arraySize).map (depthView shadow_map))
        ∧ (drawsOf acc2.1.m_cmd_list).map shadowObservation
          = (drawsOf acc.1.m_cmd_list).map shadowObservation
            ++ (shadowMaps lights).flatMap (fun shadow_map =>
                (List.range shadow_map.arraySize).flatMap
                  (expectedShadowDraws (acc.1.m_entities RenderableType.Renderable_ObjectOpaque)
                    shadow_map)) := by
  induction lights generalizing acc with
  | nil => exact ⟨acc, rfl, rfl, by simp [shadowMaps], by simp [shadowMaps]⟩
  | cons e lights ih =>
    obtain ⟨acc1, h0, h1, h3, h4⟩ :=
      LightDepth_light_spec acc e (hlights e (List.mem_cons_self e lights)) hne hall
    obtain ⟨acc2, k0, k1, k3, k4⟩ := ih acc1
      (fun x hx => hlights x (List.mem_cons_of_mem e hx)) (by rw [h1]; exact hne)
      (by rw [h1]; exact hall)
    refine ⟨acc2, ?_, k1.trans h1, ?_, ?_⟩
    · rw [List.foldlM_cons, h0]
      exact k0
    · rw [k3, h3, shadowMaps_cons e lights, List.flatMap_append, List.append_assoc]
    · rw [k4, h4, h1, shadowMaps_cons e lights, List.flatMap_append, List.append_assoc]

/-- C12: when every entity of the light bucket carries a light, the opaque bucket is not empty
and all its entities have a material and complete geometry, `Pass_LightDepth` has a result;
it clears, for every shadow-casting light with a shadow map, in bucket order, each of the
slices of the map once, and the draws it issues are, slice after slice, those of the opaque
entities that have cast-shadows enabled and an albedo alpha not below one, in bucket order,
each into the depth view of the slice with the light buffer of the entity for that slice. -/
theorem Pass_LightDepth_draws (st : Renderer)
    (hlights : ∀ e ∈ st.m_entities RenderableType.Renderable_Light, e.light ≠ none)
    (hne : st.m_entities RenderableType.Renderable_ObjectOpaque ≠ [])
    (hall : ∀ e ∈ st.m_entities RenderableType.Renderable_ObjectOpaque,
      hasMaterialAndGeometry e) :
    ∃ st2 : Renderer,
      Pass_LightDepth st = some st2
        ∧ depthClears st2.m_cmd_list
          = depthClears st.m_cmd_list
            ++ (shadowMaps (st.m_entities RenderableType.Renderable_Light)).flatMap
              (fun shadow_map => (List.range shadow_map.arraySize).map (depthView shadow_map))
        ∧ (drawsOf st2.m_cmd_list).map shadowObservation
          = (drawsOf st.m_cmd_list).map shadowObservation
            ++ (shadowMaps (st.m_entities RenderableType.Renderable_Light)).flatMap
              (fun shadow_map => (List.range shadow_map.arraySize).flatMap
                (expectedShadowDraws (st.m_entities RenderableType.Renderable_ObjectOpaque)
                  shadow_map)) := by
  obtain ⟨acc2, h0, -, h3, h4⟩ := LightDepth_lights_spec
    (st.m_entities RenderableType.Renderable_Light) (st, 0) hlights hne hall
  refine ⟨{ acc2.1 with
      m_directional_light_avg_dir := acc2.1.m_directional_light_avg_dir.divCount acc2.2 },
    by simp only [Pass_LightDepth, h0], ?_, ?_⟩
  · exact h3
  · exact h4

/-- The entities of the shadow scenario have a material and complete geometry. -/
theorem sampleOpaque_complete (id : Nat) (castShadows : Bool) :
    hasMaterialAndGeometry (sampleOpaque id castShadows) :=
  ⟨_, _, _, _, _, rfl, rfl, rfl, rfl, rfl⟩

/-- C12, the scenario: with one directional light, a two-slice shadow map and three opaque
entities of which two have cast-shadows disabled, each slice is cleared once and exactly one
entity, the second, is drawn into each slice. -/
theorem Pass_LightDepth_draws_witness :
    ∃ st2 : Renderer,
      Pass_LightDepth sampleShadowScene = some st2
        ∧ depthClears st2.m_cmd_list
          = [depthView sampleShadowMap 0, depthView sampleShadowMap 1]
        ∧ (drawsOf st2.m_cmd_list).map shadowObservation
          = [ (some (depthView sampleShadowMap 0), [], some (BufferRef.transformLight 102 0),
                Cmd.DrawIndexed 36 0 0),
              (some (depthView sampleShadowMap 1), [], some (BufferRef.transformLight 102 1),
                Cmd.DrawIndexed 36 0 0) ] := by
  obtain ⟨st2, h0, h1, h2⟩ := Pass_LightDepth_draws sampleShadowScene
    (by simp [sampleShadowScene, sampleSunEntity])
    (by simp [sampleShadowScene])
    (by
      intro e he
      simp only [sampleShadowScene, List.mem_cons, List.mem_singleton, List.not_mem_nil,
        or_false] at he
      rcases he with h | h | h <;> rw [h] <;> exact sampleOpaque_complete _ _)
  refine ⟨st2, h0, h1.trans ?_, h2.trans ?_⟩
  · simp [sampleShadowScene, sampleState, depthClears, shadowMaps, sampleSunEntity, sampleSun,
      sampleShadowMap, List.range, List.range.loop]
  · simp [sampleShadowScene, sampleState, drawsOf, draws, shadowMaps, sampleSunEntity,
      sampleSun, sampleShadowMap, List.range, List.range.loop, expectedShadowDraws,
      castsShadow, sampleOpaque, entityDraw, depthView]

/-! ## Pre-light pass: shadow mapping -/

/-- The operations of a concatenation on a target. -/
theorem targetOps_append (target : Nat) (a b : List Cmd) (p : Pipeline) :
    targetOps target p (a ++ b)
      = targetOps target p a ++ targetOps target (a.foldl Pipeline.exec p) b := by
  induction a generalizing p with
  | nil => rfl
  | cons c a ih => simp [targetOps, ih]

/-- The scopes of a concatenation. -/
theorem scopesOf_append (a b : List Cmd) : scopesOf (a ++ b) = scopesOf a ++ scopesOf b := by
  simp [scopesOf]

/-- One invocation of `Pass_ShadowMapping` for a light that casts shadows and has a shadow
map: it has a result, opens one scope of its name, and its only operation on the target is
one draw, with the pixel shader of the light type, that reads the shadow map. -/
theorem ShadowMapping_spec (st : Renderer) (tex_out : TexSlot) (light : Light)
    (hcast : light.castShadows = true) (hmap : light.shadowMap ≠ none) :
    ∃ st2 new,
      Pass_ShadowMapping st tex_out (some light) = some st2
        ∧ st2.m_cmd_list = st.m_cmd_list ++ new
        ∧ st2.tex = st.tex ∧ st2.m_entities = st.m_entities ∧ st2.m_flags = st.m_flags
        ∧ scopesOf new = [ScopeName.Pass_ShadowMapping]
        ∧ ∀ p, (targetOps (st.tex tex_out).id p new).map TargetOp.shadowOp
            = [shadowResolve light] := by
  cases hsm : light.shadowMap with
  | none => exact absurd hsm hmap
  | some shadow_map =>
    cases h : Pass_ShadowMapping st tex_out (some light) with
    | none => simp [Pass_ShadowMapping, hcast, hsm] at h
    | some st2 =>
      simp only [Pass_ShadowMapping, hcast, hsm, Bool.not_true, Bool.false_eq_true, if_false,
        Option.some.injEq] at h
      subst h
      refine ⟨_, _, rfl, List.append_assoc _ [_] _, rfl, rfl, rfl, ?_, ?_⟩
      · simp [scopesOf]
      · intro p
        cases hty : light.lightType <;>
          simp [targetOps, Cmd.targetOp, Pipeline.exec, TargetOp.shadowOp, shadowResolve, hsm,
            hty, bindSlots, SetDefaultBuffer, UpdateBuffer, cmd, shadowMappingShader]

/-- The shadow-casting lights of a bucket, entity by entity. -/
theorem castShadowLights_cons (e : Entity) (lights : List Entity) :
    castShadowLights (e :: lights) = castShadowLights [e] ++ castShadowLights lights := by
  have h : e :: lights = [e] ++ lights := rfl
  rw [h]
  unfold castShadowLights
  rw [List.filterMap_append]

/-- The light loop of `Pass_PreLight` over a bucket whose entities all carry a light and whose
shadow-casting lights have a shadow map: it has a result, it invokes `Pass_ShadowMapping` once
per shadow-casting light, in bucket order, and `shadow_mapped` tells whether there was one. -/
theorem PreLight_lights_spec (tex_out : TexSlot) (lights : List Entity) (acc : Renderer × Bool)
    (hlights : ∀ e ∈ lights, e.light ≠ none)
    (hmaps : ∀ l ∈ castShadowLights lights, l.shadowMap ≠ none) :
    ∃ acc2 new,
      lights.foldlM (Pass_PreLight.light tex_out) acc = some acc2
        ∧ acc2.1.m_cmd_list = acc.1.m_cmd_list ++ new
        ∧ acc2.1.tex = acc.1.tex ∧ acc2.1.m_flags = acc.1.m_flags
        ∧ acc2.2 = (acc.2 || !(castShadowLights lights).isEmpty)
        ∧ scopesOf new = (castShadowLights lights).map (fun _ => ScopeName.Pass_ShadowMapping)
        ∧ ∀ p, (targetOps (acc.1.tex tex_out).id p new).map TargetOp.shadowOp
            = (castShadowLights lights).map shadowResolve := by
  induction lights generalizing acc with
  | nil => exact ⟨acc, [], rfl, by simp, rfl, rfl, by simp [castShadowLights], rfl, fun _ => rfl⟩
  | cons e lights ih =>
    have hm2 : ∀ l ∈ castShadowLights lights, l.shadowMap ≠ none := fun l hl =>
      hmaps l (by rw [castShadowLights_cons]; exact List.mem_append_right _ hl)
    have hl2 : ∀ x ∈ lights, x.light ≠ none := fun x hx =>
      hlights x (List.mem_cons_of_mem e hx)
    cases hl : e.light with
    | none => exact absurd hl (hlights e (List.mem_cons_self e lights))
    | some light =>
      by_cases hcast : light.castShadows = true
      · have hmem : light ∈ castShadowLights (e :: lights) := by
          rw [castShadowLights_cons]
          exact List.mem_append_left _ (by simp [castShadowLights, hl, hcast])
        obtain ⟨st1, new1, h0, h1, h2, -, h3, h4, h5⟩ :=
          ShadowMapping_spec acc.1 tex_out light hcast (hmaps light hmem)
        obtain ⟨acc2, new2, k0, k1, k2, k3, k4, k5, k6⟩ := ih (st1, true) hl2 hm2
        refine ⟨acc2, new1 ++ new2, ?_, ?_, k2.trans h2, k3.trans h3, ?_, ?_, ?_⟩
        · rw [List.foldlM_cons]
          simp only [Pass_PreLight.light, hl, hcast, h0]
          exact k0
        · rw [k1, h1, List.append_assoc]
        · rw [k4, castShadowLights_cons]
          simp [castShadowLights, hl, hcast]
        · rw [scopesOf_append, h4, k5, castShadowLights_cons]
          simp [castShadowLights, hl, hcast]
        · intro p
          rw [targetOps_append, List.map_append, h5 p]
          have := k6 (new1.foldl Pipeline.exec p)
          simp only [h2] at this
          rw [this, castShadowLights_cons]
          simp [castShadowLights, hl, hcast]
      · obtain ⟨acc2, new2, k0, k1, k2, k3, k4, k5, k6⟩ := ih acc hl2 hm2
        refine ⟨acc2, new2, ?_, k1, k2, k3, ?_, ?_, ?_⟩
        · rw [List.foldlM_cons]
          simp only [Pass_PreLight.light, hl, hcast]
          exact k0
        · rw [k4, castShadowLights_cons]
          simp [castShadowLights, hl, hcast]
        · rw [k5, castShadowLights_cons]
          simp [castShadowLights, hl, hcast]
        · intro p
          rw [k6 p, castShadowLights_cons]
          simp [castShadowLights, hl, hcast]

/-- The SSAO pass and its blur, run on textures other than `target`: they open no
shadow-mapping scope and do nothing to `target`. -/
theorem PreLight_ssao_spec (st : Renderer) (tex_in tex_ssao_out : TexSlot) (target : Nat)
    (sigma pixel_stride : ℚ)
    (hin : (st.tex tex_in).id ≠ target) (hssao : (st.tex tex_ssao_out).id ≠ target) :
    ∃ new,
      (Pass_BlurBilateralGaussian (Pass_SSAO st tex_in) tex_in tex_ssao_out sigma
          pixel_stride).m_cmd_list = st.m_cmd_list ++ new
        ∧ (scopesOf new).count ScopeName.Pass_ShadowMapping = 0
        ∧ ∀ p, targetOps target p new = [] := by
  have hin2 : ¬ target = (st.tex tex_in).id := fun h => hin h.symm
  have hssao2 : ¬ target = (st.tex tex_ssao_out).id := fun h => hssao h.symm
  refine ⟨(Pass_BlurBilateralGaussian (Pass_SSAO st tex_in) tex_in tex_ssao_out sigma
    pixel_stride).m_cmd_list.drop st.m_cmd_list.length, ?_, ?_, ?_⟩ <;>
  by_cases hm : texturesMismatch (st.tex tex_in) (st.tex tex_ssao_out) = true <;>
  simp [Pass_BlurBilateralGaussian, Pass_SSAO, cmds, cmd, SetDefaultBuffer, UpdateBuffer,
    swapTex, hm, scopesOf, targetOps, Cmd.targetOp, Pipeline.exec, hin2, hssao2]

/-- The end of `Pass_PreLight`, from the SSAO test on, run on textures other than `target`: no
shadow-mapping scope is opened and nothing is done to `target`. -/
theorem PreLight_tail_spec (st : Renderer) (tex_in tex_ssao_out : TexSlot) (target : Nat)
    (hin : (st.tex tex_in).id ≠ target) (hssao : (st.tex tex_ssao_out).id ≠ target) :
    ∃ new,
      (cmd (if Flags_IsSet st RenderFlag.Render_PostProcess_SSAO = true then
            Pass_BlurBilateralGaussian (Pass_SSAO st tex_in) tex_in tex_ssao_out 1 1
          else st) Cmd.End).m_cmd_list = st.m_cmd_list ++ new
        ∧ (scopesOf new).count ScopeName.Pass_ShadowMapping = 0
        ∧ ∀ p, targetOps target p new = [] := by
  by_cases hf : Flags_IsSet st RenderFlag.Render_PostProcess_SSAO = true
  · obtain ⟨new, h1, h2, h3⟩ := PreLight_ssao_spec st tex_in tex_ssao_out target 1 1 hin hssao
    refine ⟨new ++ [Cmd.End], ?_, ?_, ?_⟩
    · simp only [hf, if_true, cmd, h1, List.append_assoc]
    · rw [scopesOf_append, List.count_append, h2]
      simp [scopesOf]
    · intro p
      rw [targetOps_append, h3 p]
      simp [targetOps, Cmd.targetOp]
  · refine ⟨[Cmd.End], ?_, ?_, ?_⟩
    · simp [hf, cmd]
    · simp [scopesOf]
    · intro p
      simp [targetOps, Cmd.targetOp]

/-- The shadow mapping of `Pass_PreLight` where it returns: when every entity of the light
bucket carries a light, the shadow-casting lights have a shadow map, and the two other textures
of the pass are not the shadow-resolve target, `Pass_PreLight` has a result; it opens one `Pass_ShadowMapping` scope per light with
cast-shadows enabled; and its operations on the shadow-resolve target are, in order: a clear to
one, then one shadow-mapping draw per light with cast-shadows enabled, in bucket order, each
with the pixel shader of the type of the light and reading its shadow map, and, only when no
light casts shadows, a final clear to one. -/
theorem Pass_PreLight_shadow_mapping (st : Renderer)
    (tex_in tex_shadows_out tex_ssao_out : TexSlot)
    (hlights : ∀ e ∈ st.m_entities RenderableType.Renderable_Light, e.light ≠ none)
    (hmaps : ∀ l ∈ castShadowLights (st.m_entities RenderableType.Renderable_Light),
      l.shadowMap ≠ none)
    (hin : (st.tex tex_in).id ≠ (st.tex tex_shadows_out).id)
    (hssao : (st.tex tex_ssao_out).id ≠ (st.tex tex_shadows_out).id) :
    ∃ st2 new,
      Pass_PreLight st tex_in tex_shadows_out tex_ssao_out = some st2
        ∧ st2.m_cmd_list = st.m_cmd_list ++ new
        ∧ (scopesOf new).count ScopeName.Pass_ShadowMapping
          = (castShadowLights (st.m_entities RenderableType.Renderable_Light)).length
        ∧ ∀ p, (targetOps (st.tex tex_shadows_out).id p new).map TargetOp.shadowOp
          = ShadowOp.clear ⟨1, 1, 1, 1⟩
            :: (castShadowLights (st.m_entities RenderableType.Renderable_Light)).map
              shadowResolve
            ++ (if (castShadowLights (st.m_entities RenderableType.Renderable_Light)).isEmpty
              then [ShadowOp.clear ⟨1, 1, 1, 1⟩] else []) := by
  obtain ⟨⟨st1, b⟩, new1, h0, h1, h2, -, h4, h5, h6⟩ := PreLight_lights_spec tex_shadows_out
    (st.m_entities RenderableType.Renderable_Light)
    (cmds st (Pass_PreLight.prelude st tex_shadows_out), false) hlights hmaps
  have htex : st1.tex = st.tex := h2
  have hE : ∀ cs, (cmds st cs).m_entities = st.m_entities := fun _ => rfl
  have hP : Pass_PreLight st tex_in tex_shadows_out tex_ssao_out
      = some (cmd
        (if Flags_IsSet
            (if (!b) = true then
              cmd st1 (Cmd.ClearRenderTarget (st1.tex tex_shadows_out).id ⟨1, 1, 1, 1⟩)
            else st1) RenderFlag.Render_PostProcess_SSAO = true then
          Pass_BlurBilateralGaussian
            (Pass_SSAO
              (if (!b) = true then
                cmd st1 (Cmd.ClearRenderTarget (st1.tex tex_shadows_out).id ⟨1, 1, 1, 1⟩)
              else st1) tex_in) tex_in tex_ssao_out 1 1
        else
          if (!b) = true then
            cmd st1 (Cmd.ClearRenderTarget (st1.tex tex_shadows_out).id ⟨1, 1, 1, 1⟩)
          else st1) Cmd.End) := by
    simp only [Pass_PreLight.prelude] at h0
    simp only [Pass_PreLight, hE, h0]
  simp only [Bool.false_or] at h4
  simp only [cmds_m_cmd_list] at h1
  have h6b : ∀ p, (targetOps (st.tex tex_shadows_out).id p new1).map TargetOp.shadowOp
      = (castShadowLights (st.m_entities RenderableType.Renderable_Light)).map
        shadowResolve := h6
  cases hc : castShadowLights (st.m_entities RenderableType.Renderable_Light) with
  | nil =>
    rw [hc] at h4 h5 h6b
    simp only [List.isEmpty_nil, Bool.not_true] at h4
    subst h4
    simp only [Bool.not_false, if_true] at hP
    obtain ⟨newT, t1, t2, t3⟩ := PreLight_tail_spec
      (cmd st1 (Cmd.ClearRenderTarget (st1.tex tex_shadows_out).id ⟨1, 1, 1, 1⟩))
      tex_in tex_ssao_out (st.tex tex_shadows_out).id
      (by show (st1.tex tex_in).id ≠ _; rw [htex]; exact hin)
      (by show (st1.tex tex_ssao_out).id ≠ _; rw [htex]; exact hssao)
    refine ⟨_, Pass_PreLight.prelude st tex_shadows_out ++ new1
      ++ [Cmd.ClearRenderTarget (st.tex tex_shadows_out).id ⟨1, 1, 1, 1⟩] ++ newT,
      hP, ?_, ?_, ?_⟩
    · rw [t1]
      simp only [cmd, h1, htex, List.append_assoc]
    · simp only [scopesOf_append, List.count_append, t2, h5]
      simp [scopesOf, Pass_PreLight.prelude]
    · intro p
      simp only [targetOps_append, List.map_append, h6b, t3]
      simp [targetOps, Cmd.targetOp, TargetOp.shadowOp, Pass_PreLight.prelude]
  | cons l ls =>
    rw [hc] at h4 h5 h6b
    simp only [List.isEmpty_cons, Bool.not_false] at h4
    subst h4
    simp only [Bool.not_true, Bool.false_eq_true, if_false] at hP
    obtain ⟨newT, t1, t2, t3⟩ := PreLight_tail_spec st1 tex_in tex_ssao_out
      (st.tex tex_shadows_out).id
      (by rw [htex]; exact hin) (by rw [htex]; exact hssao)
    refine ⟨_, Pass_PreLight.prelude st tex_shadows_out ++ new1 ++ newT, hP, ?_, ?_, ?_⟩
    · rw [t1]
      simp only [h1, List.append_assoc]
    · simp only [scopesOf_append, List.count_append, t2, h5]
      simp [scopesOf, Pass_PreLight.prelude]
    · intro p
      simp only [targetOps_append, List.map_append, h6b, t3]
      simp [targetOps, Cmd.targetOp, TargetOp.shadowOp, Pass_PreLight.prelude]

/-- The shadow mapping of `Pass_PreLight` on the shadow scenario (one directional light that
casts shadows, with its shadow map): one
`Pass_ShadowMapping` scope is opened, and the shadow-resolve target is cleared to one and then
drawn into once, with the directional shader reading the shadow map of the light. -/
theorem Pass_PreLight_shadow_mapping_witness :
    ∃ st2 new,
      Pass_PreLight sampleShadowScene TexSlot.m_render_tex_half_spare
          TexSlot.m_render_tex_half_shadows TexSlot.m_render_tex_half_ssao = some st2
        ∧ st2.m_cmd_list = sampleShadowScene.m_cmd_list ++ new
        ∧ (scopesOf new).count ScopeName.Pass_ShadowMapping = 1
        ∧ ∀ p, (targetOps 11 p new).map TargetOp.shadowOp
          = [ ShadowOp.clear ⟨1, 1, 1, 1⟩,
              ShadowOp.resolve (some ShaderRef.m_vps_shadow_mapping_directional) [30] ] := by
  have hb : castShadowLights (sampleShadowScene.m_entities RenderableType.Renderable_Light)
      = [sampleSun] := by
    simp [castShadowLights, sampleShadowScene, sampleSunEntity, sampleSun]
  obtain ⟨st2, new, h0, h1, h2, h3⟩ := Pass_PreLight_shadow_mapping sampleShadowScene
    TexSlot.m_render_tex_half_spare TexSlot.m_render_tex_half_shadows
    TexSlot.m_render_tex_half_ssao
    (by simp [sampleShadowScene, sampleSunEntity])
    (by rw [hb]; simp [sampleSun])
    (by simp [sampleShadowScene, sampleState, sampleTextures, sampleHalf])
    (by simp [sampleShadowScene, sampleState, sampleTextures, sampleHalf])
  refine ⟨st2, new, h0, h1, h2.trans (by rw [hb]; rfl), fun p => (h3 p).trans ?_⟩
  rw [hb]
  rfl

/-! ## Line pass: capacity of the line vertex buffer -/

/-- A copy into the line vertex buffer that has a result: the buffer holds the vertices, they
fit, and the capacity is unchanged. -/
theorem copyToBuffer_spec (buffer buffer2 : RHI_VertexBuffer) (vertices : List RHI_Vertex_PosCol)
    (h : copyToBuffer buffer vertices = some buffer2) :
    buffer2.data = vertices ∧ vertices.length ≤ buffer2.vertexCount
      ∧ buffer2.vertexCount = buffer.vertexCount := by
  unfold copyToBuffer at h
  by_cases hc : vertices.length ≤ buffer.vertexCount
  · rw [if_pos hc] at h
    cases h
    exact ⟨rfl, hc, rfl⟩
  · rw [if_neg hc] at h
    cases h

/-- The buffer after the growth test holds at least `size` vertices and at least as many as
before. -/
theorem grow_spec (buffer : RHI_VertexBuffer) (size : Nat) :
    buffer.vertexCount ≤ (if size > buffer.vertexCount then CreateDynamic buffer size
        else buffer).vertexCount
      ∧ size ≤ (if size > buffer.vertexCount then CreateDynamic buffer size
        else buffer).vertexCount := by
  by_cases hg : size > buffer.vertexCount
  · rw [if_pos hg]
    exact ⟨le_of_lt hg, le_refl _⟩
  · rw [if_neg hg]
    exact ⟨le_refl _, not_lt.1 hg⟩

/-- The first line block of `Pass_Lines` satisfies the contract of a line block, and leaves
the other list and the textures alone. -/
theorem lines_depth_enabled_spec (st st2 : Renderer)
    (h : Pass_Lines.lines_depth_enabled st = some st2) :
    LineBlock st.m_lines_list_depth_enabled st st2
      ∧ st2.m_lines_list_depth_disabled = st.m_lines_list_depth_disabled
      ∧ st2.tex = st.tex := by
  unfold Pass_Lines.lines_depth_enabled at h
  by_cases h0 : st.m_lines_list_depth_enabled.length % 2 ^ 32 = 0
  · simp only [h0, ne_eq, not_true_eq_false, if_false, Option.some.injEq] at h
    subst h
    refine ⟨⟨le_refl _, [], (List.append_nil _).symm, Or.inl rfl, ?_⟩, rfl, rfl⟩
    intro hpos hlt
    rw [Nat.mod_eq_of_lt hlt] at h0
    omega
  · simp only [h0, ne_eq, not_false_eq_true, if_true] at h
    obtain ⟨g1, g2⟩ := grow_spec st.m_vertex_buffer_lines
      (st.m_lines_list_depth_enabled.length % 2 ^ 32)
    cases hcopy : copyToBuffer
        (if st.m_lines_list_depth_enabled.length % 2 ^ 32 > st.m_vertex_buffer_lines.vertexCount
          then CreateDynamic st.m_vertex_buffer_lines
            (st.m_lines_list_depth_enabled.length % 2 ^ 32)
          else st.m_vertex_buffer_lines) st.m_lines_list_depth_enabled with
    | none =>
      rw [hcopy] at h
      cases h
    | some buffer =>
      rw [hcopy] at h
      obtain ⟨c1, c2, c3⟩ := copyToBuffer_spec _ _ _ hcopy
      simp only [Option.some.injEq] at h
      subst h
      refine ⟨⟨by show _ ≤ buffer.vertexCount; omega, _, rfl,
        Or.inr ⟨st.m_lines_list_depth_enabled.length % 2 ^ 32, rfl, c1, c2,
          by show _ ≤ buffer.vertexCount; omega⟩, ?_⟩, rfl, rfl⟩
      intro _ hlt
      show [Cmd.Draw (st.m_lines_list_depth_enabled.length % 2 ^ 32)] = _
      rw [Nat.mod_eq_of_lt hlt]

/-- The second line block of `Pass_Lines` satisfies the contract of a line block. -/
theorem lines_depth_disabled_spec (st st2 : Renderer)
    (h : Pass_Lines.lines_depth_disabled st = some st2) :
    LineBlock st.m_lines_list_depth_disabled st st2 := by
  unfold Pass_Lines.lines_depth_disabled at h
  by_cases h0 : st.m_lines_list_depth_disabled.length % 2 ^ 32 = 0
  · simp only [h0, ne_eq, not_true_eq_false, if_false, Option.some.injEq] at h
    subst h
    refine ⟨le_refl _, [], (List.append_nil _).symm, Or.inl rfl, ?_⟩
    intro hpos hlt
    rw [Nat.mod_eq_of_lt hlt] at h0
    omega
  · simp only [h0, ne_eq, not_false_eq_true, if_true] at h
    obtain ⟨g1, g2⟩ := grow_spec st.m_vertex_buffer_lines
      (st.m_lines_list_depth_disabled.length % 2 ^ 32)
    cases hcopy : copyToBuffer
        (if st.m_lines_list_depth_disabled.length % 2 ^ 32 > st.m_vertex_buffer_lines.vertexCount
          then CreateDynamic st.m_vertex_buffer_lines
            (st.m_lines_list_depth_disabled.length % 2 ^ 32)
          else st.m_vertex_buffer_lines) st.m_lines_list_depth_disabled with
    | none =>
      rw [hcopy] at h
      cases h
    | some buffer =>
      rw [hcopy] at h
      obtain ⟨c1, c2, c3⟩ := copyToBuffer_spec _ _ _ hcopy
      simp only [Option.some.injEq] at h
      subst h
      refine ⟨by show _ ≤ buffer.vertexCount; omega, _, List.append_assoc _ [_] [_],
        Or.inr ⟨st.m_lines_list_depth_disabled.length % 2 ^ 32, rfl, c1, c2,
          by show _ ≤ buffer.vertexCount; omega⟩, ?_⟩
      intro _ hlt
      show [Cmd.Draw (st.m_lines_list_depth_disabled.length % 2 ^ 32)] = _
      rw [Nat.mod_eq_of_lt hlt]

/-- A copy of vertices that fit has a result. -/
theorem copyToBuffer_total (buffer : RHI_VertexBuffer) (vertices : List RHI_Vertex_PosCol)
    (h : vertices.length ≤ buffer.vertexCount) :
    copyToBuffer buffer vertices = some { buffer with data := vertices } :=
  if_pos h

/-- A line block whose list fits 32 bits has a result. -/
theorem lines_depth_enabled_total (st : Renderer)
    (h : st.m_lines_list_depth_enabled.length < 2 ^ 32) :
    ∃ st2, Pass_Lines.lines_depth_enabled st = some st2 := by
  unfold Pass_Lines.lines_depth_enabled
  by_cases h0 : st.m_lines_list_depth_enabled.length % 2 ^ 32 = 0
  · exact ⟨st, by simp only [h0, ne_eq, not_true_eq_false, if_false]⟩
  · obtain ⟨-, g2⟩ := grow_spec st.m_vertex_buffer_lines
      (st.m_lines_list_depth_enabled.length % 2 ^ 32)
    simp only [h0, ne_eq, not_false_eq_true, if_true]
    rw [copyToBuffer_total _ _ (le_of_eq_of_le (Nat.mod_eq_of_lt h).symm g2)]
    exact ⟨_, rfl⟩

/-- The second line block, likewise. -/
theorem lines_depth_disabled_total (st : Renderer)
    (h : st.m_lines_list_depth_disabled.length < 2 ^ 32) :
    ∃ st2, Pass_Lines.lines_depth_disabled st = some st2 := by
  unfold Pass_Lines.lines_depth_disabled
  by_cases h0 : st.m_lines_list_depth_disabled.length % 2 ^ 32 = 0
  · exact ⟨st, by simp only [h0, ne_eq, not_true_eq_false, if_false]⟩
  · obtain ⟨-, g2⟩ := grow_spec st.m_vertex_buffer_lines
      (st.m_lines_list_depth_disabled.length % 2 ^ 32)
    simp only [h0, ne_eq, not_false_eq_true, if_true]
    rw [copyToBuffer_total _ _ (le_of_eq_of_le (Nat.mod_eq_of_lt h).symm g2)]
    exact ⟨_, rfl⟩

/-- A fold whose steps keep an observation keeps it. -/
theorem foldl_keeps {α β γ : Type} (f : β → α → β) (g : β → γ)
    (hf : ∀ b a, g (f b a) = g b) (l : List α) (b : β) : g (l.foldl f b) = g b := by
  induction l generalizing b with
  | nil => rfl
  | cons a l ih => rw [List.foldl_cons, ih, hf]

/-- The lines that `Pass_Lines` generates go to the list that requires depth: the line vertex
buffer and the other list are untouched. -/
theorem generate_keeps (st : Renderer) (camera : Camera) (draw_picking_ray draw_aabb : Bool) :
    (Pass_Lines.generate st camera draw_picking_ray draw_aabb).m_vertex_buffer_lines
        = st.m_vertex_buffer_lines
      ∧ (Pass_Lines.generate st camera draw_picking_ray draw_aabb).m_lines_list_depth_disabled
        = st.m_lines_list_depth_disabled := by
  have hline : ∀ (s : Renderer) (a b : Directus.Vector3) (c d : Directus.Vector4),
      (DrawLine s a b c d true).m_vertex_buffer_lines = s.m_vertex_buffer_lines
        ∧ (DrawLine s a b c d true).m_lines_list_depth_disabled
          = s.m_lines_list_depth_disabled := by
    intro s a b c d
    simp [DrawLine]
  have hbox : ∀ (s : Renderer) (box : BoundingBox) (color : Directus.Vector4),
      (DrawBox s box color true).m_vertex_buffer_lines = s.m_vertex_buffer_lines
        ∧ (DrawBox s box color true).m_lines_list_depth_disabled
          = s.m_lines_list_depth_disabled := by
    intro s box color
    unfold DrawBox
    generalize boxEdges box = edges
    exact ⟨foldl_keeps (fun s e => DrawLine s e.1 e.2 color color true)
        (fun s => s.m_vertex_buffer_lines) (fun b a => (hline b _ _ _ _).1) edges s,
      foldl_keeps (fun s e => DrawLine s e.1 e.2 color color true)
        (fun s => s.m_lines_list_depth_disabled) (fun b a => (hline b _ _ _ _).2) edges s⟩
  have hstep : ∀ (b : Renderer) (a : Entity),
      (match a.renderable with
        | some renderable => DrawBox b renderable.aabb ⟨41 / 100, 86 / 100, 1, 1⟩ true
        | none => b).m_vertex_buffer_lines = b.m_vertex_buffer_lines
      ∧ (match a.renderable with
        | some renderable => DrawBox b renderable.aabb ⟨41 / 100, 86 / 100, 1, 1⟩ true
        | none => b).m_lines_list_depth_disabled = b.m_lines_list_depth_disabled := by
    intro b a
    cases a.renderable with
    | none => exact ⟨rfl, rfl⟩
    | some renderable => exact hbox b _ _
  have hboxes : ∀ (s : Renderer) (entities : List Entity),
      (Pass_Lines.boxes s entities).m_vertex_buffer_lines = s.m_vertex_buffer_lines
        ∧ (Pass_Lines.boxes s entities).m_lines_list_depth_disabled
          = s.m_lines_list_depth_disabled := by
    intro s entities
    unfold Pass_Lines.boxes
    exact ⟨foldl_keeps _ (fun s => s.m_vertex_buffer_lines) (fun b a => (hstep b a).1)
        entities s,
      foldl_keeps _ (fun s => s.m_lines_list_depth_disabled) (fun b a => (hstep b a).2)
        entities s⟩
  unfold Pass_Lines.generate
  cases draw_picking_ray <;> cases draw_aabb <;>
    simp only [if_true, if_false, Bool.false_eq_true, hboxes, hline, and_self]

/-- The pipeline state and the grid of `Pass_Lines` leave the line vertex buffer and the line
lists alone. -/
theorem begin_keeps (st : Renderer) (tex_out : TexSlot) (draw_grid : Bool) :
    (Pass_Lines.begin st tex_out draw_grid).m_vertex_buffer_lines = st.m_vertex_buffer_lines
      ∧ (Pass_Lines.begin st tex_out draw_grid).m_lines_list_depth_enabled
        = st.m_lines_list_depth_enabled
      ∧ (Pass_Lines.begin st tex_out draw_grid).m_lines_list_depth_disabled
        = st.m_lines_list_depth_disabled := by
  cases draw_grid <;> exact ⟨rfl, rfl, rfl⟩

/-- `Pass_Lines` never shrinks the line vertex buffer. -/
theorem Pass_Lines_never_shrinks (st st2 : Renderer) (tex_out : TexSlot)
    (h : Pass_Lines st tex_out = some st2) :
    st.m_vertex_buffer_lines.vertexCount ≤ st2.m_vertex_buffer_lines.vertexCount := by
  simp only [Pass_Lines] at h
  split at h
  · cases h
    exact le_refl _
  · split at h
    · cases h
    · rename_i camera hcam
      split at h
      · cases h
      · rename_i s1 h1
        split at h
        · cases h
        · rename_i s2 h2
          cases h
          have e1 := (lines_depth_enabled_spec _ _ h1).1.1
          have e2 := (lines_depth_disabled_spec _ _ h2).1
          rw [(begin_keeps _ _ _).1, (generate_keeps _ _ _ _).1] at e1
          exact le_trans e1 e2

/-- With a camera and line lists that fit 32 bits, `Pass_Lines` has a result. -/
theorem Pass_Lines_total (st : Renderer) (tex_out : TexSlot) (camera : Camera)
    (hcam : st.m_camera = some camera)
    (h1 : (Pass_Lines.generate (cmd st (Cmd.Begin ScopeName.Pass_Lines)) camera
        (Flags_IsSet st RenderFlag.Render_Gizmo_PickingRay)
        (Flags_IsSet st RenderFlag.Render_Gizmo_AABB)).m_lines_list_depth_enabled.length
      < 2 ^ 32)
    (h2 : st.m_lines_list_depth_disabled.length < 2 ^ 32) :
    ∃ st2, Pass_Lines st tex_out = some st2 := by
  have hc : (cmd st (Cmd.Begin ScopeName.Pass_Lines)).m_camera = some camera := hcam
  simp only [Pass_Lines]
  split
  · exact ⟨_, rfl⟩
  · simp only [hc]
    obtain ⟨s1, e1⟩ := lines_depth_enabled_total
      (Pass_Lines.begin
        (Pass_Lines.generate (cmd st (Cmd.Begin ScopeName.Pass_Lines)) camera
          (Flags_IsSet st RenderFlag.Render_Gizmo_PickingRay)
          (Flags_IsSet st RenderFlag.Render_Gizmo_AABB))
        tex_out (Flags_IsSet st RenderFlag.Render_Gizmo_Grid))
      (by rw [(begin_keeps _ _ _).2.1]; exact h1)
    simp only [e1]
    obtain ⟨s2, e2⟩ := lines_depth_disabled_total
      (cmds s1
        [ Cmd.SetDepthStencilState DepthStencilRef.m_depth_stencil_disabled,
          Cmd.SetRenderTarget (some (s1.tex tex_out).id) none ])
      (by
        show s1.m_lines_list_depth_disabled.length < _
        rw [(lines_depth_enabled_spec _ _ e1).2.1, (begin_keeps _ _ _).2.2,
          (generate_keeps _ _ _ _).2]
        exact h2)
    simp only [e2]
    exact ⟨_, rfl⟩

/-- C20: an execution of `Pass_Lines` never shrinks the line vertex buffer: the capacity after
the pass is at least the capacity before. Each of its two line blocks keeps the contract of a
line block: the capacity does not shrink, and at its draw the buffer holds the list and has
room for at least the vertices copied and the vertices drawn. And the pass has a result
whenever the camera is present and the two line lists hold fewer than `2 ^ 32` vertices, the
range of the 32-bit sizes the pass computes. -/
theorem Pass_Lines_capacity (st st2 : Renderer) (tex_out : TexSlot) :
    (Pass_Lines st tex_out = some st2 →
        st.m_vertex_buffer_lines.vertexCount ≤ st2.m_vertex_buffer_lines.vertexCount)
      ∧ (Pass_Lines.lines_depth_enabled st = some st2 →
        LineBlock st.m_lines_list_depth_enabled st st2)
      ∧ (Pass_Lines.lines_depth_disabled st = some st2 →
        LineBlock st.m_lines_list_depth_disabled st st2)
      ∧ (∀ camera, st.m_camera = some camera →
        (Pass_Lines.generate (cmd st (Cmd.Begin ScopeName.Pass_Lines)) camera
            (Flags_IsSet st RenderFlag.Render_Gizmo_PickingRay)
            (Flags_IsSet st RenderFlag.Render_Gizmo_AABB)).m_lines_list_depth_enabled.length
          < 2 ^ 32 →
        st.m_lines_list_depth_disabled.length < 2 ^ 32 →
        ∃ st3, Pass_Lines st tex_out = some st3) :=
  ⟨Pass_Lines_never_shrinks st st2 tex_out,
    fun h => (lines_depth_enabled_spec st st2 h).1,
    lines_depth_disabled_spec st st2,
    fun camera => Pass_Lines_total st tex_out camera⟩

/-- C20, on the sample with two vertices that require depth and four that do not, from an
empty buffer: the pass has a result, and the capacity grows from zero to four. -/
theorem Pass_Lines_capacity_witness :
    ∃ st2, Pass_Lines sampleLines TexSlot.m_render_tex_full_hdr_light2 = some st2
      ∧ sampleLines.m_vertex_buffer_lines.vertexCount = 0
      ∧ st2.m_vertex_buffer_lines.vertexCount = 4
      ∧ sampleLines.m_vertex_buffer_lines.vertexCount
        ≤ st2.m_vertex_buffer_lines.vertexCount := by
  obtain ⟨st2, h⟩ := (Pass_Lines_capacity sampleLines sampleLines
    TexSlot.m_render_tex_full_hdr_light2).2.2.2 sampleCamera rfl
    (by simp [Pass_Lines.generate, Flags_IsSet, sampleLines, sampleState, cmd])
    (by simp [sampleLines])
  refine ⟨st2, h, rfl, ?_, (Pass_Lines_capacity sampleLines st2
    TexSlot.m_render_tex_full_hdr_light2).1 h⟩
  simp [Pass_Lines, Pass_Lines.generate, Pass_Lines.begin, Pass_Lines.lines_depth_enabled,
    Pass_Lines.lines_depth_disabled, copyToBuffer, CreateDynamic, Flags_IsSet, sampleLines,
    sampleState, cmd, cmds, SetDefaultBuffer] at h
  rw [← h]

/-! ## Bloom: what the upsample reads -/

/-- C24: what `Pass_Bloom` draws when the two quarter-resolution textures match: seven
draws (for handles `tex_in`, `tex_out` other than the quarter-resolution ones), told by
pixel shader, texture at slot 0 and render target. The horizontal draw of the
Gaussian blur renders into the texture the handle `m_render_tex_quarter_blur1` held on entry
and the vertical, last one into the texture of `m_render_tex_quarter_blur2`.
`Pass_BlurGaussian` then swaps the two handles, and the first upscale draw, which reads
through `m_render_tex_quarter_blur2`, has the texture of the horizontal draw bound as input,
not the one that received the vertical draw. -/
theorem Pass_Bloom_upscale_input (st : Renderer) (tex_in tex_out : TexSlot)
    (hin : tex_in ≠ TexSlot.m_render_tex_quarter_blur1
      ∧ tex_in ≠ TexSlot.m_render_tex_quarter_blur2)
    (hout : tex_out ≠ TexSlot.m_render_tex_quarter_blur1
      ∧ tex_out ≠ TexSlot.m_render_tex_quarter_blur2)
    (hw : (st.tex TexSlot.m_render_tex_quarter_blur2).width
      = (st.tex TexSlot.m_render_tex_quarter_blur1).width)
    (hh : (st.tex TexSlot.m_render_tex_quarter_blur2).height
      = (st.tex TexSlot.m_render_tex_quarter_blur1).height)
    (hf : (st.tex TexSlot.m_render_tex_quarter_blur2).format
      = (st.tex TexSlot.m_render_tex_quarter_blur1).format) :
    (drawsOf (Pass_Bloom st tex_in tex_out).m_cmd_list).map
        (fun d => (d.pipeline.pixelShader, d.pipeline.textures 0, d.pipeline.renderTargets))
      = (drawsOf st.m_cmd_list).map
          (fun d => (d.pipeline.pixelShader, d.pipeline.textures 0, d.pipeline.renderTargets))
        ++ [ (some ShaderRef.m_ps_downsample_box, some (st.tex tex_in).id,
              [(st.tex TexSlot.m_render_tex_quarter_blur1).id]),
            (some ShaderRef.m_ps_bloom_bright,
              some (st.tex TexSlot.m_render_tex_quarter_blur1).id,
              [(st.tex TexSlot.m_render_tex_quarter_blur2).id]),
            (some ShaderRef.m_ps_blur_gaussian,
              some (st.tex TexSlot.m_render_tex_quarter_blur2).id,
              [(st.tex TexSlot.m_render_tex_quarter_blur1).id]),
            (some ShaderRef.m_ps_blur_gaussian,
              some (st.tex TexSlot.m_render_tex_quarter_blur1).id,
              [(st.tex TexSlot.m_render_tex_quarter_blur2).id]),
            (some ShaderRef.m_ps_upsample_box,
              some (st.tex TexSlot.m_render_tex_quarter_blur1).id,
              [(st.tex TexSlot.m_render_tex_half_spare2).id]),
            (some ShaderRef.m_ps_upsample_box,
              some (st.tex TexSlot.m_render_tex_half_spare2).id,
              [(st.tex TexSlot.m_render_tex_full_spare).id]),
            (some ShaderRef.m_ps_bloom_blend, some (st.tex tex_in).id,
              [(st.tex tex_out).id]) ] := by
  have hm : texturesMismatch (st.tex TexSlot.m_render_tex_quarter_blur2)
      (st.tex TexSlot.m_render_tex_quarter_blur1) = false := by
    simp [texturesMismatch, hw, hh, hf]
  simp [Pass_Bloom, Pass_Bloom.block, Pass_BlurGaussian, hm, cmds, cmd, SetDefaultBuffer,
    UpdateBuffer, swapTex, drawsOf_append, draws, Cmd.isDraw, Pipeline.exec, bindSlots,
    hin.1, hin.2, hout.1, hout.2]

/-- C24 at the failing input: in the sample renderer, where the quarter-resolution handles
hold textures 15 and 16, the horizontal blur draw renders into texture 15 and the vertical one
into texture 16, and the first upscale draw reads texture 15. -/
theorem Pass_Bloom_upscale_input_witness :
    (drawsOf (Pass_Bloom sampleState TexSlot.m_render_tex_full_hdr_light
        TexSlot.m_render_tex_full_hdr_light2).m_cmd_list).map
          (fun d => (d.pipeline.pixelShader, d.pipeline.textures 0, d.pipeline.renderTargets))
      = [ (some ShaderRef.m_ps_downsample_box, some 6, [15]),
          (some ShaderRef.m_ps_bloom_bright, some 15, [16]),
          (some ShaderRef.m_ps_blur_gaussian, some 16, [15]),
          (some ShaderRef.m_ps_blur_gaussian, some 15, [16]),
          (some ShaderRef.m_ps_upsample_box, some 15, [14]),
          (some ShaderRef.m_ps_upsample_box, some 14, [10]),
          (some ShaderRef.m_ps_bloom_blend, some 6, [7]) ] :=
  Pass_Bloom_upscale_input sampleState TexSlot.m_render_tex_full_hdr_light
    TexSlot.m_render_tex_full_hdr_light2 (by decide) (by decide) rfl rfl rfl

/-! ## Shadow depth pass: the average is not recomputed from scratch -/

/-- C27: evaluation at the failing input. The shadow scenario has one directional light of
direction (0, -1, 0) that casts shadows into two slices and draws one entity into each, so
the directions accumulated during a call are twice (0, -1, 0) and their average is
(0, -1, 0). Started with the finite vector (x, y, z) in the member, `Pass_LightDepth` leaves
((x + 0 + 0) / 2, (y - 1 - 1) / 2, (z + 0 + 0) / 2): the directions are added to the value
the member held before the call. Started with the zero vector it leaves (0, -1, 0); started
with what that frame left, on the same scene, it leaves (0, -3/2, 0). -/
theorem Pass_LightDepth_accumulates :
    (∀ x y z : ℚ,
      (Pass_LightDepth
          (sampleShadowSceneAfter ⟨XFloat.finite x, XFloat.finite y, XFloat.finite z⟩)).map
          (fun st => st.m_directional_light_avg_dir)
        = some ⟨XFloat.finite ((x + 0 + 0) / 2), XFloat.finite ((y + -1 + -1) / 2),
            XFloat.finite ((z + 0 + 0) / 2)⟩)
    ∧ (Pass_LightDepth (sampleShadowSceneAfter XVector3.Zero)).map
        (fun st => st.m_directional_light_avg_dir)
      = some ⟨XFloat.finite 0, XFloat.finite (-1), XFloat.finite 0⟩
    ∧ (Pass_LightDepth
        (sampleShadowSceneAfter ⟨XFloat.finite 0, XFloat.finite (-1), XFloat.finite 0⟩)).map
        (fun st => st.m_directional_light_avg_dir)
      = some ⟨XFloat.finite 0, XFloat.finite (-3 / 2), XFloat.finite 0⟩ := by
  have h : ∀ x y z : ℚ,
      (Pass_LightDepth
          (sampleShadowSceneAfter ⟨XFloat.finite x, XFloat.finite y, XFloat.finite z⟩)).map
          (fun st => st.m_directional_light_avg_dir)
        = some ⟨XFloat.finite ((x + 0 + 0) / 2), XFloat.finite ((y + -1 + -1) / 2),
            XFloat.finite ((z + 0 + 0) / 2)⟩ := by
    intro x y z
    simp [Pass_LightDepth, Pass_LightDepth.light, Pass_LightDepth.slice, Pass_LightDepth.entity,
      sampleShadowSceneAfter, sampleShadowScene, sampleState, sampleSunEntity, sampleSun,
      sampleShadowMap, sampleOpaque, List.range, List.range.loop, cmds, cmd,
      XVector3.divCount, XVector3.addFinite, XFloat.divCount, XFloat.addFinite]
  refine ⟨h, ?_, ?_⟩
  · rw [XVector3.Zero, h]
    norm_num
  · rw [h]
    norm_num

/-! ## Post-processing chain: the handles on return -/

/-- Appending commands changes no handle. -/
theorem cmds_tex (st : Renderer) (cs : List Cmd) : (cmds st cs).tex = st.tex := rfl

/-- Gamma correction changes no handle. -/
theorem Pass_GammaCorrection_tex (st : Renderer) (tex_in tex_out : TexSlot) :
    (Pass_GammaCorrection st tex_in tex_out).tex = st.tex := rfl

/-- C28: for every configuration, when `Pass_PostLight`, run on the two full-resolution HDR
handles, returns, the last draw of the command list is the gamma-correction draw and it
rendered into the texture the output handle `m_render_tex_full_hdr_light2` now refers to; the
two handles hold the two textures they held on entry, in place or exchanged, so the input
handle refers to the other one. -/
theorem Pass_PostLight_output_handle (st : Renderer) :
    (∃ gamma : DrawCall,
        (drawsOf (Pass_PostLight st TexSlot.m_render_tex_full_hdr_light
            TexSlot.m_render_tex_full_hdr_light2).m_cmd_list).getLast? = some gamma
          ∧ gamma.pipeline.pixelShader = some ShaderRef.m_ps_gamma_correction
          ∧ gamma.pipeline.renderTargets
            = [ ((Pass_PostLight st TexSlot.m_render_tex_full_hdr_light
                  TexSlot.m_render_tex_full_hdr_light2).tex
                    TexSlot.m_render_tex_full_hdr_light2).id ])
      ∧ (((Pass_PostLight st TexSlot.m_render_tex_full_hdr_light
              TexSlot.m_render_tex_full_hdr_light2).tex TexSlot.m_render_tex_full_hdr_light2
            = st.tex TexSlot.m_render_tex_full_hdr_light2
          ∧ (Pass_PostLight st TexSlot.m_render_tex_full_hdr_light
              TexSlot.m_render_tex_full_hdr_light2).tex TexSlot.m_render_tex_full_hdr_light
            = st.tex TexSlot.m_render_tex_full_hdr_light)
        ∨ ((Pass_PostLight st TexSlot.m_render_tex_full_hdr_light
              TexSlot.m_render_tex_full_hdr_light2).tex TexSlot.m_render_tex_full_hdr_light2
            = st.tex TexSlot.m_render_tex_full_hdr_light
          ∧ (Pass_PostLight st TexSlot.m_render_tex_full_hdr_light
              TexSlot.m_render_tex_full_hdr_light2).tex TexSlot.m_render_tex_full_hdr_light
            = st.tex TexSlot.m_render_tex_full_hdr_light2)) := by
  have htex : (Pass_PostLight st TexSlot.m_render_tex_full_hdr_light
      TexSlot.m_render_tex_full_hdr_light2).tex
      = (Pass_PostLight.optional (cmds st Pass_PostLight.prelude)
          TexSlot.m_render_tex_full_hdr_light TexSlot.m_render_tex_full_hdr_light2).tex := by
    rw [Pass_PostLight_eq, cmds_tex, Pass_GammaCorrection_tex]
  obtain ⟨hin, hout⟩ := optional_tex (cmds st Pass_PostLight.prelude)
  obtain ⟨d, hd, h1, -, h3⟩ := Pass_SingleDraw_draw
    (Pass_PostLight.optional (cmds st Pass_PostLight.prelude)
      TexSlot.m_render_tex_full_hdr_light TexSlot.m_render_tex_full_hdr_light2)
    ScopeName.Pass_GammaCorrection ShaderRef.m_ps_gamma_correction
    SamplerRef.m_sampler_point_clamp TexSlot.m_render_tex_full_hdr_light
    TexSlot.m_render_tex_full_hdr_light2
  refine ⟨⟨d, ?_, h1, ?_⟩, ?_⟩
  · rw [Pass_PostLight_eq, cmds, drawsOf_append]
    simp only [Pass_GammaCorrection]
    rw [hd]
    simp [draws, Cmd.isDraw]
  · rw [h3, htex]
  · rw [htex, hin, hout, cmds_tex]
    by_cases hp : swapCount (cmds st Pass_PostLight.prelude) % 2 = 0
    · rw [if_pos hp, if_pos hp]
      exact Or.inl ⟨rfl, rfl⟩
    · rw [if_neg hp, if_neg hp]
      exact Or.inr ⟨rfl, rfl⟩

/-! ## Gaussian blur: the constant buffer of the draws -/

/-- C30: what `Pass_BlurGaussian` does with matching textures. It adds two draws, the
horizontal and the vertical one. The pass writes the direction and sigma of the horizontal
draw to buffer 0 of the Gaussian blur shader and those of the vertical draw to its buffer 1,
but the constant buffer bound at pixel-shader slot 1 is, at the horizontal draw, buffer 0 of
the bilateral blur shader, and at the vertical draw its buffer 1; the pass leaves the buffers
of the bilateral shader as they were. -/
theorem Pass_BlurGaussian_binds_bilateral (st : Renderer) (tex_in tex_out : TexSlot)
    (sigma pixel_stride : ℚ)
    (hw : (st.tex tex_in).width = (st.tex tex_out).width)
    (hh : (st.tex tex_in).height = (st.tex tex_out).height)
    (hf : (st.tex tex_in).format = (st.tex tex_out).format) :
    (∃ horizontal vertical : DrawCall,
        drawsOf (Pass_BlurGaussian st tex_in tex_out sigma pixel_stride).m_cmd_list
            = drawsOf st.m_cmd_list ++ [horizontal, vertical]
          ∧ horizontal.pipeline.pixelShader = some ShaderRef.m_ps_blur_gaussian
          ∧ horizontal.pipeline.constantBuffersPS 1
              = some (BufferRef.shader ShaderRef.m_ps_blur_gaussian_bilateral 0)
          ∧ vertical.pipeline.pixelShader = some ShaderRef.m_ps_blur_gaussian
          ∧ vertical.pipeline.constantBuffersPS 1
              = some (BufferRef.shader ShaderRef.m_ps_blur_gaussian_bilateral 1))
      ∧ (Pass_BlurGaussian st tex_in tex_out sigma pixel_stride).shaderBuffers
            ShaderRef.m_ps_blur_gaussian 0
          = some (BufferData.Struct_Blur ⟨pixel_stride, 0⟩ sigma)
      ∧ (Pass_BlurGaussian st tex_in tex_out sigma pixel_stride).shaderBuffers
            ShaderRef.m_ps_blur_gaussian 1
          = some (BufferData.Struct_Blur ⟨0, pixel_stride⟩ sigma)
      ∧ ∀ i, (Pass_BlurGaussian st tex_in tex_out sigma pixel_stride).shaderBuffers
            ShaderRef.m_ps_blur_gaussian_bilateral i
          = st.shaderBuffers ShaderRef.m_ps_blur_gaussian_bilateral i := by
  have hm : texturesMismatch (st.tex tex_in) (st.tex tex_out) = false := by
    simp [texturesMismatch, hw, hh, hf]
  refine ⟨?_, ?_, ?_, ?_⟩
  · simp [Pass_BlurGaussian, hm, cmds, cmd, SetDefaultBuffer, UpdateBuffer, swapTex,
      drawsOf_append, draws, Cmd.isDraw, Pipeline.exec]
    refine ⟨_, _, ⟨rfl, rfl⟩, ?_⟩
    simp [bindSlots]
  · simp [Pass_BlurGaussian, hm, cmds, cmd, SetDefaultBuffer, UpdateBuffer, swapTex]
  · simp [Pass_BlurGaussian, hm, cmds, cmd, SetDefaultBuffer, UpdateBuffer, swapTex]
  · intro i
    simp [Pass_BlurGaussian, hm, cmds, cmd, SetDefaultBuffer, UpdateBuffer, swapTex]

/-- C30 at the failing input: the Gaussian blur of the bloom pass on the two quarter-resolution
textures of the sample renderer, with sigma 2 and stride 1. Both draws run with the buffers of
the bilateral shader bound, which hold nothing, while sigma and the directions were written to
the buffers of the Gaussian shader. -/
theorem Pass_BlurGaussian_binds_bilateral_witness :
    (drawsOf (Pass_BlurGaussian sampleState TexSlot.m_render_tex_quarter_blur2
        TexSlot.m_render_tex_quarter_blur1 2 1).m_cmd_list).map
          (fun d => (d.pipeline.pixelShader, d.pipeline.constantBuffersPS 1))
        = [ (some ShaderRef.m_ps_blur_gaussian,
              some (BufferRef.shader ShaderRef.m_ps_blur_gaussian_bilateral 0)),
            (some ShaderRef.m_ps_blur_gaussian,
              some (BufferRef.shader ShaderRef.m_ps_blur_gaussian_bilateral 1)) ]
      ∧ (Pass_BlurGaussian sampleState TexSlot.m_render_tex_quarter_blur2
          TexSlot.m_render_tex_quarter_blur1 2 1).shaderBuffers
            ShaderRef.m_ps_blur_gaussian_bilateral 0 = none
      ∧ (Pass_BlurGaussian sampleState TexSlot.m_render_tex_quarter_blur2
          TexSlot.m_render_tex_quarter_blur1 2 1).shaderBuffers
            ShaderRef.m_ps_blur_gaussian 0 = some (BufferData.Struct_Blur ⟨1, 0⟩ 2) := by
  obtain ⟨⟨h, v, hd, h1, h2, h3, h4⟩, hg, -, hb⟩ := Pass_BlurGaussian_binds_bilateral
    sampleState TexSlot.m_render_tex_quarter_blur2 TexSlot.m_render_tex_quarter_blur1 2 1
    rfl rfl rfl
  refine ⟨?_, (hb 0).trans rfl, hg⟩
  rw [hd]
  simp [drawsOf, draws, sampleState, h1, h2, h3, h4]

/-! ## Light pass: the environment texture -/

/-- The environment input of the light pass: the texture bound at slot 7 at its draw is the
sky texture when `m_skybox` is set and the white texture otherwise. -/
theorem Pass_Light_environment (st : Renderer) (tex_shadows tex_ssao tex_out : TexSlot)
    (h : st.m_vps_light = Shader_State.Shader_Compiled) :
    (drawsOf (Pass_Light st tex_shadows tex_ssao tex_out).m_cmd_list).map
        (fun d => d.pipeline.textures 7)
      = (drawsOf st.m_cmd_list).map (fun d => d.pipeline.textures 7)
        ++ [ match st.m_skybox with
             | some skybox => some skybox.texture.id
             | none => some (st.tex TexSlot.m_tex_white).id ] := by
  cases hs : st.m_skybox <;>
    simp [Pass_Light, h, hs, cmds, cmd, SetDefaultBuffer, UpdateConstantBuffer, UpdateBuffer,
      drawsOf_append, draws, Cmd.isDraw, Pipeline.exec, bindSlots]

/-- C26: the environment input of the light pass after acquiring a snapshot without skybox.
`Renderables_Acquire` resets the buckets and the camera but not `m_skybox`: when an earlier
snapshot left the skybox `sky` there, it is still recorded after a snapshot that has none,
and the light pass binds the texture of `sky` at slot 7, not the white texture. -/
theorem Pass_Light_stale_sky (sort : Directus.SortFn) (before : Directus.Renderer)
    (sky : Directus.Skybox) (actorsVec : List (Option Directus.Actor))
    (texture : Directus.Skybox → RHI_Texture) (st : Renderer)
    (tex_shadows tex_ssao tex_out : TexSlot)
    (hbefore : before.m_skybox = some sky)
    (hnone : Directus.lastSkybox actorsVec = none)
    (hshader : st.m_vps_light = Shader_State.Shader_Compiled) :
    (Directus.Renderables_Acquire sort before actorsVec).m_skybox = some sky
      ∧ (drawsOf (Pass_Light
            (withAcquiredSkybox (Directus.Renderables_Acquire sort before actorsVec) texture st)
            tex_shadows tex_ssao tex_out).m_cmd_list).map (fun d => d.pipeline.textures 7)
        = (drawsOf st.m_cmd_list).map (fun d => d.pipeline.textures 7)
          ++ [some (texture sky).id] := by
  have hsky : (Directus.Renderables_Acquire sort before actorsVec).m_skybox = some sky := by
    rw [Directus.Renderables_Acquire_skybox_eq, hnone, hbefore]
    rfl
  refine ⟨hsky, ?_⟩
  rw [Pass_Light_environment
    (withAcquiredSkybox (Directus.Renderables_Acquire sort before actorsVec) texture st)
    tex_shadows tex_ssao tex_out hshader]
  simp [withAcquiredSkybox, hsky]

/-- C26 at the failing input: the sample sky snapshot is acquired, then the sample snapshot,
which has a camera and two meshes and no skybox. The light pass then binds texture 102, the
texture of the second sky of the first snapshot; the white texture is texture 18. -/
theorem Pass_Light_stale_sky_witness :
    Directus.lastSkybox Directus.sampleSnapshot = none
      ∧ (drawsOf (Pass_Light
            (withAcquiredSkybox
              (Directus.Renderables_Acquire Directus.insertionSort
                (Directus.Renderables_Acquire Directus.insertionSort Directus.sampleRenderer
                  Directus.sampleSkySnapshot)
                Directus.sampleSnapshot)
              sampleSkyTexture sampleState)
            TexSlot.m_render_tex_half_shadows TexSlot.m_render_tex_half_ssao
            TexSlot.m_render_tex_full_hdr_light).m_cmd_list).map
            (fun d => d.pipeline.textures 7)
        = [some 102]
      ∧ (sampleState.tex TexSlot.m_tex_white).id = 18 := by
  have h := Pass_Light_stale_sky Directus.insertionSort
    (Directus.Renderables_Acquire Directus.insertionSort Directus.sampleRenderer
      Directus.sampleSkySnapshot)
    { id := 2 } Directus.sampleSnapshot sampleSkyTexture sampleState
    TexSlot.m_render_tex_half_shadows TexSlot.m_render_tex_half_ssao
    TexSlot.m_render_tex_full_hdr_light rfl rfl rfl
  exact ⟨rfl, h.2.trans rfl, rfl⟩

/-! ## G-buffer pass: the entity loop -/

/-- The components `drawParts` returns are those of the entity, and they pass the tests. -/
theorem drawParts_some (camera : Camera) (e : Entity) (p : DrawParts)
    (h : drawParts camera e = some p) :
    e.renderable = some p.renderable ∧ p.renderable.material = some p.material
      ∧ p.material.shader = some p.shader ∧ p.renderable.model = some p.model
      ∧ p.model.vertexBuffer = some p.vertexBuffer ∧ p.model.indexBuffer = some p.indexBuffer
      ∧ p.shader.compilationState = Shader_State.Shader_Compiled
      ∧ camera.IsInViewFrustrum p.renderable = true := by
  unfold drawParts at h
  cases hr : e.renderable with
  | none => simp [hr] at h
  | some r =>
    cases hm : r.material with
    | none => simp [hr, hm] at h
    | some m =>
      cases hmo : r.model with
      | none => simp [hr, hm, hmo] at h
      | some mo =>
        cases hs : m.shader with
        | none => simp [hr, hm, hmo, hs] at h
        | some s =>
          cases hv : mo.vertexBuffer with
          | none => simp [hr, hm, hmo, hs, hv] at h
          | some vb =>
            cases hi : mo.indexBuffer with
            | none => simp [hr, hm, hmo, hs, hv, hi] at h
            | some ib =>
              simp only [hr, hm, hmo, hs, hv, hi] at h
              split at h
              · rename_i hc
                simp only [Option.some.injEq] at h
                subst h
                exact ⟨rfl, hm, hs, hmo, hv, hi, hc.1, hc.2⟩
              · simp at h

/-- An entity passes the tests exactly when `drawParts` returns its components. -/
theorem gbufferDrawn_eq (camera : Camera) (e : Entity) :
    gbufferDrawn camera e = (drawParts camera e).isSome := by
  rcases e with ⟨id, _ | ⟨_ | ⟨mid, col, _ | s, cull, texs⟩, _ | ⟨moid, _ | vb, _ | ib⟩,
    cs, ic, io, vo, aabb⟩, l⟩ <;> simp [gbufferDrawn, drawParts]
  split <;> simp_all

/-- The body of the entity loop, with a camera: an entity that fails a test changes nothing,
one that passes them is drawn. -/
theorem entity_eq (acc : GBufferLoop) (camera : Camera) (e : Entity)
    (hcam : acc.st.m_camera = some camera) :
    Pass_GBuffer.entity acc e
      = some (match drawParts camera e with
          | none => acc
          | some p => Pass_GBuffer.draw acc e p.renderable p.material p.shader p.model
              p.vertexBuffer p.indexBuffer) := by
  rcases e with ⟨id, _ | ⟨_ | ⟨mid, col, _ | s, cull, texs⟩, _ | ⟨moid, _ | vb, _ | ib⟩,
    cs, ic, io, vo, aabb⟩, l⟩ <;> simp [Pass_GBuffer.entity, drawParts, hcam]
  by_cases hc : s.compilationState = Shader_State.Shader_Compiled
  · cases hf : camera.IsInViewFrustrum
      { material := some
          { resourceId := mid, colorAlbedo := col, shader := some s, cullMode := cull,
            textures := texs },
        model := some { resourceId := moid, vertexBuffer := some vb, indexBuffer := some ib },
        castShadows := cs, indexCount := ic, indexOffset := io, vertexOffset := vo,
        aabb := aabb } <;> simp [hc, hf]
  · simp [hc]

/-- A draw of the entity loop appends the commands of `drawCmds`, records the identifiers of
what is bound now, and counts one mesh. -/
theorem draw_eq (acc : GBufferLoop) (e : Entity) (p : DrawParts) :
    Pass_GBuffer.draw acc e p.renderable p.material p.shader p.model p.vertexBuffer
        p.indexBuffer
      = { st :=
            { acc.st with
              m_cmd_list := acc.st.m_cmd_list
                ++ drawCmds acc.currently_bound_geometry acc.currently_bound_shader
                  acc.currently_bound_material e p
              m_renderer_meshes_rendered := acc.st.m_renderer_meshes_rendered + 1 }
          currently_bound_geometry := p.model.resourceId
          currently_bound_shader := p.shader.rhiId
          currently_bound_material := p.material.resourceId } := by
  simp only [Pass_GBuffer.draw, drawCmds]
  split_ifs <;> simp_all [cmds, cmd]

/-- The drawn entities of a list, element by element. -/
theorem drawnParts_cons (camera : Camera) (e : Entity) (es : List Entity) :
    drawnParts camera (e :: es)
      = (match drawParts camera e with
          | none => []
          | some p => [(e, p)]) ++ drawnParts camera es := by
  cases h : drawParts camera e <;> simp [drawnParts, h]

/-- The entity loop of the G-buffer pass, with a camera: it returns, has appended the commands
of the drawn entities and counted them, and leaves the rest of the state alone. -/
theorem loop_eq (camera : Camera) (es : List Entity) (acc : GBufferLoop)
    (hcam : acc.st.m_camera = some camera) :
    ∃ acc2 : GBufferLoop,
      es.foldlM Pass_GBuffer.entity acc = some acc2
        ∧ acc2.st
          = { acc.st with
              m_cmd_list := acc.st.m_cmd_list
                ++ loopCmds acc.currently_bound_geometry acc.currently_bound_shader
                  acc.currently_bound_material (drawnParts camera es)
              m_renderer_meshes_rendered :=
                acc.st.m_renderer_meshes_rendered + (drawnParts camera es).length } := by
  induction es generalizing acc with
  | nil => exact ⟨acc, rfl, by simp [drawnParts, loopCmds]⟩
  | cons e es ih =>
    rw [List.foldlM_cons, entity_eq acc camera e hcam, drawnParts_cons]
    cases hp : drawParts camera e with
    | none =>
      obtain ⟨acc2, h1, h2⟩ := ih acc hcam
      exact ⟨acc2, h1, by simpa using h2⟩
    | some p =>
      obtain ⟨acc2, h1, h2⟩ := ih
        (Pass_GBuffer.draw acc e p.renderable p.material p.shader p.model p.vertexBuffer
          p.indexBuffer) (by rw [draw_eq]; exact hcam)
      refine ⟨acc2, h1, ?_⟩
      rw [h2, draw_eq]
      simp [loopCmds, List.append_assoc, Nat.add_assoc, Nat.add_comm 1]

/-- The G-buffer pass with a device, a camera and a bucket that is not empty: it returns, and
has appended its prelude, the commands of the drawn entities, and the end of the scope. -/
theorem Pass_GBuffer_cmds (st : Renderer) (device : RHI_Device) (camera : Camera)
    (hdev : st.m_rhi_device = some device) (hcam : st.m_camera = some camera)
    (hne : st.m_entities RenderableType.Renderable_ObjectOpaque ≠ []) :
    ∃ st2 : Renderer,
      Pass_GBuffer st = some st2
        ∧ st2.m_cmd_list
          = st.m_cmd_list
            ++ (Pass_GBuffer.prelude st
              ++ (loopCmds 0 0 0
                  (drawnParts camera (st.m_entities RenderableType.Renderable_ObjectOpaque))
                ++ [Cmd.End, Cmd.Submit]))
        ∧ st2.m_renderer_meshes_rendered
          = st.m_renderer_meshes_rendered
            + (drawnParts camera
                (st.m_entities RenderableType.Renderable_ObjectOpaque)).length := by
  have hemp : (st.m_entities RenderableType.Renderable_ObjectOpaque).isEmpty = false := by
    cases h : st.m_entities RenderableType.Renderable_ObjectOpaque with
    | nil => exact absurd h hne
    | cons e es => rfl
  obtain ⟨acc2, h1, h2⟩ := loop_eq camera
    (st.m_entities RenderableType.Renderable_ObjectOpaque)
    { st := cmds
        (SetDefaultBuffer (cmd st (Cmd.Begin ScopeName.Pass_GBuffer)) ⌊st.m_resolution.x⌋₊
          ⌊st.m_resolution.y⌋₊ MvpArg.default)
        (Pass_GBuffer.prelude st).tail
      currently_bound_geometry := 0, currently_bound_shader := 0,
      currently_bound_material := 0 } hcam
  refine ⟨cmds acc2.st [Cmd.End, Cmd.Submit], ?_, ?_, ?_⟩
  · simp only [Pass_GBuffer, hdev]
    simp only [cmd, cmds, SetDefaultBuffer, hemp, Bool.false_eq_true, if_false]
    simp only [cmd, cmds, SetDefaultBuffer, Pass_GBuffer.prelude, List.tail_cons] at h1
    rw [h1]
  · rw [cmds_m_cmd_list, h2]
    simp [cmds, cmd, SetDefaultBuffer, Pass_GBuffer.prelude]
  · rw [cmds, h2]
    rfl

/-- The draws of the commands of one drawn entity: one, with the buffer of the transform of the
entity at slot 2 of the vertex shader. -/
theorem drawCmds_draws (P : Pipeline) (g s m : Nat) (e : Entity) (p : DrawParts) :
    (draws P (drawCmds g s m e p)).map gbufferObservation
      = [ (some (BufferRef.transform e.id),
            Cmd.DrawIndexed p.renderable.indexCount p.renderable.indexOffset
              p.renderable.vertexOffset) ] := by
  simp only [drawCmds]
  split_ifs <;> simp [draws, Cmd.isDraw, Pipeline.exec, bindSlots, gbufferObservation]

/-- The draws of the commands of a list of drawn entities: one per entity, in order. -/
theorem loopCmds_draws (P : Pipeline) (g s m : Nat) (ds : List (Entity × DrawParts)) :
    (draws P (loopCmds g s m ds)).map gbufferObservation
      = ds.map (fun ep =>
          (some (BufferRef.transform ep.1.id),
            Cmd.DrawIndexed ep.2.renderable.indexCount ep.2.renderable.indexOffset
              ep.2.renderable.vertexOffset)) := by
  induction ds generalizing P g s m with
  | nil => rfl
  | cons ep ds ih =>
    obtain ⟨e, p⟩ := ep
    rw [loopCmds, draws_append, List.map_append, drawCmds_draws, ih]
    rfl

/-- The drawn entities of a list are those that pass the tests, and the draw of each is the
draw of its renderable. -/
theorem drawnParts_observation (camera : Camera) (es : List Entity) :
    (drawnParts camera es).map (fun ep =>
        (some (BufferRef.transform ep.1.id),
          Cmd.DrawIndexed ep.2.renderable.indexCount ep.2.renderable.indexOffset
            ep.2.renderable.vertexOffset))
      = (es.filter (gbufferDrawn camera)).map
          (fun e => (some (BufferRef.transform e.id), entityDraw e)) := by
  induction es with
  | nil => rfl
  | cons e es ih =>
    rw [drawnParts_cons, List.map_append, ih]
    cases hp : drawParts camera e with
    | none =>
      have hd : gbufferDrawn camera e = false := by rw [gbufferDrawn_eq, hp]; rfl
      simp [hd]
    | some p =>
      have hd : gbufferDrawn camera e = true := by rw [gbufferDrawn_eq, hp]; rfl
      have hr := (drawParts_some camera e p hp).1
      simp [hd, entityDraw, hr]

/-- C22, amended: for every renderer state with a device, an active camera and an opaque
bucket that is not empty, `Pass_GBuffer` returns, and the draw calls it issues are, in bucket order, one per entity that
has a renderable, a material, a shader in the compiled state, a model with both vertex and
index buffers, and a bounding volume inside the camera frustum, each with the buffer of the
transform of that entity bound; no other draw is issued, and the rendered-mesh counter has
increased by the number of these draws. -/
theorem Pass_GBuffer_draws (st : Renderer) (device : RHI_Device) (camera : Camera)
    (hdev : st.m_rhi_device = some device) (hcam : st.m_camera = some camera)
    (hne : st.m_entities RenderableType.Renderable_ObjectOpaque ≠ []) :
    ∃ st2 : Renderer,
      Pass_GBuffer st = some st2
        ∧ (drawsOf st2.m_cmd_list).map gbufferObservation
          = (drawsOf st.m_cmd_list).map gbufferObservation
            ++ ((st.m_entities RenderableType.Renderable_ObjectOpaque).filter
                (gbufferDrawn camera)).map
                (fun e => (some (BufferRef.transform e.id), entityDraw e))
        ∧ st2.m_renderer_meshes_rendered
          = st.m_renderer_meshes_rendered
            + ((st.m_entities RenderableType.Renderable_ObjectOpaque).filter
                (gbufferDrawn camera)).length := by
  obtain ⟨st2, h0, h1, h2⟩ := Pass_GBuffer_cmds st device camera hdev hcam hne
  have hobs := drawnParts_observation camera
    (st.m_entities RenderableType.Renderable_ObjectOpaque)
  refine ⟨st2, h0, ?_, ?_⟩
  · rw [h1, drawsOf_append, List.map_append, draws_append, draws_append, List.map_append,
      List.map_append, loopCmds_draws, hobs]
    simp [Pass_GBuffer.prelude, draws, Cmd.isDraw]
  · rw [h2]
    have hlen := congrArg List.length hobs
    simp only [List.length_map] at hlen
    rw [hlen]

/-- C22, amended, on the sample scene: of the five entities of the bucket the first, the second and the
fourth are drawn, in this order; the third has a shader that is not compiled and the fifth no
renderable; the counter goes from 0 to 3. -/
theorem Pass_GBuffer_draws_witness :
    ∃ st2 : Renderer,
      Pass_GBuffer sampleGBufferScene = some st2
        ∧ (drawsOf st2.m_cmd_list).map gbufferObservation
          = [ (some (BufferRef.transform 201), Cmd.DrawIndexed 36 0 0),
              (some (BufferRef.transform 202), Cmd.DrawIndexed 36 0 0),
              (some (BufferRef.transform 204), Cmd.DrawIndexed 36 0 0) ]
        ∧ st2.m_renderer_meshes_rendered = 3 := by
  obtain ⟨st2, h0, h1, h2⟩ := Pass_GBuffer_draws sampleGBufferScene { isInitialized := true }
    sampleCamera rfl rfl (by simp [sampleGBufferScene])
  refine ⟨st2, h0, h1.trans ?_, h2.trans ?_⟩
  · simp [sampleGBufferScene, sampleState, drawsOf, draws, gbufferDrawn, sampleGBufferEntity,
      sampleCamera, entityDraw]
  · simp [sampleGBufferScene, sampleState, gbufferDrawn, sampleGBufferEntity, sampleCamera]

/-! ## G-buffer pass: re-binding on change -/

/-- What re-binding on change binds is part of the list. -/
theorem rebinds_subset {α : Type} (key : α → Nat) (l : List α) (cur : Nat) (x : α)
    (h : x ∈ rebinds key cur l) : x ∈ l := by
  induction l generalizing cur with
  | nil => simp [rebinds] at h
  | cons y ys ih =>
    simp only [rebinds] at h
    split at h
    · rcases List.mem_cons.1 h with h | h
      · exact h ▸ List.mem_cons_self _ _
      · exact List.mem_cons_of_mem _ (ih _ h)
    · exact List.mem_cons_of_mem _ (ih _ h)

/-- Every identifier of the list, other than the one bound before, is bound. -/
theorem mem_rebinds {α : Type} (key : α → Nat) (l : List α) (cur : Nat) (x : α)
    (h : x ∈ l) : (∃ y ∈ rebinds key cur l, key y = key x) ∨ key x = cur := by
  induction l generalizing cur with
  | nil => simp at h
  | cons y ys ih =>
    simp only [rebinds]
    rcases List.mem_cons.1 h with h | h
    · subst h
      by_cases hc : cur = key x
      · exact Or.inr hc.symm
      · rw [if_pos hc]
        exact Or.inl ⟨x, List.mem_cons_self _ _, rfl⟩
    · rcases ih (key y) h with ⟨z, hz, hk⟩ | hk
      · left
        split
        · exact ⟨z, List.mem_cons_of_mem _ hz, hk⟩
        · exact ⟨z, hz, hk⟩
      · by_cases hc : cur = key y
        · exact Or.inr (hk.trans hc.symm)
        · rw [if_pos hc]
          exact Or.inl ⟨y, List.mem_cons_self _ _, hk.symm⟩

/-- Contiguity passes to sublists. -/
theorem contiguous_sublist (l1 l2 : List Nat) (hsub : List.Sublist l1 l2)
    (h : contiguous l2) : contiguous l1 :=
  fun a b hab h1 => h a b hab (h1.trans hsub)

/-- Contiguity with a fresh identifier in front. -/
theorem contiguous_cons (l : List Nat) (cur : Nat) (h : contiguous l) (hcur : cur ∉ l) :
    contiguous (cur :: l) := by
  intro a b hab hsub
  cases hsub with
  | cons _ h1 => exact h a b hab h1
  | cons₂ _ h1 => exact hcur (h1.subset (by simp))

/-- With contiguous identifiers, re-binding on change binds no identifier twice, nor the one
bound before. -/
theorem rebinds_nodup {α : Type} (key : α → Nat) (l : List α) (cur : Nat)
    (h : contiguous (cur :: l.map key)) : (cur :: (rebinds key cur l).map key).Nodup := by
  induction l generalizing cur with
  | nil => simp [rebinds]
  | cons x xs ih =>
    have hsub : contiguous (key x :: xs.map key) :=
      contiguous_sublist _ _ (List.sublist_cons_self _ _) h
    have ih2 := ih (key x) hsub
    by_cases hc : cur = key x
    · simp only [rebinds, hc, ne_eq, not_true_eq_false, if_false]
      exact ih2
    · simp only [rebinds, ne_eq, hc, not_false_eq_true, if_true, List.map_cons]
      refine List.nodup_cons.2 ⟨?_, ih2⟩
      intro hmem
      rcases List.mem_cons.1 hmem with h1 | h1
      · exact hc h1
      · obtain ⟨y, hy, hk⟩ := List.mem_map.1 h1
        have hy2 : y ∈ xs := rebinds_subset key xs (key x) y hy
        have hin : cur ∈ xs.map key := List.mem_map.2 ⟨y, hy2, hk⟩
        refine h cur (key x) hc ?_
        exact List.Sublist.cons₂ _ (List.Sublist.cons₂ _ (List.singleton_sublist.2 hin))

/-- The texture bindings of two command lists in sequence. -/
theorem textureBinds_append (a b : List Cmd) :
    textureBinds (a ++ b) = textureBinds a ++ textureBinds b := by
  simp [textureBinds]

/-- The material-buffer bindings of two command lists in sequence. -/
theorem materialBufferBinds_append (a b : List Cmd) :
    materialBufferBinds (a ++ b) = materialBufferBinds a ++ materialBufferBinds b := by
  simp [materialBufferBinds]

/-- The material bindings of the entity loop: the textures and the constant buffer of a
material are bound where re-binding on change binds the material. -/
theorem loopCmds_binds (g s m : Nat) (ds : List (Entity × DrawParts)) :
    textureBinds (loopCmds g s m ds)
        = (rebinds (fun ep : Entity × DrawParts => ep.2.material.resourceId) m ds).map
            (fun ep => (0, ep.2.material.textures))
      ∧ materialBufferBinds (loopCmds g s m ds)
        = (rebinds (fun ep : Entity × DrawParts => ep.2.material.resourceId) m ds).map
            (fun ep => (1, BufferScope.Buffer_PixelShader, ep.2.material.resourceId)) := by
  induction ds generalizing g s m with
  | nil => exact ⟨rfl, rfl⟩
  | cons ep ds ih =>
    obtain ⟨e, p⟩ := ep
    obtain ⟨h1, h2⟩ := ih p.model.resourceId p.shader.rhiId p.material.resourceId
    rw [loopCmds, textureBinds_append, materialBufferBinds_append, h1, h2]
    simp only [drawCmds, rebinds]
    split_ifs <;> simp [textureBinds, materialBufferBinds]

/-- One drawn entity: when the loop invariant holds before, the commands of the entity issue
one draw, with the bindings of the entity in force, and the invariant holds after. -/
theorem drawCmds_bound (all : List (Entity × DrawParts)) (P : Pipeline) (g s m : Nat)
    (e : Entity) (p : DrawParts) (hmem : (e, p) ∈ all) (hid : Identified all)
    (ht : Tracks all P g s m) :
    draws P (drawCmds g s m e p)
        = [ ⟨(drawCmds g s m e p).foldl Pipeline.exec P,
              Cmd.DrawIndexed p.renderable.indexCount p.renderable.indexOffset
                p.renderable.vertexOffset⟩ ]
      ∧ BoundFor ((drawCmds g s m e p).foldl Pipeline.exec P) p
      ∧ Tracks all ((drawCmds g s m e p).foldl Pipeline.exec P) p.model.resourceId
          p.shader.rhiId p.material.resourceId := by
  obtain ⟨tg, ts, tm⟩ := ht (e, p) hmem
  have hb : BoundFor ((drawCmds g s m e p).foldl Pipeline.exec P) p := by
    simp only [drawCmds, BoundFor]
    split_ifs with h1 h2 h3 <;>
      simp_all [Pipeline.exec, bindSlots]
  refine ⟨?_, hb, ?_⟩
  · simp only [drawCmds]
    split_ifs <;> simp [draws, Cmd.isDraw, Pipeline.exec]
  · intro ep hep
    obtain ⟨i1, i2⟩ := hid (e, p) hmem ep hep
    obtain ⟨b1, b2, b3, b4, b5⟩ := hb
    refine ⟨fun h => ?_, fun h => ?_, fun h => ?_⟩
    · obtain ⟨k1, k2⟩ := i1 h
      rw [← k1, ← k2]
      exact ⟨b1, b2⟩
    · rw [← h]
      exact b3
    · have k := i2 h
      rw [← k]
      exact ⟨b4, b5⟩

/-- The entity loop: when the loop invariant holds before, every draw of the loop is issued
with the bindings of the entity it draws in force. -/
theorem loopCmds_bound (all : List (Entity × DrawParts)) (hid : Identified all)
    (ds : List (Entity × DrawParts)) (hsub : ∀ ep ∈ ds, ep ∈ all) (P : Pipeline)
    (g s m : Nat) (ht : Tracks all P g s m) :
    List.Forall₂
      (fun (ep : Entity × DrawParts) (d : DrawCall) =>
        ep ∈ all ∧ BoundFor d.pipeline ep.2
          ∧ d.call = Cmd.DrawIndexed ep.2.renderable.indexCount ep.2.renderable.indexOffset
              ep.2.renderable.vertexOffset)
      ds (draws P (loopCmds g s m ds)) := by
  induction ds generalizing P g s m with
  | nil => exact List.Forall₂.nil
  | cons ep ds ih =>
    obtain ⟨e, p⟩ := ep
    obtain ⟨h1, h2, h3⟩ := drawCmds_bound all P g s m e p
      (hsub _ (List.mem_cons_self _ _)) hid ht
    rw [loopCmds, draws_append, h1]
    exact List.Forall₂.cons ⟨hsub _ (List.mem_cons_self _ _), h2, rfl⟩
      (ih (fun ep hep => hsub ep (List.mem_cons_of_mem _ hep)) _ _ _ _ h3)

/-- The drawn entities of a list are its entities that pass the tests, with their
components. -/
theorem mem_drawnParts (camera : Camera) (es : List Entity) (e : Entity) (p : DrawParts) :
    (e, p) ∈ drawnParts camera es ↔ e ∈ es ∧ drawParts camera e = some p := by
  simp only [drawnParts, List.mem_filterMap, Option.map_eq_some', Prod.mk.injEq]
  constructor
  · rintro ⟨a, ha, q, hq, rfl, rfl⟩
    exact ⟨ha, hq⟩
  · rintro ⟨he, hp⟩
    exact ⟨e, he, p, hp, rfl, rfl⟩

/-- The components of a drawn entity are its material, its model and its shader. -/
theorem drawParts_accessors (camera : Camera) (e : Entity) (p : DrawParts)
    (h : drawParts camera e = some p) :
    e.material = some p.material ∧ e.model = some p.model ∧ e.shader = some p.shader := by
  obtain ⟨h1, h2, h3, h4, -⟩ := drawParts_some camera e p h
  simp [Entity.material, Entity.model, Entity.shader, h1, h2, h3, h4]

/-- The drawn entities of a list, without their components. -/
theorem drawnParts_fst (camera : Camera) (es : List Entity) :
    (drawnParts camera es).map Prod.fst = es.filter (gbufferDrawn camera) := by
  induction es with
  | nil => rfl
  | cons e es ih =>
    rw [drawnParts_cons, List.map_append, ih]
    cases hp : drawParts camera e with
    | none =>
      have hd : gbufferDrawn camera e = false := by rw [gbufferDrawn_eq, hp]; rfl
      simp [hd]
    | some p =>
      have hd : gbufferDrawn camera e = true := by rw [gbufferDrawn_eq, hp]; rfl
      simp [hd]

/-- The material identifiers of the drawn entities are among those of the bucket, in the same
order. -/
theorem drawnParts_ids_sublist (camera : Camera) (es : List Entity) :
    List.Sublist
      ((drawnParts camera es).map fun ep => ep.2.material.resourceId)
      (es.filterMap fun e => e.material.map fun material => material.resourceId) := by
  induction es with
  | nil => exact List.Sublist.slnil
  | cons e es ih =>
    rw [drawnParts_cons, List.map_append, List.filterMap_cons]
    cases hp : drawParts camera e with
    | none =>
      cases hm : e.material with
      | none => simpa [hm] using ih
      | some m => simpa [hm] using List.Sublist.cons m.resourceId ih
    | some p =>
      have hm := (drawParts_accessors camera e p hp).1
      simpa [hm] using List.Sublist.cons₂ p.material.resourceId ih

/-- When identifiers name resources in a bucket, they do among its drawn entities. -/
theorem drawnParts_identified (camera : Camera) (es : List Entity) (h : idsIdentify es) :
    Identified (drawnParts camera es) := by
  rintro ⟨a, pa⟩ ha ⟨b, pb⟩ hb
  obtain ⟨ha1, ha2⟩ := (mem_drawnParts camera es a pa).1 ha
  obtain ⟨hb1, hb2⟩ := (mem_drawnParts camera es b pb).1 hb
  obtain ⟨am, amo, -⟩ := drawParts_accessors camera a pa ha2
  obtain ⟨bm, bmo, -⟩ := drawParts_accessors camera b pb hb2
  obtain ⟨-, -, -, -, av, ai, -⟩ := drawParts_some camera a pa ha2
  obtain ⟨-, -, -, -, bv, bi, -⟩ := drawParts_some camera b pb hb2
  refine ⟨fun hk => ?_, fun hk => h.1 a ha1 b hb1 _ _ am bm hk⟩
  have hmo : pa.model = pb.model := h.2 a ha1 b hb1 _ _ amo bmo hk
  rw [hmo, bv] at av
  rw [hmo, bi] at ai
  exact ⟨(Option.some.inj av).symm, (Option.some.inj ai).symm⟩

/-- With non-zero identifiers the loop invariant holds at the start of the loop, where
nothing is recorded as bound. -/
theorem drawnParts_tracks (camera : Camera) (es : List Entity) (h : idsNonZero es)
    (P : Pipeline) : Tracks (drawnParts camera es) P 0 0 0 := by
  rintro ⟨e, p⟩ hep
  obtain ⟨he, hp⟩ := (mem_drawnParts camera es e p).1 hep
  obtain ⟨hm, hmo, hs⟩ := drawParts_accessors camera e p hp
  obtain ⟨n1, n2, n3⟩ := h e he
  exact ⟨fun hk => absurd hk.symm (n3 _ hmo), fun hk => absurd hk.symm (n2 _ hs),
    fun hk => absurd hk.symm (n1 _ hm)⟩

/-- C23: with a device and an active camera, for an opaque bucket in which same-material
entities are contiguous, all geometry, shader and material identifiers are non-zero and an
identifier names one resource, `Pass_GBuffer` returns; the textures and the constant buffer of
a material are bound exactly once for each material of a drawn entity (the materials bound
are pairwise distinct and are those of the drawn entities), and nothing else binds a texture
or a material buffer; and the draws of the pass correspond one to one, in bucket order, to
the entities that pass the tests, each issued with the geometry, the pixel shader and the
material of its entity bound. -/
theorem Pass_GBuffer_rebinds (st : Renderer) (device : RHI_Device) (camera : Camera)
    (hdev : st.m_rhi_device = some device) (hcam : st.m_camera = some camera)
    (hcont : materialsContiguous (st.m_entities RenderableType.Renderable_ObjectOpaque))
    (hnz : idsNonZero (st.m_entities RenderableType.Renderable_ObjectOpaque))
    (hident : idsIdentify (st.m_entities RenderableType.Renderable_ObjectOpaque)) :
    ∃ (st2 : Renderer) (new : List Cmd) (ds : List DrawCall),
      Pass_GBuffer st = some st2
        ∧ st2.m_cmd_list = st.m_cmd_list ++ new
        ∧ drawsOf st2.m_cmd_list = drawsOf st.m_cmd_list ++ ds
        ∧ (∃ mats : List Material,
            (mats.map fun material => material.resourceId).Nodup
              ∧ (∀ material, material ∈ mats ↔
                  ∃ e ∈ st.m_entities RenderableType.Renderable_ObjectOpaque,
                    gbufferDrawn camera e = true ∧ e.material = some material)
              ∧ textureBinds new = mats.map (fun material => (0, material.textures))
              ∧ materialBufferBinds new
                = mats.map (fun material =>
                    (1, BufferScope.Buffer_PixelShader, material.resourceId)))
        ∧ List.Forall₂ drawnWith
            ((st.m_entities RenderableType.Renderable_ObjectOpaque).filter
              (gbufferDrawn camera)) ds := by
  by_cases hne : st.m_entities RenderableType.Renderable_ObjectOpaque = []
  · refine ⟨cmds st
        [ Cmd.Begin ScopeName.Pass_GBuffer,
          Cmd.ClearRenderTarget (st.tex TexSlot.m_g_buffer_albedo).id ⟨0, 0, 0, 0⟩,
          Cmd.ClearRenderTarget (st.tex TexSlot.m_g_buffer_normal).id ⟨0, 0, 0, 0⟩,
          Cmd.ClearRenderTarget (st.tex TexSlot.m_g_buffer_material).id ⟨0, 0, 0, 0⟩,
          Cmd.ClearRenderTarget (st.tex TexSlot.m_g_buffer_velocity).id ⟨0, 0, 0, 0⟩,
          Cmd.ClearDepthStencil (depthView (st.tex TexSlot.m_g_buffer_depth) 0) st.clearDepth,
          Cmd.End, Cmd.Submit ], _, [], ?_, rfl, ?_, ⟨[], List.nodup_nil, ?_, ?_, ?_⟩, ?_⟩
    · simp [Pass_GBuffer, hdev, hne, cmd, cmds]
    · simp [cmds, drawsOf_append, draws, Cmd.isDraw]
    · simp [hne]
    · simp [textureBinds]
    · simp [materialBufferBinds]
    · simp [hne]
  · obtain ⟨st2, h0, h1, -⟩ := Pass_GBuffer_cmds st device camera hdev hcam hne
    obtain ⟨b1, b2⟩ := loopCmds_binds 0 0 0
      (drawnParts camera (st.m_entities RenderableType.Renderable_ObjectOpaque))
    have hnotin : (0 : Nat) ∉
        (drawnParts camera (st.m_entities RenderableType.Renderable_ObjectOpaque)).map
          (fun ep => ep.2.material.resourceId) := by
      intro hmem
      obtain ⟨⟨e, p⟩, hep, hk⟩ := List.mem_map.1 hmem
      obtain ⟨he, hp⟩ := (mem_drawnParts camera _ e p).1 hep
      exact (hnz e he).1 _ (drawParts_accessors camera e p hp).1 hk
    have hnodup := rebinds_nodup (fun ep : Entity × DrawParts => ep.2.material.resourceId)
      (drawnParts camera (st.m_entities RenderableType.Renderable_ObjectOpaque)) 0
      (contiguous_cons _ 0
        (contiguous_sublist _ _ (drawnParts_ids_sublist camera _) hcont) hnotin)
    refine ⟨st2, _, draws (pipelineAfter (st.m_cmd_list ++ Pass_GBuffer.prelude st))
      (loopCmds 0 0 0
        (drawnParts camera (st.m_entities RenderableType.Renderable_ObjectOpaque))),
      h0, h1, ?_,
      ⟨(rebinds (fun ep : Entity × DrawParts => ep.2.material.resourceId) 0
        (drawnParts camera (st.m_entities RenderableType.Renderable_ObjectOpaque))).map
          (fun ep => ep.2.material), ?_, ?_, ?_, ?_⟩, ?_⟩
    · rw [h1, drawsOf_append, draws_append, draws_append, ← pipelineAfter_append]
      simp [Pass_GBuffer.prelude, draws, Cmd.isDraw]
    · rw [List.map_map]
      exact (List.nodup_cons.1 hnodup).2
    · intro material
      constructor
      · intro hm
        obtain ⟨⟨e, p⟩, hep, hk⟩ := List.mem_map.1 hm
        obtain ⟨he, hp⟩ := (mem_drawnParts camera _ e p).1 (rebinds_subset _ _ _ _ hep)
        refine ⟨e, he, ?_, ?_⟩
        · rw [gbufferDrawn_eq, hp]
          rfl
        · rw [(drawParts_accessors camera e p hp).1]
          exact congrArg some hk
      · rintro ⟨e, he, hd, hm⟩
        rw [gbufferDrawn_eq] at hd
        obtain ⟨p, hp⟩ := Option.isSome_iff_exists.1 hd
        have hpm := (drawParts_accessors camera e p hp).1
        have hep : (e, p) ∈ drawnParts camera
            (st.m_entities RenderableType.Renderable_ObjectOpaque) :=
          (mem_drawnParts camera _ e p).2 ⟨he, hp⟩
        rcases mem_rebinds (fun ep : Entity × DrawParts => ep.2.material.resourceId) _ 0
          (e, p) hep with ⟨⟨e2, p2⟩, hy, hk⟩ | hk
        · obtain ⟨he2, hp2⟩ := (mem_drawnParts camera _ e2 p2).1 (rebinds_subset _ _ _ _ hy)
          have heq : p2.material = material :=
            hident.1 e2 he2 e he _ _ (drawParts_accessors camera e2 p2 hp2).1 hm
              (hk.trans (by rw [hpm] at hm; exact congrArg _ (Option.some.inj hm)))
          exact List.mem_map.2 ⟨(e2, p2), hy, heq⟩
        · exact absurd hk ((hnz e he).1 _ hpm)
    · rw [textureBinds_append, textureBinds_append, b1]
      simp [Pass_GBuffer.prelude, textureBinds]
    · rw [materialBufferBinds_append, materialBufferBinds_append, b2]
      simp [Pass_GBuffer.prelude, materialBufferBinds]
    · have hb := loopCmds_bound
        (drawnParts camera (st.m_entities RenderableType.Renderable_ObjectOpaque))
        (drawnParts_identified camera _ hident)
        (drawnParts camera (st.m_entities RenderableType.Renderable_ObjectOpaque))
        (fun _ h => h) (pipelineAfter (st.m_cmd_list ++ Pass_GBuffer.prelude st)) 0 0 0
        (drawnParts_tracks camera _ hnz _)
      rw [← drawnParts_fst, List.forall₂_map_left_iff]
      refine List.Forall₂.imp ?_ hb
      rintro ⟨e, p⟩ d ⟨hep, ⟨c1, c2, c3, c4, c5⟩, hcall⟩
      obtain ⟨-, hp⟩ := (mem_drawnParts camera _ e p).1 hep
      obtain ⟨k1, k2, k3, k4, k5, k6, -⟩ := drawParts_some camera e p hp
      exact ⟨p.renderable, p.material, p.shader, p.model, p.vertexBuffer, p.indexBuffer,
        k1, k2, k3, k4, k5, k6, c1, c2, c3, c4, c5, hcall⟩

/-- In the sample scene same-material entities are contiguous: the material identifiers are
50, 50, 51, 52. -/
theorem sampleGBufferScene_contiguous :
    materialsContiguous (sampleGBufferScene.m_entities RenderableType.Renderable_ObjectOpaque) := by
  have hl : (sampleGBufferScene.m_entities RenderableType.Renderable_ObjectOpaque).filterMap
      (fun e => e.material.map fun material => material.resourceId) = [50, 50, 51, 52] := rfl
  intro a b hab hsub
  rw [hl] at hsub
  have ha : a ∈ [50, 50, 51, 52] := hsub.subset (List.mem_cons_self _ _)
  have hb : b ∈ [50, 50, 51, 52] :=
    hsub.subset (List.mem_cons_of_mem _ (List.mem_cons_self _ _))
  simp only [List.mem_cons, List.mem_singleton, List.not_mem_nil, or_false] at ha hb
  rcases ha with rfl | rfl | rfl | rfl <;> rcases hb with rfl | rfl | rfl | rfl <;>
    revert hsub <;> decide

/-- In the sample scene all identifiers are non-zero. -/
theorem sampleGBufferScene_nonZero :
    idsNonZero (sampleGBufferScene.m_entities RenderableType.Renderable_ObjectOpaque) := by
  intro e he
  simp only [sampleGBufferScene, List.mem_cons, List.mem_singleton, List.not_mem_nil,
    or_false] at he
  rcases he with rfl | rfl | rfl | rfl | rfl <;>
    simp [Entity.material, Entity.model, Entity.shader, sampleGBufferEntity]

/-- In the sample scene an identifier names one resource. -/
theorem sampleGBufferScene_identify :
    idsIdentify (sampleGBufferScene.m_entities RenderableType.Renderable_ObjectOpaque) := by
  constructor <;>
  · intro a ha b hb
    simp only [sampleGBufferScene, List.mem_cons, List.mem_singleton, List.not_mem_nil,
      or_false] at ha hb
    rcases ha with rfl | rfl | rfl | rfl | rfl <;>
      rcases hb with rfl | rfl | rfl | rfl | rfl <;>
      simp [Entity.material, Entity.model, sampleGBufferEntity]

/-- C23 on the sample scene: the five entities have the materials 50, 50, 51, 52 and none,
and the first, the second and the fourth are drawn. The pass binds the textures and the
buffer of material 50 once and those of material 52 once, and each of the three draws has the
buffers of its model, the shader and the material of its entity bound. -/
theorem Pass_GBuffer_rebinds_witness :
    (∃ (st2 : Renderer) (new : List Cmd) (ds : List DrawCall),
      Pass_GBuffer sampleGBufferScene = some st2
        ∧ st2.m_cmd_list = sampleGBufferScene.m_cmd_list ++ new
        ∧ drawsOf st2.m_cmd_list = drawsOf sampleGBufferScene.m_cmd_list ++ ds
        ∧ (∃ mats : List Material,
            (mats.map fun material => material.resourceId).Nodup
              ∧ (∀ material, material ∈ mats ↔
                  ∃ e ∈ sampleGBufferScene.m_entities RenderableType.Renderable_ObjectOpaque,
                    gbufferDrawn sampleCamera e = true ∧ e.material = some material)
              ∧ textureBinds new = mats.map (fun material => (0, material.textures))
              ∧ materialBufferBinds new
                = mats.map (fun material =>
                    (1, BufferScope.Buffer_PixelShader, material.resourceId)))
        ∧ List.Forall₂ drawnWith
            ((sampleGBufferScene.m_entities RenderableType.Renderable_ObjectOpaque).filter
              (gbufferDrawn sampleCamera)) ds)
      ∧ (Pass_GBuffer sampleGBufferScene).map
          (fun st2 =>
            (textureBinds st2.m_cmd_list, materialBufferBinds st2.m_cmd_list,
              (drawsOf st2.m_cmd_list).map (fun d =>
                (d.pipeline.vertexBuffer, d.pipeline.indexBuffer, d.pipeline.pixelShader,
                  d.pipeline.constantBuffersPS 1, d.pipeline.textures 0))))
        = some
            ([(0, [some 500]), (0, [some 520])],
              [(1, BufferScope.Buffer_PixelShader, 50), (1, BufferScope.Buffer_PixelShader, 52)],
              [ (some (GeometryBuffer.buffer 71), some (GeometryBuffer.buffer 72),
                  some (ShaderRef.material 60), some (BufferRef.material 50), some 500),
                (some (GeometryBuffer.buffer 71), some (GeometryBuffer.buffer 72),
                  some (ShaderRef.material 60), some (BufferRef.material 50), some 500),
                (some (GeometryBuffer.buffer 72), some (GeometryBuffer.buffer 73),
                  some (ShaderRef.material 60), some (BufferRef.material 52), some 520) ]) :=
  ⟨Pass_GBuffer_rebinds sampleGBufferScene { isInitialized := true } sampleCamera rfl rfl
      sampleGBufferScene_contiguous sampleGBufferScene_nonZero sampleGBufferScene_identify,
    rfl⟩

/-! ## Post-processing chain: the colour flow -/

/-- The stage draws of two command lists in sequence. -/
theorem stageDraws_append (cur : Option PostStage) (p : Pipeline) (a b : List Cmd) :
    stageDraws cur p (a ++ b)
      = stageDraws cur p a
        ++ stageDraws (a.foldl stageScope cur) (a.foldl Pipeline.exec p) b := by
  induction a generalizing cur p with
  | nil => rfl
  | cons c cs ih =>
    by_cases h : c.isDraw = true
    · have hs : stageScope cur c = cur := by
        cases c <;> simp [Cmd.isDraw] at h <;> rfl
      simp [stageDraws, h, ih, exec_of_isDraw p c h, hs]
    · simp [stageDraws, h, ih]

/-- The stage draws of a command list extended by further commands. -/
theorem stageDrawsOf_append (a b : List Cmd) :
    stageDrawsOf (a ++ b)
      = stageDrawsOf a ++ stageDraws (stageAfter a) (pipelineAfter a) b :=
  stageDraws_append none Pipeline.unbound a b

/-- Exchanging two handles keeps the textures behind the handles distinct. -/
theorem distinctTextures_swapTex (st : Renderer) (a b : TexSlot) (h : distinctTextures st) :
    distinctTextures (swapTex st a b) := by
  have key : ∀ s, (swapTex st a b).tex s = st.tex (Equiv.swap a b s) := by
    intro s
    simp only [swapTex, Equiv.swap_apply_def]
    split_ifs <;> rfl
  intro x y hxy
  rw [key, key] at hxy
  exact (Equiv.swap a b).injective (h _ _ hxy)

/-- With distinct textures behind the handles, the textures of two different handles
differ. -/
theorem distinctTextures_ne (st : Renderer) (h : distinctTextures st) (x y : TexSlot)
    (hxy : x ≠ y) : (st.tex x).id ≠ (st.tex y).id :=
  fun heq => hxy (h x y heq)

/-- The colour flow of a single-draw pass. -/
theorem flowSpec_SingleDraw (name : ScopeName) (shader : ShaderRef) (sampler : SamplerRef)
    (stage : PostStage) (h : PostStage.ofScope name = some stage)
    (hs : shader ≠ ShaderRef.m_ps_taa) :
    FlowSpec (fun st tex_in tex_out => Pass_SingleDraw st name shader sampler tex_in tex_out)
      stage := by
  intro st hd
  have hab := distinctTextures_ne st hd TexSlot.m_render_tex_full_hdr_light
    TexSlot.m_render_tex_full_hdr_light2 (by decide)
  refine ⟨hd, [⟨some stage, some (st.tex TexSlot.m_render_tex_full_hdr_light).id,
    [(st.tex TexSlot.m_render_tex_full_hdr_light2).id]⟩], ?_, ?_⟩
  · simp [Pass_SingleDraw, cmds, cmd, SetDefaultBuffer, stageDrawsOf_append, stageDraws,
      Cmd.isDraw, stageScope, h, Pipeline.exec, bindSlots, colourInput, hs]
  · simp [StageFlow, NoFeedback, Pass_SingleDraw, cmds, cmd, SetDefaultBuffer, hab]

/-- The colour flow of tone mapping. -/
theorem flowSpec_ToneMapping : FlowSpec Pass_ToneMapping PostStage.ToneMapping :=
  flowSpec_SingleDraw _ _ _ _ rfl (by decide)

/-- The colour flow of gamma correction. -/
theorem flowSpec_GammaCorrection : FlowSpec Pass_GammaCorrection PostStage.GammaCorrection :=
  flowSpec_SingleDraw _ _ _ _ rfl (by decide)

/-- The colour flow of sharpening. -/
theorem flowSpec_Sharpening : FlowSpec Pass_Sharpening PostStage.Sharpening :=
  flowSpec_SingleDraw _ _ _ _ rfl (by decide)

/-- The colour flow of chromatic aberration. -/
theorem flowSpec_ChromaticAberration :
    FlowSpec Pass_ChromaticAberration PostStage.ChromaticAberration :=
  flowSpec_SingleDraw _ _ _ _ rfl (by decide)

/-- The colour flow of dithering. -/
theorem flowSpec_Dithering : FlowSpec Pass_Dithering PostStage.Dithering := by
  intro st hd
  have hab := distinctTextures_ne st hd TexSlot.m_render_tex_full_hdr_light
    TexSlot.m_render_tex_full_hdr_light2 (by decide)
  refine ⟨hd, [⟨some PostStage.Dithering, some (st.tex TexSlot.m_render_tex_full_hdr_light).id,
    [(st.tex TexSlot.m_render_tex_full_hdr_light2).id]⟩], ?_, ?_⟩
  · simp [Pass_Dithering, cmds, cmd, SetDefaultBuffer, stageDrawsOf_append, stageDraws,
      Cmd.isDraw, stageScope, PostStage.ofScope, Pipeline.exec, bindSlots, colourInput]
  · simp [StageFlow, NoFeedback, Pass_Dithering, cmds, cmd, SetDefaultBuffer, hab]

/-- The colour flow of motion blur. -/
theorem flowSpec_MotionBlur : FlowSpec Pass_MotionBlur PostStage.MotionBlur := by
  intro st hd
  have hab := distinctTextures_ne st hd TexSlot.m_render_tex_full_hdr_light
    TexSlot.m_render_tex_full_hdr_light2 (by decide)
  refine ⟨hd, [⟨some PostStage.MotionBlur, some (st.tex TexSlot.m_render_tex_full_hdr_light).id,
    [(st.tex TexSlot.m_render_tex_full_hdr_light2).id]⟩], ?_, ?_⟩
  · simp [Pass_MotionBlur, cmds, cmd, SetDefaultBuffer, stageDrawsOf_append, stageDraws,
      Cmd.isDraw, stageScope, PostStage.ofScope, Pipeline.exec, bindSlots, colourInput]
  · simp [StageFlow, NoFeedback, Pass_MotionBlur, cmds, cmd, SetDefaultBuffer, hab]

/-- The colour flow of FXAA: the luma draw reads the texture of the input handle and renders
into the texture of the output handle, the FXAA draw reads that and renders into the texture
the input handle held; the pass then exchanges the handles, so the output handle holds the
texture of the last draw. -/
theorem flowSpec_FXAA : FlowSpec Pass_FXAA PostStage.FXAA := by
  intro st hd
  have hab := distinctTextures_ne st hd TexSlot.m_render_tex_full_hdr_light
    TexSlot.m_render_tex_full_hdr_light2 (by decide)
  refine ⟨distinctTextures_swapTex _ _ _ hd,
    [ ⟨some PostStage.FXAA, some (st.tex TexSlot.m_render_tex_full_hdr_light).id,
        [(st.tex TexSlot.m_render_tex_full_hdr_light2).id]⟩,
      ⟨some PostStage.FXAA, some (st.tex TexSlot.m_render_tex_full_hdr_light2).id,
        [(st.tex TexSlot.m_render_tex_full_hdr_light).id]⟩ ], ?_, ?_⟩
  · simp [Pass_FXAA, cmds, cmd, SetDefaultBuffer, swapTex, stageDrawsOf_append, stageDraws,
      Cmd.isDraw, stageScope, PostStage.ofScope, Pipeline.exec, bindSlots, colourInput]
  · simp [StageFlow, NoFeedback, Pass_FXAA, cmds, cmd, SetDefaultBuffer, swapTex, hab,
      Ne.symm hab]

/-- The colour flow of TAA: the resolve draw reads the texture of the input handle at slot 1
and renders into the current TAA texture, the second draw copies that into the texture of the
output handle. -/
theorem flowSpec_TAA : FlowSpec Pass_TAA PostStage.TAA := by
  intro st hd
  have h1 := distinctTextures_ne st hd TexSlot.m_render_tex_full_hdr_light
    TexSlot.m_render_tex_full_taa_current (by decide)
  have h2 := distinctTextures_ne st hd TexSlot.m_render_tex_full_taa_current
    TexSlot.m_render_tex_full_hdr_light2 (by decide)
  refine ⟨distinctTextures_swapTex _ _ _ hd,
    [ ⟨some PostStage.TAA, some (st.tex TexSlot.m_render_tex_full_hdr_light).id,
        [(st.tex TexSlot.m_render_tex_full_taa_current).id]⟩,
      ⟨some PostStage.TAA, some (st.tex TexSlot.m_render_tex_full_taa_current).id,
        [(st.tex TexSlot.m_render_tex_full_hdr_light2).id]⟩ ], ?_, ?_⟩
  · simp [Pass_TAA, cmds, cmd, SetDefaultBuffer, swapTex, stageDrawsOf_append, stageDraws,
      Cmd.isDraw, stageScope, PostStage.ofScope, Pipeline.exec, bindSlots, colourInput]
  · simp [StageFlow, NoFeedback, Pass_TAA, cmds, cmd, SetDefaultBuffer, swapTex, h1, h2]

/-- The colour flow of bloom: the first draw (downsample) reads the texture of the input
handle, the last (additive blend) reads it again and renders into the texture of the output
handle; the draws in between go through the quarter- and half-resolution textures. -/
theorem flowSpec_Bloom : FlowSpec Pass_Bloom PostStage.Bloom := by
  intro st hd
  have hab := distinctTextures_ne st hd TexSlot.m_render_tex_full_hdr_light
    TexSlot.m_render_tex_full_hdr_light2 (by decide)
  have h1 := distinctTextures_ne st hd TexSlot.m_render_tex_full_hdr_light
    TexSlot.m_render_tex_quarter_blur1 (by decide)
  have h2 := distinctTextures_ne st hd TexSlot.m_render_tex_quarter_blur1
    TexSlot.m_render_tex_quarter_blur2 (by decide)
  have h3 := distinctTextures_ne st hd TexSlot.m_render_tex_quarter_blur2
    TexSlot.m_render_tex_half_spare2 (by decide)
  have h4 := distinctTextures_ne st hd TexSlot.m_render_tex_quarter_blur1
    TexSlot.m_render_tex_half_spare2 (by decide)
  have h5 := distinctTextures_ne st hd TexSlot.m_render_tex_half_spare2
    TexSlot.m_render_tex_full_spare (by decide)
  cases hm : texturesMismatch (st.tex TexSlot.m_render_tex_quarter_blur2)
      (st.tex TexSlot.m_render_tex_quarter_blur1) with
  | true =>
    refine ⟨?_,
      [ ⟨some PostStage.Bloom, some (st.tex TexSlot.m_render_tex_full_hdr_light).id,
          [(st.tex TexSlot.m_render_tex_quarter_blur1).id]⟩,
        ⟨some PostStage.Bloom, some (st.tex TexSlot.m_render_tex_quarter_blur1).id,
          [(st.tex TexSlot.m_render_tex_quarter_blur2).id]⟩,
        ⟨some PostStage.Bloom, some (st.tex TexSlot.m_render_tex_quarter_blur2).id,
          [(st.tex TexSlot.m_render_tex_half_spare2).id]⟩,
        ⟨some PostStage.Bloom, some (st.tex TexSlot.m_render_tex_half_spare2).id,
          [(st.tex TexSlot.m_render_tex_full_spare).id]⟩,
        ⟨some PostStage.Bloom, some (st.tex TexSlot.m_render_tex_full_hdr_light).id,
          [(st.tex TexSlot.m_render_tex_full_hdr_light2).id]⟩ ], ?_, ?_⟩
    · intro x y hxy
      apply hd
      simpa [Pass_Bloom, Pass_Bloom.block, Pass_BlurGaussian, hm, cmds, cmd, SetDefaultBuffer]
        using hxy
    · simp [Pass_Bloom, Pass_Bloom.block, Pass_BlurGaussian, hm, cmds, cmd, SetDefaultBuffer,
        stageDrawsOf_append, stageDraws, Cmd.isDraw, stageScope, PostStage.ofScope,
        Pipeline.exec, bindSlots, colourInput]
    · simp [StageFlow, NoFeedback, Pass_Bloom, Pass_Bloom.block, Pass_BlurGaussian, hm, cmds,
        cmd, SetDefaultBuffer, hab, h1, h2, h3, h5]
  | false =>
    refine ⟨?_,
      [ ⟨some PostStage.Bloom, some (st.tex TexSlot.m_render_tex_full_hdr_light).id,
          [(st.tex TexSlot.m_render_tex_quarter_blur1).id]⟩,
        ⟨some PostStage.Bloom, some (st.tex TexSlot.m_render_tex_quarter_blur1).id,
          [(st.tex TexSlot.m_render_tex_quarter_blur2).id]⟩,
        ⟨some PostStage.Bloom, some (st.tex TexSlot.m_render_tex_quarter_blur2).id,
          [(st.tex TexSlot.m_render_tex_quarter_blur1).id]⟩,
        ⟨some PostStage.Bloom, some (st.tex TexSlot.m_render_tex_quarter_blur1).id,
          [(st.tex TexSlot.m_render_tex_quarter_blur2).id]⟩,
        ⟨some PostStage.Bloom, some (st.tex TexSlot.m_render_tex_quarter_blur1).id,
          [(st.tex TexSlot.m_render_tex_half_spare2).id]⟩,
        ⟨some PostStage.Bloom, some (st.tex TexSlot.m_render_tex_half_spare2).id,
          [(st.tex TexSlot.m_render_tex_full_spare).id]⟩,
        ⟨some PostStage.Bloom, some (st.tex TexSlot.m_render_tex_full_hdr_light).id,
          [(st.tex TexSlot.m_render_tex_full_hdr_light2).id]⟩ ], ?_, ?_⟩
    · have hsw := distinctTextures_swapTex st TexSlot.m_render_tex_quarter_blur2
        TexSlot.m_render_tex_quarter_blur1 hd
      intro x y hxy
      apply hsw
      simpa [Pass_Bloom, Pass_Bloom.block, Pass_BlurGaussian, hm, cmds, cmd, SetDefaultBuffer,
        UpdateBuffer, swapTex] using hxy
    · simp [Pass_Bloom, Pass_Bloom.block, Pass_BlurGaussian, hm, cmds, cmd, SetDefaultBuffer,
        UpdateBuffer, swapTex, stageDrawsOf_append, stageDraws, Cmd.isDraw, stageScope,
        PostStage.ofScope, Pipeline.exec, bindSlots, colourInput]
    · simp [StageFlow, NoFeedback, Pass_Bloom, Pass_Bloom.block, Pass_BlurGaussian, hm, cmds,
        cmd, SetDefaultBuffer, UpdateBuffer, swapTex, hab, h1, h2, Ne.symm h2, h4, h5]

/-- The pass of a stage extends the colour flow: after it, the last draw has rendered into
the texture of the output handle. -/
theorem pass_flow {pass : Renderer → TexSlot → TexSlot → Renderer} {stage : PostStage}
    (hst : ∀ st tex_in tex_out,
      stagesOf (pass st tex_in tex_out).m_cmd_list = stagesOf st.m_cmd_list ++ [stage])
    (hf : FlowSpec pass stage) (t : Nat) (base : List StageDraw)
    (baseStages : List PostStage) (s : Renderer)
    (h : FlowInv TexSlot.m_render_tex_full_hdr_light t base baseStages s) :
    FlowInv TexSlot.m_render_tex_full_hdr_light2 t base baseStages
      (pass s TexSlot.m_render_tex_full_hdr_light TexSlot.m_render_tex_full_hdr_light2) := by
  obtain ⟨hd, N, L, e1, e2, e3, e4, e5, dl, e6, e7⟩ := h
  obtain ⟨hd2, sd, f1, ⟨dh, g1, g2⟩, ⟨dt, g3, g4⟩, g5⟩ := hf s hd
  have hne : sd ≠ [] := by
    intro h0
    rw [h0] at g1
    simp at g1
  refine ⟨hd2, N ++ sd, L ++ [stage], ?_, ?_, ?_, ?_, ?_, dt, ?_, g4⟩
  · rw [f1, e1, List.append_assoc]
  · rw [hst, e2, List.append_assoc]
  · intro x
    constructor
    · intro hx
      rcases List.mem_append.1 hx with hx | hx
      · obtain ⟨d, hdN, hds⟩ := (e3 x).1 hx
        exact ⟨d, List.mem_append_left _ hdN, hds⟩
      · rw [List.mem_singleton] at hx
        subst hx
        exact ⟨dh, List.mem_append_right _ (List.mem_of_mem_head? g1), (g5 dh
          (List.mem_of_mem_head? g1)).1⟩
    · rintro ⟨d, hdm, hds⟩
      rcases List.mem_append.1 hdm with hdm | hdm
      · exact List.mem_append_left _ ((e3 x).2 ⟨d, hdm, hds⟩)
      · have := (g5 d hdm).1
        rw [hds] at this
        exact List.mem_append_right _ (List.mem_singleton.2 (Option.some.inj this))
  · rw [← List.cons_append]
    refine List.chain'_append.2 ⟨e4, ?_, ?_⟩
    · refine (List.pairwise_of_forall_mem_list ?_).chain'
      intro a ha b hb hne2
      exact absurd ((g5 a ha).1.trans (g5 b hb).1.symm) hne2
    · intro x hx y hy _
      rw [e6] at hx
      rw [g1] at hy
      cases hx
      cases hy
      exact ⟨_, e7, g2⟩
  · intro d hdm
    rcases List.mem_append.1 hdm with hdm | hdm
    · exact e5 d hdm
    · refine ⟨(g5 d hdm).2, ?_⟩
      rw [(g5 d hdm).1]
      exact Option.some_ne_none _
  · rw [← List.cons_append, List.getLast?_append_of_ne_nil _ hne]
    exact g3

/-- The swap of the chain after a stage: the input handle now holds the texture the last draw
rendered into. -/
theorem swap_flow (t : Nat) (base : List StageDraw) (baseStages : List PostStage)
    (s : Renderer) (h : FlowInv TexSlot.m_render_tex_full_hdr_light2 t base baseStages s) :
    FlowInv TexSlot.m_render_tex_full_hdr_light t base baseStages
      (swap_targets s TexSlot.m_render_tex_full_hdr_light
        TexSlot.m_render_tex_full_hdr_light2) := by
  obtain ⟨hd, N, L, e1, e2, e3, e4, e5, dl, e6, e7⟩ := h
  refine ⟨distinctTextures_swapTex _ _ _ hd, N, L, ?_, ?_, e3, e4, e5, dl, e6, ?_⟩
  · rw [← e1]
    simp [swap_targets, swapTex, cmd, stageDrawsOf_append, stageDraws, Cmd.isDraw]
  · rw [← e2]
    simp [swap_targets, swapTex, cmd, stagesOf]
  · rw [e7]
    simp [swap_targets, swapTex, cmd]

/-- An optional stage of the chain keeps the invariant of the colour flow. -/
theorem stage_flow {pass : Renderer → TexSlot → TexSlot → Renderer} {stage : PostStage}
    {swaps : Bool} (hs : StageSpec pass stage swaps) (hf : FlowSpec pass stage)
    (enabled : Bool) (t : Nat) (base : List StageDraw) (baseStages : List PostStage)
    (s : Renderer) (h : FlowInv TexSlot.m_render_tex_full_hdr_light t base baseStages s) :
    FlowInv TexSlot.m_render_tex_full_hdr_light t base baseStages
      (Pass_PostLight.stage enabled pass TexSlot.m_render_tex_full_hdr_light
        TexSlot.m_render_tex_full_hdr_light2 s) := by
  cases enabled
  · exact h
  · exact swap_flow t base baseStages _ (pass_flow hs.stages hf t base baseStages s h)

/-- The optional stages of the chain keep the invariant of the colour flow. -/
theorem optional_flow (t : Nat) (base : List StageDraw) (baseStages : List PostStage)
    (s : Renderer) (h : FlowInv TexSlot.m_render_tex_full_hdr_light t base baseStages s) :
    FlowInv TexSlot.m_render_tex_full_hdr_light t base baseStages
      (Pass_PostLight.optional s TexSlot.m_render_tex_full_hdr_light
        TexSlot.m_render_tex_full_hdr_light2) := by
  unfold Pass_PostLight.optional
  exact stage_flow stageSpec_ChromaticAberration flowSpec_ChromaticAberration _ _ _ _ _
    (stage_flow stageSpec_Sharpening flowSpec_Sharpening _ _ _ _ _
      (stage_flow stageSpec_FXAA flowSpec_FXAA _ _ _ _ _
        (stage_flow stageSpec_ToneMapping flowSpec_ToneMapping _ _ _ _ _
          (stage_flow stageSpec_Dithering flowSpec_Dithering _ _ _ _ _
            (stage_flow stageSpec_MotionBlur flowSpec_MotionBlur _ _ _ _ _
              (stage_flow stageSpec_Bloom flowSpec_Bloom _ _ _ _ _
                (stage_flow stageSpec_TAA flowSpec_TAA _ _ _ _ _ h)))))))

/-- C25: for every configuration of flags and tone-mapping mode, when the textures behind the
handles are distinct, the draws `Pass_PostLight` adds (run on the two full-resolution HDR
handles) belong to the executed stages, the enabled optional stages and gamma correction, each
of which has a draw; the first draw reads as colour input the texture the input handle held on
entry; wherever two consecutive draws belong to different stages, the second reads as colour
input the texture the first rendered into; and no draw reads as colour input a texture it
renders into. FXAA, which swaps the handles itself before the chain swaps them again, is one
of the stages. -/
theorem Pass_PostLight_colour_flow (st : Renderer) (hd : distinctTextures st) :
    ∃ N : List StageDraw,
      stageDrawsOf (Pass_PostLight st TexSlot.m_render_tex_full_hdr_light
          TexSlot.m_render_tex_full_hdr_light2).m_cmd_list
        = stageDrawsOf st.m_cmd_list ++ N
      ∧ (∀ x, x ∈ optionalStages.filter (PostStage.enabled st) ++ [PostStage.GammaCorrection]
          ↔ ∃ d ∈ N, d.stage = some x)
      ∧ (∃ d, N.head? = some d
          ∧ d.input = some (st.tex TexSlot.m_render_tex_full_hdr_light).id)
      ∧ List.Chain' Link N
      ∧ ∀ d ∈ N, NoFeedback d := by
  have h0 : FlowInv TexSlot.m_render_tex_full_hdr_light
      (st.tex TexSlot.m_render_tex_full_hdr_light).id (stageDrawsOf st.m_cmd_list)
      (stagesOf st.m_cmd_list) (cmds st Pass_PostLight.prelude) := by
    refine ⟨hd, [], [], ?_, ?_, ?_, List.chain'_singleton _, ?_, _, rfl, rfl⟩
    · simp [cmds, Pass_PostLight.prelude, stageDrawsOf_append, stageDraws, Cmd.isDraw]
    · simp [cmds, Pass_PostLight.prelude, stagesOf, PostStage.ofScope]
    · simp
    · simp
  have h2 := pass_flow
    (stageSpec_SingleDraw ScopeName.Pass_GammaCorrection ShaderRef.m_ps_gamma_correction
      SamplerRef.m_sampler_point_clamp PostStage.GammaCorrection rfl).stages
    flowSpec_GammaCorrection _ _ _ _ (optional_flow _ _ _ _ h0)
  obtain ⟨-, N, L, e1, e2, e3, e4, e5, -⟩ := h2
  have hdraws : stageDrawsOf (Pass_PostLight st TexSlot.m_render_tex_full_hdr_light
      TexSlot.m_render_tex_full_hdr_light2).m_cmd_list = stageDrawsOf st.m_cmd_list ++ N := by
    rw [Pass_PostLight_eq, cmds_m_cmd_list, stageDrawsOf_append]
    simp only [Pass_GammaCorrection]
    rw [e1]
    simp [stageDraws, Cmd.isDraw]
  have hstages : stagesOf (Pass_PostLight st TexSlot.m_render_tex_full_hdr_light
      TexSlot.m_render_tex_full_hdr_light2).m_cmd_list = stagesOf st.m_cmd_list ++ L := by
    rw [Pass_PostLight_eq, cmds_m_cmd_list, stagesOf_append]
    simp only [Pass_GammaCorrection]
    rw [e2]
    simp [stagesOf]
  have hL : L = optionalStages.filter (PostStage.enabled st) ++ [PostStage.GammaCorrection] :=
    List.append_cancel_left
      (hstages.symm.trans (PostLight_stages_spec st TexSlot.m_render_tex_full_hdr_light
        TexSlot.m_render_tex_full_hdr_light2).1)
  refine ⟨N, hdraws, ?_, ?_, e4.tail, fun d hdm => (e5 d hdm).1⟩
  · intro x
    rw [← hL]
    exact e3 x
  · cases N with
    | nil =>
      have := (e3 PostStage.GammaCorrection).1 (by rw [hL]; simp)
      simp at this
    | cons d N =>
      refine ⟨d, rfl, ?_⟩
      have hlink : Link ⟨none, none, [(st.tex TexSlot.m_render_tex_full_hdr_light).id]⟩ d :=
        (List.chain'_cons.1 e4).1
      obtain ⟨t, ht1, ht2⟩ := hlink (fun h => (e5 d (List.mem_cons_self _ _)).2 h.symm)
      rw [ht2]
      simp only [List.cons.injEq, and_true] at ht1
      rw [ht1]

/-- In the sample renderer the textures behind the handles are distinct. -/
theorem sampleFXAA_distinct : distinctTextures sampleFXAA := by
  intro x y
  cases x <;> cases y <;> decide

/-- C25 on the sample renderer with FXAA and sharpening enabled, where the HDR handles hold
the textures 6 and 7: FXAA reads 6 and writes 7, then reads 7 and writes 6; sharpening, after
the two swaps, reads 6 and writes 7; gamma correction reads 7 and writes 6. -/
theorem Pass_PostLight_colour_flow_witness :
    (∃ N : List StageDraw,
      stageDrawsOf (Pass_PostLight sampleFXAA TexSlot.m_render_tex_full_hdr_light
          TexSlot.m_render_tex_full_hdr_light2).m_cmd_list
        = stageDrawsOf sampleFXAA.m_cmd_list ++ N
      ∧ (∀ x, x ∈ optionalStages.filter (PostStage.enabled sampleFXAA)
            ++ [PostStage.GammaCorrection]
          ↔ ∃ d ∈ N, d.stage = some x)
      ∧ (∃ d, N.head? = some d
          ∧ d.input = some (sampleFXAA.tex TexSlot.m_render_tex_full_hdr_light).id)
      ∧ List.Chain' Link N
      ∧ ∀ d ∈ N, NoFeedback d)
    ∧ stageDrawsOf (Pass_PostLight sampleFXAA TexSlot.m_render_tex_full_hdr_light
        TexSlot.m_render_tex_full_hdr_light2).m_cmd_list
      = [ ⟨some PostStage.FXAA, some 6, [7]⟩, ⟨some PostStage.FXAA, some 7, [6]⟩,
          ⟨some PostStage.Sharpening, some 6, [7]⟩,
          ⟨some PostStage.GammaCorrection, some 7, [6]⟩ ] :=
  ⟨Pass_PostLight_colour_flow sampleFXAA sampleFXAA_distinct, by decide⟩

/-- C14: evaluation at the failing input. The light bucket holds one light with cast-shadows
enabled whose shadow map has not been created. `Pass_LightDepth` tests the shadow map, skips
the light and returns without a command; `Pass_PreLight` invokes `Pass_ShadowMapping` for the
light, which dereferences the shadow map without test: the shadow-mapping pass, and with it
the pre-light pass, has no result. -/
theorem Pass_PreLight_null_shadow_map :
    castShadowLights (sampleNewLightScene.m_entities RenderableType.Renderable_Light)
        = [sampleNewLight]
      ∧ sampleNewLight.shadowMap = none
      ∧ (Pass_LightDepth sampleNewLightScene).map (fun st => st.m_cmd_list) = some []
      ∧ (Pass_ShadowMapping sampleNewLightScene TexSlot.m_render_tex_half_shadows
          (some sampleNewLight)).isNone = true
      ∧ (Pass_PreLight sampleNewLightScene TexSlot.m_render_tex_half_spare
          TexSlot.m_render_tex_half_shadows TexSlot.m_render_tex_half_ssao).isNone = true := by
  refine ⟨rfl, rfl, rfl, rfl, rfl⟩

/-- C22, as stated, fails without device: in the sample G-buffer scene without device the
opaque bucket is not empty and three of its entities pass the five tests, but `Pass_GBuffer`
returns at its first test: it issues no draw call and the rendered-mesh counter stays 0. -/
theorem Pass_GBuffer_no_device_no_draw :
    ((sampleGBufferSceneNoDevice.m_entities RenderableType.Renderable_ObjectOpaque).filter
          (gbufferDrawn sampleCamera)).map (fun e => e.id) = [201, 202, 204]
      ∧ sampleGBufferSceneNoDevice.m_camera.isSome = true
      ∧ (Pass_GBuffer sampleGBufferSceneNoDevice).map
          (fun st => ((drawsOf st.m_cmd_list).map gbufferObservation,
            st.m_renderer_meshes_rendered))
        = some ([], 0) := by
  refine ⟨?_, rfl, rfl⟩
  simp [sampleGBufferSceneNoDevice, sampleGBufferScene, sampleState, gbufferDrawn,
    sampleGBufferEntity, sampleCamera]

/-- The top-level passes of two command lists in sequence. -/
theorem passesOf_append (a b : List Cmd) : passesOf (a ++ b) = passesOf a ++ passesOf b := by
  simp [passesOf]

/-- A draw call opens no scope. -/
theorem passScope_of_isDraw (cur : Option ScopeName) (c : Cmd) (h : c.isDraw = true) :
    passScope cur c = cur := by
  cases c <;> simp [Cmd.isDraw] at h <;> rfl

/-- The draws of two command lists in sequence, as the frame sees them. -/
theorem passDraws_append (cur : Option ScopeName) (p : Pipeline) (a b : List Cmd) :
    passDraws cur p (a ++ b)
      = passDraws cur p a ++ passDraws (a.foldl passScope cur) (a.foldl Pipeline.exec p) b := by
  induction a generalizing cur p with
  | nil => rfl
  | cons c cs ih =>
    by_cases h : c.isDraw = true
    · simp [passDraws, h, ih, exec_of_isDraw p c h, passScope_of_isDraw cur c h]
    · simp [passDraws, h, ih]

/-- The draws of a command list extended by further commands, as the frame sees them. -/
theorem passDrawsOf_append (a b : List Cmd) :
    passDrawsOf (a ++ b) = passDrawsOf a ++ passDraws (passAfter a) (pipelineAfter a) b :=
  passDraws_append none Pipeline.unbound a b

/-- A command inside a pass leaves the pass in force. -/
theorem passScope_inPass (cur : Option ScopeName) (c : Cmd) (h : c.inPass = true) :
    passScope cur c = cur := by
  unfold Cmd.inPass at h
  unfold passScope
  cases hc : c.opensPass with
  | none => rfl
  | some n => rw [hc] at h; simp at h

/-- Commands inside a pass leave the pass in force. -/
theorem foldl_passScope_inPass (cs : List Cmd) (cur : Option ScopeName)
    (h : ∀ c ∈ cs, c.inPass = true) : cs.foldl passScope cur = cur := by
  induction cs generalizing cur with
  | nil => rfl
  | cons c cs ih =>
    rw [List.foldl_cons, passScope_inPass cur c (h c (List.mem_cons_self _ _))]
    exact ih cur (fun x hx => h x (List.mem_cons_of_mem _ hx))

/-- Commands inside a pass open no top-level scope. -/
theorem passesOf_inPass (cs : List Cmd) (h : ∀ c ∈ cs, c.inPass = true) : passesOf cs = [] := by
  unfold passesOf
  rw [List.filterMap_eq_nil_iff]
  intro c hc
  have := h c hc
  unfold Cmd.inPass at this
  exact Option.isNone_iff_eq_none.1 this

/-- Commands before the first draw issue no draw. -/
theorem passDraws_prepares (cs : List Cmd) (cur : Option ScopeName) (p : Pipeline)
    (h : ∀ c ∈ cs, c.prepares = true) : passDraws cur p cs = [] := by
  induction cs generalizing cur p with
  | nil => rfl
  | cons c cs ih =>
    have hc := h c (List.mem_cons_self _ _)
    simp only [Cmd.prepares, Bool.and_eq_true, Bool.not_eq_true'] at hc
    simp only [passDraws, hc.2, Bool.false_eq_true, if_false]
    exact ih _ _ (fun x hx => h x (List.mem_cons_of_mem _ hx))

/-- A command that leaves `t` bound leaves it bound. -/
theorem exec_keepsTarget (p : Pipeline) (c : Cmd) (t : Nat) (h : c.keepsTarget t = true)
    (hp : p.renderTargets = [t]) : (p.exec c).renderTargets = [t] := by
  cases c <;> simp [Cmd.keepsTarget] at h <;> simp [Pipeline.exec, hp, h]

/-- The draws of commands that leave `t` bound, run with `t` bound, belong to the pass in force
and render into `t`. -/
theorem passDraws_rendersInto (cs : List Cmd) (cur : Option ScopeName) (p : Pipeline) (t : Nat)
    (h : ∀ c ∈ cs, c.rendersInto t = true) (hp : p.renderTargets = [t]) :
    ∀ d ∈ passDraws cur p cs, d.pass = cur ∧ d.targets = [t] := by
  induction cs generalizing p with
  | nil => intro d hd; simp [passDraws] at hd
  | cons c cs ih =>
    have hc := h c (List.mem_cons_self _ _)
    simp only [Cmd.rendersInto, Bool.and_eq_true] at hc
    have hrest : ∀ x ∈ cs, x.rendersInto t = true := fun x hx => h x (List.mem_cons_of_mem _ hx)
    intro d hd
    by_cases hdraw : c.isDraw = true
    · simp only [passDraws, hdraw, if_true, List.mem_cons] at hd
      rcases hd with hd | hd
      · subst hd
        exact ⟨rfl, hp⟩
      · exact ih p hrest hp d hd
    · simp only [passDraws, hdraw, if_false] at hd
      rw [passScope_inPass cur c hc.1] at hd
      exact ih _ hrest (exec_keepsTarget p c t hc.2 hp) d hd

/-- The draws of commands inside a pass belong to the pass in force. -/
theorem passDraws_inPass (cs : List Cmd) (cur : Option ScopeName) (p : Pipeline)
    (h : ∀ c ∈ cs, c.inPass = true) : ∀ d ∈ passDraws cur p cs, d.pass = cur := by
  induction cs generalizing p with
  | nil => intro d hd; simp [passDraws] at hd
  | cons c cs ih =>
    have hc := h c (List.mem_cons_self _ _)
    have hrest : ∀ x ∈ cs, x.inPass = true := fun x hx => h x (List.mem_cons_of_mem _ hx)
    intro d hd
    by_cases hdraw : c.isDraw = true
    · simp only [passDraws, hdraw, if_true, List.mem_cons] at hd
      rcases hd with hd | hd
      · subst hd
        rfl
      · exact ih p hrest d hd
    · simp only [passDraws, hdraw, if_false] at hd
      rw [passScope_inPass cur c hc] at hd
      exact ih _ hrest d hd

/-- A command of a pass that renders into `t` stays inside the pass. -/
theorem rendersInto_inPass (t : Nat) (c : Cmd) (h : c.rendersInto t = true) :
    c.inPass = true := by
  simp only [Cmd.rendersInto, Bool.and_eq_true] at h
  exact h.1

/-- A command before the first draw stays inside the pass. -/
theorem prepares_inPass (c : Cmd) (h : c.prepares = true) : c.inPass = true := by
  simp only [Cmd.prepares, Bool.and_eq_true] at h
  exact h.1

/-- Commands that bind `t` before the first draw and leave it bound stay inside the pass, and
each of their draws belongs to the pass in force and renders into `t`. -/
theorem TargetBound.draws_spec {t : Nat} {cs : List Cmd} (h : TargetBound t cs) :
    (∀ c ∈ cs, c.inPass = true)
      ∧ ∀ cur p, ∀ d ∈ passDraws cur p cs, d.pass = cur ∧ d.targets = [t] := by
  induction cs with
  | nil => exact absurd h (by simp [TargetBound])
  | cons c cs ih =>
    rcases h with ⟨⟨depth, rfl⟩, hpost⟩ | ⟨hc, hrest⟩
    · constructor
      · intro x hx
        rcases List.mem_cons.1 hx with rfl | hx
        · rfl
        · exact rendersInto_inPass t x (hpost x hx)
      · intro cur p d hd
        simp only [passDraws, Cmd.isDraw, Bool.false_eq_true, if_false] at hd
        have hs : passScope cur (Cmd.SetRenderTarget (some t) depth) = cur := rfl
        rw [hs] at hd
        exact passDraws_rendersInto cs cur _ t hpost (by simp [Pipeline.exec]) d hd
    · obtain ⟨i1, i2⟩ := ih hrest
      have hc2 := hc
      simp only [Cmd.prepares, Bool.and_eq_true, Bool.not_eq_true'] at hc2
      constructor
      · intro x hx
        rcases List.mem_cons.1 hx with rfl | hx
        · exact hc2.1
        · exact i1 x hx
      · intro cur p d hd
        simp only [passDraws, hc2.2, Bool.false_eq_true, if_false] at hd
        rw [passScope_inPass cur c hc2.1] at hd
        exact i2 cur _ d hd

/-- Commands that leave `t` bound may follow. -/
theorem TargetBound.then_post {t : Nat} {cs post : List Cmd} (h : TargetBound t cs)
    (hpost : ∀ c ∈ post, c.rendersInto t = true) : TargetBound t (cs ++ post) := by
  induction cs with
  | nil => exact absurd h (by simp [TargetBound])
  | cons c cs ih =>
    rcases h with ⟨hd, hrest⟩ | ⟨hc, hrest⟩
    · refine Or.inl ⟨hd, ?_⟩
      intro x hx
      rcases List.mem_append.1 hx with hx | hx
      · exact hrest x hx
      · exact hpost x hx
    · exact Or.inr ⟨hc, ih hrest⟩

/-- Commands that are no draw may precede. -/
theorem TargetBound.prepend {t : Nat} {cs : List Cmd} (pre : List Cmd)
    (hpre : ∀ c ∈ pre, c.prepares = true) (h : TargetBound t cs) : TargetBound t (pre ++ cs) := by
  induction pre with
  | nil => exact h
  | cons c pre ih =>
    exact Or.inr ⟨hpre c (List.mem_cons_self _ _),
      ih (fun x hx => hpre x (List.mem_cons_of_mem _ hx))⟩

/-- The commands of a top-level pass open one top-level scope, its own, and each of their
draws belongs to the pass. -/
theorem PassBlock.spec {name : ScopeName} {body : List Cmd} (h : PassBlock name body)
    (htop : name.isTopLevel = true) :
    passesOf body = [name] ∧ ∀ cur p, ∀ d ∈ passDraws cur p body, d.pass = some name := by
  obtain ⟨rest, rfl, hrest⟩ := h
  constructor
  · rw [← List.singleton_append, passesOf_append, passesOf_inPass rest hrest]
    simp [passesOf, Cmd.opensPass, htop]
  · intro cur p d hd
    simp only [passDraws, Cmd.isDraw, Bool.false_eq_true, if_false] at hd
    have hs : passScope cur (Cmd.Begin name) = some name := by
      simp [passScope, Cmd.opensPass, htop]
    rw [hs] at hd
    exact passDraws_inPass rest _ _ hrest d hd

/-- A pass that renders into `t` is a top-level pass. -/
theorem RendersInto.toBlock {name : ScopeName} {t : Nat} {body : List Cmd}
    (h : RendersInto name t body) : PassBlock name body := by
  obtain ⟨rest, rfl, hrest⟩ := h
  exact ⟨rest, rfl, hrest.draws_spec.1⟩

/-- Each draw of a pass that renders into `t` renders into `t`. -/
theorem RendersInto.targets {name : ScopeName} {t : Nat} {body : List Cmd}
    (h : RendersInto name t body) :
    ∀ cur p, ∀ d ∈ passDraws cur p body, d.targets = [t] := by
  obtain ⟨rest, rfl, hrest⟩ := h
  intro cur p d hd
  simp only [passDraws, Cmd.isDraw, Bool.false_eq_true, if_false] at hd
  exact (hrest.draws_spec.2 _ _ d hd).2

/-- The commands of `k` passes under the scope `name` open `k` top-level scopes, all `name`,
and each of their draws belongs to a pass `name`. -/
theorem PassBlocks.blocks_spec {name : ScopeName} (htop : name.isTopLevel = true) :
    ∀ (k : Nat) (body : List Cmd), PassBlocks name k body →
      passesOf body = List.replicate k name
        ∧ ∀ cur p, ∀ d ∈ passDraws cur p body, d.pass = some name := by
  intro k
  induction k with
  | zero =>
    intro body h
    simp only [PassBlocks] at h
    subst h
    exact ⟨rfl, fun _ _ d hd => by simp [passDraws] at hd⟩
  | succ k ih =>
    intro body h
    obtain ⟨b, rest, rfl, hb, hrest⟩ := h
    obtain ⟨b1, b2⟩ := hb.spec htop
    obtain ⟨r1, r2⟩ := ih rest hrest
    constructor
    · rw [passesOf_append, b1, r1, List.replicate_succ]
      rfl
    · intro cur p d hd
      rw [passDraws_append] at hd
      rcases List.mem_append.1 hd with hd | hd
      · exact b2 _ _ d hd
      · exact r2 _ _ d hd

/-- Sequences of passes under one scope name compose. -/
theorem PassBlocks.concat {name : ScopeName} :
    ∀ (k1 k2 : Nat) (a b : List Cmd), PassBlocks name k1 a → PassBlocks name k2 b →
      PassBlocks name (k1 + k2) (a ++ b) := by
  intro k1
  induction k1 with
  | zero =>
    intro k2 a b ha hb
    simp only [PassBlocks] at ha
    subst ha
    simpa using hb
  | succ k ih =>
    intro k2 a b ha hb
    obtain ⟨x, rest, rfl, hx, hrest⟩ := ha
    rw [Nat.add_right_comm]
    exact ⟨x, rest ++ b, by simp, hx, ih k2 rest b hrest hb⟩

/-! ## The frame: what each pass appends -/

/-- Every state extends itself. -/
theorem Ext.refl (L : Bool) (K : TexSlot → Prop) (Q : Cmd → Bool) (a : Renderer) :
    Ext L K Q a a :=
  ⟨[], ⟨rfl, fun _ => ⟨rfl, rfl⟩, fun _ _ => rfl, by simp⟩, by simp⟩

/-- Extensions compose. -/
theorem Ext.trans {L : Bool} {K : TexSlot → Prop} {Q : Cmd → Bool} {a b c : Renderer}
    (h1 : Ext L K Q a b) (h2 : Ext L K Q b c) : Ext L K Q a c := by
  obtain ⟨x, ⟨c1, l1, t1, e1⟩, q1⟩ := h1
  obtain ⟨y, ⟨c2, l2, t2, e2⟩, q2⟩ := h2
  refine ⟨x ++ y, ⟨c2.trans c1, fun h => ⟨(l2 h).1.trans (l1 h).1, (l2 h).2.trans (l1 h).2⟩,
    fun s hs => (t2 s hs).trans (t1 s hs), ?_⟩, ?_⟩
  · rw [e2, e1, List.append_assoc]
  · intro c hc
    rcases List.mem_append.1 hc with hc | hc
    · exact q1 c hc
    · exact q2 c hc

/-- An extension keeps fewer handles, fewer lists and a weaker property of the commands. -/
theorem Ext.mono {L L2 : Bool} {K K2 : TexSlot → Prop} {Q Q2 : Cmd → Bool} {a b : Renderer}
    (hL : L2 = true → L = true) (hK : ∀ s, K2 s → K s) (hQ : ∀ c, Q c = true → Q2 c = true)
    (h : Ext L K Q a b) : Ext L2 K2 Q2 a b := by
  obtain ⟨x, ⟨c1, l1, t1, e1⟩, q1⟩ := h
  exact ⟨x, ⟨c1, fun h => l1 (hL h), fun s hs => t1 s (hK s hs), e1⟩, fun c hc => hQ c (q1 c hc)⟩

/-- Appending commands that satisfy `Q` is an extension. -/
theorem Ext.cmds (L : Bool) (K : TexSlot → Prop) {Q : Cmd → Bool} (a : Renderer)
    (cs : List Cmd) (h : ∀ c ∈ cs, Q c = true) : Ext L K Q a (cmds a cs) :=
  ⟨cs, ⟨rfl, fun _ => ⟨rfl, rfl⟩, fun _ _ => rfl, rfl⟩, h⟩

/-- A fallible loop whose body extends the state extends the state. -/
theorem Ext.foldlM {L : Bool} {K : TexSlot → Prop} {Q : Cmd → Bool} {α β : Type}
    (proj : β → Renderer) (f : β → α → Option β)
    (hf : ∀ b a b2, f b a = some b2 → Ext L K Q (proj b) (proj b2)) :
    ∀ (l : List α) (b b2 : β), l.foldlM f b = some b2 → Ext L K Q (proj b) (proj b2) := by
  intro l
  induction l with
  | nil =>
    intro b b2 h
    simp only [List.foldlM_nil, Option.pure_def, Option.some.injEq] at h
    subst h
    exact Ext.refl _ _ _ _
  | cons x xs ih =>
    intro b b2 h
    simp only [List.foldlM_cons, Option.bind_eq_bind] at h
    cases hx : f b x with
    | none => rw [hx] at h; simp at h
    | some b1 =>
      rw [hx] at h
      exact (hf b x b1 hx).trans (ih b1 b2 h)

/-- A loop whose body extends the state extends the state. -/
theorem Ext.foldl {L : Bool} {K : TexSlot → Prop} {Q : Cmd → Bool} {α β : Type}
    (proj : β → Renderer) (f : β → α → β) (hf : ∀ b a, Ext L K Q (proj b) (proj (f b a))) :
    ∀ (l : List α) (b : β), Ext L K Q (proj b) (proj (l.foldl f b)) := by
  intro l
  induction l with
  | nil => intro b; exact Ext.refl _ _ _ _
  | cons x xs ih => intro b; exact (hf b x).trans (ih (f b x))

/-- The body of the entity loop of the shadow depth pass stays inside the pass. -/
theorem LightDepth_entity_ext (light : Light) (i : Nat) (acc : LightDepthLoop) (e : Entity) :
    Ext true (fun _ => True) Cmd.inPass acc.st (Pass_LightDepth.entity light i acc e).st := by
  unfold Pass_LightDepth.entity
  split
  · exact Ext.refl _ _ _ _
  split
  · exact Ext.refl _ _ _ _
  split
  · exact Ext.refl _ _ _ _
  split
  · split_ifs <;> first
      | exact Ext.refl _ _ _ _
      | exact ⟨_, ⟨rfl, fun _ => ⟨rfl, rfl⟩, fun _ _ => rfl, by simp [cmds]; rfl⟩,
          by simp [Cmd.inPass, Cmd.opensPass]⟩
  · exact Ext.refl _ _ _ _

/-- Appending one command that satisfies `Q` is an extension. -/
theorem Ext.cmd (L : Bool) (K : TexSlot → Prop) {Q : Cmd → Bool} (a : Renderer) (c : Cmd)
    (h : Q c = true) : Ext L K Q a (cmd a c) :=
  ⟨[c], ⟨rfl, fun _ => ⟨rfl, rfl⟩, fun _ _ => rfl, rfl⟩, by simpa using h⟩

/-- The body of the slice loop of the shadow depth pass stays inside the pass. -/
theorem LightDepth_slice_ext (light : Light) (shadow_map : RHI_Texture) (es : List Entity)
    (acc : LightDepthLoop) (i : Nat) :
    Ext true (fun _ => True) Cmd.inPass acc.st
      (Pass_LightDepth.slice light shadow_map es acc i).st := by
  unfold Pass_LightDepth.slice
  refine Ext.trans ?_ (Ext.trans
    (Ext.foldl (fun a : LightDepthLoop => a.st) (Pass_LightDepth.entity light i)
      (LightDepth_entity_ext light i) es _) (Ext.cmd _ _ _ _ rfl))
  exact Ext.cmds _ _ _ _ (by simp [Cmd.inPass, Cmd.opensPass, ScopeName.isTopLevel])

/-- A step that appends nothing. -/
theorem Step.same (L : Bool) (K : TexSlot → Prop) (a : Renderer) : Step L K a a [] :=
  ⟨rfl, fun _ => ⟨rfl, rfl⟩, fun _ _ => rfl, by simp⟩

/-- Steps compose. -/
theorem Step.comp {L : Bool} {K : TexSlot → Prop} {a b c : Renderer} {x y : List Cmd}
    (h1 : Step L K a b x) (h2 : Step L K b c y) : Step L K a c (x ++ y) :=
  ⟨h2.config.trans h1.config,
    fun h => ⟨(h2.lines h).1.trans (h1.lines h).1, (h2.lines h).2.trans (h1.lines h).2⟩,
    fun s hs => (h2.tex s hs).trans (h1.tex s hs),
    by rw [h2.appended, h1.appended, List.append_assoc]⟩

/-- The buckets are part of the configuration. -/
theorem Step.entities {L : Bool} {K : TexSlot → Prop} {a b : Renderer} {x : List Cmd}
    (h : Step L K a b x) : b.m_entities = a.m_entities :=
  congrArg FrameConfig.m_entities h.config

/-- The flags are part of the configuration. -/
theorem Step.flags {L : Bool} {K : TexSlot → Prop} {a b : Renderer} {x : List Cmd}
    (h : Step L K a b x) : b.m_flags = a.m_flags :=
  congrArg FrameConfig.m_flags h.config

/-- Appending commands is a step. -/
theorem Step.of_cmds (L : Bool) (K : TexSlot → Prop) (a : Renderer) (cs : List Cmd) :
    Step L K a (cmds a cs) cs :=
  ⟨rfl, fun _ => ⟨rfl, rfl⟩, fun _ _ => rfl, rfl⟩

/-- A pass that opens its scope and then issues commands inside the pass appends the commands
of one top-level pass. -/
theorem PassBlock.of_ext {L : Bool} {K : TexSlot → Prop} {a s1 b : Renderer} {name : ScopeName}
    {mid : List Cmd} (h1 : Step L K a s1 (Cmd.Begin name :: mid))
    (h2 : Ext L K Cmd.inPass s1 b) (hmid : ∀ c ∈ mid, c.inPass = true) :
    ∃ body, Step L K a b body ∧ PassBlock name body := by
  obtain ⟨x, hs, hq⟩ := h2
  refine ⟨(Cmd.Begin name :: mid) ++ x, h1.comp hs, mid ++ x, rfl, ?_⟩
  intro c hc
  rcases List.mem_append.1 hc with hc | hc
  · exact hmid c hc
  · exact hq c hc

/-- A pass that opens its scope, binds `t` as colour target before its first draw and then
issues commands that leave `t` bound appends the commands of a pass that renders into `t`. -/
theorem RendersInto.of_target_ext {L : Bool} {K : TexSlot → Prop} {a s1 b : Renderer}
    {name : ScopeName} {t : Nat} {mid : List Cmd} (h1 : Step L K a s1 (Cmd.Begin name :: mid))
    (h2 : Ext L K (Cmd.rendersInto t) s1 b) (hmid : TargetBound t mid) :
    ∃ body, Step L K a b body ∧ RendersInto name t body := by
  obtain ⟨x, hs, hq⟩ := h2
  exact ⟨(Cmd.Begin name :: mid) ++ x, h1.comp hs, mid ++ x, rfl, hmid.then_post hq⟩

/-- The commands of one pass are a sequence of one pass. -/
theorem PassBlocks.one {name : ScopeName} {body : List Cmd} (h : PassBlock name body) :
    PassBlocks name 1 body :=
  ⟨body, [], (List.append_nil _).symm, h, rfl⟩

/-- A pass whose test passes appends what it is described to append. -/
theorem Emits.on {L : Bool} {K : TexSlot → Prop} {a b : Renderer} {g : Bool}
    {B : List Cmd → Prop} (hg : g = true) (h : ∃ body, Step L K a b body ∧ B body) :
    ∃ body, Step L K a b body ∧ Emits g B body := by
  obtain ⟨body, hs, hb⟩ := h
  exact ⟨body, hs, by simp [Emits, hg, hb]⟩

/-- A pass whose test fails appends nothing. -/
theorem Emits.off {L : Bool} {K : TexSlot → Prop} {a : Renderer} {g : Bool}
    {B : List Cmd → Prop} (hg : g = false) :
    ∃ body, Step L K a a body ∧ Emits g B body :=
  ⟨[], Step.same _ _ _, by simp [Emits, hg]⟩

/-- The body of the light loop of the shadow depth pass: for a light that casts shadows and
has a shadow map, with an opaque bucket that is not empty, one pass under the scope
`Pass_LightDepth`; otherwise nothing. -/
theorem LightDepth_light_step (acc acc2 : Renderer × Nat) (e : Entity)
    (h : Pass_LightDepth.light acc e = some acc2) :
    ∃ body, Step true (fun _ => True) acc.1 acc2.1 body
      ∧ PassBlocks ScopeName.Pass_LightDepth (lightDepthScopes acc.1 e) body := by
  unfold Pass_LightDepth.light at h
  rcases e with ⟨id, r, _ | light⟩
  · simp at h
  simp only at h
  by_cases hc : light.castShadows = true
  swap
  · simp only [hc, Bool.not_false, if_true, Option.some.injEq, Bool.not_eq_true] at h
    simp only [Bool.not_eq_true] at hc
    subst h
    refine ⟨[], Step.same _ _ _, ?_⟩
    simp [lightDepthScopes, shadowMaps, hc, PassBlocks]
  simp only [hc, Bool.not_true, Bool.false_eq_true, if_false] at h
  cases hm : light.shadowMap with
  | none =>
    simp only [hm, Option.some.injEq] at h
    subst h
    refine ⟨[], Step.same _ _ _, ?_⟩
    simp [lightDepthScopes, shadowMaps, hc, hm, PassBlocks]
  | some shadow_map =>
    simp only [hm] at h
    by_cases he : (acc.1.m_entities RenderableType.Renderable_ObjectOpaque).isEmpty = true
    · simp only [he, if_true, Option.some.injEq] at h
      subst h
      refine ⟨[], Step.same _ _ _, ?_⟩
      simp [lightDepthScopes, he, PassBlocks]
    · simp only [he, Bool.false_eq_true, if_false, Option.some.injEq] at h
      subst h
      have hcount : lightDepthScopes acc.1 { id := id, renderable := r, light := some light }
          = 1 := by
        simp [lightDepthScopes, he, shadowMaps, hc, hm]
      rw [hcount]
      obtain ⟨body, hs, hb⟩ := PassBlock.of_ext (Step.of_cmds true (fun _ => True) acc.1 _)
        ((Ext.foldl (fun a : LightDepthLoop => a.st)
          (Pass_LightDepth.slice light shadow_map
            (acc.1.m_entities RenderableType.Renderable_ObjectOpaque))
          (LightDepth_slice_ext light shadow_map
            (acc.1.m_entities RenderableType.Renderable_ObjectOpaque))
          (List.range shadow_map.arraySize)
          { st := cmds acc.1
              [ Cmd.Begin ScopeName.Pass_LightDepth,
                Cmd.SetShaderPixel none,
                Cmd.SetBlendState BlendRef.m_blend_disabled,
                Cmd.SetDepthStencilState DepthStencilRef.m_depth_stencil_enabled,
                Cmd.SetRasterizerState RasterizerRef.m_rasterizer_cull_back_solid,
                Cmd.SetPrimitiveTopology Topology.PrimitiveTopology_TriangleList,
                Cmd.SetShaderVertex ShaderRef.m_v_depth,
                Cmd.SetInputLayout ShaderRef.m_v_depth,
                Cmd.SetViewport shadow_map.width shadow_map.height ],
            currently_bound_geometry := 0, light_directional_count := acc.2 }).trans
          (Ext.cmds true (fun _ => True) _ [Cmd.End, Cmd.Submit]
            (by simp [Cmd.inPass, Cmd.opensPass])))
        (by simp [Cmd.inPass, Cmd.opensPass])
      exact ⟨body, hs, PassBlocks.one hb⟩

/-- The light loop of the shadow depth pass appends one pass under the scope
`Pass_LightDepth` per light that casts shadows and has a shadow map, when the opaque bucket is
not empty. -/
theorem LightDepth_lights_step :
    ∀ (lights : List Entity) (acc acc2 : Renderer × Nat),
      lights.foldlM Pass_LightDepth.light acc = some acc2 →
      ∃ body, Step true (fun _ => True) acc.1 acc2.1 body
        ∧ PassBlocks ScopeName.Pass_LightDepth
          ((lights.map (lightDepthScopes acc.1)).sum) body := by
  intro lights
  induction lights with
  | nil =>
    intro acc acc2 h
    simp only [List.foldlM_nil, Option.pure_def, Option.some.injEq] at h
    subst h
    exact ⟨[], Step.same _ _ _, rfl⟩
  | cons e es ih =>
    intro acc acc2 h
    simp only [List.foldlM_cons, Option.bind_eq_bind] at h
    cases hx : Pass_LightDepth.light acc e with
    | none => rw [hx] at h; simp at h
    | some acc1 =>
      rw [hx] at h
      obtain ⟨x, hs1, hb1⟩ := LightDepth_light_step acc acc1 e hx
      obtain ⟨y, hs2, hb2⟩ := ih acc1 acc2 h
      have hsame : lightDepthScopes acc1.1 = lightDepthScopes acc.1 := by
        funext e2
        simp only [lightDepthScopes, hs1.entities]
      rw [hsame] at hb2
      refine ⟨x ++ y, hs1.comp hs2, ?_⟩
      simp only [List.map_cons, List.sum_cons]
      exact PassBlocks.concat _ _ _ _ hb1 hb2

/-- The shadow depth pass appends one pass under the scope `Pass_LightDepth` per light that
casts shadows and has a shadow map, when the opaque bucket is not empty. -/
theorem Pass_LightDepth_step (st s : Renderer) (h : Pass_LightDepth st = some s) :
    ∃ body, Step true (fun _ => True) st s body
      ∧ PassBlocks ScopeName.Pass_LightDepth (lightDepthCount st) body := by
  unfold Pass_LightDepth at h
  cases hl : (st.m_entities RenderableType.Renderable_Light).foldlM Pass_LightDepth.light
      (st, 0) with
  | none => rw [hl] at h; simp at h
  | some acc2 =>
    rw [hl] at h
    simp only [Option.some.injEq] at h
    subst h
    obtain ⟨body, hs, hb⟩ := LightDepth_lights_step _ _ _ hl
    exact ⟨body, ⟨hs.config, hs.lines, hs.tex, hs.appended⟩, hb⟩

/-- The body of the entity loop of the G-buffer pass stays inside the pass. -/
theorem GBuffer_entity_ext (acc : GBufferLoop) (e : Entity) (acc2 : GBufferLoop)
    (h : Pass_GBuffer.entity acc e = some acc2) :
    Ext true (fun _ => True) Cmd.inPass acc.st acc2.st := by
  unfold Pass_GBuffer.entity at h
  split at h
  · cases h; exact Ext.refl _ _ _ _
  split at h
  · cases h; exact Ext.refl _ _ _ _
  split at h
  · cases h; exact Ext.refl _ _ _ _
  split at h
  · cases h; exact Ext.refl _ _ _ _
  split at h
  · cases h; exact Ext.refl _ _ _ _
  split at h
  · split at h
    · cases h
    split at h
    · cases h; exact Ext.refl _ _ _ _
    · cases h
      simp only [Pass_GBuffer.draw]
      split_ifs <;>
        exact ⟨_, ⟨rfl, fun _ => ⟨rfl, rfl⟩, fun _ _ => rfl, by simp [cmds, cmd]; rfl⟩,
          by simp [Cmd.inPass, Cmd.opensPass]⟩
  · cases h; exact Ext.refl _ _ _ _

/-- The G-buffer pass appends, with a device, one pass under the scope `Pass_GBuffer`, and
nothing without. -/
theorem Pass_GBuffer_step (st s : Renderer) (h : Pass_GBuffer st = some s) :
    ∃ body, Step true (fun _ => True) st s body
      ∧ Emits (Pass_Main.emits st ScopeName.Pass_GBuffer)
          (PassBlock ScopeName.Pass_GBuffer) body := by
  unfold Pass_GBuffer at h
  cases hd : st.m_rhi_device with
  | none =>
    simp only [hd, Option.some.injEq] at h
    subst h
    exact Emits.off (by simp [Pass_Main.emits, hd])
  | some device =>
    simp only [hd] at h
    have hg : Pass_Main.emits st ScopeName.Pass_GBuffer = true := by
      simp [Pass_Main.emits, hd]
    split_ifs at h with he
    · simp only [Option.some.injEq] at h
      subst h
      exact Emits.on hg (PassBlock.of_ext
        (Step.of_cmds true (fun _ => True) st [Cmd.Begin ScopeName.Pass_GBuffer])
        (Ext.cmds true (fun _ => True) _ _ (by simp [Cmd.inPass, Cmd.opensPass]))
        (by simp))
    · split at h
      · cases h
      · rename_i loop hl
        simp only [Option.some.injEq] at h
        subst h
        refine Emits.on hg (PassBlock.of_ext
          (Step.of_cmds true (fun _ => True) st [Cmd.Begin ScopeName.Pass_GBuffer])
          (Ext.trans ?_ (Ext.trans
            (Ext.foldlM (fun a : GBufferLoop => a.st) Pass_GBuffer.entity GBuffer_entity_ext
              _ _ _ hl)
            (Ext.cmds true (fun _ => True) _ _ (by simp [Cmd.inPass, Cmd.opensPass]))))
          (by simp))
        exact ⟨_, ⟨rfl, fun _ => ⟨rfl, rfl⟩, fun _ _ => rfl,
          by simp [cmds, cmd, SetDefaultBuffer]; rfl⟩, by simp [Cmd.inPass, Cmd.opensPass]⟩

/-- The shadow-mapping pass, a part of the pre-light pass, stays inside the pass. -/
theorem ShadowMapping_ext (st s : Renderer) (tex_out : TexSlot) (light : Option Light)
    (h : Pass_ShadowMapping st tex_out light = some s) :
    Ext true (fun _ => True) Cmd.inPass st s := by
  rcases light with _ | light
  · simp only [Pass_ShadowMapping, Option.some.injEq] at h
    subst h
    exact Ext.refl _ _ _ _
  by_cases hc : light.castShadows = true
  · cases hm : light.shadowMap with
    | none => simp [Pass_ShadowMapping, hc, hm] at h
    | some shadow_map =>
      simp only [Pass_ShadowMapping, hc, hm, Bool.not_true, Bool.false_eq_true, if_false,
        Option.some.injEq] at h
      subst h
      exact ⟨_, ⟨rfl, fun _ => ⟨rfl, rfl⟩, fun _ _ => rfl,
        by simp [cmds, cmd, SetDefaultBuffer, UpdateBuffer]; rfl⟩,
        by simp [Cmd.inPass, Cmd.opensPass, ScopeName.isTopLevel]⟩
  · simp only [Pass_ShadowMapping, hc, Bool.not_false, if_true, Option.some.injEq] at h
    subst h
    exact Ext.refl _ _ _ _

/-- The body of the light loop of the pre-light pass stays inside the pass. -/
theorem PreLight_light_ext (tex_shadows_out : TexSlot) (acc : Renderer × Bool) (e : Entity)
    (acc2 : Renderer × Bool) (h : Pass_PreLight.light tex_shadows_out acc e = some acc2) :
    Ext true (fun _ => True) Cmd.inPass acc.1 acc2.1 := by
  unfold Pass_PreLight.light at h
  split at h
  · cases h
  split_ifs at h
  · cases h; exact Ext.refl _ _ _ _
  · split at h
    · cases h
    · rename_i s hs
      cases h
      exact ShadowMapping_ext _ _ _ _ hs

/-- The SSAO pass, a part of the pre-light pass, stays inside the pass. -/
theorem Pass_SSAO_ext (st : Renderer) (tex_out : TexSlot) :
    Ext true (fun _ => True) Cmd.inPass st (Pass_SSAO st tex_out) :=
  ⟨_, ⟨rfl, fun _ => ⟨rfl, rfl⟩, fun _ _ => rfl,
    by simp [Pass_SSAO, cmds, cmd, SetDefaultBuffer]; rfl⟩,
    by simp [Cmd.inPass, Cmd.opensPass, ScopeName.isTopLevel]⟩

/-- The bilateral blur stays inside the pass in force and exchanges the textures of its two
handles only. -/
theorem Pass_BlurBilateralGaussian_ext (st : Renderer) (tex_in tex_out : TexSlot)
    (sigma pixel_stride : ℚ) :
    Ext true (fun s => s ≠ tex_in ∧ s ≠ tex_out) Cmd.inPass st
      (Pass_BlurBilateralGaussian st tex_in tex_out sigma pixel_stride) := by
  unfold Pass_BlurBilateralGaussian
  split_ifs
  · exact ⟨[], ⟨rfl, fun _ => ⟨rfl, rfl⟩, fun _ _ => rfl, by simp⟩, by simp⟩
  · exact ⟨_, ⟨rfl, fun _ => ⟨rfl, rfl⟩, fun s hs => by simp [swapTex, hs.1, hs.2, cmds, cmd,
        SetDefaultBuffer, UpdateBuffer],
      by simp [swapTex, cmds, cmd, SetDefaultBuffer, UpdateBuffer]; rfl⟩,
      by simp [Cmd.inPass, Cmd.opensPass, ScopeName.isTopLevel]⟩

/-- The pre-light pass appends one pass under the scope `Pass_PreLight`; it exchanges the
textures of its input and its SSAO output handle only. -/
theorem Pass_PreLight_step (st s : Renderer) (tex_in tex_shadows_out tex_ssao_out : TexSlot)
    (h : Pass_PreLight st tex_in tex_shadows_out tex_ssao_out = some s) :
    ∃ body, Step true (fun x => x ≠ tex_in ∧ x ≠ tex_ssao_out) st s body
      ∧ PassBlock ScopeName.Pass_PreLight body := by
  unfold Pass_PreLight at h
  simp only at h
  split at h
  · cases h
  · rename_i s1 shadow_mapped hl
    simp only [Option.some.injEq] at h
    subst h
    have hloop : Ext true (fun x => x ≠ tex_in ∧ x ≠ tex_ssao_out) Cmd.inPass _ s1 :=
      Ext.mono (fun h => h) (fun _ _ => trivial) (fun _ h => h)
        (Ext.foldlM (fun a : Renderer × Bool => a.1) (Pass_PreLight.light tex_shadows_out)
          (PreLight_light_ext tex_shadows_out) _ _ _ hl)
    have h2 : ∀ x : Renderer, Ext true (fun x => x ≠ tex_in ∧ x ≠ tex_ssao_out) Cmd.inPass x
        (if (!shadow_mapped) = true then
          cmd x (Cmd.ClearRenderTarget (x.tex tex_shadows_out).id ⟨1, 1, 1, 1⟩)
        else x) := by
      intro x
      split_ifs
      · exact Ext.cmd _ _ _ _ rfl
      · exact Ext.refl _ _ _ _
    have h3 : ∀ x : Renderer, Ext true (fun x => x ≠ tex_in ∧ x ≠ tex_ssao_out) Cmd.inPass x
        (if Flags_IsSet x RenderFlag.Render_PostProcess_SSAO = true then
          Pass_BlurBilateralGaussian (Pass_SSAO x tex_in) tex_in tex_ssao_out 1 1
        else x) := by
      intro x
      split_ifs
      · exact (Ext.mono (fun h => h) (fun _ _ => trivial) (fun _ h => h)
          (Pass_SSAO_ext _ _)).trans (Pass_BlurBilateralGaussian_ext _ _ _ _ _)
      · exact Ext.refl _ _ _ _
    exact PassBlock.of_ext
      (Step.of_cmds true (fun x => x ≠ tex_in ∧ x ≠ tex_ssao_out) st _)
      (hloop.trans ((h2 _).trans ((h3 _).trans (Ext.cmd _ _ _ _ rfl))))
      (by simp [Cmd.inPass, Cmd.opensPass])

/-- The light pass appends, when its shader is compiled, one pass under the scope
`Pass_Light` that renders into the texture of its output handle and has a draw, and nothing
otherwise. -/
theorem Pass_Light_step (st : Renderer) (tex_shadows tex_ssao tex_out : TexSlot) :
    ∃ body, Step true (fun _ => True) st (Pass_Light st tex_shadows tex_ssao tex_out) body
      ∧ Emits (Pass_Main.emits st ScopeName.Pass_Light)
          (RendersInto ScopeName.Pass_Light (st.tex tex_out).id) body
      ∧ (Pass_Main.emits st ScopeName.Pass_Light = true →
          ∀ cur p, passDraws cur p body ≠ []) := by
  unfold Pass_Light
  by_cases hc : st.m_vps_light = Shader_State.Shader_Compiled
  · simp only [hc, ne_eq, not_true_eq_false, if_false]
    have hg : Pass_Main.emits st ScopeName.Pass_Light = true := by simp [Pass_Main.emits, hc]
    exact ⟨_, ⟨rfl, fun _ => ⟨rfl, rfl⟩, fun _ _ => rfl,
      by simp [cmds, cmd, SetDefaultBuffer, UpdateConstantBuffer, UpdateBuffer]; rfl⟩,
      by
        simp only [Emits, hg, if_true]
        exact ⟨_, rfl, by simp [TargetBound, Cmd.prepares, Cmd.rendersInto, Cmd.keepsTarget,
          Cmd.inPass, Cmd.opensPass, Cmd.isDraw, cmd, SetDefaultBuffer, UpdateConstantBuffer,
          UpdateBuffer]⟩,
      fun _ cur p => by simp [passDraws, Cmd.isDraw]⟩
  · simp only [ne_eq, hc, not_false_eq_true, if_true]
    have hg : Pass_Main.emits st ScopeName.Pass_Light = false := by simp [Pass_Main.emits, hc]
    exact ⟨[], Step.same _ _ _, by simp [Emits, hg], fun h => by rw [hg] at h; cases h⟩

/-- The body of the entity loop of the transparent pass stays inside the pass and binds no
render target. -/
theorem Transparent_entity_ext (t : Nat) (st : Renderer) (e : Entity) (s : Renderer)
    (h : Pass_Transparent.entity st e = some s) :
    Ext true (fun _ => True) (Cmd.rendersInto t) st s := by
  unfold Pass_Transparent.entity at h
  split at h
  · cases h; exact Ext.refl _ _ _ _
  split at h
  · cases h; exact Ext.refl _ _ _ _
  split at h
  · cases h; exact Ext.refl _ _ _ _
  split at h
  · split at h
    · cases h
    split at h
    · cases h; exact Ext.refl _ _ _ _
    · cases h
      exact ⟨_, ⟨rfl, fun _ => ⟨rfl, rfl⟩, fun _ _ => rfl,
        by simp [cmds, cmd, UpdateBuffer]; rfl⟩,
        by simp [Cmd.rendersInto, Cmd.keepsTarget, Cmd.inPass, Cmd.opensPass]⟩
  · cases h; exact Ext.refl _ _ _ _

/-- The transparent pass appends, when the transparent bucket is not empty, one pass under
the scope `Pass_Transparent` that renders into the texture of its output handle, and nothing
otherwise. -/
theorem Pass_Transparent_step (st s : Renderer) (tex_out : TexSlot)
    (h : Pass_Transparent st tex_out = some s) :
    ∃ body, Step true (fun _ => True) st s body
      ∧ Emits (Pass_Main.emits st ScopeName.Pass_Transparent)
          (RendersInto ScopeName.Pass_Transparent (st.tex tex_out).id) body := by
  unfold Pass_Transparent at h
  by_cases he : (st.m_entities RenderableType.Renderable_ObjectTransparent).isEmpty = true
  · simp only [he, if_true, Option.some.injEq] at h
    subst h
    exact Emits.off (by simp [Pass_Main.emits, he])
  · simp only [he, Bool.false_eq_true, if_false] at h
    split at h
    · cases h
    · rename_i s1 hl
      simp only [Option.some.injEq] at h
      subst h
      exact Emits.on (by simp [Pass_Main.emits, he]) (RendersInto.of_target_ext
        (Step.of_cmds true (fun _ => True) st _)
        ((Ext.foldlM (fun a : Renderer => a) Pass_Transparent.entity
          (Transparent_entity_ext (st.tex tex_out).id) _ _ _ hl).trans
          (Ext.cmds true (fun _ => True) _ _
            (by simp [Cmd.rendersInto, Cmd.keepsTarget, Cmd.inPass, Cmd.opensPass])))
        (by simp [TargetBound, Cmd.prepares, Cmd.rendersInto, Cmd.keepsTarget,
          Cmd.inPass, Cmd.opensPass, Cmd.isDraw]))

/-- The commands by which the debug-buffer pass binds texture and shader are no draw and stay
inside the pass. -/
theorem DebugBuffer_bind_prepares (st : Renderer) :
    ∀ c ∈ Pass_DebugBuffer.bind st, c.prepares = true := by
  intro c hc
  simp only [Pass_DebugBuffer.bind, List.mem_append] at hc
  rcases hc with ((((hc | hc) | hc) | hc) | hc) | hc <;> split_ifs at hc <;>
    simp only [List.mem_cons, List.mem_singleton, List.not_mem_nil, or_false] at hc <;>
    rcases hc with rfl | rfl <;> rfl

/-- The debug-buffer pass appends, when a buffer is selected, one pass under the scope
`Pass_DebugBuffer` that renders into the texture of its output handle, and nothing
otherwise. -/
theorem Pass_DebugBuffer_step (st : Renderer) (tex_out : TexSlot) :
    ∃ body, Step true (fun _ => True) st (Pass_DebugBuffer st tex_out) body
      ∧ Emits (Pass_Main.emits st ScopeName.Pass_DebugBuffer)
          (RendersInto ScopeName.Pass_DebugBuffer (st.tex tex_out).id) body := by
  unfold Pass_DebugBuffer
  by_cases hc : st.m_debug_buffer = RendererDebug_Buffer.RendererDebug_None
  · simp only [hc, if_true]
    exact Emits.off (by simp [Pass_Main.emits, hc])
  · simp only [hc, if_false]
    refine Emits.on (by simp [Pass_Main.emits, hc]) ?_
    exact ⟨_, ⟨rfl, fun _ => ⟨rfl, rfl⟩, fun _ _ => rfl,
      by simp [cmds, cmd, SetDefaultBuffer]; rfl⟩,
      ⟨_, rfl, TargetBound.prepend _ (DebugBuffer_bind_prepares _)
        (by simp [TargetBound, Cmd.prepares, Cmd.rendersInto, Cmd.keepsTarget,
          Cmd.inPass, Cmd.opensPass, Cmd.isDraw, cmd, cmds, SetDefaultBuffer])⟩⟩

/-- The performance-metrics pass appends, when its flag is set, one pass under the scope
`Pass_PerformanceMetrics` that renders into the texture of its output handle, and nothing
otherwise. -/
theorem Pass_PerformanceMetrics_step (st : Renderer) (tex_out : TexSlot) :
    ∃ body, Step true (fun _ => True) st (Pass_PerformanceMetrics st tex_out) body
      ∧ Emits (Pass_Main.emits st ScopeName.Pass_PerformanceMetrics)
          (RendersInto ScopeName.Pass_PerformanceMetrics (st.tex tex_out).id) body := by
  unfold Pass_PerformanceMetrics
  by_cases hc : Flags_IsSet st RenderFlag.Render_Gizmo_PerformanceMetrics = true
  · simp only [hc, Bool.not_true, Bool.false_eq_true, if_false]
    refine Emits.on (by simp [Pass_Main.emits, hc]) ?_
    exact ⟨_, ⟨rfl, fun _ => ⟨rfl, rfl⟩, fun _ _ => rfl,
      by simp [cmds, cmd, UpdateBuffer]; rfl⟩,
      ⟨_, rfl, by simp [TargetBound, Cmd.prepares, Cmd.rendersInto, Cmd.keepsTarget,
        Cmd.inPass, Cmd.opensPass, Cmd.isDraw, cmd, UpdateBuffer]⟩⟩
  · simp only [hc, Bool.not_false, if_true]
    exact Emits.off (by simpa [Pass_Main.emits] using hc)

/-- A state that differs in the line lists only extends the state, with no command. -/
theorem Ext.lines_only (K : TexSlot → Prop) (Q : Cmd → Bool) {a b : Renderer}
    (h1 : b.config = a.config) (h2 : b.tex = a.tex) (h3 : b.m_cmd_list = a.m_cmd_list) :
    Ext false K Q a b :=
  ⟨[], ⟨h1, fun h => Bool.noConfusion h, fun s _ => by rw [h2], by simp [h3]⟩, by simp⟩

/-- Generating a line issues no command. -/
theorem DrawLine_ext (K : TexSlot → Prop) (Q : Cmd → Bool) (st : Renderer)
    (a b : Directus.Vector3) (c d : Directus.Vector4) (depth : Bool) :
    Ext false K Q st (DrawLine st a b c d depth) := by
  unfold DrawLine
  split_ifs <;> exact Ext.lines_only K Q rfl rfl rfl

/-- Generating the lines of the debug primitives issues no command. -/
theorem generate_ext (K : TexSlot → Prop) (Q : Cmd → Bool) (st : Renderer) (camera : Camera)
    (draw_picking_ray draw_aabb : Bool) :
    Ext false K Q st (Pass_Lines.generate st camera draw_picking_ray draw_aabb) := by
  have hbox : ∀ (s : Renderer) (box : BoundingBox) (color : Directus.Vector4),
      Ext false K Q s (DrawBox s box color true) := by
    intro s box color
    unfold DrawBox
    exact Ext.foldl (fun x : Renderer => x) _ (fun b a => DrawLine_ext K Q b _ _ _ _ _) _ s
  have hboxes : ∀ (s : Renderer) (entities : List Entity),
      Ext false K Q s (Pass_Lines.boxes s entities) := by
    intro s entities
    unfold Pass_Lines.boxes
    refine Ext.foldl (fun x : Renderer => x) _ (fun b a => ?_) entities s
    cases a.renderable with
    | none => exact Ext.refl _ _ _ _
    | some renderable => exact hbox b _ _
  unfold Pass_Lines.generate
  cases draw_picking_ray <;> cases draw_aabb <;>
    simp only [if_true, if_false, Bool.false_eq_true]
  · exact Ext.refl _ _ _ _
  · exact (hboxes _ _).trans (hboxes _ _)
  · exact DrawLine_ext K Q _ _ _ _ _ _
  · exact (DrawLine_ext K Q _ _ _ _ _ _).trans ((hboxes _ _).trans (hboxes _ _))

/-- The pipeline state and the grid of the line pass: the texture of the output handle is bound
as colour target before the grid is drawn. -/
theorem begin_step (st : Renderer) (tex_out : TexSlot) (draw_grid : Bool) :
    ∃ mid, Step false (fun _ => True) st (Pass_Lines.begin st tex_out draw_grid) mid
      ∧ TargetBound (st.tex tex_out).id mid := by
  unfold Pass_Lines.begin
  cases draw_grid
  · exact ⟨_, ⟨rfl, fun h => Bool.noConfusion h, fun _ _ => rfl, by simp [cmds]; rfl⟩,
      by simp [TargetBound, Cmd.prepares, Cmd.rendersInto, Cmd.keepsTarget,
        Cmd.inPass, Cmd.opensPass, Cmd.isDraw]⟩
  · exact ⟨_, ⟨rfl, fun h => Bool.noConfusion h, fun _ _ => rfl,
      by simp [cmds, SetDefaultBuffer]; rfl⟩,
      by simp [TargetBound, Cmd.prepares, Cmd.rendersInto, Cmd.keepsTarget,
        Cmd.inPass, Cmd.opensPass, Cmd.isDraw, cmds, SetDefaultBuffer]⟩

/-- The block of the line pass that draws the lines with depth binds no render target. -/
theorem lines_depth_enabled_ext (t : Nat) (st s : Renderer)
    (h : Pass_Lines.lines_depth_enabled st = some s) :
    Ext false (fun _ => True) (Cmd.rendersInto t) st s := by
  unfold Pass_Lines.lines_depth_enabled at h
  simp only at h
  split_ifs at h <;> first
    | (cases h
       exact Ext.refl _ _ _ _)
    | (split at h
       · cases h
       · cases h
         exact ⟨_, ⟨rfl, fun h => Bool.noConfusion h, fun _ _ => rfl,
           by simp [cmds, SetDefaultBuffer]; rfl⟩,
           by simp [Cmd.rendersInto, Cmd.keepsTarget, Cmd.inPass, Cmd.opensPass]⟩)

/-- The block of the line pass that draws the lines without depth binds no render target. -/
theorem lines_depth_disabled_ext (t : Nat) (st s : Renderer)
    (h : Pass_Lines.lines_depth_disabled st = some s) :
    Ext false (fun _ => True) (Cmd.rendersInto t) st s := by
  unfold Pass_Lines.lines_depth_disabled at h
  simp only at h
  split_ifs at h <;> first
    | (cases h
       exact Ext.refl _ _ _ _)
    | (split at h
       · cases h
       · cases h
         exact ⟨_, ⟨rfl, fun h => Bool.noConfusion h, fun _ _ => rfl,
           by simp [cmds, cmd, SetDefaultBuffer]; rfl⟩,
           by simp [Cmd.rendersInto, Cmd.keepsTarget, Cmd.inPass, Cmd.opensPass]⟩)

/-- An extension by commands that satisfy nothing appends no command. -/
theorem Ext.no_cmds {L : Bool} {K : TexSlot → Prop} {a b : Renderer}
    (h : Ext L K (fun _ => false) a b) : Step L K a b [] := by
  obtain ⟨body, hs, hq⟩ := h
  cases body with
  | nil => exact hs
  | cons c cs => exact absurd (hq c (List.mem_cons_self _ _)) (by simp)

/-- The handles hold the same textures after a step that keeps every handle. -/
theorem Step.tex_eq {L : Bool} {a b : Renderer} {x : List Cmd}
    (h : Step L (fun _ => True) a b x) (s : TexSlot) : b.tex s = a.tex s :=
  h.tex s trivial

/-- The line pass appends, when there is something to draw, one pass under the scope
`Pass_Lines` that renders into the texture of its output handle, and nothing otherwise. -/
theorem Pass_Lines_step (st s : Renderer) (tex_out : TexSlot)
    (h : Pass_Lines st tex_out = some s) :
    ∃ body, Step false (fun _ => True) st s body
      ∧ Emits (Pass_Main.emits st ScopeName.Pass_Lines)
          (RendersInto ScopeName.Pass_Lines (st.tex tex_out).id) body := by
  unfold Pass_Lines at h
  simp only at h
  cases hg : Pass_Main.emits st ScopeName.Pass_Lines with
  | false =>
    have hg2 := hg
    simp only [Pass_Main.emits] at hg2
    simp only [hg2, Bool.not_false, if_true, Option.some.injEq] at h
    subst h
    exact Emits.off rfl
  | true =>
    have hg2 := hg
    simp only [Pass_Main.emits] at hg2
    simp only [hg2, Bool.not_true, Bool.false_eq_true, if_false] at h
    split at h
    · cases h
    rename_i camera hcam
    split at h
    · cases h
    rename_i s4 h4
    split at h
    · cases h
    rename_i s6 h6
    simp only [Option.some.injEq] at h
    subst h
    have hgen := (generate_ext (fun _ => True) (fun _ => false)
      (cmd st (Cmd.Begin ScopeName.Pass_Lines)) camera
      (Flags_IsSet st RenderFlag.Render_Gizmo_PickingRay)
      (Flags_IsSet st RenderFlag.Render_Gizmo_AABB)).no_cmds
    obtain ⟨mid, hbegin, hmid⟩ := begin_step
      (Pass_Lines.generate (cmd st (Cmd.Begin ScopeName.Pass_Lines)) camera
        (Flags_IsSet st RenderFlag.Render_Gizmo_PickingRay)
        (Flags_IsSet st RenderFlag.Render_Gizmo_AABB)) tex_out
      (Flags_IsSet st RenderFlag.Render_Gizmo_Grid)
    have ht1 : (Pass_Lines.generate (cmd st (Cmd.Begin ScopeName.Pass_Lines)) camera
        (Flags_IsSet st RenderFlag.Render_Gizmo_PickingRay)
        (Flags_IsSet st RenderFlag.Render_Gizmo_AABB)).tex tex_out = st.tex tex_out :=
      hgen.tex_eq tex_out
    rw [ht1] at hmid
    have h1 : Step false (fun _ => True) st
        (Pass_Lines.begin
          (Pass_Lines.generate (cmd st (Cmd.Begin ScopeName.Pass_Lines)) camera
            (Flags_IsSet st RenderFlag.Render_Gizmo_PickingRay)
            (Flags_IsSet st RenderFlag.Render_Gizmo_AABB)) tex_out
          (Flags_IsSet st RenderFlag.Render_Gizmo_Grid))
        (Cmd.Begin ScopeName.Pass_Lines :: mid) := by
      have := ((Step.of_cmds false (fun _ => True) st
        [Cmd.Begin ScopeName.Pass_Lines]).comp hgen).comp hbegin
      simpa using this
    obtain ⟨b4, hs4, hq4⟩ := lines_depth_enabled_ext (st.tex tex_out).id _ _ h4
    have ht4 : s4.tex tex_out = st.tex tex_out :=
      (hs4.tex_eq tex_out).trans ((hbegin.tex_eq tex_out).trans ht1)
    exact Emits.on rfl (RendersInto.of_target_ext h1
      (Ext.trans ⟨b4, hs4, hq4⟩
        ((Ext.cmds false (fun _ => True) s4 _
          (by simp [Cmd.rendersInto, Cmd.keepsTarget, Cmd.inPass, Cmd.opensPass, ht4])).trans
          ((lines_depth_disabled_ext (st.tex tex_out).id _ _ h6).trans
            (Ext.cmds false (fun _ => True) _ _
              (by simp [Cmd.rendersInto, Cmd.keepsTarget, Cmd.inPass, Cmd.opensPass])))))
      hmid)

/-- The body of the light loop of the gizmo pass stays inside the pass and binds no render
target. -/
theorem Gizmos_light_ext (t : Nat) (st : Renderer) (e : Entity) (s : Renderer)
    (h : Pass_Gizmos.light st e = some s) :
    Ext true (fun _ => True) (Cmd.rendersInto t) st s := by
  unfold Pass_Gizmos.light at h
  split at h
  · cases h
  simp only at h
  split_ifs at h
  · cases h; exact Ext.refl _ _ _ _
  · split at h
    · cases h
    · cases h
      split_ifs <;>
        exact ⟨_, ⟨rfl, fun _ => ⟨rfl, rfl⟩, fun _ _ => rfl,
          by simp [cmds, SetDefaultBuffer]; rfl⟩,
          by simp [Cmd.rendersInto, Cmd.keepsTarget, Cmd.inPass, Cmd.opensPass]⟩

/-- The statements of the gizmo pass for one handle of the transform gizmo stay inside the
pass and bind no render target. -/
theorem Gizmos_axis_ext (t : Nat) (st : Renderer) (axis : GizmoAxis) (index : Nat) :
    Ext true (fun _ => True) (Cmd.rendersInto t) st (Pass_Gizmos.axis st axis index) :=
  ⟨_, ⟨rfl, fun _ => ⟨rfl, rfl⟩, fun _ _ => rfl,
    by simp [Pass_Gizmos.axis, cmds, UpdateBuffer]; rfl⟩,
    by simp [Cmd.rendersInto, Cmd.keepsTarget, Cmd.inPass, Cmd.opensPass]⟩

/-- The block of the gizmo pass that draws the transform gizmo stays inside the pass and
binds no render target. -/
theorem Gizmos_transform_ext (t : Nat) (st : Renderer) :
    Ext true (fun _ => True) (Cmd.rendersInto t) st (Pass_Gizmos.transform st) := by
  unfold Pass_Gizmos.transform
  have h0 : ∀ x : Renderer, Ext true (fun _ => True) (Cmd.rendersInto t) x
      (cmds (SetDefaultBuffer (cmd x (Cmd.Begin ScopeName.Pass_Gizmos_Transform))
          ⌊(cmd x (Cmd.Begin ScopeName.Pass_Gizmos_Transform)).m_resolution.x⌋₊
          ⌊(cmd x (Cmd.Begin ScopeName.Pass_Gizmos_Transform)).m_resolution.y⌋₊
          MvpArg.m_view_projection_orthographic)
        [ Cmd.SetShaderVertex ShaderRef.m_vps_gizmo_transform,
          Cmd.SetShaderPixel (some ShaderRef.m_vps_gizmo_transform),
          Cmd.SetInputLayout ShaderRef.m_vps_gizmo_transform,
          Cmd.SetBufferIndex GeometryBuffer.m_gizmo_transform_index,
          Cmd.SetBufferVertex GeometryBuffer.m_gizmo_transform_vertex,
          Cmd.SetConstantBuffer 0 BufferScope.Buffer_Global BufferRef.m_buffer_global ]) :=
    fun x => ⟨_, ⟨rfl, fun _ => ⟨rfl, rfl⟩, fun _ _ => rfl,
      by simp [cmds, cmd, SetDefaultBuffer]; rfl⟩,
      by simp [Cmd.rendersInto, Cmd.keepsTarget, Cmd.inPass, Cmd.opensPass,
        ScopeName.isTopLevel]⟩
  have h4 : ∀ x : Renderer, Ext true (fun _ => True) (Cmd.rendersInto t) x
      (if x.m_gizmo_transform.drawXYZ = true then Pass_Gizmos.axis x GizmoAxis.One 3
        else x) := by
    intro x
    split_ifs
    · exact Gizmos_axis_ext t _ _ _
    · exact Ext.refl _ _ _ _
  exact (h0 st).trans ((Gizmos_axis_ext t _ _ _).trans ((Gizmos_axis_ext t _ _ _).trans
    ((Gizmos_axis_ext t _ _ _).trans ((h4 _).trans
      (Ext.cmd _ _ _ _ (by simp [Cmd.rendersInto, Cmd.keepsTarget, Cmd.inPass,
        Cmd.opensPass]))))))

/-- The gizmo pass appends, when a gizmo flag is set, one pass under the scope `Pass_Gizmos`
that renders into the texture of its output handle, and nothing otherwise. -/
theorem Pass_Gizmos_step (st s : Renderer) (tex_out : TexSlot)
    (h : Pass_Gizmos st tex_out = some s) :
    ∃ body, Step true (fun _ => True) st s body
      ∧ Emits (Pass_Main.emits st ScopeName.Pass_Gizmos)
          (RendersInto ScopeName.Pass_Gizmos (st.tex tex_out).id) body := by
  unfold Pass_Gizmos at h
  simp only at h
  cases hg : Pass_Main.emits st ScopeName.Pass_Gizmos with
  | false =>
    have hg2 := hg
    simp only [Pass_Main.emits] at hg2
    simp only [hg2, Bool.not_false, if_true, Option.some.injEq] at h
    subst h
    exact Emits.off rfl
  | true =>
    have hg2 := hg
    simp only [Pass_Main.emits] at hg2
    simp only [hg2, Bool.not_true, Bool.false_eq_true, if_false] at h
    split at h
    · cases h
    rename_i s2 h2
    simp only [Option.some.injEq] at h
    subst h
    have hlights : Ext true (fun _ => True) (Cmd.rendersInto (st.tex tex_out).id)
        (cmds st
          [ Cmd.Begin ScopeName.Pass_Gizmos,
            Cmd.SetDepthStencilState DepthStencilRef.m_depth_stencil_disabled,
            Cmd.SetRasterizerState RasterizerRef.m_rasterizer_cull_back_solid,
            Cmd.SetBlendState BlendRef.m_blend_enabled,
            Cmd.SetPrimitiveTopology Topology.PrimitiveTopology_TriangleList,
            Cmd.SetViewport (st.tex tex_out).width (st.tex tex_out).height,
            Cmd.SetRenderTarget (some (st.tex tex_out).id) none ]) s2 := by
      split_ifs at h2
      · split at h2
        · cases h2
        · rename_i s1 h1
          simp only [Option.some.injEq] at h2
          subst h2
          exact (Ext.cmd true (fun _ => True) _ _ (by simp [Cmd.rendersInto,
            Cmd.keepsTarget, Cmd.inPass, Cmd.opensPass, ScopeName.isTopLevel])).trans
            ((Ext.foldlM (fun a : Renderer => a) Pass_Gizmos.light
              (Gizmos_light_ext (st.tex tex_out).id) _ _ _ h1).trans
              (Ext.cmd true (fun _ => True) _ _ (by simp [Cmd.rendersInto,
                Cmd.keepsTarget, Cmd.inPass, Cmd.opensPass])))
      · simp only [Option.some.injEq] at h2
        subst h2
        exact Ext.refl _ _ _ _
    have htr : ∀ x : Renderer, Ext true (fun _ => True)
        (Cmd.rendersInto (st.tex tex_out).id) x
        (if (Flags_IsSet st RenderFlag.Render_Gizmo_Transform
            && x.m_gizmo_transform.update) = true then Pass_Gizmos.transform x else x) := by
      intro x
      split_ifs
      · exact Gizmos_transform_ext _ _
      · exact Ext.refl _ _ _ _
    exact Emits.on rfl (RendersInto.of_target_ext (Step.of_cmds true (fun _ => True) st _)
      (hlights.trans ((htr _).trans (Ext.cmds true (fun _ => True) _ _
        (by simp [Cmd.rendersInto, Cmd.keepsTarget, Cmd.inPass, Cmd.opensPass]))))
      (by simp [TargetBound, Cmd.prepares, Cmd.rendersInto, Cmd.keepsTarget,
        Cmd.inPass, Cmd.opensPass, Cmd.isDraw]))

/-- The single-draw passes as stages of the chain. -/
theorem chainStage_SingleDraw (name : ScopeName) (shader : ShaderRef) (sampler : SamplerRef)
    (hn : name.isTopLevel = false) (hs : shader ≠ ShaderRef.m_ps_taa) :
    ChainStage (fun st tex_in tex_out =>
      Pass_SingleDraw st name shader sampler tex_in tex_out) := by
  intro st
  exact ⟨_, ⟨rfl, fun _ => ⟨rfl, rfl⟩, fun _ h => h.elim,
    by simp [Pass_SingleDraw, cmds, cmd, SetDefaultBuffer]; rfl⟩,
    by simp [Cmd.inPass, Cmd.opensPass, hn],
    fun cur p => ⟨_, by simp [passDraws, Cmd.isDraw]; rfl,
      by simp [Pipeline.exec, bindSlots, colourInput, hs, cmd, SetDefaultBuffer]⟩⟩

/-- Tone mapping as a stage of the chain. -/
theorem chainStage_ToneMapping : ChainStage Pass_ToneMapping :=
  chainStage_SingleDraw _ _ _ rfl (by decide)

/-- Gamma correction as a stage of the chain. -/
theorem chainStage_GammaCorrection : ChainStage Pass_GammaCorrection :=
  chainStage_SingleDraw _ _ _ rfl (by decide)

/-- Sharpening as a stage of the chain. -/
theorem chainStage_Sharpening : ChainStage Pass_Sharpening :=
  chainStage_SingleDraw _ _ _ rfl (by decide)

/-- Chromatic aberration as a stage of the chain. -/
theorem chainStage_ChromaticAberration : ChainStage Pass_ChromaticAberration :=
  chainStage_SingleDraw _ _ _ rfl (by decide)

/-- Dithering as a stage of the chain. -/
theorem chainStage_Dithering : ChainStage Pass_Dithering := by
  intro st
  exact ⟨_, ⟨rfl, fun _ => ⟨rfl, rfl⟩, fun _ h => h.elim,
    by simp [Pass_Dithering, cmds, cmd, SetDefaultBuffer]; rfl⟩,
    by simp [Cmd.inPass, Cmd.opensPass, ScopeName.isTopLevel],
    fun cur p => ⟨_, by simp [passDraws, Cmd.isDraw]; rfl,
      by simp [Pipeline.exec, bindSlots, colourInput, cmd, SetDefaultBuffer]⟩⟩

/-- Motion blur as a stage of the chain. -/
theorem chainStage_MotionBlur : ChainStage Pass_MotionBlur := by
  intro st
  exact ⟨_, ⟨rfl, fun _ => ⟨rfl, rfl⟩, fun _ h => h.elim,
    by simp [Pass_MotionBlur, cmds, cmd, SetDefaultBuffer]; rfl⟩,
    by simp [Cmd.inPass, Cmd.opensPass, ScopeName.isTopLevel],
    fun cur p => ⟨_, by simp [passDraws, Cmd.isDraw]; rfl,
      by simp [Pipeline.exec, bindSlots, colourInput, cmd, SetDefaultBuffer]⟩⟩

/-- FXAA as a stage of the chain. -/
theorem chainStage_FXAA : ChainStage Pass_FXAA := by
  intro st
  exact ⟨_, ⟨rfl, fun _ => ⟨rfl, rfl⟩, fun _ h => h.elim,
    by simp [Pass_FXAA, cmds, cmd, SetDefaultBuffer, swapTex]; rfl⟩,
    by simp [Cmd.inPass, Cmd.opensPass, ScopeName.isTopLevel],
    fun cur p => ⟨_, by simp [passDraws, Cmd.isDraw]; rfl,
      by simp [Pipeline.exec, bindSlots, colourInput, cmd, SetDefaultBuffer]⟩⟩

/-- TAA as a stage of the chain. -/
theorem chainStage_TAA : ChainStage Pass_TAA := by
  intro st
  exact ⟨_, ⟨rfl, fun _ => ⟨rfl, rfl⟩, fun _ h => h.elim,
    by simp [Pass_TAA, cmds, cmd, SetDefaultBuffer, swapTex]; rfl⟩,
    by simp [Cmd.inPass, Cmd.opensPass, ScopeName.isTopLevel],
    fun cur p => ⟨_, by simp [passDraws, Cmd.isDraw]; rfl,
      by simp [Pipeline.exec, bindSlots, colourInput, cmd, SetDefaultBuffer]⟩⟩

/-- Bloom as a stage of the chain. -/
theorem chainStage_Bloom : ChainStage Pass_Bloom := by
  intro st
  cases hm : texturesMismatch (st.tex TexSlot.m_render_tex_quarter_blur2)
      (st.tex TexSlot.m_render_tex_quarter_blur1) with
  | true =>
    exact ⟨_, ⟨by simp [Pass_Bloom, Pass_Bloom.block, Pass_BlurGaussian, hm, cmds, cmd,
        SetDefaultBuffer, Renderer.config],
      fun _ => by simp [Pass_Bloom, Pass_Bloom.block, Pass_BlurGaussian, hm, cmds, cmd,
        SetDefaultBuffer], fun _ h => h.elim,
      by simp [Pass_Bloom, Pass_Bloom.block, Pass_BlurGaussian, hm, cmds, cmd,
        SetDefaultBuffer]; rfl⟩,
      by simp [Cmd.inPass, Cmd.opensPass, ScopeName.isTopLevel],
      fun cur p => ⟨_, by simp [passDraws, Cmd.isDraw]; rfl,
        by simp [Pipeline.exec, bindSlots, colourInput, cmd, SetDefaultBuffer]⟩⟩
  | false =>
    exact ⟨_, ⟨by simp [Pass_Bloom, Pass_Bloom.block, Pass_BlurGaussian, hm, cmds, cmd,
        SetDefaultBuffer, UpdateBuffer, swapTex, Renderer.config],
      fun _ => by simp [Pass_Bloom, Pass_Bloom.block, Pass_BlurGaussian, hm, cmds, cmd,
        SetDefaultBuffer, UpdateBuffer, swapTex], fun _ h => h.elim,
      by simp [Pass_Bloom, Pass_Bloom.block, Pass_BlurGaussian, hm, cmds, cmd,
        SetDefaultBuffer, UpdateBuffer, swapTex]; rfl⟩,
      by simp [Cmd.inPass, Cmd.opensPass, ScopeName.isTopLevel],
      fun cur p => ⟨_, by simp [passDraws, Cmd.isDraw]; rfl,
        by simp [Pipeline.exec, bindSlots, colourInput, cmd, SetDefaultBuffer]⟩⟩

/-- An optional stage of the chain keeps the invariant of the chain. -/
theorem ChainInv.stage {pass : Renderer → TexSlot → TexSlot → Renderer}
    (hst : ChainStage pass) (enabled : Bool) {t : Nat} {a b : Renderer}
    (h : ChainInv t a b) :
    ChainInv t a (Pass_PostLight.stage enabled pass TexSlot.m_render_tex_full_hdr_light
      TexSlot.m_render_tex_full_hdr_light2 b) := by
  cases enabled
  · exact h
  obtain ⟨x, hs, hq, hd⟩ := h
  obtain ⟨y, hs2, hq2, hd2⟩ := hst b
  refine ⟨x ++ y ++ [Cmd.Submit], ⟨hs2.config.trans hs.config,
    fun hl => ⟨(hs2.lines hl).1.trans (hs.lines hl).1, (hs2.lines hl).2.trans (hs.lines hl).2⟩,
    fun _ hf => hf.elim, ?_⟩, ?_, ?_⟩
  · show (pass b TexSlot.m_render_tex_full_hdr_light
      TexSlot.m_render_tex_full_hdr_light2).m_cmd_list ++ [Cmd.Submit] = _
    rw [hs2.appended, hs.appended]
    simp
  · intro c hc
    simp only [List.mem_append, List.mem_singleton] at hc
    rcases hc with (hc | hc) | rfl
    · exact hq c hc
    · exact hq2 c hc
    · rfl
  · intro cur p
    obtain ⟨d2, hd2a, hd2b⟩ := hd2 (x.foldl passScope cur) (x.foldl Pipeline.exec p)
    have hne : passDraws (x.foldl passScope cur) (x.foldl Pipeline.exec p) y ≠ [] := by
      intro h0
      rw [h0] at hd2a
      simp at hd2a
    rw [List.append_assoc, passDraws_append]
    constructor
    · intro d hdh
      cases hx : passDraws cur p x with
      | nil =>
        rw [hx, List.nil_append, passDraws_append, List.head?_append_of_ne_nil _ hne,
          hd2a] at hdh
        cases hdh
        rw [hd2b, (hd cur p).2 hx]
      | cons d0 ds =>
        rw [hx] at hdh
        simp only [List.cons_append, List.head?_cons, Option.some.injEq] at hdh
        subst hdh
        exact (hd cur p).1 d0 (by rw [hx]; rfl)
    · intro h0
      rw [passDraws_append] at h0
      simp only [List.append_eq_nil] at h0
      exact absurd h0.2.1 hne

/-- The optional stages of the chain keep the invariant of the chain. -/
theorem ChainInv.optional {t : Nat} {a b : Renderer} (h : ChainInv t a b) :
    ChainInv t a (Pass_PostLight.optional b TexSlot.m_render_tex_full_hdr_light
      TexSlot.m_render_tex_full_hdr_light2) := by
  unfold Pass_PostLight.optional
  exact ChainInv.stage chainStage_ChromaticAberration _
    (ChainInv.stage chainStage_Sharpening _
      (ChainInv.stage chainStage_FXAA _
        (ChainInv.stage chainStage_ToneMapping _
          (ChainInv.stage chainStage_Dithering _
            (ChainInv.stage chainStage_MotionBlur _
              (ChainInv.stage chainStage_Bloom _
                (ChainInv.stage chainStage_TAA _ h)))))))

/-- The post-light chain appends one pass under the scope `Pass_PostLight`; its first draw
reads as colour input the texture the input handle held on entry, and its last draw renders
into the texture the output handle holds when the chain returns. -/
theorem Pass_PostLight_step (st : Renderer) :
    ∃ body,
      Step true (fun _ => False) st
          (Pass_PostLight st TexSlot.m_render_tex_full_hdr_light
            TexSlot.m_render_tex_full_hdr_light2) body
        ∧ PassBlock ScopeName.Pass_PostLight body
        ∧ ∀ cur p,
          (∃ d, (passDraws cur p body).head? = some d
            ∧ d.input = some (st.tex TexSlot.m_render_tex_full_hdr_light).id)
          ∧ ∃ d, (passDraws cur p body).getLast? = some d
            ∧ d.targets
              = [((Pass_PostLight st TexSlot.m_render_tex_full_hdr_light
                  TexSlot.m_render_tex_full_hdr_light2).tex
                    TexSlot.m_render_tex_full_hdr_light2).id] := by
  have h0 : ChainInv (st.tex TexSlot.m_render_tex_full_hdr_light).id
      (cmds st Pass_PostLight.prelude) (cmds st Pass_PostLight.prelude) :=
    ⟨[], Step.same _ _ _, by simp, fun _ _ => ⟨by simp [passDraws], fun _ => rfl⟩⟩
  obtain ⟨x, hs, hq, hd⟩ := h0.optional
  generalize hso : Pass_PostLight.optional (cmds st Pass_PostLight.prelude)
    TexSlot.m_render_tex_full_hdr_light TexSlot.m_render_tex_full_hdr_light2 = so at hs hd
  have hP : Pass_PostLight st TexSlot.m_render_tex_full_hdr_light
      TexSlot.m_render_tex_full_hdr_light2
      = cmds (Pass_GammaCorrection so TexSlot.m_render_tex_full_hdr_light
          TexSlot.m_render_tex_full_hdr_light2) [Cmd.End, Cmd.Submit] := by
    rw [Pass_PostLight_eq, hso]
  rw [hP]
  have hg : ∃ y, Step true (fun _ => False) so
      (Pass_GammaCorrection so TexSlot.m_render_tex_full_hdr_light
        TexSlot.m_render_tex_full_hdr_light2) y
      ∧ (∀ c ∈ y, c.inPass = true)
      ∧ ∀ cur p, passDraws cur p y
        = [⟨cur, some (so.tex TexSlot.m_render_tex_full_hdr_light).id,
            [(so.tex TexSlot.m_render_tex_full_hdr_light2).id]⟩] :=
    ⟨_, ⟨rfl, fun _ => ⟨rfl, rfl⟩, fun _ h => h.elim,
      by simp [Pass_GammaCorrection, Pass_SingleDraw, cmds, cmd, SetDefaultBuffer]; rfl⟩,
      by simp [Cmd.inPass, Cmd.opensPass, ScopeName.isTopLevel],
      fun cur p => by
        simp [passDraws, Cmd.isDraw, Pipeline.exec, bindSlots, colourInput, cmd,
          SetDefaultBuffer, passScope, Cmd.opensPass, ScopeName.isTopLevel]⟩
  obtain ⟨y, hs2, hq2, hd2⟩ := hg
  have hs0 : Step true (fun _ => False) st (cmds st Pass_PostLight.prelude)
      Pass_PostLight.prelude := Step.of_cmds _ _ _ _
  refine ⟨Pass_PostLight.prelude ++ x ++ y ++ [Cmd.End, Cmd.Submit],
    ((hs0.comp hs).comp hs2).comp (Step.of_cmds _ _ _ _), ?_, ?_⟩
  · refine ⟨Pass_PostLight.prelude.tail ++ x ++ y ++ [Cmd.End, Cmd.Submit], by
      simp [Pass_PostLight.prelude], ?_⟩
    intro c hc
    simp only [List.mem_append] at hc
    rcases hc with ((hc | hc) | hc) | hc
    · revert hc
      simp only [Pass_PostLight.prelude, List.tail_cons, List.mem_cons, List.mem_singleton,
        List.not_mem_nil, or_false]
      rintro (rfl | rfl | rfl | rfl | rfl | rfl | rfl | rfl) <;> rfl
    · exact hq c hc
    · exact hq2 c hc
    · simp only [List.mem_cons, List.mem_singleton, List.not_mem_nil, or_false] at hc
      rcases hc with rfl | rfl <;> rfl
  · intro cur p
    have hpre : ∀ cur p, passDraws cur p Pass_PostLight.prelude = [] := by
      intro cur p
      simp [Pass_PostLight.prelude, passDraws, Cmd.isDraw]
    have htail : ∀ cur p, passDraws cur p [Cmd.End, Cmd.Submit] = [] := by
      intro cur p
      simp [passDraws, Cmd.isDraw]
    have htex : (cmds (Pass_GammaCorrection so TexSlot.m_render_tex_full_hdr_light
        TexSlot.m_render_tex_full_hdr_light2) [Cmd.End, Cmd.Submit]).tex = so.tex := rfl
    rw [passDraws_append, passDraws_append, passDraws_append, hpre, htail, hd2,
      List.nil_append, List.append_nil, htex]
    constructor
    · cases hx : passDraws (List.foldl passScope cur Pass_PostLight.prelude)
          (List.foldl Pipeline.exec p Pass_PostLight.prelude) x with
      | nil =>
        refine ⟨_, rfl, ?_⟩
        show some (so.tex TexSlot.m_render_tex_full_hdr_light).id = _
        rw [(hd _ _).2 hx]
      | cons d0 ds =>
        exact ⟨d0, rfl, (hd _ _).1 d0 (by rw [hx]; rfl)⟩
    · exact ⟨_, List.getLast?_concat _, rfl⟩

/-- From a run of a chain of fallible and total steps that returns, the states in between. -/
theorem chain_states {α : Type} (p1 p2 p3 p5 p7 p8 : α → Option α) (d4 d6 d9 d10 fin : α → α)
    (s0 r : α)
    (h : (do
      let s ← p1 s0
      let s ← p2 s
      let s ← p3 s
      let s ← p5 (d4 s)
      let s ← p7 (d6 s)
      let s ← p8 s
      some (fin (d10 (d9 s)))) = some r) :
    ∃ s1 s2 s3 s5 s7 s8, p1 s0 = some s1 ∧ p2 s1 = some s2 ∧ p3 s2 = some s3
      ∧ p5 (d4 s3) = some s5 ∧ p7 (d6 s5) = some s7 ∧ p8 s7 = some s8
      ∧ r = fin (d10 (d9 s8)) := by
  cases h1 : p1 s0 with
  | none => simp [h1] at h
  | some s1 =>
  cases h2 : p2 s1 with
  | none => simp [h1, h2] at h
  | some s2 =>
  cases h3 : p3 s2 with
  | none => simp [h1, h2, h3] at h
  | some s3 =>
  cases h5 : p5 (d4 s3) with
  | none => simp [h1, h2, h3, h5] at h
  | some s5 =>
  cases h7 : p7 (d6 s5) with
  | none => simp [h1, h2, h3, h5, h7] at h
  | some s7 =>
  cases h8 : p8 s7 with
  | none => simp [h1, h2, h3, h5, h7, h8] at h
  | some s8 =>
    simp only [h1, h2, h3, h5, h7, h8, Option.bind_eq_bind, Option.some_bind,
      Option.some.injEq] at h
    exact ⟨s1, s2, s3, s5, s7, s8, rfl, h2, h3, h5, h7, h8, h.symm⟩

/-- The states between the passes of a run of `Pass_Main` that returns. -/
theorem Pass_Main_states (st st2 : Renderer) (h : Pass_Main st = some st2) :
    ∃ s1 s2 s3 s5 s7 s8,
      Pass_LightDepth (cmd st (Cmd.Begin ScopeName.Pass_Main)) = some s1
        ∧ Pass_GBuffer s1 = some s2
        ∧ Pass_PreLight s2 TexSlot.m_render_tex_half_spare TexSlot.m_render_tex_half_shadows
            TexSlot.m_render_tex_half_ssao = some s3
        ∧ Pass_Transparent
            (Pass_Light s3 TexSlot.m_render_tex_half_shadows TexSlot.m_render_tex_half_ssao
              TexSlot.m_render_tex_full_hdr_light) TexSlot.m_render_tex_full_hdr_light = some s5
        ∧ Pass_Lines
            (Pass_PostLight s5 TexSlot.m_render_tex_full_hdr_light
              TexSlot.m_render_tex_full_hdr_light2) TexSlot.m_render_tex_full_hdr_light2
            = some s7
        ∧ Pass_Gizmos s7 TexSlot.m_render_tex_full_hdr_light2 = some s8
        ∧ st2 = cmds
            (Pass_PerformanceMetrics
              (Pass_DebugBuffer s8 TexSlot.m_render_tex_full_hdr_light2)
              TexSlot.m_render_tex_full_hdr_light2) [Cmd.End, Cmd.Submit] :=
  chain_states Pass_LightDepth Pass_GBuffer
    (fun s => Pass_PreLight s TexSlot.m_render_tex_half_spare TexSlot.m_render_tex_half_shadows
      TexSlot.m_render_tex_half_ssao)
    (fun s => Pass_Transparent s TexSlot.m_render_tex_full_hdr_light)
    (fun s => Pass_Lines s TexSlot.m_render_tex_full_hdr_light2)
    (fun s => Pass_Gizmos s TexSlot.m_render_tex_full_hdr_light2)
    (fun s => Pass_Light s TexSlot.m_render_tex_half_shadows TexSlot.m_render_tex_half_ssao
      TexSlot.m_render_tex_full_hdr_light)
    (fun s => Pass_PostLight s TexSlot.m_render_tex_full_hdr_light
      TexSlot.m_render_tex_full_hdr_light2)
    (fun s => Pass_DebugBuffer s TexSlot.m_render_tex_full_hdr_light2)
    (fun s => Pass_PerformanceMetrics s TexSlot.m_render_tex_full_hdr_light2)
    (fun s => cmds s [Cmd.End, Cmd.Submit]) (cmd st (Cmd.Begin ScopeName.Pass_Main)) st2 h

/-- The tests of the passes read the configuration and the line lists only. -/
theorem emits_congr {a b : Renderer} (hc : b.config = a.config)
    (h1 : b.m_lines_list_depth_enabled = a.m_lines_list_depth_enabled)
    (h2 : b.m_lines_list_depth_disabled = a.m_lines_list_depth_disabled) :
    Pass_Main.emits b = Pass_Main.emits a := by
  have e1 : b.m_flags = a.m_flags := congrArg FrameConfig.m_flags hc
  have e2 : b.m_entities = a.m_entities := congrArg FrameConfig.m_entities hc
  have e3 : b.m_rhi_device = a.m_rhi_device := congrArg FrameConfig.m_rhi_device hc
  have e4 : b.m_vps_light = a.m_vps_light := congrArg FrameConfig.m_vps_light hc
  have e5 : b.m_debug_buffer = a.m_debug_buffer := congrArg FrameConfig.m_debug_buffer hc
  funext n
  cases n <;> simp only [Pass_Main.emits, Flags_IsSet, e1, e2, e3, e4, e5, h1, h2]

/-- The tests of the passes other than the line pass read the configuration only. -/
theorem emits_congr_config {a b : Renderer} (hc : b.config = a.config) (n : ScopeName)
    (hn : n ≠ ScopeName.Pass_Lines) : Pass_Main.emits b n = Pass_Main.emits a n := by
  have e1 : b.m_flags = a.m_flags := congrArg FrameConfig.m_flags hc
  have e2 : b.m_entities = a.m_entities := congrArg FrameConfig.m_entities hc
  have e3 : b.m_rhi_device = a.m_rhi_device := congrArg FrameConfig.m_rhi_device hc
  have e4 : b.m_vps_light = a.m_vps_light := congrArg FrameConfig.m_vps_light hc
  have e5 : b.m_debug_buffer = a.m_debug_buffer := congrArg FrameConfig.m_debug_buffer hc
  cases n <;> first
    | exact absurd rfl hn
    | simp only [Pass_Main.emits, Flags_IsSet, e1, e2, e3, e4, e5]

/-- The draws of two command lists in sequence satisfy what the draws of each satisfy. -/
theorem AllDraws.append {P : PassDraw → Prop} {a b : List Cmd} (ha : AllDraws P a)
    (hb : AllDraws P b) : AllDraws P (a ++ b) := by
  intro cur p d hd
  rw [passDraws_append] at hd
  rcases List.mem_append.1 hd with hd | hd
  · exact ha _ _ d hd
  · exact hb _ _ d hd

/-- What holds of every draw holds under a weaker description. -/
theorem AllDraws.weaken {P Q : PassDraw → Prop} {a : List Cmd} (h : AllDraws P a)
    (hPQ : ∀ d, P d → Q d) : AllDraws Q a :=
  fun cur p d hd => hPQ d (h cur p d hd)

/-- No command, no draw. -/
theorem AllDraws.empty (P : PassDraw → Prop) : AllDraws P [] := by
  intro cur p d hd
  simp [passDraws] at hd

/-- The draws of a pass under the scope `name`, when it appends anything, belong to it. -/
theorem Emits.block {g : Bool} {name : ScopeName} {body : List Cmd}
    (h : Emits g (PassBlock name) body) (htop : name.isTopLevel = true) :
    passesOf body = (if g then [name] else [])
      ∧ AllDraws (fun d => d.pass = some name) body := by
  cases g
  · simp only [Emits, Bool.false_eq_true, if_false] at h
    subst h
    exact ⟨rfl, AllDraws.empty _⟩
  · simp only [Emits, if_true] at h
    exact ⟨(h.spec htop).1, (h.spec htop).2⟩

/-- The draws of a pass under the scope `name` that renders into `t`, when it appends
anything, belong to it and render into `t`. -/
theorem Emits.renders {g : Bool} {name : ScopeName} {t : Nat} {body : List Cmd}
    (h : Emits g (RendersInto name t) body) (htop : name.isTopLevel = true) :
    passesOf body = (if g then [name] else [])
      ∧ AllDraws (fun d => d.pass = some name ∧ d.targets = [t]) body := by
  cases g
  · simp only [Emits, Bool.false_eq_true, if_false] at h
    subst h
    exact ⟨rfl, AllDraws.empty _⟩
  · simp only [Emits, if_true] at h
    exact ⟨(h.toBlock.spec htop).1,
      fun cur p d hd => ⟨(h.toBlock.spec htop).2 cur p d hd, h.targets cur p d hd⟩⟩

/-- Selecting from draws none of which is selected gives nothing. -/
theorem filter_passDraws_nil {P : PassDraw → Prop} {a : List Cmd} (q : PassDraw → Bool)
    (h : AllDraws P a) (hq : ∀ d, P d → q d = false) (cur : Option ScopeName) (p : Pipeline) :
    (passDraws cur p a).filter q = [] := by
  rw [List.filter_eq_nil_iff]
  intro d hd
  rw [hq d (h cur p d hd)]
  simp

/-- Selecting from draws all of which are selected gives all. -/
theorem filter_passDraws_self {P : PassDraw → Prop} {a : List Cmd} (q : PassDraw → Bool)
    (h : AllDraws P a) (hq : ∀ d, P d → q d = true) (cur : Option ScopeName) (p : Pipeline) :
    (passDraws cur p a).filter q = passDraws cur p a := by
  rw [List.filter_eq_self]
  intro d hd
  exact hq d (h cur p d hd)

/-- Commands that are no draw have no draw. -/
theorem AllDraws.of_prepares (P : PassDraw → Prop) {a : List Cmd}
    (h : ∀ c ∈ a, c.isDraw = false) : AllDraws P a := by
  intro cur p d hd
  induction a generalizing cur p with
  | nil => simp [passDraws] at hd
  | cons c cs ih =>
    simp only [passDraws, h c (List.mem_cons_self _ _), Bool.false_eq_true, if_false] at hd
    exact ih (fun x hx => h x (List.mem_cons_of_mem _ hx)) _ _ hd

/-- The scopes in the order of the frame, selected by the tests of the passes. -/
theorem passes_filter (k : Nat) (g : ScopeName → Bool)
    (h3 : g ScopeName.Pass_PreLight = true) (h6 : g ScopeName.Pass_PostLight = true) :
    List.replicate k ScopeName.Pass_LightDepth
        ++ (if g ScopeName.Pass_GBuffer then [ScopeName.Pass_GBuffer] else [])
        ++ [ScopeName.Pass_PreLight]
        ++ (if g ScopeName.Pass_Light then [ScopeName.Pass_Light] else [])
        ++ (if g ScopeName.Pass_Transparent then [ScopeName.Pass_Transparent] else [])
        ++ [ScopeName.Pass_PostLight]
        ++ (if g ScopeName.Pass_Lines then [ScopeName.Pass_Lines] else [])
        ++ (if g ScopeName.Pass_Gizmos then [ScopeName.Pass_Gizmos] else [])
        ++ (if g ScopeName.Pass_DebugBuffer then [ScopeName.Pass_DebugBuffer] else [])
        ++ (if g ScopeName.Pass_PerformanceMetrics then [ScopeName.Pass_PerformanceMetrics]
          else [])
      = List.replicate k ScopeName.Pass_LightDepth
        ++ [ ScopeName.Pass_GBuffer, ScopeName.Pass_PreLight, ScopeName.Pass_Light,
             ScopeName.Pass_Transparent, ScopeName.Pass_PostLight, ScopeName.Pass_Lines,
             ScopeName.Pass_Gizmos, ScopeName.Pass_DebugBuffer,
             ScopeName.Pass_PerformanceMetrics ].filter g := by
  simp only [List.filter_cons, List.filter_nil, h3, h6, if_true]
  cases g ScopeName.Pass_GBuffer <;> cases g ScopeName.Pass_Light <;>
    cases g ScopeName.Pass_Transparent <;> cases g ScopeName.Pass_Lines <;>
    cases g ScopeName.Pass_Gizmos <;> cases g ScopeName.Pass_DebugBuffer <;>
    cases g ScopeName.Pass_PerformanceMetrics <;> simp

/-- The frame of `Pass_Main`: the scopes of the top-level passes it opens, in order, and what
its draws read and render into. -/
theorem Pass_Main_frame (st st2 : Renderer) (h : Pass_Main st = some st2) :
    passesOf st2.m_cmd_list
        = passesOf st.m_cmd_list
          ++ (List.replicate (lightDepthCount st) ScopeName.Pass_LightDepth
            ++ [ ScopeName.Pass_GBuffer, ScopeName.Pass_PreLight, ScopeName.Pass_Light,
                 ScopeName.Pass_Transparent, ScopeName.Pass_PostLight, ScopeName.Pass_Lines,
                 ScopeName.Pass_Gizmos, ScopeName.Pass_DebugBuffer,
                 ScopeName.Pass_PerformanceMetrics ].filter (Pass_Main.emits st))
      ∧ ∃ D : List PassDraw,
        passDrawsOf st2.m_cmd_list = passDrawsOf st.m_cmd_list ++ D
          ∧ (∀ d ∈ D, FrameDraw (st.tex TexSlot.m_render_tex_full_hdr_light).id
              (st2.tex TexSlot.m_render_tex_full_hdr_light2).id d)
          ∧ (Pass_Main.emits st ScopeName.Pass_Light = true →
              ∃ d ∈ D, d.pass = some ScopeName.Pass_Light)
          ∧ (∃ d, (D.filter fun d => decide (d.pass = some ScopeName.Pass_PostLight)).head?
                = some d
              ∧ d.input = some (st.tex TexSlot.m_render_tex_full_hdr_light).id)
          ∧ ∃ d, (D.filter fun d => decide (d.pass = some ScopeName.Pass_PostLight)).getLast?
                = some d
              ∧ d.targets = [(st2.tex TexSlot.m_render_tex_full_hdr_light2).id] := by
  obtain ⟨s1, s2, s3, s5, s7, s8, h1, h2, h3, h5, h7, h8, rfl⟩ := Pass_Main_states st st2 h
  -- what each pass appends
  have hs0 : Step true (fun _ => True) st (cmd st (Cmd.Begin ScopeName.Pass_Main))
      [Cmd.Begin ScopeName.Pass_Main] := Step.of_cmds _ _ _ _
  obtain ⟨b1, hs1, hb1⟩ := Pass_LightDepth_step _ _ h1
  obtain ⟨b2, hs2, hb2⟩ := Pass_GBuffer_step _ _ h2
  obtain ⟨b3, hs3, hb3⟩ := Pass_PreLight_step _ _ _ _ _ h3
  obtain ⟨b4, hs4, hb4, hx4⟩ := Pass_Light_step s3 TexSlot.m_render_tex_half_shadows
    TexSlot.m_render_tex_half_ssao TexSlot.m_render_tex_full_hdr_light
  generalize Pass_Light s3 TexSlot.m_render_tex_half_shadows TexSlot.m_render_tex_half_ssao
    TexSlot.m_render_tex_full_hdr_light = s4 at hs4 h5
  obtain ⟨b5, hs5, hb5⟩ := Pass_Transparent_step _ _ _ h5
  obtain ⟨b6, hs6, hb6, hd6⟩ := Pass_PostLight_step s5
  generalize Pass_PostLight s5 TexSlot.m_render_tex_full_hdr_light
    TexSlot.m_render_tex_full_hdr_light2 = s6 at hs6 hd6 h7
  obtain ⟨b7, hs7, hb7⟩ := Pass_Lines_step _ _ _ h7
  obtain ⟨b8, hs8, hb8⟩ := Pass_Gizmos_step _ _ _ h8
  obtain ⟨b9, hs9, hb9⟩ := Pass_DebugBuffer_step s8 TexSlot.m_render_tex_full_hdr_light2
  generalize Pass_DebugBuffer s8 TexSlot.m_render_tex_full_hdr_light2 = s9 at hs9
  obtain ⟨b10, hs10, hb10⟩ := Pass_PerformanceMetrics_step s9
    TexSlot.m_render_tex_full_hdr_light2
  generalize Pass_PerformanceMetrics s9 TexSlot.m_render_tex_full_hdr_light2 = s10 at hs10
  -- the configuration and the line lists
  have c1 := hs1.config.trans hs0.config
  have c2 := hs2.config.trans c1
  have c3 := hs3.config.trans c2
  have c4 := hs4.config.trans c3
  have c5 := hs5.config.trans c4
  have c6 := hs6.config.trans c5
  have c7 := hs7.config.trans c6
  have c8 := hs8.config.trans c7
  have c9 := hs9.config.trans c8
  have l1 := hs1.lines rfl
  have l2 := hs2.lines rfl
  have l3 := hs3.lines rfl
  have l4 := hs4.lines rfl
  have l5 := hs5.lines rfl
  have l6 := hs6.lines rfl
  have e2 : Pass_Main.emits s1 = Pass_Main.emits st := emits_congr c1 l1.1 l1.2
  have e4 : Pass_Main.emits s3 = Pass_Main.emits st :=
    emits_congr c3 (l3.1.trans (l2.1.trans l1.1)) (l3.2.trans (l2.2.trans l1.2))
  have e5 : Pass_Main.emits s4 = Pass_Main.emits st :=
    emits_congr c4 (l4.1.trans (l3.1.trans (l2.1.trans l1.1)))
      (l4.2.trans (l3.2.trans (l2.2.trans l1.2)))
  have e7 : Pass_Main.emits s6 = Pass_Main.emits st :=
    emits_congr c6 (l6.1.trans (l5.1.trans (l4.1.trans (l3.1.trans (l2.1.trans l1.1)))))
      (l6.2.trans (l5.2.trans (l4.2.trans (l3.2.trans (l2.2.trans l1.2)))))
  have e8 := emits_congr_config c7 ScopeName.Pass_Gizmos (by decide)
  have e9 := emits_congr_config c8 ScopeName.Pass_DebugBuffer (by decide)
  have e10 := emits_congr_config c9 ScopeName.Pass_PerformanceMetrics (by decide)
  rw [e2] at hb2
  rw [e4] at hb4 hx4
  rw [e5] at hb5
  rw [e7] at hb7
  rw [e8] at hb8
  rw [e9] at hb9
  rw [e10] at hb10
  -- the textures behind the two handles
  have t3 : s3.tex TexSlot.m_render_tex_full_hdr_light
      = st.tex TexSlot.m_render_tex_full_hdr_light :=
    (hs3.tex _ (by decide)).trans ((hs2.tex_eq _).trans ((hs1.tex_eq _).trans rfl))
  have t4 : s4.tex TexSlot.m_render_tex_full_hdr_light
      = st.tex TexSlot.m_render_tex_full_hdr_light := (hs4.tex_eq _).trans t3
  have t5 : s5.tex TexSlot.m_render_tex_full_hdr_light
      = st.tex TexSlot.m_render_tex_full_hdr_light := (hs5.tex_eq _).trans t4
  have t7 : s7.tex TexSlot.m_render_tex_full_hdr_light2
      = s6.tex TexSlot.m_render_tex_full_hdr_light2 := hs7.tex_eq _
  have t8 : s8.tex TexSlot.m_render_tex_full_hdr_light2
      = s6.tex TexSlot.m_render_tex_full_hdr_light2 := (hs8.tex_eq _).trans t7
  have t9 : s9.tex TexSlot.m_render_tex_full_hdr_light2
      = s6.tex TexSlot.m_render_tex_full_hdr_light2 := (hs9.tex_eq _).trans t8
  have t10 : (cmds s10 [Cmd.End, Cmd.Submit]).tex TexSlot.m_render_tex_full_hdr_light2
      = s6.tex TexSlot.m_render_tex_full_hdr_light2 := (hs10.tex_eq _).trans t9
  rw [t3] at hb4
  rw [t4] at hb5
  rw [t5] at hd6
  rw [t7] at hb8
  rw [t8] at hb9
  rw [t9] at hb10
  rw [t10]
  generalize (st.tex TexSlot.m_render_tex_full_hdr_light).id = L at *
  generalize (s6.tex TexSlot.m_render_tex_full_hdr_light2).id = O at *
  -- the scopes and the draws of each pass
  have hcount : lightDepthCount (cmd st (Cmd.Begin ScopeName.Pass_Main)) = lightDepthCount st :=
    rfl
  rw [hcount] at hb1
  obtain ⟨p1, a1⟩ := PassBlocks.blocks_spec (rfl : ScopeName.Pass_LightDepth.isTopLevel = true) _ _ hb1
  obtain ⟨p2, a2⟩ := hb2.block rfl
  obtain ⟨p3, a3⟩ := hb3.spec rfl
  obtain ⟨p4, a4⟩ := hb4.renders rfl
  obtain ⟨p5, a5⟩ := hb5.renders rfl
  obtain ⟨p6, a6⟩ := hb6.spec rfl
  obtain ⟨p7, a7⟩ := hb7.renders rfl
  obtain ⟨p8, a8⟩ := hb8.renders rfl
  obtain ⟨p9, a9⟩ := hb9.renders rfl
  obtain ⟨p10, a10⟩ := hb10.renders rfl
  have a0 : ∀ P : PassDraw → Prop, AllDraws P [Cmd.Begin ScopeName.Pass_Main] :=
    fun P => AllDraws.of_prepares P (by simp [Cmd.isDraw])
  have a11 : ∀ P : PassDraw → Prop, AllDraws P [Cmd.End, Cmd.Submit] :=
    fun P => AllDraws.of_prepares P (by simp [Cmd.isDraw])
  -- the command list of the frame
  have hl : (cmds s10 [Cmd.End, Cmd.Submit]).m_cmd_list
      = st.m_cmd_list ++ (([Cmd.Begin ScopeName.Pass_Main] ++ b1 ++ b2 ++ b3 ++ b4 ++ b5)
        ++ (b6 ++ (b7 ++ b8 ++ b9 ++ b10 ++ [Cmd.End, Cmd.Submit]))) := by
    show s10.m_cmd_list ++ [Cmd.End, Cmd.Submit] = _
    rw [hs10.appended, hs9.appended, hs8.appended, hs7.appended, hs6.appended, hs5.appended,
      hs4.appended, hs3.appended, hs2.appended, hs1.appended, hs0.appended]
    simp only [List.append_assoc]
  rw [hl]
  refine ⟨?_, _, passDrawsOf_append _ _, ?_, ?_, ?_⟩
  · -- scopes
    rw [passesOf_append]
    congr 1
    simp only [passesOf_append, p1, p2, p3, p4, p5, p6, p7, p8, p9, p10]
    have hb : passesOf [Cmd.Begin ScopeName.Pass_Main] = [] := rfl
    have he : passesOf [Cmd.End, Cmd.Submit] = [] := rfl
    rw [hb, he, ← passes_filter _ _ rfl rfl]
    simp only [List.nil_append, List.append_nil, List.append_assoc]
  · -- what every draw renders into
    have key : AllDraws (FrameDraw L O)
        (([Cmd.Begin ScopeName.Pass_Main] ++ b1 ++ b2 ++ b3 ++ b4 ++ b5)
          ++ (b6 ++ (b7 ++ b8 ++ b9 ++ b10 ++ [Cmd.End, Cmd.Submit]))) := by
      refine AllDraws.append (AllDraws.append (AllDraws.append (AllDraws.append (AllDraws.append
        (AllDraws.append (a0 _) ?_) ?_) ?_) ?_) ?_) (AllDraws.append ?_ (AllDraws.append
        (AllDraws.append (AllDraws.append (AllDraws.append ?_ ?_) ?_) ?_) (a11 _)))
      · exact AllDraws.weaken a1 fun d hd => Or.inl (Or.inl hd)
      · exact AllDraws.weaken a2 fun d hd => Or.inl (Or.inr (Or.inl hd))
      · exact AllDraws.weaken a3 fun d hd => Or.inl (Or.inr (Or.inr (Or.inl hd)))
      · exact AllDraws.weaken a4 fun d hd => Or.inr (Or.inl ⟨Or.inl hd.1, hd.2⟩)
      · exact AllDraws.weaken a5 fun d hd => Or.inr (Or.inl ⟨Or.inr hd.1, hd.2⟩)
      · exact AllDraws.weaken a6 fun d hd => Or.inl (Or.inr (Or.inr (Or.inr hd)))
      · exact AllDraws.weaken a7 fun d hd => Or.inr (Or.inr ⟨Or.inl hd.1, hd.2⟩)
      · exact AllDraws.weaken a8 fun d hd => Or.inr (Or.inr ⟨Or.inr (Or.inl hd.1), hd.2⟩)
      · exact AllDraws.weaken a9 fun d hd => Or.inr (Or.inr ⟨Or.inr (Or.inr (Or.inl hd.1)), hd.2⟩)
      · exact AllDraws.weaken a10 fun d hd => Or.inr (Or.inr ⟨Or.inr (Or.inr (Or.inr hd.1)), hd.2⟩)
    exact key _ _
  · -- the light pass has a draw
    intro hg
    have hsplit : ([Cmd.Begin ScopeName.Pass_Main] ++ b1 ++ b2 ++ b3 ++ b4 ++ b5)
        ++ (b6 ++ (b7 ++ b8 ++ b9 ++ b10 ++ [Cmd.End, Cmd.Submit]))
        = ([Cmd.Begin ScopeName.Pass_Main] ++ b1 ++ b2 ++ b3)
          ++ (b4 ++ (b5 ++ (b6 ++ (b7 ++ b8 ++ b9 ++ b10 ++ [Cmd.End, Cmd.Submit])))) := by
      simp only [List.append_assoc]
    rw [hsplit]
    generalize [Cmd.Begin ScopeName.Pass_Main] ++ b1 ++ b2 ++ b3 = pre4
    generalize b5 ++ (b6 ++ (b7 ++ b8 ++ b9 ++ b10 ++ [Cmd.End, Cmd.Submit])) = post4
    rw [passDraws_append, passDraws_append]
    obtain ⟨d, hd⟩ := List.exists_mem_of_ne_nil _ (hx4 hg
      (List.foldl passScope (passAfter st.m_cmd_list) pre4)
      (List.foldl Pipeline.exec (pipelineAfter st.m_cmd_list) pre4))
    exact ⟨d, List.mem_append_right _ (List.mem_append_left _ hd), (a4 _ _ d hd).1⟩
  · -- the first and the last draw of the post-light chain
    have hpre : AllDraws (fun d => d.pass ≠ some ScopeName.Pass_PostLight)
        ([Cmd.Begin ScopeName.Pass_Main] ++ b1 ++ b2 ++ b3 ++ b4 ++ b5) := by
      refine AllDraws.append (AllDraws.append (AllDraws.append (AllDraws.append
        (AllDraws.append (a0 _) ?_) ?_) ?_) ?_) ?_
      · exact AllDraws.weaken a1 fun d hd => by rw [hd]; decide
      · exact AllDraws.weaken a2 fun d hd => by rw [hd]; decide
      · exact AllDraws.weaken a3 fun d hd => by rw [hd]; decide
      · exact AllDraws.weaken a4 fun d hd => by rw [hd.1]; decide
      · exact AllDraws.weaken a5 fun d hd => by rw [hd.1]; decide
    have hpost : AllDraws (fun d => d.pass ≠ some ScopeName.Pass_PostLight)
        (b7 ++ b8 ++ b9 ++ b10 ++ [Cmd.End, Cmd.Submit]) := by
      refine AllDraws.append (AllDraws.append (AllDraws.append (AllDraws.append ?_ ?_) ?_) ?_)
        (a11 _)
      · exact AllDraws.weaken a7 fun d hd => by rw [hd.1]; decide
      · exact AllDraws.weaken a8 fun d hd => by rw [hd.1]; decide
      · exact AllDraws.weaken a9 fun d hd => by rw [hd.1]; decide
      · exact AllDraws.weaken a10 fun d hd => by rw [hd.1]; decide
    generalize [Cmd.Begin ScopeName.Pass_Main] ++ b1 ++ b2 ++ b3 ++ b4 ++ b5 = pre at hpre ⊢
    generalize b7 ++ b8 ++ b9 ++ b10 ++ [Cmd.End, Cmd.Submit] = post at hpost ⊢
    have hsel : ∀ cur p,
        (passDraws cur p (pre ++ (b6 ++ post))).filter
            (fun d => decide (d.pass = some ScopeName.Pass_PostLight))
          = passDraws (List.foldl passScope cur pre) (List.foldl Pipeline.exec p pre) b6 := by
      intro cur p
      rw [passDraws_append, passDraws_append, List.filter_append, List.filter_append,
        filter_passDraws_nil _ hpre (fun d hd => by simpa using hd),
        filter_passDraws_nil _ hpost (fun d hd => by simpa using hd),
        filter_passDraws_self _ a6 (fun d hd => by simpa using hd)]
      simp
    rw [hsel]
    exact hd6 _ _

/-- A chain of fallible steps with total ones in between, written as a fold. -/
theorem chain_as_fold {α β : Type} (p1 p2 p3 p5 p7 p8 : α → Option α) (d4 d6 d9 d10 : α → α)
    (fin : α → β) (s0 : α) :
    (do
      let s ← p1 s0
      let s ← p2 s
      let s ← p3 s
      let s ← p5 (d4 s)
      let s ← p7 (d6 s)
      let s ← p8 s
      some (fin (d10 (d9 s))))
      = Option.map fin (do
          let s ← p1 s0
          let s ← p2 s
          let s ← p3 s
          let s ← some (d4 s)
          let s ← p5 s
          let s ← some (d6 s)
          let s ← p7 s
          let s ← p8 s
          let s ← some (d9 s)
          let s ← some (d10 s)
          pure s) := by
  cases h1 : p1 s0 with
  | none => rfl
  | some s1 =>
  cases h2 : p2 s1 with
  | none => simp [h2]
  | some s2 =>
  cases h3 : p3 s2 with
  | none => simp [h2, h3]
  | some s3 =>
  cases h5 : p5 (d4 s3) with
  | none => simp [h2, h3, h5]
  | some s5 =>
  cases h7 : p7 (d6 s5) with
  | none => simp [h2, h3, h5, h7]
  | some s7 =>
  cases h8 : p8 s7 with
  | none => simp [h2, h3, h5, h7, h8]
  | some s8 => simp [h2, h3, h5, h7, h8]

/-- The calls of `Pass_Main`: between opening its scope and closing and submitting it,
`Pass_Main` runs the ten passes in program order, each once, handing them fixed handles; it
returns when all of them return. -/
theorem Pass_Main_calls (st : Renderer) :
    Pass_Main st
      = ([ MainPass.Pass_LightDepth,
           MainPass.Pass_GBuffer,
           MainPass.Pass_PreLight TexSlot.m_render_tex_half_spare
             TexSlot.m_render_tex_half_shadows TexSlot.m_render_tex_half_ssao,
           MainPass.Pass_Light TexSlot.m_render_tex_half_shadows TexSlot.m_render_tex_half_ssao
             TexSlot.m_render_tex_full_hdr_light,
           MainPass.Pass_Transparent TexSlot.m_render_tex_full_hdr_light,
           MainPass.Pass_PostLight TexSlot.m_render_tex_full_hdr_light
             TexSlot.m_render_tex_full_hdr_light2,
           MainPass.Pass_Lines TexSlot.m_render_tex_full_hdr_light2,
           MainPass.Pass_Gizmos TexSlot.m_render_tex_full_hdr_light2,
           MainPass.Pass_DebugBuffer TexSlot.m_render_tex_full_hdr_light2,
           MainPass.Pass_PerformanceMetrics TexSlot.m_render_tex_full_hdr_light2 ].foldlM
          invoke (cmd st (Cmd.Begin ScopeName.Pass_Main))).map
          (fun s => cmds s [Cmd.End, Cmd.Submit]) := by
  unfold Pass_Main
  simp only [List.foldlM_cons, List.foldlM_nil, invoke]
  exact chain_as_fold Pass_LightDepth Pass_GBuffer
    (fun s => Pass_PreLight s TexSlot.m_render_tex_half_spare TexSlot.m_render_tex_half_shadows
      TexSlot.m_render_tex_half_ssao)
    (fun s => Pass_Transparent s TexSlot.m_render_tex_full_hdr_light)
    (fun s => Pass_Lines s TexSlot.m_render_tex_full_hdr_light2)
    (fun s => Pass_Gizmos s TexSlot.m_render_tex_full_hdr_light2)
    (fun s => Pass_Light s TexSlot.m_render_tex_half_shadows TexSlot.m_render_tex_half_ssao
      TexSlot.m_render_tex_full_hdr_light)
    (fun s => Pass_PostLight s TexSlot.m_render_tex_full_hdr_light
      TexSlot.m_render_tex_full_hdr_light2)
    (fun s => Pass_DebugBuffer s TexSlot.m_render_tex_full_hdr_light2)
    (fun s => Pass_PerformanceMetrics s TexSlot.m_render_tex_full_hdr_light2)
    (fun s => cmds s [Cmd.End, Cmd.Submit]) (cmd st (Cmd.Begin ScopeName.Pass_Main))

/-! ## The frame: the order of the top-level passes and the flow between them -/

/-- C21: the top-level passes of a frame that renders (`Pass_Main` returns). Whatever the
flags and the scene, `Pass_Main` runs the calls light/shadow depth, G-buffer, pre-light, light,
transparent, post-light, lines, gizmos, debug buffer, performance metrics in this order, each
once. On the command list, the scopes of the top-level passes it opens are, in order, one
`Pass_LightDepth` per shadow-casting light with a shadow map (when there is an opaque entity),
then the nine other passes in the fixed order, each once when its own entry test passes, and
none twice. Of the draws it adds, each tagged with the top-level pass whose scope was opened
last: the draws of the light pass and of the transparent pass render into the texture the
handle `m_render_tex_full_hdr_light` held on entry, and the light pass has a draw when its
shader is compiled; the first draw of the post-light chain reads that texture as colour input;
the last draw of the chain renders into the texture the handle `m_render_tex_full_hdr_light2`
holds on return, and the draws of the line, gizmo, debug-buffer and performance-metrics passes
render into that texture. In the revision of `Renderer::Render`, a frame that renders
(initialized device, a camera, a bucket map that is not empty) records the same ten passes in
the same order with the corresponding textures, after the profiler reset. -/
theorem Pass_Main_fixed_order (st st2 : Renderer) (h : Pass_Main st = some st2)
    (lib : Directus.MathLib) (frame : Directus.Renderer) (device : Directus.RHI_Device)
    (camera : Directus.Camera)
    (hdev : frame.m_rhiDevice = some device) (hinit : device.isInitialized = true)
    (hcam : frame.m_camera = some camera)
    (hne : Directus.ActorMap.empty frame.m_actors = false) :
    (∃ s : Renderer,
        [ MainPass.Pass_LightDepth,
          MainPass.Pass_GBuffer,
          MainPass.Pass_PreLight TexSlot.m_render_tex_half_spare
            TexSlot.m_render_tex_half_shadows TexSlot.m_render_tex_half_ssao,
          MainPass.Pass_Light TexSlot.m_render_tex_half_shadows
            TexSlot.m_render_tex_half_ssao TexSlot.m_render_tex_full_hdr_light,
          MainPass.Pass_Transparent TexSlot.m_render_tex_full_hdr_light,
          MainPass.Pass_PostLight TexSlot.m_render_tex_full_hdr_light
            TexSlot.m_render_tex_full_hdr_light2,
          MainPass.Pass_Lines TexSlot.m_render_tex_full_hdr_light2,
          MainPass.Pass_Gizmos TexSlot.m_render_tex_full_hdr_light2,
          MainPass.Pass_DebugBuffer TexSlot.m_render_tex_full_hdr_light2,
          MainPass.Pass_PerformanceMetrics TexSlot.m_render_tex_full_hdr_light2 ].foldlM
            invoke (cmd st (Cmd.Begin ScopeName.Pass_Main)) = some s
          ∧ st2 = cmds s [Cmd.End, Cmd.Submit])
      ∧ passesOf st2.m_cmd_list
        = passesOf st.m_cmd_list
          ++ (List.replicate (lightDepthCount st) ScopeName.Pass_LightDepth
            ++ [ ScopeName.Pass_GBuffer, ScopeName.Pass_PreLight, ScopeName.Pass_Light,
                 ScopeName.Pass_Transparent, ScopeName.Pass_PostLight, ScopeName.Pass_Lines,
                 ScopeName.Pass_Gizmos, ScopeName.Pass_DebugBuffer,
                 ScopeName.Pass_PerformanceMetrics ].filter (Pass_Main.emits st))
      ∧ (∃ D : List PassDraw,
          passDrawsOf st2.m_cmd_list = passDrawsOf st.m_cmd_list ++ D
            ∧ (∀ d ∈ D,
                d.pass = some ScopeName.Pass_Light ∨ d.pass = some ScopeName.Pass_Transparent →
                d.targets = [(st.tex TexSlot.m_render_tex_full_hdr_light).id])
            ∧ (st.m_vps_light = Shader_State.Shader_Compiled →
                ∃ d ∈ D, d.pass = some ScopeName.Pass_Light)
            ∧ (∃ d,
                (D.filter fun d => decide (d.pass = some ScopeName.Pass_PostLight)).head?
                    = some d
                  ∧ d.input = some (st.tex TexSlot.m_render_tex_full_hdr_light).id)
            ∧ (∃ d,
                (D.filter fun d => decide (d.pass = some ScopeName.Pass_PostLight)).getLast?
                    = some d
                  ∧ d.targets = [(st2.tex TexSlot.m_render_tex_full_hdr_light2).id])
            ∧ ∀ d ∈ D,
                d.pass = some ScopeName.Pass_Lines ∨ d.pass = some ScopeName.Pass_Gizmos
                  ∨ d.pass = some ScopeName.Pass_DebugBuffer
                  ∨ d.pass = some ScopeName.Pass_PerformanceMetrics →
                d.targets = [(st2.tex TexSlot.m_render_tex_full_hdr_light2).id])
      ∧ (Directus.Render lib frame).m_trace
        = frame.m_trace
          ++ [ Directus.Effect.profilerReset,
               Directus.Effect.pass (Directus.PassCall.Pass_DepthDirectionalLight
                 (Directus.firstDirectional
                   (Directus.bucket frame Directus.RenderableType.Renderable_Light))),
               Directus.Effect.pass Directus.PassCall.Pass_GBuffer,
               Directus.Effect.pass (Directus.PassCall.Pass_PreLight
                 Directus.RenderTexSlot.Half_Spare Directus.RenderTexSlot.Half_Shadows
                 Directus.RenderTexSlot.Half_SSAO),
               Directus.Effect.pass (Directus.PassCall.Pass_Light
                 Directus.RenderTexSlot.Half_Shadows Directus.RenderTexSlot.Half_SSAO
                 Directus.RenderTexSlot.Full_HDR_Light),
               Directus.Effect.pass (Directus.PassCall.Pass_Transparent
                 Directus.RenderTexSlot.Full_HDR_Light),
               Directus.Effect.pass (Directus.PassCall.Pass_PostLight
                 Directus.RenderTexSlot.Full_HDR_Light Directus.RenderTexSlot.Full_HDR_Light2),
               Directus.Effect.pass (Directus.PassCall.Pass_Lines
                 Directus.RenderTexSlot.Full_HDR_Light2),
               Directus.Effect.pass (Directus.PassCall.Pass_Gizmos
                 Directus.RenderTexSlot.Full_HDR_Light2),
               Directus.Effect.pass (Directus.PassCall.Pass_DebugBuffer
                 Directus.RenderTexSlot.Full_HDR_Light2),
               Directus.Effect.pass (Directus.PassCall.Pass_PerformanceMetrics
                 Directus.RenderTexSlot.Full_HDR_Light2) ] := by
  obtain ⟨hp, D, hD, hF, hL, hfirst, hlast⟩ := Pass_Main_frame st st2 h
  refine ⟨?_, hp, ⟨D, hD, ?_, ?_, hfirst, hlast, ?_⟩,
    (Directus.Render_trace lib frame device camera hdev hinit hcam hne).trans rfl⟩
  · have hc := Pass_Main_calls st
    rw [h] at hc
    cases hf : List.foldlM invoke (cmd st (Cmd.Begin ScopeName.Pass_Main))
        [ MainPass.Pass_LightDepth,
          MainPass.Pass_GBuffer,
          MainPass.Pass_PreLight TexSlot.m_render_tex_half_spare
            TexSlot.m_render_tex_half_shadows TexSlot.m_render_tex_half_ssao,
          MainPass.Pass_Light TexSlot.m_render_tex_half_shadows
            TexSlot.m_render_tex_half_ssao TexSlot.m_render_tex_full_hdr_light,
          MainPass.Pass_Transparent TexSlot.m_render_tex_full_hdr_light,
          MainPass.Pass_PostLight TexSlot.m_render_tex_full_hdr_light
            TexSlot.m_render_tex_full_hdr_light2,
          MainPass.Pass_Lines TexSlot.m_render_tex_full_hdr_light2,
          MainPass.Pass_Gizmos TexSlot.m_render_tex_full_hdr_light2,
          MainPass.Pass_DebugBuffer TexSlot.m_render_tex_full_hdr_light2,
          MainPass.Pass_PerformanceMetrics TexSlot.m_render_tex_full_hdr_light2 ] with
    | none => rw [hf] at hc; simp at hc
    | some s =>
      rw [hf] at hc
      simp only [Option.map_some', Option.some.injEq] at hc
      exact ⟨s, rfl, hc⟩
  · intro d hd hpass
    rcases hF d hd with h1 | ⟨-, h2⟩ | ⟨h3, -⟩
    · rcases hpass with hpass | hpass <;> rw [hpass] at h1 <;> simp at h1
    · exact h2
    · rcases hpass with hpass | hpass <;> rw [hpass] at h3 <;> simp at h3
  · intro hc
    exact hL (by simp [Pass_Main.emits, hc])
  · intro d hd hpass
    rcases hF d hd with h1 | ⟨h2, -⟩ | ⟨-, h3⟩
    · rcases hpass with hpass | hpass | hpass | hpass <;> rw [hpass] at h1 <;> simp at h1
    · rcases hpass with hpass | hpass | hpass | hpass <;> rw [hpass] at h2 <;> simp at h2
    · exact h3


set_option maxRecDepth 100000

/-- C21 on the sample frame, in which every pass has something to do: `Pass_Main` returns; it
opens the scopes of the ten passes in the fixed order, each once; the light pass and the
transparent pass render into texture 6, which the handle `m_render_tex_full_hdr_light` holds;
the post-light chain (FXAA and gamma correction) first reads texture 6 and last renders into
texture 7, which the handle `m_render_tex_full_hdr_light2` holds on return; the line, gizmo,
debug-buffer and performance-metrics passes render into texture 7. The frame rendered after
acquiring the sample snapshot (a camera and two meshes, no light) records the profiler reset
and the ten passes in the same order. -/
theorem Pass_Main_fixed_order_witness :
    ∃ st2 : Renderer,
      Pass_Main sampleFrame = some st2
        ∧ passesOf st2.m_cmd_list
          = [ ScopeName.Pass_LightDepth, ScopeName.Pass_GBuffer, ScopeName.Pass_PreLight,
              ScopeName.Pass_Light, ScopeName.Pass_Transparent, ScopeName.Pass_PostLight,
              ScopeName.Pass_Lines, ScopeName.Pass_Gizmos, ScopeName.Pass_DebugBuffer,
              ScopeName.Pass_PerformanceMetrics ]
        ∧ passDrawsOf st2.m_cmd_list
          = [ ⟨some ScopeName.Pass_LightDepth, none, []⟩,
              ⟨some ScopeName.Pass_LightDepth, none, []⟩,
              ⟨some ScopeName.Pass_GBuffer, none, [1, 2, 3, 4]⟩,
              ⟨some ScopeName.Pass_PreLight, some 2, [11]⟩,
              ⟨some ScopeName.Pass_Light, some 1, [6]⟩,
              ⟨some ScopeName.Pass_Transparent, some 5, [6]⟩,
              ⟨some ScopeName.Pass_PostLight, some 6, [7]⟩,
              ⟨some ScopeName.Pass_PostLight, some 7, [6]⟩,
              ⟨some ScopeName.Pass_PostLight, some 6, [7]⟩,
              ⟨some ScopeName.Pass_Lines, some 6, [7]⟩,
              ⟨some ScopeName.Pass_Gizmos, some 6, [7]⟩,
              ⟨some ScopeName.Pass_Gizmos, some 6, [7]⟩,
              ⟨some ScopeName.Pass_Gizmos, some 6, [7]⟩,
              ⟨some ScopeName.Pass_DebugBuffer, some 1, [7]⟩,
              ⟨some ScopeName.Pass_PerformanceMetrics, some 24, [7]⟩ ]
        ∧ (st2.tex TexSlot.m_render_tex_full_hdr_light2).id = 7
        ∧ (Directus.Render Directus.sampleMathLib
            (Directus.Renderables_Acquire Directus.insertionSort Directus.sampleRenderer
              Directus.sampleSnapshot)).m_trace
          = [ Directus.Effect.profilerReset,
              Directus.Effect.pass (Directus.PassCall.Pass_DepthDirectionalLight none),
              Directus.Effect.pass Directus.PassCall.Pass_GBuffer,
              Directus.Effect.pass (Directus.PassCall.Pass_PreLight
                Directus.RenderTexSlot.Half_Spare Directus.RenderTexSlot.Half_Shadows
                Directus.RenderTexSlot.Half_SSAO),
              Directus.Effect.pass (Directus.PassCall.Pass_Light
                Directus.RenderTexSlot.Half_Shadows Directus.RenderTexSlot.Half_SSAO
                Directus.RenderTexSlot.Full_HDR_Light),
              Directus.Effect.pass (Directus.PassCall.Pass_Transparent
                Directus.RenderTexSlot.Full_HDR_Light),
              Directus.Effect.pass (Directus.PassCall.Pass_PostLight
                Directus.RenderTexSlot.Full_HDR_Light Directus.RenderTexSlot.Full_HDR_Light2),
              Directus.Effect.pass (Directus.PassCall.Pass_Lines
                Directus.RenderTexSlot.Full_HDR_Light2),
              Directus.Effect.pass (Directus.PassCall.Pass_Gizmos
                Directus.RenderTexSlot.Full_HDR_Light2),
              Directus.Effect.pass (Directus.PassCall.Pass_DebugBuffer
                Directus.RenderTexSlot.Full_HDR_Light2),
              Directus.Effect.pass (Directus.PassCall.Pass_PerformanceMetrics
                Directus.RenderTexSlot.Full_HDR_Light2) ] := by
  obtain ⟨st2, h⟩ := Option.isSome_iff_exists.1
    (rfl : (Pass_Main sampleFrame).isSome = true)
  have hthm := Pass_Main_fixed_order sampleFrame st2 h Directus.sampleMathLib
    (Directus.Renderables_Acquire Directus.insertionSort Directus.sampleRenderer
      Directus.sampleSnapshot) Directus.sampleDevice Directus.sampleCamera rfl rfl rfl rfl
  have hdraws : (Pass_Main sampleFrame).map (fun s => passDrawsOf s.m_cmd_list)
      = some
        [ ⟨some ScopeName.Pass_LightDepth, none, []⟩,
          ⟨some ScopeName.Pass_LightDepth, none, []⟩,
          ⟨some ScopeName.Pass_GBuffer, none, [1, 2, 3, 4]⟩,
          ⟨some ScopeName.Pass_PreLight, some 2, [11]⟩,
          ⟨some ScopeName.Pass_Light, some 1, [6]⟩,
          ⟨some ScopeName.Pass_Transparent, some 5, [6]⟩,
          ⟨some ScopeName.Pass_PostLight, some 6, [7]⟩,
          ⟨some ScopeName.Pass_PostLight, some 7, [6]⟩,
          ⟨some ScopeName.Pass_PostLight, some 6, [7]⟩,
          ⟨some ScopeName.Pass_Lines, some 6, [7]⟩,
          ⟨some ScopeName.Pass_Gizmos, some 6, [7]⟩,
          ⟨some ScopeName.Pass_Gizmos, some 6, [7]⟩,
          ⟨some ScopeName.Pass_Gizmos, some 6, [7]⟩,
          ⟨some ScopeName.Pass_DebugBuffer, some 1, [7]⟩,
          ⟨some ScopeName.Pass_PerformanceMetrics, some 24, [7]⟩ ] := rfl
  have htex : (Pass_Main sampleFrame).map
      (fun s => (s.tex TexSlot.m_render_tex_full_hdr_light2).id) = some 7 := rfl
  rw [h] at hdraws htex
  simp only [Option.map_some', Option.some.injEq] at hdraws htex
  exact ⟨st2, h, hthm.2.1.trans rfl, hdraws, htex, hthm.2.2.2.trans rfl⟩

end Spartan
